import Mathlib

/-!
# Virtual-wire MIDI router: a shallow embedding of `midi_virtual_wire.c`

The global singleton `midi_vw_system` becomes an explicit value of type
`midi_vw_system_t` that every operation takes and returns.  Machine integers
are natural numbers; every increment that can wrap in C is taken modulo the
width of the C type.  Fixed-size C arrays are lists of the declared length,
read with `List.getD` and written with `List.set`.

Conventions of the embedding:
* pointer arguments (`name`, `device_id`, `message`, ...) are taken to be
  non-null, so the `!ptr` branches of the parameter checks are not modelled;
  an output parameter becomes an `Option` component of the result, `none`
  when the C function does not write through the pointer;
* the three callbacks do not re-enter the router and do not write through the
  message pointer they are handed; the filter callback is a pure function,
  the two `void` callbacks are represented by a flag saying whether one is
  registered;
* every callback invocation is recorded, in order, in the ghost field `trace`.
-/

namespace MidiVW

/-! ## Constants (`midi_virtual_wire.h`, `midi.h`) -/

abbrev MIDI_VW_MAX_DEVICES : Nat := 8
abbrev MIDI_VW_MAX_CONNECTIONS : Nat := 16
abbrev MIDI_VW_MESSAGE_BUFFER_SIZE : Nat := 128
abbrev MIDI_VW_DEVICE_NAME_LENGTH : Nat := 32

abbrev MIDI_VW_FILTER_NONE : Nat := 0x00
abbrev MIDI_VW_FILTER_NOTE : Nat := 0x01
abbrev MIDI_VW_FILTER_CONTROL : Nat := 0x02
abbrev MIDI_VW_FILTER_PROGRAM : Nat := 0x04
abbrev MIDI_VW_FILTER_PITCH_BEND : Nat := 0x08
abbrev MIDI_VW_FILTER_SYSEX : Nat := 0x10
abbrev MIDI_VW_FILTER_REALTIME : Nat := 0x20
abbrev MIDI_VW_FILTER_ALL : Nat := 0xFF

abbrev MIDI_MSG_NOTE_OFF : Nat := 0x80
abbrev MIDI_MSG_NOTE_ON : Nat := 0x90
abbrev MIDI_MSG_CONTROL_CHANGE : Nat := 0xB0
abbrev MIDI_MSG_PROGRAM_CHANGE : Nat := 0xC0
abbrev MIDI_MSG_PITCH_BEND : Nat := 0xE0
abbrev MIDI_MSG_SYSTEM_EXCLUSIVE : Nat := 0xF0

/-- Wrap-around of a `uint8_t`. -/
abbrev U8 : Nat := 256
/-- Wrap-around of a `uint16_t`. -/
abbrev U16 : Nat := 65536
/-- Wrap-around of a `uint32_t`. -/
abbrev U32 : Nat := 4294967296

/-! ## Data model -/

inductive midi_vw_status_t where
  | MIDI_VW_SUCCESS
  | MIDI_VW_ERROR_INVALID_PARAM
  | MIDI_VW_ERROR_NOT_INITIALIZED
  | MIDI_VW_ERROR_DEVICE_NOT_FOUND
  | MIDI_VW_ERROR_MAX_DEVICES_REACHED
  | MIDI_VW_ERROR_MAX_CONNECTIONS_REACHED
  | MIDI_VW_ERROR_CONNECTION_EXISTS
  | MIDI_VW_ERROR_CONNECTION_NOT_FOUND
  | MIDI_VW_ERROR_BUFFER_FULL
  | MIDI_VW_ERROR_NO_DATA
deriving DecidableEq, Repr

inductive midi_vw_device_state_t where
  | MIDI_VW_DEVICE_STATE_DISCONNECTED
  | MIDI_VW_DEVICE_STATE_CONNECTED
  | MIDI_VW_DEVICE_STATE_ACTIVE
  | MIDI_VW_DEVICE_STATE_ERROR
deriving DecidableEq, Repr

open midi_vw_status_t midi_vw_device_state_t

/-- The C struct `midi_message_t`; `data` is the three-byte array. -/
structure midi_message_t where
  status : Nat
  data : List Nat
  length : Nat
  timestamp : Nat
deriving DecidableEq, Repr

/-- The C struct `midi_vw_device_t`; `name` holds the bytes before the NUL. -/
structure midi_vw_device_t where
  device_id : Nat
  name : List Nat
  state : midi_vw_device_state_t
  last_activity : Nat
  messages_received : Nat
  messages_sent : Nat
  errors : Nat
  is_input : Bool
  is_output : Bool
  active_channels : Nat
deriving DecidableEq, Repr

/-- The C struct `midi_vw_connection_t`; `filter` is the bit mask. -/
structure midi_vw_connection_t where
  connection_id : Nat
  source_device_id : Nat
  dest_device_id : Nat
  source_channel : Nat
  dest_channel : Nat
  filter : Nat
  enabled : Bool
  messages_routed : Nat
  messages_filtered : Nat
deriving DecidableEq, Repr

/-- The C struct `midi_vw_message_buffer_t`; `messages` has 128 slots. -/
structure midi_vw_message_buffer_t where
  messages : List midi_message_t
  head : Nat
  tail : Nat
  count : Nat
  overruns : Nat
deriving DecidableEq, Repr

/-- The C struct `midi_vw_port_t`. -/
structure midi_vw_port_t where
  device : midi_vw_device_t
  rx_buffer : midi_vw_message_buffer_t
  tx_buffer : midi_vw_message_buffer_t
  active : Bool
deriving DecidableEq, Repr

/-- One callback invocation, as recorded in the ghost trace. -/
inductive midi_vw_event where
  | device_event (device_id : Nat) (state : midi_vw_device_state_t)
  | message_event (device_id : Nat) (message : midi_message_t)
  | filter_event (source_device_id dest_device_id : Nat) (message : midi_message_t)
deriving DecidableEq, Repr

/-- The C struct `midi_vw_callbacks_t`: a flag for each `void` callback that is
registered, and the filter callback as a function when one is registered. -/
structure midi_vw_callbacks_t where
  device_callback : Bool
  message_callback : Bool
  filter_callback : Option (Nat → Nat → midi_message_t → Bool)

/-- The anonymous struct behind the C global `midi_vw_system`, with the ghost
field `trace` listing the callback invocations made so far. -/
structure midi_vw_system_t where
  initialized : Bool
  running : Bool
  callbacks : midi_vw_callbacks_t
  ports : List midi_vw_port_t
  connections : List midi_vw_connection_t
  device_count : Nat
  connection_count : Nat
  next_device_id : Nat
  next_connection_id : Nat
  total_messages : Nat
  total_errors : Nat
  total_filtered : Nat
  system_time : Nat
  trace : List midi_vw_event

/-! ## All-zero values (what `memset(_, 0, _)` leaves behind) -/

def midi_message_zero : midi_message_t :=
  { status := 0, data := [0, 0, 0], length := 0, timestamp := 0 }

def midi_vw_device_zero : midi_vw_device_t :=
  { device_id := 0, name := [], state := MIDI_VW_DEVICE_STATE_DISCONNECTED,
    last_activity := 0, messages_received := 0, messages_sent := 0, errors := 0,
    is_input := false, is_output := false, active_channels := 0 }

def midi_vw_connection_zero : midi_vw_connection_t :=
  { connection_id := 0, source_device_id := 0, dest_device_id := 0,
    source_channel := 0, dest_channel := 0, filter := 0, enabled := false,
    messages_routed := 0, messages_filtered := 0 }

def midi_vw_message_buffer_zero : midi_vw_message_buffer_t :=
  { messages := List.replicate MIDI_VW_MESSAGE_BUFFER_SIZE midi_message_zero,
    head := 0, tail := 0, count := 0, overruns := 0 }

def midi_vw_port_zero : midi_vw_port_t :=
  { device := midi_vw_device_zero, rx_buffer := midi_vw_message_buffer_zero,
    tx_buffer := midi_vw_message_buffer_zero, active := false }

def midi_vw_callbacks_zero : midi_vw_callbacks_t :=
  { device_callback := false, message_callback := false, filter_callback := none }

/-- The zero-initialised static `midi_vw_system` at program start. -/
def midi_vw_system_zero : midi_vw_system_t :=
  { initialized := false, running := false, callbacks := midi_vw_callbacks_zero,
    ports := List.replicate MIDI_VW_MAX_DEVICES midi_vw_port_zero,
    connections := List.replicate MIDI_VW_MAX_CONNECTIONS midi_vw_connection_zero,
    device_count := 0, connection_count := 0, next_device_id := 0,
    next_connection_id := 0, total_messages := 0, total_errors := 0,
    total_filtered := 0, system_time := 0, trace := [] }

/-! ## Ring buffer (`midi_vw_buffer_*`) -/

def midi_vw_buffer_is_empty (buffer : midi_vw_message_buffer_t) : Bool :=
  buffer.count == 0

def midi_vw_buffer_is_full (buffer : midi_vw_message_buffer_t) : Bool :=
  decide (buffer.count ≥ MIDI_VW_MESSAGE_BUFFER_SIZE)

def midi_vw_buffer_put (buffer : midi_vw_message_buffer_t) (message : midi_message_t) :
    midi_vw_status_t × midi_vw_message_buffer_t :=
  if midi_vw_buffer_is_full buffer then
    (MIDI_VW_ERROR_BUFFER_FULL, { buffer with overruns := (buffer.overruns + 1) % U32 })
  else
    (MIDI_VW_SUCCESS,
      { buffer with
        messages := buffer.messages.set buffer.head message
        head := (buffer.head + 1) % MIDI_VW_MESSAGE_BUFFER_SIZE
        count := (buffer.count + 1) % U16 })

/-- The second component is the value written to `*message`, if any. -/
def midi_vw_buffer_get (buffer : midi_vw_message_buffer_t) :
    midi_vw_status_t × Option midi_message_t × midi_vw_message_buffer_t :=
  if midi_vw_buffer_is_empty buffer then
    (MIDI_VW_ERROR_NO_DATA, none, buffer)
  else
    (MIDI_VW_SUCCESS, some (buffer.messages.getD buffer.tail midi_message_zero),
      { buffer with
        tail := (buffer.tail + 1) % MIDI_VW_MESSAGE_BUFFER_SIZE
        count := buffer.count - 1 })

/-! ## The system: lookup helpers -/

/-- The clock read by `midi_vw_get_time`. -/
def midi_vw_get_time (s : midi_vw_system_t) : Nat := s.system_time

/-- Reading `midi_vw_system.ports[i]`. -/
def port_at (s : midi_vw_system_t) (i : Nat) : midi_vw_port_t :=
  s.ports.getD i midi_vw_port_zero

/-- Reading `midi_vw_system.connections[i]`. -/
def connection_at (s : midi_vw_system_t) (i : Nat) : midi_vw_connection_t :=
  s.connections.getD i midi_vw_connection_zero

/-- Recording one callback invocation in the ghost trace. -/
def log_event (s : midi_vw_system_t) (e : midi_vw_event) : midi_vw_system_t :=
  { s with trace := s.trace ++ [e] }

/-- The loop of `midi_vw_find_device`: `n` iterations remain, the index is `i`. -/
def find_device_loop (s : midi_vw_system_t) (device_id : Nat) : Nat → Nat → Nat
  | 0, _ => MIDI_VW_MAX_DEVICES
  | n + 1, i =>
    if (port_at s i).device.device_id = device_id then i
    else find_device_loop s device_id n (i + 1)

def midi_vw_find_device (s : midi_vw_system_t) (device_id : Nat) : Nat :=
  find_device_loop s device_id s.device_count 0

/-- The loop of `midi_vw_find_connection`. -/
def find_connection_loop (s : midi_vw_system_t) (connection_id : Nat) : Nat → Nat → Nat
  | 0, _ => MIDI_VW_MAX_CONNECTIONS
  | n + 1, i =>
    if (connection_at s i).connection_id = connection_id then i
    else find_connection_loop s connection_id n (i + 1)

def midi_vw_find_connection (s : midi_vw_system_t) (connection_id : Nat) : Nat :=
  find_connection_loop s connection_id s.connection_count 0

/-- The compaction loop `for (i = slot; i < count - 1; i++) a[i] = a[i + 1]`,
with `n` iterations remaining at index `i`. -/
def shift_left {α : Type} (dflt : α) : Nat → Nat → List α → List α
  | 0, _, a => a
  | n + 1, i, a => shift_left dflt n (i + 1) (a.set i (a.getD (i + 1) dflt))

/-! ## Lifecycle -/

def midi_vw_init (s : midi_vw_system_t) (callbacks : Option midi_vw_callbacks_t) :
    midi_vw_status_t × midi_vw_system_t :=
  if s.initialized then (MIDI_VW_ERROR_NOT_INITIALIZED, s)
  else
    (MIDI_VW_SUCCESS,
      { midi_vw_system_zero with
        callbacks := match callbacks with
          | some cb => cb
          | none => midi_vw_callbacks_zero
        next_device_id := 1
        next_connection_id := 1
        initialized := true
        trace := s.trace })

def midi_vw_stop (s : midi_vw_system_t) : midi_vw_status_t × midi_vw_system_t :=
  if !s.initialized then (MIDI_VW_ERROR_NOT_INITIALIZED, s)
  else (MIDI_VW_SUCCESS, { s with running := false })

def midi_vw_deinit (s : midi_vw_system_t) : midi_vw_status_t × midi_vw_system_t :=
  if !s.initialized then (MIDI_VW_ERROR_NOT_INITIALIZED, s)
  else (MIDI_VW_SUCCESS, { midi_vw_system_zero with trace := s.trace })

def midi_vw_start (s : midi_vw_system_t) : midi_vw_status_t × midi_vw_system_t :=
  if !s.initialized then (MIDI_VW_ERROR_NOT_INITIALIZED, s)
  else (MIDI_VW_SUCCESS, { s with running := true, system_time := 0 })

/-! ## Device registry and connection table -/

/-- The second component is the id written to `*device_id`. -/
def midi_vw_register_device (s : midi_vw_system_t) (name : List Nat)
    (is_input is_output : Bool) : midi_vw_status_t × Option Nat × midi_vw_system_t :=
  if !s.initialized then (MIDI_VW_ERROR_INVALID_PARAM, none, s)
  else if s.device_count ≥ MIDI_VW_MAX_DEVICES then
    (MIDI_VW_ERROR_MAX_DEVICES_REACHED, none, s)
  else
    let slot := s.device_count
    let id := s.next_device_id
    let port : midi_vw_port_t :=
      { midi_vw_port_zero with
        device :=
          { midi_vw_device_zero with
            device_id := id
            name := name.take (MIDI_VW_DEVICE_NAME_LENGTH - 1)
            state := MIDI_VW_DEVICE_STATE_CONNECTED
            is_input := is_input
            is_output := is_output
            last_activity := midi_vw_get_time s }
        active := true }
    let s1 := { s with
      ports := s.ports.set slot port
      next_device_id := (s.next_device_id + 1) % U8
      device_count := (s.device_count + 1) % U8 }
    let s2 := if s1.callbacks.device_callback then
        log_event s1 (.device_event id MIDI_VW_DEVICE_STATE_CONNECTED)
      else s1
    (MIDI_VW_SUCCESS, some id, s2)

def midi_vw_remove_connection (s : midi_vw_system_t) (connection_id : Nat) :
    midi_vw_status_t × midi_vw_system_t :=
  if !s.initialized then (MIDI_VW_ERROR_NOT_INITIALIZED, s)
  else
    let slot := midi_vw_find_connection s connection_id
    if slot ≥ MIDI_VW_MAX_CONNECTIONS then (MIDI_VW_ERROR_CONNECTION_NOT_FOUND, s)
    else
      let shifted := shift_left midi_vw_connection_zero
        (s.connection_count - 1 - slot) slot s.connections
      let count := (s.connection_count + (U8 - 1)) % U8
      (MIDI_VW_SUCCESS,
        { s with
          connections := shifted.set count midi_vw_connection_zero
          connection_count := count })

/-- The first loop of `midi_vw_unregister_device`.  The bound
`connection_count` is re-read at every test, because the body changes it;
`fuel` only bounds the number of iterations. -/
def unregister_loop (device_id : Nat) : Nat → Nat → midi_vw_system_t → midi_vw_system_t
  | 0, _, s => s
  | fuel + 1, i, s =>
    if i < s.connection_count then
      if (connection_at s i).source_device_id = device_id ∨
          (connection_at s i).dest_device_id = device_id then
        unregister_loop device_id fuel (i + 1)
          (midi_vw_remove_connection s (connection_at s i).connection_id).2
      else unregister_loop device_id fuel (i + 1) s
    else s

def midi_vw_unregister_device (s : midi_vw_system_t) (device_id : Nat) :
    midi_vw_status_t × midi_vw_system_t :=
  if !s.initialized then (MIDI_VW_ERROR_NOT_INITIALIZED, s)
  else
    let slot := midi_vw_find_device s device_id
    if slot ≥ MIDI_VW_MAX_DEVICES then (MIDI_VW_ERROR_DEVICE_NOT_FOUND, s)
    else
      let s1 := unregister_loop device_id s.connection_count 0 s
      let s2 := if s1.callbacks.device_callback then
          log_event s1 (.device_event device_id MIDI_VW_DEVICE_STATE_DISCONNECTED)
        else s1
      let shifted := shift_left midi_vw_port_zero (s2.device_count - 1 - slot) slot s2.ports
      let count := (s2.device_count + (U8 - 1)) % U8
      (MIDI_VW_SUCCESS,
        { s2 with
          ports := shifted.set count midi_vw_port_zero
          device_count := count })

/-- The second component is the value written to `*device_info`. -/
def midi_vw_get_device_info (s : midi_vw_system_t) (device_id : Nat) :
    midi_vw_status_t × Option midi_vw_device_t :=
  if !s.initialized then (MIDI_VW_ERROR_INVALID_PARAM, none)
  else
    let slot := midi_vw_find_device s device_id
    if slot ≥ MIDI_VW_MAX_DEVICES then (MIDI_VW_ERROR_DEVICE_NOT_FOUND, none)
    else (MIDI_VW_SUCCESS, some (port_at s slot).device)

def midi_vw_set_device_state (s : midi_vw_system_t) (device_id : Nat)
    (state : midi_vw_device_state_t) : midi_vw_status_t × midi_vw_system_t :=
  if !s.initialized then (MIDI_VW_ERROR_NOT_INITIALIZED, s)
  else
    let slot := midi_vw_find_device s device_id
    if slot ≥ MIDI_VW_MAX_DEVICES then (MIDI_VW_ERROR_DEVICE_NOT_FOUND, s)
    else
      let port := port_at s slot
      let s1 := { s with
        ports := s.ports.set slot { port with device := { port.device with state := state } } }
      let s2 := if s1.callbacks.device_callback then
          log_event s1 (.device_event device_id state)
        else s1
      (MIDI_VW_SUCCESS, s2)

/-- The duplicate scan of `midi_vw_create_connection`: `true` when one of the
`n` entries from index `i` on has exactly the given tuple. -/
def connection_exists_loop (s : midi_vw_system_t)
    (source_device_id dest_device_id source_channel dest_channel : Nat) : Nat → Nat → Bool
  | 0, _ => false
  | n + 1, i =>
    if (connection_at s i).source_device_id = source_device_id ∧
        (connection_at s i).dest_device_id = dest_device_id ∧
        (connection_at s i).source_channel = source_channel ∧
        (connection_at s i).dest_channel = dest_channel then true
    else connection_exists_loop s source_device_id dest_device_id source_channel dest_channel
      n (i + 1)

/-- The second component is the id written to `*connection_id`. -/
def midi_vw_create_connection (s : midi_vw_system_t)
    (source_device_id dest_device_id source_channel dest_channel filter : Nat) :
    midi_vw_status_t × Option Nat × midi_vw_system_t :=
  if !s.initialized then (MIDI_VW_ERROR_INVALID_PARAM, none, s)
  else if s.connection_count ≥ MIDI_VW_MAX_CONNECTIONS then
    (MIDI_VW_ERROR_MAX_CONNECTIONS_REACHED, none, s)
  else if midi_vw_find_device s source_device_id ≥ MIDI_VW_MAX_DEVICES ∨
      midi_vw_find_device s dest_device_id ≥ MIDI_VW_MAX_DEVICES then
    (MIDI_VW_ERROR_DEVICE_NOT_FOUND, none, s)
  else if connection_exists_loop s source_device_id dest_device_id source_channel
      dest_channel s.connection_count 0 then
    (MIDI_VW_ERROR_CONNECTION_EXISTS, none, s)
  else
    let connection : midi_vw_connection_t :=
      { midi_vw_connection_zero with
        connection_id := s.next_connection_id
        source_device_id := source_device_id
        dest_device_id := dest_device_id
        source_channel := source_channel
        dest_channel := dest_channel
        filter := filter
        enabled := true }
    (MIDI_VW_SUCCESS, some connection.connection_id,
      { s with
        connections := s.connections.set s.connection_count connection
        next_connection_id := (s.next_connection_id + 1) % U8
        connection_count := (s.connection_count + 1) % U8 })

def midi_vw_enable_connection (s : midi_vw_system_t) (connection_id : Nat) (enabled : Bool) :
    midi_vw_status_t × midi_vw_system_t :=
  if !s.initialized then (MIDI_VW_ERROR_NOT_INITIALIZED, s)
  else
    let slot := midi_vw_find_connection s connection_id
    if slot ≥ MIDI_VW_MAX_CONNECTIONS then (MIDI_VW_ERROR_CONNECTION_NOT_FOUND, s)
    else
      (MIDI_VW_SUCCESS,
        { s with
          connections := s.connections.set slot { connection_at s slot with enabled := enabled } })

/-- The second component is the value written to `*connection_info`. -/
def midi_vw_get_connection_info (s : midi_vw_system_t) (connection_id : Nat) :
    midi_vw_status_t × Option midi_vw_connection_t :=
  if !s.initialized then (MIDI_VW_ERROR_INVALID_PARAM, none)
  else
    let slot := midi_vw_find_connection s connection_id
    if slot ≥ MIDI_VW_MAX_CONNECTIONS then (MIDI_VW_ERROR_CONNECTION_NOT_FOUND, none)
    else (MIDI_VW_SUCCESS, some (connection_at s slot))

/-- The inner loop of `midi_vw_connect_all_to_all` for a fixed `i`. -/
def connect_inner_loop (i : Nat) : Nat → Nat → midi_vw_system_t → midi_vw_system_t
  | 0, _, s => s
  | n + 1, j, s =>
    if i ≠ j ∧ (port_at s i).device.is_input = true ∧ (port_at s j).device.is_output = true then
      connect_inner_loop i n (j + 1)
        (midi_vw_create_connection s (port_at s i).device.device_id
          (port_at s j).device.device_id 0xFF 0xFF MIDI_VW_FILTER_NONE).2.2
    else connect_inner_loop i n (j + 1) s

/-- The outer loop of `midi_vw_connect_all_to_all`. -/
def connect_outer_loop : Nat → Nat → midi_vw_system_t → midi_vw_system_t
  | 0, _, s => s
  | n + 1, i, s => connect_outer_loop n (i + 1) (connect_inner_loop i s.device_count 0 s)

def midi_vw_connect_all_to_all (s : midi_vw_system_t) : midi_vw_status_t × midi_vw_system_t :=
  if !s.initialized then (MIDI_VW_ERROR_NOT_INITIALIZED, s)
  else (MIDI_VW_SUCCESS, connect_outer_loop s.device_count 0 s)

def midi_vw_disconnect_all (s : midi_vw_system_t) : midi_vw_status_t × midi_vw_system_t :=
  if !s.initialized then (MIDI_VW_ERROR_NOT_INITIALIZED, s)
  else
    (MIDI_VW_SUCCESS,
      { s with
        connection_count := 0
        connections := List.replicate MIDI_VW_MAX_CONNECTIONS midi_vw_connection_zero })

/-! ## Messages: send, receive, filter, route -/

def midi_vw_send_message (s : midi_vw_system_t) (device_id : Nat) (message : midi_message_t) :
    midi_vw_status_t × midi_vw_system_t :=
  if !s.initialized then (MIDI_VW_ERROR_INVALID_PARAM, s)
  else
    let slot := midi_vw_find_device s device_id
    if slot ≥ MIDI_VW_MAX_DEVICES then (MIDI_VW_ERROR_DEVICE_NOT_FOUND, s)
    else
      let port := port_at s slot
      if !port.device.is_output then (MIDI_VW_ERROR_INVALID_PARAM, s)
      else
        let r := midi_vw_buffer_put port.tx_buffer message
        let port1 := { port with tx_buffer := r.2 }
        if r.1 = MIDI_VW_SUCCESS then
          (r.1,
            { s with
              ports := s.ports.set slot
                { port1 with
                  device :=
                    { port1.device with
                      messages_sent := (port1.device.messages_sent + 1) % U32
                      last_activity := midi_vw_get_time s } } })
        else (r.1, { s with ports := s.ports.set slot port1 })

/-- The second component is the value written to `*message`, if any. -/
def midi_vw_receive_message (s : midi_vw_system_t) (device_id : Nat) :
    midi_vw_status_t × Option midi_message_t × midi_vw_system_t :=
  if !s.initialized then (MIDI_VW_ERROR_INVALID_PARAM, none, s)
  else
    let slot := midi_vw_find_device s device_id
    if slot ≥ MIDI_VW_MAX_DEVICES then (MIDI_VW_ERROR_DEVICE_NOT_FOUND, none, s)
    else
      let port := port_at s slot
      let r := midi_vw_buffer_get port.rx_buffer
      (r.1, r.2.1, { s with ports := s.ports.set slot { port with rx_buffer := r.2.2 } })

def midi_vw_should_filter_message (connection : midi_vw_connection_t)
    (message : midi_message_t) : Bool :=
  if connection.filter = MIDI_VW_FILTER_NONE then false
  else
    let message_type := message.status &&& 0xF0
    let channel := message.status &&& 0x0F
    if connection.source_channel ≠ 0xFF ∧ channel ≠ connection.source_channel then true
    else if message_type = MIDI_MSG_NOTE_OFF ∨ message_type = MIDI_MSG_NOTE_ON then
      (connection.filter &&& MIDI_VW_FILTER_NOTE) != 0
    else if message_type = MIDI_MSG_CONTROL_CHANGE then
      (connection.filter &&& MIDI_VW_FILTER_CONTROL) != 0
    else if message_type = MIDI_MSG_PROGRAM_CHANGE then
      (connection.filter &&& MIDI_VW_FILTER_PROGRAM) != 0
    else if message_type = MIDI_MSG_PITCH_BEND then
      (connection.filter &&& MIDI_VW_FILTER_PITCH_BEND) != 0
    else if message_type = MIDI_MSG_SYSTEM_EXCLUSIVE then
      (connection.filter &&& MIDI_VW_FILTER_SYSEX) != 0
    else if message.status ≥ 0xF8 then
      (connection.filter &&& MIDI_VW_FILTER_REALTIME) != 0
    else false

/-- The two statements `connection->messages_filtered++; total_filtered++`
of `midi_vw_route_message`, for the connection in slot `i`. -/
def route_count_filtered (i : Nat) (s : midi_vw_system_t) : midi_vw_system_t :=
  let c := connection_at s i
  { s with
    connections := s.connections.set i
      { c with messages_filtered := (c.messages_filtered + 1) % U32 }
    total_filtered := (s.total_filtered + 1) % U32 }

/-- The statement `midi_vw_system.total_errors++`. -/
def route_count_error (s : midi_vw_system_t) : midi_vw_system_t :=
  { s with total_errors := (s.total_errors + 1) % U32 }

/-- The statement `connection->messages_routed++` for the connection in slot `i`. -/
def route_count_routed (i : Nat) (s : midi_vw_system_t) : midi_vw_system_t :=
  let c := connection_at s i
  { s with
    connections := s.connections.set i
      { c with messages_routed := (c.messages_routed + 1) % U32 } }

/-- The channel rewrite applied to the routed copy of the message. -/
def route_remap (connection : midi_vw_connection_t) (message : midi_message_t) :
    midi_message_t :=
  if connection.dest_channel ≠ 0xFF ∧ (message.status &&& 0xF0) ≠ 0xF0 then
    { message with status := (message.status &&& 0xF0) ||| (connection.dest_channel &&& 0x0F) }
  else message

/-- The delivery part of the loop body of `midi_vw_route_message` (from the
destination lookup to the end), for the connection in slot `i`. -/
def route_deliver (message : midi_message_t) (i : Nat) (s : midi_vw_system_t) :
    midi_vw_system_t :=
  let connection := connection_at s i
  let dest_slot := midi_vw_find_device s connection.dest_device_id
  if dest_slot ≥ MIDI_VW_MAX_DEVICES then route_count_error s
  else
    let dest_port := port_at s dest_slot
    if !dest_port.active || !dest_port.device.is_output then route_count_error s
    else
      let routed_message := route_remap connection message
      let r := midi_vw_send_message s connection.dest_device_id routed_message
      if r.1 = MIDI_VW_SUCCESS then route_count_routed i r.2
      else route_count_error r.2

/-- One iteration of the loop of `midi_vw_route_message`, at index `i`. -/
def route_step (source_device_id : Nat) (message : midi_message_t) (i : Nat)
    (s : midi_vw_system_t) : midi_vw_system_t :=
  let connection := connection_at s i
  if !connection.enabled || connection.source_device_id != source_device_id then s
  else if midi_vw_should_filter_message connection message then route_count_filtered i s
  else
    match s.callbacks.filter_callback with
    | some f =>
      let s1 := log_event s (.filter_event source_device_id connection.dest_device_id message)
      if !f source_device_id connection.dest_device_id message then route_count_filtered i s1
      else route_deliver message i s1
    | none => route_deliver message i s

/-- The loop of `midi_vw_route_message`: `n` iterations remain, the index is `i`. -/
def route_loop (source_device_id : Nat) (message : midi_message_t) :
    Nat → Nat → midi_vw_system_t → midi_vw_system_t
  | 0, _, s => s
  | n + 1, i, s =>
    route_loop source_device_id message n (i + 1) (route_step source_device_id message i s)

/-- The statement `midi_vw_system.total_messages++`. -/
def route_count_message (s : midi_vw_system_t) : midi_vw_system_t :=
  { s with total_messages := (s.total_messages + 1) % U32 }

def midi_vw_route_message (s : midi_vw_system_t) (source_device_id : Nat)
    (message : midi_message_t) : midi_vw_system_t :=
  route_loop source_device_id message (route_count_message s).connection_count 0
    (route_count_message s)

/-- The second component is the caller's message after the call (its
timestamp is overwritten on success). -/
def midi_vw_inject_message (s : midi_vw_system_t) (source_device_id : Nat)
    (message : midi_message_t) : midi_vw_status_t × midi_message_t × midi_vw_system_t :=
  if !s.initialized then (MIDI_VW_ERROR_INVALID_PARAM, message, s)
  else if !s.running then (MIDI_VW_ERROR_NOT_INITIALIZED, message, s)
  else
    let stamped := { message with timestamp := midi_vw_get_time s }
    (MIDI_VW_SUCCESS, stamped, midi_vw_route_message s source_device_id stamped)

def midi_vw_has_pending_messages (s : midi_vw_system_t) (device_id : Nat) : Bool :=
  let slot := midi_vw_find_device s device_id
  if slot ≥ MIDI_VW_MAX_DEVICES then false
  else !midi_vw_buffer_is_empty (port_at s slot).rx_buffer

def midi_vw_get_pending_count (s : midi_vw_system_t) (device_id : Nat) : Nat :=
  let slot := midi_vw_find_device s device_id
  if slot ≥ MIDI_VW_MAX_DEVICES then 0
  else (port_at s slot).rx_buffer.count

/-- The `while` loop of `midi_vw_process_messages` for the port in slot `i`.
Every iteration takes one message out of that port's `rx_buffer`; `fuel`
bounds the number of iterations. -/
def process_drain (i : Nat) : Nat → midi_vw_system_t → midi_vw_system_t
  | 0, s => s
  | fuel + 1, s =>
    let port := port_at s i
    match midi_vw_buffer_get port.rx_buffer with
    | (MIDI_VW_SUCCESS, some message, rx) =>
      let port1 : midi_vw_port_t :=
        { port with
          rx_buffer := rx
          device :=
            { port.device with
              messages_received := (port.device.messages_received + 1) % U32
              last_activity := midi_vw_get_time s } }
      let s1 := { s with ports := s.ports.set i port1 }
      let s2 := if s1.callbacks.message_callback then
          log_event s1 (.message_event port1.device.device_id message)
        else s1
      process_drain i fuel (midi_vw_route_message s2 port1.device.device_id message)
    | _ => s

/-- The `for` loop of `midi_vw_process_messages`: `n` iterations remain, the
index is `i`.  The drain of a port is given as many iterations as its
`rx_buffer` holds messages when the port is reached. -/
def process_loop : Nat → Nat → midi_vw_system_t → midi_vw_system_t
  | 0, _, s => s
  | n + 1, i, s =>
    let port := port_at s i
    if !port.active || !port.device.is_input then process_loop n (i + 1) s
    else process_loop n (i + 1) (process_drain i port.rx_buffer.count s)

/-- The statement `midi_vw_system.system_time++`. -/
def process_tick (s : midi_vw_system_t) : midi_vw_system_t :=
  { s with system_time := (s.system_time + 1) % U32 }

def midi_vw_process_messages (s : midi_vw_system_t) : midi_vw_status_t × midi_vw_system_t :=
  if !s.initialized || !s.running then (MIDI_VW_ERROR_NOT_INITIALIZED, s)
  else (MIDI_VW_SUCCESS, process_loop (process_tick s).device_count 0 (process_tick s))

/-! ## Introspection and statistics -/

def midi_vw_get_device_count (s : midi_vw_system_t) : Nat := s.device_count

def midi_vw_get_connection_count (s : midi_vw_system_t) : Nat := s.connection_count

/-- The loop of `midi_vw_list_devices`; `ids` are the entries written so far,
so `*count` is `ids.length`. -/
def list_devices_loop (s : midi_vw_system_t) (max_devices : Nat) :
    Nat → Nat → List Nat → List Nat
  | 0, _, ids => ids
  | n + 1, i, ids =>
    if ids.length < max_devices then
      list_devices_loop s max_devices n (i + 1) (ids ++ [(port_at s i).device.device_id])
    else ids

/-- The second component lists the ids written to `device_ids[0 .. *count - 1]`. -/
def midi_vw_list_devices (s : midi_vw_system_t) (max_devices : Nat) :
    midi_vw_status_t × List Nat :=
  if !s.initialized then (MIDI_VW_ERROR_INVALID_PARAM, [])
  else (MIDI_VW_SUCCESS, list_devices_loop s max_devices s.device_count 0 [])

/-- The loop of `midi_vw_list_connections`. -/
def list_connections_loop (s : midi_vw_system_t) (max_connections : Nat) :
    Nat → Nat → List Nat → List Nat
  | 0, _, ids => ids
  | n + 1, i, ids =>
    if ids.length < max_connections then
      list_connections_loop s max_connections n (i + 1)
        (ids ++ [(connection_at s i).connection_id])
    else ids

def midi_vw_list_connections (s : midi_vw_system_t) (max_connections : Nat) :
    midi_vw_status_t × List Nat :=
  if !s.initialized then (MIDI_VW_ERROR_INVALID_PARAM, [])
  else (MIDI_VW_SUCCESS, list_connections_loop s max_connections s.connection_count 0 [])

/-- The values written to `*total_messages`, `*total_errors`, `*total_filtered`. -/
def midi_vw_get_statistics (s : midi_vw_system_t) :
    midi_vw_status_t × Option (Nat × Nat × Nat) :=
  if !s.initialized then (MIDI_VW_ERROR_NOT_INITIALIZED, none)
  else (MIDI_VW_SUCCESS, some (s.total_messages, s.total_errors, s.total_filtered))

/-- The first loop of `midi_vw_reset_statistics`. -/
def reset_ports_loop : Nat → Nat → List midi_vw_port_t → List midi_vw_port_t
  | 0, _, ports => ports
  | n + 1, i, ports =>
    let p := ports.getD i midi_vw_port_zero
    reset_ports_loop n (i + 1)
      (ports.set i
        { p with
          device := { p.device with messages_received := 0, messages_sent := 0, errors := 0 }
          rx_buffer := { p.rx_buffer with overruns := 0 }
          tx_buffer := { p.tx_buffer with overruns := 0 } })

/-- The second loop of `midi_vw_reset_statistics`. -/
def reset_connections_loop :
    Nat → Nat → List midi_vw_connection_t → List midi_vw_connection_t
  | 0, _, cs => cs
  | n + 1, i, cs =>
    let c := cs.getD i midi_vw_connection_zero
    reset_connections_loop n (i + 1)
      (cs.set i { c with messages_routed := 0, messages_filtered := 0 })

def midi_vw_reset_statistics (s : midi_vw_system_t) : midi_vw_status_t × midi_vw_system_t :=
  if !s.initialized then (MIDI_VW_ERROR_NOT_INITIALIZED, s)
  else
    (MIDI_VW_SUCCESS,
      { s with
        total_messages := 0
        total_errors := 0
        total_filtered := 0
        ports := reset_ports_loop s.device_count 0 s.ports
        connections := reset_connections_loop s.connection_count 0 s.connections })

/-! ## Sequences of calls, proof invariants and scenarios

The definitions below are not part of the C program.  They describe sequences
of calls to it, the invariants used in the proofs, and the concrete set-ups at
which individual statements are evaluated. -/

/-- Calling `midi_vw_buffer_put` once per message of a list, oldest first;
the statuses returned and the final buffer. -/
def buffer_put_all : midi_vw_message_buffer_t → List midi_message_t →
    List midi_vw_status_t × midi_vw_message_buffer_t
  | b, [] => ([], b)
  | b, m :: ms =>
    ((midi_vw_buffer_put b m).1 :: (buffer_put_all (midi_vw_buffer_put b m).2 ms).1,
      (buffer_put_all (midi_vw_buffer_put b m).2 ms).2)

/-- Calling `midi_vw_buffer_get` `n` times; the status and message returned by
each call and the final buffer. -/
def buffer_get_n : Nat → midi_vw_message_buffer_t →
    List (midi_vw_status_t × Option midi_message_t) × midi_vw_message_buffer_t
  | 0, b => ([], b)
  | n + 1, b =>
    (((midi_vw_buffer_get b).1, (midi_vw_buffer_get b).2.1) ::
        (buffer_get_n n (midi_vw_buffer_get b).2.2).1,
      (buffer_get_n n (midi_vw_buffer_get b).2.2).2)

/-- The ring buffer `b` holds exactly the messages `l`, oldest first. -/
def ring_holds (b : midi_vw_message_buffer_t) (l : List midi_message_t) : Prop :=
  b.messages.length = MIDI_VW_MESSAGE_BUFFER_SIZE ∧ b.tail < MIDI_VW_MESSAGE_BUFFER_SIZE ∧
  b.count = l.length ∧ l.length ≤ MIDI_VW_MESSAGE_BUFFER_SIZE ∧
  b.head = (b.tail + l.length) % MIDI_VW_MESSAGE_BUFFER_SIZE ∧
  ∀ k, k < l.length →
    b.messages.getD ((b.tail + k) % MIDI_VW_MESSAGE_BUFFER_SIZE) midi_message_zero =
      l.getD k midi_message_zero

/-- The connection in slot `k` does not take part in routing from `source`. -/
def route_skips (s : midi_vw_system_t) (source k : Nat) : Prop :=
  ¬ ((connection_at s k).enabled = true ∧ (connection_at s k).source_device_id = source)

/-- No registered filter callback ever vetoes. -/
def no_veto (s : midi_vw_system_t) : Prop :=
  ∀ f, s.callbacks.filter_callback = some f → ∀ a b m, f a b m = true

/-- What a successful `midi_vw_send_message` leaves in the port it delivers to. -/
def port_after_send (s : midi_vw_system_t) (p : midi_vw_port_t) (m : midi_message_t) :
    midi_vw_port_t :=
  { p with
    tx_buffer := (midi_vw_buffer_put p.tx_buffer m).2
    device :=
      { p.device with
        messages_sent := (p.device.messages_sent + 1) % U32
        last_activity := midi_vw_get_time s } }

/-- The state in which the delivery part of a routing step runs: the filter
callback, when one is registered, has been consulted and recorded. -/
def after_filter_callback (s : midi_vw_system_t) (source : Nat) (i : Nat) (m : midi_message_t) :
    midi_vw_system_t :=
  match s.callbacks.filter_callback with
  | some _ => log_event s (.filter_event source (connection_at s i).dest_device_id m)
  | none => s

/-- The state after a routing pass in which the connection in slot `i` delivers
`m` to the port in slot `j` and no other connection takes part. -/
def delivered_state (s : midi_vw_system_t) (source i j : Nat) (m : midi_message_t) :
    midi_vw_system_t :=
  route_count_routed i
    { after_filter_callback (route_count_message s) source i m with
      ports := (s.ports.set j
        (port_after_send s (port_at s j) (route_remap (connection_at s i) m))) }

/-- One call of the registry API. -/
inductive registry_call where
  | register (name : List Nat) (is_input is_output : Bool)
  | unregister (device_id : Nat)

/-- The state reached by a sequence of registry calls, with the number of
calls of each kind that returned `MIDI_VW_SUCCESS`. -/
structure registry_run where
  state : midi_vw_system_t
  registered : Nat
  unregistered : Nat

def registry_step (r : registry_run) : registry_call → registry_run
  | .register name is_input is_output =>
    { state := (midi_vw_register_device r.state name is_input is_output).2.2
      registered :=
        if (midi_vw_register_device r.state name is_input is_output).1 = MIDI_VW_SUCCESS then
          r.registered + 1
        else r.registered
      unregistered := r.unregistered }
  | .unregister device_id =>
    { state := (midi_vw_unregister_device r.state device_id).2
      registered := r.registered
      unregistered :=
        if (midi_vw_unregister_device r.state device_id).1 = MIDI_VW_SUCCESS then
          r.unregistered + 1
        else r.unregistered }

def registry_calls (s : midi_vw_system_t) (calls : List registry_call) : registry_run :=
  calls.foldl registry_step { state := s, registered := 0, unregistered := 0 }

/-- The Note-On message of `test_main.c`. -/
def note_on_message : midi_message_t :=
  { status := 0x90, data := [60, 127, 0], length := 3, timestamp := 0 }

/-- A Note-Off message on channel 3. -/
def note_off_message : midi_message_t :=
  { status := 0x83, data := [60, 0, 0], length := 3, timestamp := 0 }

/-- The Control-Change message of the end-to-end scenario. -/
def control_change_message : midi_message_t :=
  { status := 0xB0, data := [7, 100, 0], length := 3, timestamp := 0 }

/-- The callbacks of `test_main.c`: all three registered, the filter callback
always answering `true`. -/
def test_callbacks : midi_vw_callbacks_t :=
  { device_callback := true, message_callback := true,
    filter_callback := some (fun _ _ _ => true) }

/-- Two devices, both input and output, connected in both directions
(the pattern `main.c` creates when a device is plugged in). -/
def two_way_setup : midi_vw_system_t :=
  let s0 := (midi_vw_init midi_vw_system_zero none).2
  let s1 := (midi_vw_register_device s0 [65] true true).2.2
  let s2 := (midi_vw_register_device s1 [66] true true).2.2
  let s3 := (midi_vw_create_connection s2 1 2 0xFF 0xFF MIDI_VW_FILTER_NONE).2.2
  (midi_vw_create_connection s3 2 1 0xFF 0xFF MIDI_VW_FILTER_NONE).2.2

/-- The set-up of `test_main.c`: init, start, register A (input only) and B
(output only), connect A to B unfiltered on every channel. -/
def end_to_end_setup (callbacks : Option midi_vw_callbacks_t) (name_a name_b : List Nat) :
    midi_vw_system_t :=
  let s0 := (midi_vw_init midi_vw_system_zero callbacks).2
  let s1 := (midi_vw_start s0).2
  let ra := midi_vw_register_device s1 name_a true false
  let rb := midi_vw_register_device ra.2.2 name_b false true
  (midi_vw_create_connection rb.2.2 (ra.2.1.getD 0) (rb.2.1.getD 0) 0xFF 0xFF
    MIDI_VW_FILTER_NONE).2.2

/-- The scenario of `test_main.c`: after the set-up, inject one message from A
(device id 1) and call `midi_vw_process_messages` once. -/
def end_to_end (callbacks : Option midi_vw_callbacks_t) (name_a name_b : List Nat)
    (message : midi_message_t) : midi_vw_system_t :=
  (midi_vw_process_messages
    (midi_vw_inject_message (end_to_end_setup callbacks name_a name_b) 1 message).2.2).2

/-- The state `end_to_end_setup` computes, written out. -/
def end_to_end_setup_state (cb : midi_vw_callbacks_t) (name_a name_b : List Nat) :
    midi_vw_system_t :=
  { initialized := true, running := true, callbacks := cb,
    ports :=
      { midi_vw_port_zero with
        device :=
          { midi_vw_device_zero with
            device_id := 1, name := name_a.take 31,
            state := MIDI_VW_DEVICE_STATE_CONNECTED, is_input := true, is_output := false }
        active := true } ::
      { midi_vw_port_zero with
        device :=
          { midi_vw_device_zero with
            device_id := 2, name := name_b.take 31,
            state := MIDI_VW_DEVICE_STATE_CONNECTED, is_input := false, is_output := true }
        active := true } ::
      List.replicate 6 midi_vw_port_zero,
    connections :=
      { midi_vw_connection_zero with
        connection_id := 1, source_device_id := 1, dest_device_id := 2,
        source_channel := 0xFF, dest_channel := 0xFF, enabled := true } ::
      List.replicate 15 midi_vw_connection_zero,
    device_count := 2, connection_count := 1, next_device_id := 3, next_connection_id := 2,
    total_messages := 0, total_errors := 0, total_filtered := 0, system_time := 0,
    trace :=
      if cb.device_callback then
        [.device_event 1 MIDI_VW_DEVICE_STATE_CONNECTED,
          .device_event 2 MIDI_VW_DEVICE_STATE_CONNECTED]
      else [] }

/-- One registered device that is output-capable only. -/
def output_only_setup : midi_vw_system_t :=
  (midi_vw_register_device (midi_vw_init midi_vw_system_zero none).2 [66] false true).2.2

/-- One registered device; it receives id 1. -/
def one_device_setup : midi_vw_system_t :=
  (midi_vw_register_device (midi_vw_init midi_vw_system_zero none).2 [65] true true).2.2

/-- Registering one more device and unregistering it again, `k` times over. -/
def churn : Nat → midi_vw_system_t → midi_vw_system_t
  | 0, s => s
  | k + 1, s =>
    churn k (midi_vw_unregister_device (midi_vw_register_device s [] true true).2.2
      ((midi_vw_register_device s [] true true).2.1.getD 0)).2

/-- The state `one_device_setup` with another value of the id counter. -/
def churn_state (n : Nat) : midi_vw_system_t :=
  { one_device_setup with next_device_id := n }

/-- Two devices and sixteen connections from device 1 to device 2, one per
source channel: the connection table is full. -/
def full_table_setup : midi_vw_system_t :=
  let s0 := (midi_vw_init midi_vw_system_zero none).2
  let s1 := (midi_vw_register_device s0 [65] true true).2.2
  let s2 := (midi_vw_register_device s1 [66] true true).2.2
  (List.range 16).foldl
    (fun s ch => (midi_vw_create_connection s 1 2 ch 0xFF MIDI_VW_FILTER_NONE).2.2) s2

/-- An empty ring buffer whose indices stand at position 126. -/
def empty_buffer_example : midi_vw_message_buffer_t :=
  { midi_vw_message_buffer_zero with head := 126, tail := 126 }

/-- A ring buffer holding 128 messages. -/
def full_buffer_example : midi_vw_message_buffer_t :=
  { messages := List.replicate 128 note_on_message,
    head := 5, tail := 5, count := 128, overruns := 0 }

/-- A started system with A (input only, id 1), B (output only, id 2) and one
connection from A to B whose filter is `MIDI_VW_FILTER_NOTE`. -/
def note_filter_setup : midi_vw_system_t :=
  let s0 := (midi_vw_init midi_vw_system_zero none).2
  let s1 := (midi_vw_start s0).2
  let s2 := (midi_vw_register_device s1 [65] true false).2.2
  let s3 := (midi_vw_register_device s2 [66] false true).2.2
  (midi_vw_create_connection s3 1 2 0xFF 0xFF MIDI_VW_FILTER_NOTE).2.2

/-- Calling `midi_vw_inject_message` with the same source and message `k` times. -/
def inject_n (source : Nat) (m : midi_message_t) : Nat → midi_vw_system_t → midi_vw_system_t
  | 0, s => s
  | k + 1, s => inject_n source m k (midi_vw_inject_message s source m).2.2

/-- A connection on every source channel with the given filter mask. -/
def filter_connection (filter : Nat) : midi_vw_connection_t :=
  { midi_vw_connection_zero with
    connection_id := 1, source_device_id := 1, dest_device_id := 2,
    source_channel := 0xFF, dest_channel := 0xFF, filter := filter, enabled := true }

/-- A one-byte system message with the given status byte. -/
def system_message (status : Nat) : midi_message_t :=
  { status := status, data := [0, 0, 0], length := 1, timestamp := 0 }

/-- The error taxonomy of the specification (section 4.3), by name. -/
inductive spec_router_error where
  | NotInitialized
  | NotRunning
  | InvalidParam
  | DeviceNotFound
  | ConnectionNotFound
  | CapacityExceeded
  | DuplicateConnection
  | BufferFull
  | NoData
deriving DecidableEq, Repr

/-- The entry of the specification's error taxonomy that each value of
`midi_vw_status_t` stands for, by name; `none` for `MIDI_VW_SUCCESS`.  The C
enumeration has no value for `NotRunning`. -/
def spec_error_of_status : midi_vw_status_t → Option spec_router_error
  | MIDI_VW_SUCCESS => none
  | MIDI_VW_ERROR_INVALID_PARAM => some .InvalidParam
  | MIDI_VW_ERROR_NOT_INITIALIZED => some .NotInitialized
  | MIDI_VW_ERROR_DEVICE_NOT_FOUND => some .DeviceNotFound
  | MIDI_VW_ERROR_MAX_DEVICES_REACHED => some .CapacityExceeded
  | MIDI_VW_ERROR_MAX_CONNECTIONS_REACHED => some .CapacityExceeded
  | MIDI_VW_ERROR_CONNECTION_EXISTS => some .DuplicateConnection
  | MIDI_VW_ERROR_CONNECTION_NOT_FOUND => some .ConnectionNotFound
  | MIDI_VW_ERROR_BUFFER_FULL => some .BufferFull
  | MIDI_VW_ERROR_NO_DATA => some .NoData

/-- An initialized system that has not been started, with the two devices and
the connection of `test_main.c`. -/
def not_started_setup : midi_vw_system_t :=
  let s0 := (midi_vw_init midi_vw_system_zero none).2
  let s1 := (midi_vw_register_device s0 [65] true false).2.2
  let s2 := (midi_vw_register_device s1 [66] false true).2.2
  (midi_vw_create_connection s2 1 2 0xFF 0xFF MIDI_VW_FILTER_NONE).2.2

/-- What a routing pass never changes from `s` to `s'`: the lifecycle flags,
the callbacks, the table sizes and counts, the id counters, the clock, and
`total_messages` (which `midi_vw_route_message` increments before its loop). -/
def route_frame (s s' : midi_vw_system_t) : Prop :=
  s'.initialized = s.initialized ∧ s'.running = s.running ∧ s'.callbacks = s.callbacks ∧
  s'.device_count = s.device_count ∧ s'.connection_count = s.connection_count ∧
  s'.next_device_id = s.next_device_id ∧ s'.next_connection_id = s.next_connection_id ∧
  s'.total_messages = s.total_messages ∧ s'.system_time = s.system_time ∧
  s'.ports.length = s.ports.length ∧ s'.connections.length = s.connections.length

/-- The filter callback, when one is registered, lets `m` through on the
connection in slot `i`. -/
def passes_callback (s : midi_vw_system_t) (source i : Nat) (m : midi_message_t) : Prop :=
  ∀ f, s.callbacks.filter_callback = some f →
    f source (connection_at s i).dest_device_id m = true

/-- The state after the routing step of slot `i` when that step delivers `m`
to the port in slot `j`. -/
def step_delivered (s : midi_vw_system_t) (source i j : Nat) (m : midi_message_t) :
    midi_vw_system_t :=
  route_count_routed i
    { after_filter_callback s source i m with
      ports := (s.ports.set j
        (port_after_send s (port_at s j) (route_remap (connection_at s i) m))) }

/-- The state after the routing step of slot `i` when the delivery buffer of
the port in slot `j` is full. -/
def step_buffer_full (s : midi_vw_system_t) (source i j : Nat) (m : midi_message_t) :
    midi_vw_system_t :=
  route_count_error
    { after_filter_callback s source i m with
      ports := (s.ports.set j
        { port_at s j with
          tx_buffer :=
            { (port_at s j).tx_buffer with
              overruns := ((port_at s j).tx_buffer.overruns + 1) % U32 } }) }

/-- A started system with A (input only, id 1), B (output only, id 2) and one
unfiltered connection from A to B that remaps to channel 5. -/
def remap_setup : midi_vw_system_t :=
  let s0 := (midi_vw_init midi_vw_system_zero none).2
  let s1 := (midi_vw_start s0).2
  let s2 := (midi_vw_register_device s1 [65] true false).2.2
  let s3 := (midi_vw_register_device s2 [66] false true).2.2
  (midi_vw_create_connection s3 1 2 0xFF 5 MIDI_VW_FILTER_NONE).2.2

/-- Routing changes counters and buffers of a port, never its identity: the
device count, and of every port the id, the direction flags and `active`,
are in `s'` what they are in `s`. -/
def same_port_identity (s s' : midi_vw_system_t) : Prop :=
  s'.device_count = s.device_count ∧
  ∀ k, (port_at s' k).device.device_id = (port_at s k).device.device_id ∧
    (port_at s' k).device.is_input = (port_at s k).device.is_input ∧
    (port_at s' k).device.is_output = (port_at s k).device.is_output ∧
    (port_at s' k).active = (port_at s k).active

/-- The state `s'` is the state `s` with the connection in slot `i` disabled,
up to the ghost trace and up to the error count, which `e` translates from
`s'` to `s`. -/
def disabled_view (i : Nat) (e : Nat → Nat) (s s' : midi_vw_system_t) : Prop :=
  s'.initialized = s.initialized ∧ s'.running = s.running ∧ s'.callbacks = s.callbacks ∧
  s'.ports = s.ports ∧ s'.device_count = s.device_count ∧
  s'.connection_count = s.connection_count ∧ s'.next_device_id = s.next_device_id ∧
  s'.next_connection_id = s.next_connection_id ∧ s'.total_messages = s.total_messages ∧
  s'.total_filtered = s.total_filtered ∧ s'.system_time = s.system_time ∧
  s'.connections = s.connections.set i { connection_at s i with enabled := false } ∧
  s.total_errors = e s'.total_errors

/-- Counting one more error, as a translation of error counts. -/
def one_more_error (x : Nat) : Nat := (x + 1) % U32

/-- The state after `midi_vw_enable_connection(id, false)` for the connection
held in slot `i`. -/
def with_connection_disabled (s : midi_vw_system_t) (i : Nat) : midi_vw_system_t :=
  (midi_vw_enable_connection s (connection_at s i).connection_id false).2

/-- A started system with A (input only, id 1), B (input only, id 2) and C
(output only, id 3), and the connections A to B (slot 0, whose destination
cannot take output) and A to C (slot 1). -/
def bad_edge_setup : midi_vw_system_t :=
  let s0 := (midi_vw_init midi_vw_system_zero none).2
  let s1 := (midi_vw_start s0).2
  let s2 := (midi_vw_register_device s1 [65] true false).2.2
  let s3 := (midi_vw_register_device s2 [66] true false).2.2
  let s4 := (midi_vw_register_device s3 [67] false true).2.2
  let s5 := (midi_vw_create_connection s4 1 2 0xFF 0xFF MIDI_VW_FILTER_NONE).2.2
  (midi_vw_create_connection s5 1 3 0xFF 0xFF MIDI_VW_FILTER_NONE).2.2

/-- The slots of the device array that hold no device are all-zero, which is
how `midi_vw_init` leaves them and `midi_vw_unregister_device` returns them. -/
def unused_ports_zero (s : midi_vw_system_t) : Prop :=
  ∀ k, s.device_count ≤ k → port_at s k = midi_vw_port_zero

/-- The ids of the registered devices, in slot order. -/
def device_ids (s : midi_vw_system_t) : List Nat :=
  (List.range' 0 s.device_count).map (fun k => (port_at s k).device.device_id)

/-- A system with A (id 1), B (id 2) and C (id 3) registered, all input and
output capable, and one Control-Change sent to C. -/
def three_device_setup : midi_vw_system_t :=
  let s0 := (midi_vw_init midi_vw_system_zero none).2
  let s1 := (midi_vw_register_device s0 [65] true true).2.2
  let s2 := (midi_vw_register_device s1 [66] true true).2.2
  let s3 := (midi_vw_register_device s2 [67] true true).2.2
  (midi_vw_send_message s3 3 control_change_message).2

/-- The state `midi_vw_create_connection` leaves when it succeeds. -/
def created_state (s : midi_vw_system_t)
    (source_device_id dest_device_id source_channel dest_channel filter : Nat) :
    midi_vw_system_t :=
  { s with
    connections := s.connections.set s.connection_count
      { midi_vw_connection_zero with
        connection_id := s.next_connection_id
        source_device_id := source_device_id
        dest_device_id := dest_device_id
        source_channel := source_channel
        dest_channel := dest_channel
        filter := filter
        enabled := true }
    next_connection_id := (s.next_connection_id + 1) % U8
    connection_count := (s.connection_count + 1) % U8 }

/-- The table of `s` holds a connection with the given tuple. -/
def has_connection (s : midi_vw_system_t) (a b c d : Nat) : Prop :=
  ∃ k, k < s.connection_count ∧
    (connection_at s k).source_device_id = a ∧ (connection_at s k).dest_device_id = b ∧
    (connection_at s k).source_channel = c ∧ (connection_at s k).dest_channel = d

/-- The conditions under which `midi_vw_create_connection(a, b, 0xFF, 0xFF, _)`
returns without touching the state. -/
def create_blocked (s : midi_vw_system_t) (t : Nat × Nat) : Prop :=
  s.connection_count ≥ MIDI_VW_MAX_CONNECTIONS ∨
  midi_vw_find_device s t.1 ≥ MIDI_VW_MAX_DEVICES ∨
  midi_vw_find_device s t.2 ≥ MIDI_VW_MAX_DEVICES ∨
  has_connection s t.1 t.2 0xFF 0xFF

/-- The (source id, destination id) pairs for which the inner loop of
`midi_vw_connect_all_to_all` calls `midi_vw_create_connection`, in call order;
the loops read the device array only, which the calls leave alone. -/
def connect_pairs_inner (ports : List midi_vw_port_t) (i : Nat) : Nat → Nat → List (Nat × Nat)
  | 0, _ => []
  | n + 1, j =>
    if i ≠ j ∧ (ports.getD i midi_vw_port_zero).device.is_input = true ∧
        (ports.getD j midi_vw_port_zero).device.is_output = true then
      ((ports.getD i midi_vw_port_zero).device.device_id,
        (ports.getD j midi_vw_port_zero).device.device_id) :: connect_pairs_inner ports i n (j + 1)
    else connect_pairs_inner ports i n (j + 1)

/-- The pairs of the whole double loop over `count` devices, `n` outer
iterations remaining at index `i`. -/
def connect_pairs_outer (ports : List midi_vw_port_t) (count : Nat) :
    Nat → Nat → List (Nat × Nat)
  | 0, _ => []
  | n + 1, i => connect_pairs_inner ports i count 0 ++ connect_pairs_outer ports count n (i + 1)

/-- A run of `midi_vw_create_connection(a, b, 0xFF, 0xFF, MIDI_VW_FILTER_NONE)`
calls whose results are ignored. -/
def create_all (pairs : List (Nat × Nat)) (s : midi_vw_system_t) : midi_vw_system_t :=
  pairs.foldl
    (fun s t => (midi_vw_create_connection s t.1 t.2 0xFF 0xFF MIDI_VW_FILTER_NONE).2.2) s

/-- A system with five registered devices (ids 1 to 5), all input and output
capable: 20 ordered pairs, more than the connection table holds. -/
def five_device_setup : midi_vw_system_t :=
  let s0 := (midi_vw_init midi_vw_system_zero none).2
  let s1 := (midi_vw_register_device s0 [65] true true).2.2
  let s2 := (midi_vw_register_device s1 [66] true true).2.2
  let s3 := (midi_vw_register_device s2 [67] true true).2.2
  let s4 := (midi_vw_register_device s3 [68] true true).2.2
  (midi_vw_register_device s4 [69] true true).2.2

/-- The port record `midi_vw_register_device` writes into the first free slot. -/
def registered_port (s : midi_vw_system_t) (name : List Nat) (is_input is_output : Bool) :
    midi_vw_port_t :=
  { midi_vw_port_zero with
    device :=
      { midi_vw_device_zero with
        device_id := s.next_device_id
        name := name.take (MIDI_VW_DEVICE_NAME_LENGTH - 1)
        state := MIDI_VW_DEVICE_STATE_CONNECTED
        is_input := is_input
        is_output := is_output
        last_activity := midi_vw_get_time s }
    active := true }

/-- The state after a successful `midi_vw_register_device`, the record of the
callback invocation apart. -/
def registered_state (s : midi_vw_system_t) (name : List Nat) (is_input is_output : Bool) :
    midi_vw_system_t :=
  { s with
    ports := s.ports.set s.device_count (registered_port s name is_input is_output)
    next_device_id := (s.next_device_id + 1) % U8
    device_count := (s.device_count + 1) % U8 }

/-- The state after a successful `midi_vw_init`. -/
def initial_state (s : midi_vw_system_t) (callbacks : Option midi_vw_callbacks_t) :
    midi_vw_system_t :=
  { midi_vw_system_zero with
    callbacks := match callbacks with
      | some cb => cb
      | none => midi_vw_callbacks_zero
    next_device_id := 1
    next_connection_id := 1
    initialized := true
    trace := s.trace }

/-- Routing changes the counters of a connection, never its wiring: the
number of connections, and of every connection the id, the endpoints, the
channels, the filter and the `enabled` flag, are in `s'` what they are in `s`. -/
def same_wiring (s s' : midi_vw_system_t) : Prop :=
  s'.connection_count = s.connection_count ∧
  ∀ k, (connection_at s' k).connection_id = (connection_at s k).connection_id ∧
    (connection_at s' k).source_device_id = (connection_at s k).source_device_id ∧
    (connection_at s' k).dest_device_id = (connection_at s k).dest_device_id ∧
    (connection_at s' k).source_channel = (connection_at s k).source_channel ∧
    (connection_at s' k).dest_channel = (connection_at s k).dest_channel ∧
    (connection_at s' k).filter = (connection_at s k).filter ∧
    (connection_at s' k).enabled = (connection_at s k).enabled

/-- The connection in slot `i` takes part in routing `m` from `source` as far
as the filter callback: it is enabled, leaves `source` and the built-in filter
lets `m` through. -/
def reaches_callback (s : midi_vw_system_t) (source : Nat) (m : midi_message_t) (i : Nat) :
    Bool :=
  (connection_at s i).enabled && (connection_at s i).source_device_id == source &&
    !midi_vw_should_filter_message (connection_at s i) m

/-- The invocations of the filter callback a routing pass over the slots
`i .. i + n - 1` makes when a filter callback is registered. -/
def filter_consultations (s : midi_vw_system_t) (source : Nat) (m : midi_message_t) :
    Nat → Nat → List midi_vw_event
  | 0, _ => []
  | n + 1, i =>
    (if reaches_callback s source m i then
      [midi_vw_event.filter_event source (connection_at s i).dest_device_id m]
    else []) ++ filter_consultations s source m n (i + 1)

/-- A started system whose filter callback vetoes everything, with A (input
only, id 1), B (output only, id 2) and one unfiltered connection from A to B. -/
def veto_setup : midi_vw_system_t :=
  let s0 := (midi_vw_init midi_vw_system_zero
    (some { device_callback := false, message_callback := false,
            filter_callback := some (fun _ _ _ => false) })).2
  let s1 := (midi_vw_start s0).2
  let s2 := (midi_vw_register_device s1 [65] true false).2.2
  let s3 := (midi_vw_register_device s2 [66] false true).2.2
  (midi_vw_create_connection s3 1 2 0xFF 0xFF MIDI_VW_FILTER_NONE).2.2

/-- A call of a public function that can change the router state, with its
arguments.  The remaining public functions (`midi_vw_get_device_info`,
`midi_vw_get_connection_info`, `midi_vw_has_pending_messages`,
`midi_vw_get_pending_count`, the two counts, the two lists and
`midi_vw_get_statistics`) only read the state. -/
inductive api_call where
  | init (callbacks : Option midi_vw_callbacks_t)
  | deinit
  | start
  | stop
  | register_device (name : List Nat) (is_input is_output : Bool)
  | unregister_device (device_id : Nat)
  | set_device_state (device_id : Nat) (state : midi_vw_device_state_t)
  | create_connection (source_device_id dest_device_id source_channel dest_channel filter : Nat)
  | remove_connection (connection_id : Nat)
  | enable_connection (connection_id : Nat) (enabled : Bool)
  | connect_all_to_all
  | disconnect_all
  | send_message (device_id : Nat) (message : midi_message_t)
  | receive_message (device_id : Nat)
  | inject_message (source_device_id : Nat) (message : midi_message_t)
  | process_messages
  | reset_statistics

/-- The state after a call, whatever status the call returns. -/
def api_step (s : midi_vw_system_t) : api_call → midi_vw_system_t
  | .init callbacks => (midi_vw_init s callbacks).2
  | .deinit => (midi_vw_deinit s).2
  | .start => (midi_vw_start s).2
  | .stop => (midi_vw_stop s).2
  | .register_device name is_input is_output =>
    (midi_vw_register_device s name is_input is_output).2.2
  | .unregister_device device_id => (midi_vw_unregister_device s device_id).2
  | .set_device_state device_id state => (midi_vw_set_device_state s device_id state).2
  | .create_connection a b c d f => (midi_vw_create_connection s a b c d f).2.2
  | .remove_connection connection_id => (midi_vw_remove_connection s connection_id).2
  | .enable_connection connection_id enabled =>
    (midi_vw_enable_connection s connection_id enabled).2
  | .connect_all_to_all => (midi_vw_connect_all_to_all s).2
  | .disconnect_all => (midi_vw_disconnect_all s).2
  | .send_message device_id message => (midi_vw_send_message s device_id message).2
  | .receive_message device_id => (midi_vw_receive_message s device_id).2.2
  | .inject_message source_device_id message =>
    (midi_vw_inject_message s source_device_id message).2.2
  | .process_messages => (midi_vw_process_messages s).2
  | .reset_statistics => (midi_vw_reset_statistics s).2

/-- The state after a sequence of calls. -/
def api_run (calls : List api_call) (s : midi_vw_system_t) : midi_vw_system_t :=
  calls.foldl api_step s

/-- The states the program can be in: those a sequence of public calls leads
to from the zero-initialised static `midi_vw_system`. -/
def api_reachable (s : midi_vw_system_t) : Prop :=
  ∃ calls : List api_call, api_run calls midi_vw_system_zero = s

/-- What holds of the device array in every reachable state: it has its 8
slots, at most 8 of them in use, the unused ones all-zero; no inbound buffer
holds a message, every registered port is active, and no outbound buffer
holds more than 128 messages. -/
def ports_invariant (s : midi_vw_system_t) : Prop :=
  s.ports.length = MIDI_VW_MAX_DEVICES ∧ s.device_count ≤ MIDI_VW_MAX_DEVICES ∧
  unused_ports_zero s ∧
  (∀ k, (port_at s k).rx_buffer.count = 0) ∧
  (∀ k, k < s.device_count → (port_at s k).active = true) ∧
  (∀ k, (port_at s k).tx_buffer.count ≤ MIDI_VW_MESSAGE_BUFFER_SIZE)

/-- What holds of the connection table in every reachable state. -/
def table_invariant (s : midi_vw_system_t) : Prop :=
  s.connections.length = MIDI_VW_MAX_CONNECTIONS ∧
  s.connection_count ≤ MIDI_VW_MAX_CONNECTIONS

/-- What sending and routing do to the device array: its size and the number
of devices stay, unused slots are not touched, and a port keeps its inbound
buffer, its `active` flag and its device record but for `messages_sent` and
`last_activity`, while the number of messages in its outbound buffer does not
go down and does not pass 128. -/
def ports_evolve (s s' : midi_vw_system_t) : Prop :=
  s'.ports.length = s.ports.length ∧ s'.device_count = s.device_count ∧
  (∀ k, s.device_count ≤ k → port_at s' k = port_at s k) ∧
  ∀ k, (port_at s' k).rx_buffer = (port_at s k).rx_buffer ∧
    (port_at s' k).active = (port_at s k).active ∧
    (port_at s' k).device.device_id = (port_at s k).device.device_id ∧
    (port_at s' k).device.state = (port_at s k).device.state ∧
    (port_at s' k).device.is_input = (port_at s k).device.is_input ∧
    (port_at s' k).device.is_output = (port_at s k).device.is_output ∧
    (port_at s' k).device.messages_received = (port_at s k).device.messages_received ∧
    (port_at s k).tx_buffer.count ≤ (port_at s' k).tx_buffer.count ∧
    ((port_at s k).tx_buffer.count ≤ MIDI_VW_MESSAGE_BUFFER_SIZE →
      (port_at s' k).tx_buffer.count ≤ MIDI_VW_MESSAGE_BUFFER_SIZE)

/-- The port after the body of the first loop of `midi_vw_reset_statistics`. -/
def reset_port (p : midi_vw_port_t) : midi_vw_port_t :=
  { p with
    device := { p.device with messages_received := 0, messages_sent := 0, errors := 0 }
    rx_buffer := { p.rx_buffer with overruns := 0 }
    tx_buffer := { p.tx_buffer with overruns := 0 } }

/-- The two invariants of the reachable states together. -/
def api_invariant (s : midi_vw_system_t) : Prop :=
  ports_invariant s ∧ table_invariant s

/-- A sequence of calls for the scenario of `main.c`: two devices that are
both input and output capable are registered and connected both ways, a
message is sent to the second, one is injected from the first, and the
messages are processed. -/
def hot_plug_calls : List api_call :=
  [.init none, .start, .register_device [65] true true, .register_device [66] true true,
    .connect_all_to_all, .send_message 2 note_on_message,
    .inject_message 1 control_change_message, .process_messages]

/-- The number of messages in the outbound buffer of the port in slot `k`. -/
def tx_count (s : midi_vw_system_t) (k : Nat) : Nat := (port_at s k).tx_buffer.count

/-- Between `s` and `s'` every registered device stays where it is and no
outbound buffer loses a message. -/
def devices_kept (s s' : midi_vw_system_t) : Prop :=
  (∀ d, midi_vw_find_device s d < MIDI_VW_MAX_DEVICES →
    midi_vw_find_device s' d = midi_vw_find_device s d) ∧
  ∀ k, tx_count s k ≤ tx_count s' k

/-- A port with the `state` field of its device record blanked. -/
def forget_device_state (p : midi_vw_port_t) : midi_vw_port_t :=
  { p with device := { p.device with state := MIDI_VW_DEVICE_STATE_DISCONNECTED } }

/-- The states `s` and `s'` differ at most in the `state` fields of the
device records and in the record of callback invocations. -/
def same_but_device_state (s s' : midi_vw_system_t) : Prop :=
  s'.initialized = s.initialized ∧ s'.running = s.running ∧ s'.callbacks = s.callbacks ∧
  s'.ports.map forget_device_state = s.ports.map forget_device_state ∧
  s'.connections = s.connections ∧ s'.device_count = s.device_count ∧
  s'.connection_count = s.connection_count ∧ s'.next_device_id = s.next_device_id ∧
  s'.next_connection_id = s.next_connection_id ∧ s'.total_messages = s.total_messages ∧
  s'.total_errors = s.total_errors ∧ s'.total_filtered = s.total_filtered ∧
  s'.system_time = s.system_time

/-- The port `midi_vw_send_message` writes back, for a port `p` that is found
and output-capable, at clock value `t`. -/
def sent_port (t : Nat) (p : midi_vw_port_t) (m : midi_message_t) : midi_vw_port_t :=
  if (midi_vw_buffer_put p.tx_buffer m).1 = MIDI_VW_SUCCESS then
    { p with
      tx_buffer := (midi_vw_buffer_put p.tx_buffer m).2
      device :=
        { p.device with
          messages_sent := (p.device.messages_sent + 1) % U32
          last_activity := t } }
  else { p with tx_buffer := (midi_vw_buffer_put p.tx_buffer m).2 }

/-- The connection in slot `k` is enabled and leaves `source`: routing a
message from `source` reaches it. -/
def matches_source (s : midi_vw_system_t) (source k : Nat) : Bool :=
  (connection_at s k).enabled && (connection_at s k).source_device_id == source

/-- The number of connections in the slots `i .. i + n - 1` that routing from
`source` reaches. -/
def matching_connections (s : midi_vw_system_t) (source : Nat) (i n : Nat) : Nat :=
  ((List.range' i n).filter (matches_source s source)).length

/-- The sum of `messages_routed` over the slots `i .. i + n - 1`. -/
def routed_total (s : midi_vw_system_t) (i n : Nat) : Nat :=
  ((List.range' i n).map (fun k => (connection_at s k).messages_routed)).sum

/-- The sum of `messages_filtered` over the slots `i .. i + n - 1`. -/
def filtered_total (s : midi_vw_system_t) (i n : Nat) : Nat :=
  ((List.range' i n).map (fun k => (connection_at s k).messages_filtered)).sum

/-- Between `t` and `t'` exactly one of three things was counted for the
connection in slot `i`: a filtered message (in the connection and globally),
an error (globally), or a routed message (in the connection); the increments
are those of the `uint32_t` counters. -/
def counts_one (i : Nat) (t t' : midi_vw_system_t) : Prop :=
  ((connection_at t' i).messages_routed = (connection_at t i).messages_routed ∧
    (connection_at t' i).messages_filtered = ((connection_at t i).messages_filtered + 1) % U32 ∧
    t'.total_filtered = (t.total_filtered + 1) % U32 ∧ t'.total_errors = t.total_errors) ∨
  ((connection_at t' i).messages_routed = (connection_at t i).messages_routed ∧
    (connection_at t' i).messages_filtered = (connection_at t i).messages_filtered ∧
    t'.total_filtered = t.total_filtered ∧ t'.total_errors = (t.total_errors + 1) % U32) ∨
  ((connection_at t' i).messages_routed = ((connection_at t i).messages_routed + 1) % U32 ∧
    (connection_at t' i).messages_filtered = (connection_at t i).messages_filtered ∧
    t'.total_filtered = t.total_filtered ∧ t'.total_errors = t.total_errors)

/-- The calls that end the registration of the device `d`: `midi_vw_deinit`
and `midi_vw_unregister_device(d)`.  Every other call, the unregistration of
another device included, belongs to the registration lifetime of `d`. -/
def ends_registration (d : Nat) : api_call → Bool
  | .deinit => true
  | .unregister_device d' => d' == d
  | _ => false

/-- The number of messages in the outbound buffer of the device `d`, that is
of the port `midi_vw_find_device` returns for `d`. -/
def device_tx_count (s : midi_vw_system_t) (d : Nat) : Nat :=
  tx_count s (midi_vw_find_device s d)

/-- Devices are registered in an initialized system only. -/
def registered_when_initialized (s : midi_vw_system_t) : Prop :=
  s.initialized = false → s.device_count = 0

/-- The number of successful `midi_vw_send_message` calls to the device `d`
that the delivery part of a routing step makes (0 or 1); it follows
`route_deliver` branch by branch. -/
def route_deliver_sends (d : Nat) (message : midi_message_t) (i : Nat)
    (s : midi_vw_system_t) : Nat :=
  let connection := connection_at s i
  let dest_slot := midi_vw_find_device s connection.dest_device_id
  if dest_slot ≥ MIDI_VW_MAX_DEVICES then 0
  else
    let dest_port := port_at s dest_slot
    if !dest_port.active || !dest_port.device.is_output then 0
    else
      let routed_message := route_remap connection message
      let r := midi_vw_send_message s connection.dest_device_id routed_message
      if connection.dest_device_id = d ∧ r.1 = MIDI_VW_SUCCESS then 1 else 0

/-- The number of successful `midi_vw_send_message` calls to `d` that one
iteration of the loop of `midi_vw_route_message` makes; it follows
`route_step` branch by branch. -/
def route_step_sends (d source_device_id : Nat) (message : midi_message_t) (i : Nat)
    (s : midi_vw_system_t) : Nat :=
  let connection := connection_at s i
  if !connection.enabled || connection.source_device_id != source_device_id then 0
  else if midi_vw_should_filter_message connection message then 0
  else
    match s.callbacks.filter_callback with
    | some f =>
      let s1 := log_event s (.filter_event source_device_id connection.dest_device_id message)
      if !f source_device_id connection.dest_device_id message then 0
      else route_deliver_sends d message i s1
    | none => route_deliver_sends d message i s

/-- The successful deliveries to `d` of the loop of `midi_vw_route_message`. -/
def route_loop_sends (d source_device_id : Nat) (message : midi_message_t) :
    Nat → Nat → midi_vw_system_t → Nat
  | 0, _, _ => 0
  | n + 1, i, s =>
    route_step_sends d source_device_id message i s +
      route_loop_sends d source_device_id message n (i + 1)
        (route_step source_device_id message i s)

/-- The successful deliveries to `d` of one `midi_vw_route_message`. -/
def route_message_sends (d : Nat) (s : midi_vw_system_t) (source_device_id : Nat)
    (message : midi_message_t) : Nat :=
  route_loop_sends d source_device_id message (route_count_message s).connection_count 0
    (route_count_message s)

/-- The successful deliveries to `d` of the `while` loop of
`midi_vw_process_messages` for the port in slot `i`; it follows
`process_drain`. -/
def process_drain_sends (d i : Nat) : Nat → midi_vw_system_t → Nat
  | 0, _ => 0
  | fuel + 1, s =>
    let port := port_at s i
    match midi_vw_buffer_get port.rx_buffer with
    | (MIDI_VW_SUCCESS, some message, rx) =>
      let port1 : midi_vw_port_t :=
        { port with
          rx_buffer := rx
          device :=
            { port.device with
              messages_received := (port.device.messages_received + 1) % U32
              last_activity := midi_vw_get_time s } }
      let s1 := { s with ports := s.ports.set i port1 }
      let s2 := if s1.callbacks.message_callback then
          log_event s1 (.message_event port1.device.device_id message)
        else s1
      route_message_sends d s2 port1.device.device_id message +
        process_drain_sends d i fuel (midi_vw_route_message s2 port1.device.device_id message)
    | _ => 0

/-- The successful deliveries to `d` of the `for` loop of
`midi_vw_process_messages`; it follows `process_loop`. -/
def process_loop_sends (d : Nat) : Nat → Nat → midi_vw_system_t → Nat
  | 0, _, _ => 0
  | n + 1, i, s =>
    let port := port_at s i
    if !port.active || !port.device.is_input then process_loop_sends d n (i + 1) s
    else
      process_drain_sends d i port.rx_buffer.count s +
        process_loop_sends d n (i + 1) (process_drain i port.rx_buffer.count s)

/-- The number of `midi_vw_send_message` calls to the device `d` that return
`MIDI_VW_SUCCESS` in the course of one public call made in `s`: the call
itself when it is `midi_vw_send_message(d, _)`, and the deliveries of the
routing passes that `midi_vw_inject_message` and `midi_vw_process_messages`
run.  No other public function calls `midi_vw_send_message`. -/
def call_sends (d : Nat) (s : midi_vw_system_t) : api_call → Nat
  | .send_message d' m =>
    if d' = d ∧ (midi_vw_send_message s d' m).1 = MIDI_VW_SUCCESS then 1 else 0
  | .inject_message source_device_id message =>
    if !s.initialized then 0
    else if !s.running then 0
    else route_message_sends d s source_device_id
      { message with timestamp := midi_vw_get_time s }
  | .process_messages =>
    if !s.initialized || !s.running then 0
    else process_loop_sends d (process_tick s).device_count 0 (process_tick s)
  | _ => 0

/-- The successful `midi_vw_send_message` calls to `d`, direct and from
routing, of a sequence of public calls started in `s`. -/
def run_sends (d : Nat) : List api_call → midi_vw_system_t → Nat
  | [], _ => 0
  | c :: calls, s => call_sends d s c + run_sends d calls (api_step s c)

/-- Between `s` and `s'` every registered device stays where it is and every
outbound buffer holds as many messages as before. -/
def devices_same (s s' : midi_vw_system_t) : Prop :=
  (∀ d, midi_vw_find_device s d < MIDI_VW_MAX_DEVICES →
    midi_vw_find_device s' d = midi_vw_find_device s d) ∧
  ∀ k, tx_count s' k = tx_count s k

/-- Two devices A (id 1) and B (id 2), both input and output capable,
connected both ways on a started system. -/
def two_device_calls : List api_call :=
  [.init none, .start, .register_device [65] true true, .register_device [66] true true,
    .connect_all_to_all]

/-- A stretch of the lifetime of device B of `two_device_calls`: a message is
sent to it, one is routed to it from A, A is unplugged, the statistics are
reset, and a second message is sent to it. -/
def lifetime_calls : List api_call :=
  [.send_message 2 note_on_message, .inject_message 1 control_change_message,
    .unregister_device 1, .reset_statistics, .send_message 2 note_off_message]

/-! ## Lemmas -/

theorem getD_set_self {α : Type} (l : List α) (i : Nat) (a d : α) (h : i < l.length) :
    (l.set i a).getD i d = a := by
  simp [List.getD_eq_getElem?_getD, List.getElem?_set_self h]

theorem getD_set_other {α : Type} (l : List α) (i j : Nat) (a d : α) (h : i ≠ j) :
    (l.set i a).getD j d = l.getD j d := by
  simp [List.getD_eq_getElem?_getD, List.getElem?_set_ne h]

theorem find_device_loop_congr (s1 s2 : midi_vw_system_t) (id : Nat)
    (hp : s1.ports = s2.ports) (n : Nat) :
    ∀ i, find_device_loop s1 id n i = find_device_loop s2 id n i := by
  induction n with
  | zero => intro i; rfl
  | succ n ih => intro i; simp only [find_device_loop, port_at, hp, ih]

theorem find_device_congr (s1 s2 : midi_vw_system_t) (id : Nat)
    (hp : s1.ports = s2.ports) (hc : s1.device_count = s2.device_count) :
    midi_vw_find_device s1 id = midi_vw_find_device s2 id := by
  simp only [midi_vw_find_device, hc, find_device_loop_congr s1 s2 id hp]

theorem route_step_skip (s : midi_vw_system_t) (source k : Nat) (m : midi_message_t)
    (h : route_skips s source k) : route_step source m k s = s := by
  unfold route_skips at h
  unfold route_step
  by_cases he : (connection_at s k).enabled = true
  · have hs : (connection_at s k).source_device_id ≠ source := fun hh => h ⟨he, hh⟩
    simp [he, hs]
  · simp [he]

theorem route_loop_skip (source : Nat) (m : midi_message_t) (n : Nat) :
    ∀ (k : Nat) (s : midi_vw_system_t), (∀ k', k ≤ k' → k' < k + n → route_skips s source k') →
      route_loop source m n k s = s := by
  induction n with
  | zero => intro k s _; rfl
  | succ n ih =>
    intro k s h
    rw [route_loop, route_step_skip s source k m (h k (le_refl _) (by omega))]
    exact ih (k + 1) s (fun k' h1 h2 => h k' (by omega) (by omega))

theorem route_loop_split (source : Nat) (m : midi_message_t) (n1 : Nat) :
    ∀ (n2 k : Nat) (s : midi_vw_system_t),
      route_loop source m (n1 + n2) k s =
        route_loop source m n2 (k + n1) (route_loop source m n1 k s) := by
  induction n1 with
  | zero => intro n2 k s; simp [route_loop]
  | succ n1 ih =>
    intro n2 k s
    have : n1 + 1 + n2 = (n1 + n2) + 1 := by omega
    rw [this, route_loop, route_loop, ih]
    congr 1
    omega

/-- When slot `i` is the only one routing from `source`, and stays so after its
own step, the whole loop is that one step. -/
theorem route_loop_single (source : Nat) (m : midi_message_t) (s : midi_vw_system_t) (i n : Nat)
    (hi : i < n)
    (h1 : ∀ k, k < n → k ≠ i → route_skips s source k)
    (h2 : ∀ k, k < n → k ≠ i → route_skips (route_step source m i s) source k) :
    route_loop source m n 0 s = route_step source m i s := by
  have hn : n = i + ((n - i - 1) + 1) := by omega
  rw [hn, route_loop_split, route_loop_skip source m i 0 s
    (fun k _ hk => h1 k (by omega) (by omega))]
  have : (n - i - 1) + 1 = 1 + (n - i - 1) := by omega
  rw [this, route_loop_split]
  simp only [Nat.zero_add, route_loop]
  exact route_loop_skip source m _ _ _ (fun k hk1 hk2 => h2 k (by omega) (by omega))

theorem buffer_put_ok (b : midi_vw_message_buffer_t) (m : midi_message_t)
    (h : b.count < MIDI_VW_MESSAGE_BUFFER_SIZE) :
    (midi_vw_buffer_put b m).1 = MIDI_VW_SUCCESS := by
  have : midi_vw_buffer_is_full b = false := by
    simp only [midi_vw_buffer_is_full, decide_eq_false_iff_not]; omega
  simp [midi_vw_buffer_put, this]

theorem buffer_put_full (b : midi_vw_message_buffer_t) (m : midi_message_t)
    (h : MIDI_VW_MESSAGE_BUFFER_SIZE ≤ b.count) :
    midi_vw_buffer_put b m =
      (MIDI_VW_ERROR_BUFFER_FULL, { b with overruns := (b.overruns + 1) % U32 }) := by
  have : midi_vw_buffer_is_full b = true := by
    simp only [midi_vw_buffer_is_full, decide_eq_true_eq]; omega
  simp [midi_vw_buffer_put, this]

theorem send_message_ok (s : midi_vw_system_t) (d j : Nat) (m : midi_message_t)
    (hinit : s.initialized = true) (hj : midi_vw_find_device s d = j)
    (hj8 : j < MIDI_VW_MAX_DEVICES) (hout : (port_at s j).device.is_output = true)
    (hroom : (port_at s j).tx_buffer.count < MIDI_VW_MESSAGE_BUFFER_SIZE) :
    midi_vw_send_message s d m =
      (MIDI_VW_SUCCESS, { s with ports := s.ports.set j (port_after_send s (port_at s j) m) }) := by
  have h8 : ¬ (j ≥ MIDI_VW_MAX_DEVICES) := by omega
  have hput := buffer_put_ok (port_at s j).tx_buffer m hroom
  unfold midi_vw_send_message
  simp only [hinit, hj, h8, hout, hput, port_after_send, Bool.not_true, Bool.false_eq_true,
    if_false, if_true]

theorem route_deliver_ok (s : midi_vw_system_t) (i j : Nat) (m : midi_message_t)
    (hinit : s.initialized = true)
    (hj : midi_vw_find_device s (connection_at s i).dest_device_id = j)
    (hj8 : j < MIDI_VW_MAX_DEVICES) (hact : (port_at s j).active = true)
    (hout : (port_at s j).device.is_output = true)
    (hroom : (port_at s j).tx_buffer.count < MIDI_VW_MESSAGE_BUFFER_SIZE) :
    route_deliver m i s =
      route_count_routed i
        { s with
          ports := (s.ports.set j
            (port_after_send s (port_at s j) (route_remap (connection_at s i) m))) } := by
  have h8 : ¬ (j ≥ MIDI_VW_MAX_DEVICES) := by omega
  unfold route_deliver
  simp only [hj, h8, hact, hout, send_message_ok s _ j _ hinit hj hj8 hout hroom,
    Bool.not_true, Bool.false_eq_true, if_false, if_true, Bool.or_self]

theorem route_deliver_full (s : midi_vw_system_t) (i j : Nat) (m : midi_message_t)
    (hinit : s.initialized = true)
    (hj : midi_vw_find_device s (connection_at s i).dest_device_id = j)
    (hj8 : j < MIDI_VW_MAX_DEVICES) (hact : (port_at s j).active = true)
    (hout : (port_at s j).device.is_output = true)
    (hfull : MIDI_VW_MESSAGE_BUFFER_SIZE ≤ (port_at s j).tx_buffer.count) :
    route_deliver m i s =
      route_count_error
        { s with
          ports := (s.ports.set j
            { port_at s j with
              tx_buffer :=
                { (port_at s j).tx_buffer with
                  overruns := ((port_at s j).tx_buffer.overruns + 1) % U32 } }) } := by
  have h8 : ¬ (j ≥ MIDI_VW_MAX_DEVICES) := by omega
  unfold route_deliver midi_vw_send_message
  simp only [hinit, hj, h8, hact, hout, buffer_put_full _ _ hfull,
    Bool.not_true, Bool.false_eq_true, if_false, if_true, Bool.or_self]
  simp

theorem route_step_filtered (s : midi_vw_system_t) (source i : Nat) (m : midi_message_t)
    (hen : (connection_at s i).enabled = true)
    (hsrc : (connection_at s i).source_device_id = source)
    (hf : midi_vw_should_filter_message (connection_at s i) m = true) :
    route_step source m i s = route_count_filtered i s := by
  unfold route_step
  simp [hen, hsrc, hf]

theorem route_step_passes (s : midi_vw_system_t) (source i : Nat) (m : midi_message_t)
    (hen : (connection_at s i).enabled = true)
    (hsrc : (connection_at s i).source_device_id = source)
    (hf : midi_vw_should_filter_message (connection_at s i) m = false)
    (hv : no_veto s) :
    route_step source m i s = route_deliver m i (after_filter_callback s source i m) := by
  unfold route_step after_filter_callback
  simp only [hen, hsrc, hf, Bool.not_true, bne_self_eq_false, Bool.or_self, Bool.false_eq_true,
    if_false]
  cases hcb : s.callbacks.filter_callback with
  | none => rfl
  | some f => simp [hv f hcb]

theorem route_deliver_cases (P : midi_vw_system_t → Prop) (m : midi_message_t) (i : Nat)
    (s : midi_vw_system_t)
    (herr : P (route_count_error s))
    (hok : ∀ m', P (route_count_routed i (midi_vw_send_message s (connection_at s i).dest_device_id m').2))
    (hfull : ∀ m', P (route_count_error (midi_vw_send_message s (connection_at s i).dest_device_id m').2)) :
    P (route_deliver m i s) := by
  unfold route_deliver
  simp only []
  split_ifs
  · exact herr
  · exact herr
  · exact hok _
  · exact hfull _

theorem route_step_cases (P : midi_vw_system_t → Prop) (source : Nat) (m : midi_message_t)
    (i : Nat) (s : midi_vw_system_t)
    (hskip : P s)
    (hfilt : P (route_count_filtered i s))
    (hveto : ∀ e, P (route_count_filtered i (log_event s e)))
    (hdel : P (route_deliver m i s))
    (hdel2 : ∀ e, P (route_deliver m i (log_event s e))) :
    P (route_step source m i s) := by
  unfold route_step
  simp only []
  split_ifs
  · exact hskip
  · exact hfilt
  · cases s.callbacks.filter_callback with
    | none => exact hdel
    | some f =>
      simp only []
      split_ifs
      · exact hveto _
      · exact hdel2 _

theorem send_message_connections (s : midi_vw_system_t) (d : Nat) (m : midi_message_t) :
    (midi_vw_send_message s d m).2.connections = s.connections := by
  unfold midi_vw_send_message
  simp only []
  split_ifs <;> rfl

theorem route_count_filtered_other (i k : Nat) (s : midi_vw_system_t) (hk : k ≠ i) :
    connection_at (route_count_filtered i s) k = connection_at s k := by
  simp only [connection_at, route_count_filtered, getD_set_other _ _ _ _ _ (Ne.symm hk)]

theorem route_count_routed_other (i k : Nat) (s : midi_vw_system_t) (hk : k ≠ i) :
    connection_at (route_count_routed i s) k = connection_at s k := by
  simp only [connection_at, route_count_routed, getD_set_other _ _ _ _ _ (Ne.symm hk)]

theorem route_deliver_other (m : midi_message_t) (i k : Nat) (s : midi_vw_system_t)
    (hk : k ≠ i) : connection_at (route_deliver m i s) k = connection_at s k := by
  apply route_deliver_cases (fun s' => connection_at s' k = connection_at s k)
  · rfl
  · intro m'
    rw [route_count_routed_other i k _ hk]
    simp only [connection_at, send_message_connections]
  · intro m'
    simp only [connection_at, route_count_error, send_message_connections]

theorem route_step_other (source : Nat) (m : midi_message_t) (i k : Nat)
    (s : midi_vw_system_t) (hk : k ≠ i) :
    connection_at (route_step source m i s) k = connection_at s k := by
  apply route_step_cases (fun s' => connection_at s' k = connection_at s k)
  · rfl
  · exact route_count_filtered_other i k s hk
  · intro e; rw [route_count_filtered_other i k _ hk]; rfl
  · exact route_deliver_other m i k s hk
  · intro e; rw [route_deliver_other m i k _ hk]; rfl

theorem route_loop_only (source : Nat) (m : midi_message_t) (s : midi_vw_system_t) (i : Nat)
    (hi : i < s.connection_count)
    (hone : ∀ k, k < s.connection_count → k ≠ i → route_skips s source k) :
    route_loop source m s.connection_count 0 s = route_step source m i s := by
  apply route_loop_single source m s i _ hi hone
  intro k hk hne
  unfold route_skips
  rw [route_step_other source m i k s hne]
  exact hone k hk hne

theorem inject_running (s : midi_vw_system_t) (a : Nat) (m : midi_message_t)
    (hinit : s.initialized = true) (hrun : s.running = true) :
    midi_vw_inject_message s a m =
      (MIDI_VW_SUCCESS, { m with timestamp := midi_vw_get_time s },
        midi_vw_route_message s a { m with timestamp := midi_vw_get_time s }) := by
  unfold midi_vw_inject_message
  simp only [hinit, hrun, Bool.not_true, Bool.false_eq_true, if_false]

theorem route_message_only (s : midi_vw_system_t) (source i : Nat) (m : midi_message_t)
    (hi : i < s.connection_count)
    (hone : ∀ k, k < s.connection_count → k ≠ i → route_skips s source k) :
    midi_vw_route_message s source m = route_step source m i (route_count_message s) :=
  route_loop_only source m (route_count_message s) i hi hone

theorem note_filter_hits_notes (c : midi_vw_connection_t) (m : midi_message_t)
    (hfil : c.filter = MIDI_VW_FILTER_NOTE) (hch : c.source_channel = 0xFF)
    (h1 : 0x80 ≤ m.status) (h2 : m.status ≤ 0x9F) :
    midi_vw_should_filter_message c m = true := by
  have ht : m.status &&& 0xF0 = 0x80 ∨ m.status &&& 0xF0 = 0x90 := by
    generalize m.status = x at h1 h2
    interval_cases x <;> decide
  unfold midi_vw_should_filter_message
  rcases ht with ht | ht <;> simp [hfil, hch, ht]

theorem note_filter_passes_control (c : midi_vw_connection_t) (m : midi_message_t)
    (hfil : c.filter = MIDI_VW_FILTER_NOTE) (hch : c.source_channel = 0xFF)
    (h1 : 0xB0 ≤ m.status) (h2 : m.status ≤ 0xBF) :
    midi_vw_should_filter_message c m = false := by
  have ht : m.status &&& 0xF0 = 0xB0 := by
    generalize m.status = x at h1 h2
    interval_cases x <;> decide
  unfold midi_vw_should_filter_message
  simp [hfil, hch, ht]

/-- The port in slot `k` gives `midi_vw_process_messages` nothing to do: it is
skipped, or its `rx_buffer` is empty. -/
theorem process_loop_idle (n : Nat) :
    ∀ (i : Nat) (s : midi_vw_system_t),
      (∀ k, i ≤ k → k < i + n →
        (port_at s k).device.is_input = false ∨ (port_at s k).rx_buffer.count = 0) →
      process_loop n i s = s := by
  induction n with
  | zero => intro i s _; rfl
  | succ n ih =>
    intro i s h
    unfold process_loop
    simp only []
    have hrest := ih (i + 1) s (fun k h1 h2 => h k (by omega) (by omega))
    rcases h i (le_refl _) (by omega) with h0 | h0
    · simp only [h0, Bool.not_false, Bool.or_true, if_true]
      exact hrest
    · rw [h0]
      split_ifs
      · exact hrest
      · exact hrest

theorem process_idle (s : midi_vw_system_t) (hinit : s.initialized = true)
    (hrun : s.running = true)
    (h : ∀ k, k < s.device_count →
      (port_at s k).device.is_input = false ∨ (port_at s k).rx_buffer.count = 0) :
    midi_vw_process_messages s = (MIDI_VW_SUCCESS, process_tick s) := by
  unfold midi_vw_process_messages
  simp only [hinit, hrun, Bool.not_true, Bool.or_self, Bool.false_eq_true, if_false]
  rw [process_loop_idle (process_tick s).device_count 0 (process_tick s)
    (fun k _ hk => h k (by simpa [process_tick] using hk))]

theorem route_message_single_delivery (s : midi_vw_system_t) (a i j : Nat) (m : midi_message_t)
    (hinit : s.initialized = true)
    (hi : i < s.connection_count)
    (hen : (connection_at s i).enabled = true)
    (hsrc : (connection_at s i).source_device_id = a)
    (hf : midi_vw_should_filter_message (connection_at s i) m = false)
    (hone : ∀ k, k < s.connection_count → k ≠ i → route_skips s a k)
    (hj : midi_vw_find_device s (connection_at s i).dest_device_id = j)
    (hj8 : j < MIDI_VW_MAX_DEVICES)
    (hact : (port_at s j).active = true) (hout : (port_at s j).device.is_output = true)
    (hroom : (port_at s j).tx_buffer.count < MIDI_VW_MESSAGE_BUFFER_SIZE)
    (hv : no_veto s) :
    midi_vw_route_message s a m = delivered_state s a i j m := by
  rw [route_message_only s a i _ hi hone]
  rw [route_step_passes (route_count_message s) a i m hen hsrc hf hv]
  unfold delivered_state
  cases hcb : s.callbacks.filter_callback with
  | none =>
    simp only [after_filter_callback, route_count_message, hcb]
    exact route_deliver_ok _ i j _ hinit (by rw [← hj]; exact find_device_congr _ _ _ rfl rfl)
      hj8 hact hout hroom
  | some f =>
    simp only [after_filter_callback, route_count_message, hcb]
    exact route_deliver_ok _ i j _ hinit (by rw [← hj]; exact find_device_congr _ _ _ rfl rfl)
      hj8 hact hout hroom

theorem delivered_state_fields (s : midi_vw_system_t) (a i j : Nat) (m : midi_message_t)
    (hil : i < s.connections.length) :
    (delivered_state s a i j m).initialized = s.initialized ∧
    (delivered_state s a i j m).running = s.running ∧
    (delivered_state s a i j m).device_count = s.device_count ∧
    (delivered_state s a i j m).connection_count = s.connection_count ∧
    (delivered_state s a i j m).system_time = s.system_time ∧
    (delivered_state s a i j m).total_messages = (s.total_messages + 1) % U32 ∧
    (delivered_state s a i j m).total_errors = s.total_errors ∧
    (delivered_state s a i j m).total_filtered = s.total_filtered ∧
    (delivered_state s a i j m).ports =
      s.ports.set j (port_after_send s (port_at s j) (route_remap (connection_at s i) m)) ∧
    connection_at (delivered_state s a i j m) i =
      { connection_at s i with
        messages_routed := ((connection_at s i).messages_routed + 1) % U32 } ∧
    (delivered_state s a i j m).trace =
      s.trace ++ (match s.callbacks.filter_callback with
        | some _ => [midi_vw_event.filter_event a (connection_at s i).dest_device_id m]
        | none => []) := by
  cases hcb : s.callbacks.filter_callback <;>
    simp only [delivered_state, connection_at, route_count_routed, after_filter_callback, hcb,
      log_event, route_count_message, getD_set_self _ _ _ _ hil, List.append_nil, and_self]

theorem find_device_loop_found (s : midi_vw_system_t) (id : Nat) (n : Nat) :
    ∀ i, find_device_loop s id n i < MIDI_VW_MAX_DEVICES →
      i ≤ find_device_loop s id n i ∧ find_device_loop s id n i < i + n ∧
      (port_at s (find_device_loop s id n i)).device.device_id = id := by
  induction n with
  | zero => intro i h; simp [find_device_loop] at h
  | succ n ih =>
    intro i h
    unfold find_device_loop at h ⊢
    split_ifs at h ⊢ with hid
    · exact ⟨le_refl _, by omega, hid⟩
    · obtain ⟨h1, h2, h3⟩ := ih (i + 1) h
      exact ⟨by omega, by omega, h3⟩

theorem find_device_found (s : midi_vw_system_t) (id : Nat)
    (h : midi_vw_find_device s id < MIDI_VW_MAX_DEVICES) :
    midi_vw_find_device s id < s.device_count ∧
      (port_at s (midi_vw_find_device s id)).device.device_id = id := by
  obtain ⟨_, h2, h3⟩ := find_device_loop_found s id s.device_count 0 h
  exact ⟨by simpa [midi_vw_find_device] using h2, h3⟩

theorem inject_single_delivery (s : midi_vw_system_t) (a i j : Nat) (m : midi_message_t)
    (hinit : s.initialized = true) (hrun : s.running = true)
    (hi : i < s.connection_count)
    (hen : (connection_at s i).enabled = true)
    (hsrc : (connection_at s i).source_device_id = a)
    (hf : midi_vw_should_filter_message (connection_at s i)
      { m with timestamp := midi_vw_get_time s } = false)
    (hone : ∀ k, k < s.connection_count → k ≠ i → route_skips s a k)
    (hj : midi_vw_find_device s (connection_at s i).dest_device_id = j)
    (hj8 : j < MIDI_VW_MAX_DEVICES)
    (hact : (port_at s j).active = true) (hout : (port_at s j).device.is_output = true)
    (hroom : (port_at s j).tx_buffer.count < MIDI_VW_MESSAGE_BUFFER_SIZE)
    (hv : no_veto s) :
    midi_vw_inject_message s a m =
      (MIDI_VW_SUCCESS, { m with timestamp := midi_vw_get_time s },
        delivered_state s a i j { m with timestamp := midi_vw_get_time s }) := by
  rw [inject_running s a m hinit hrun,
    route_message_single_delivery s a i j _ hinit hi hen hsrc hf hone hj hj8 hact hout hroom hv]

theorem process_after_delivery (s : midi_vw_system_t) (a i j : Nat) (m : midi_message_t)
    (hinit : s.initialized = true) (hrun : s.running = true)
    (hil : i < s.connections.length)
    (hrx : ∀ k, k < s.device_count →
      (port_at s k).device.is_input = false ∨ (port_at s k).rx_buffer.count = 0) :
    midi_vw_process_messages (delivered_state s a i j m) =
      (MIDI_VW_SUCCESS, process_tick (delivered_state s a i j m)) := by
  obtain ⟨h1, h2, h3, _, _, _, _, _, h9, _, _⟩ := delivered_state_fields s a i j m hil
  apply process_idle _ (h1.trans hinit) (h2.trans hrun)
  intro k hk
  rw [h3] at hk
  unfold port_at
  rw [h9]
  by_cases hkj : k = j
  · subst hkj
    by_cases hl : k < s.ports.length
    · rw [getD_set_self _ _ _ _ hl]
      exact hrx k hk
    · have : s.ports.set k (port_after_send s (port_at s k)
          (route_remap (connection_at s i) m)) = s.ports := by
        apply List.set_eq_of_length_le; omega
      rw [this]
      exact hrx k hk
  · rw [getD_set_other _ _ _ _ _ (Ne.symm hkj)]
    exact hrx k hk

theorem route_remap_none (c : midi_vw_connection_t) (m : midi_message_t)
    (h : c.dest_channel = 0xFF) : route_remap c m = m := by
  simp [route_remap, h]

theorem after_filter_callback_none (s : midi_vw_system_t) (a i : Nat) (m : midi_message_t)
    (h : s.callbacks.filter_callback = none) : after_filter_callback s a i m = s := by
  simp only [after_filter_callback, h]

theorem after_filter_callback_some (s : midi_vw_system_t) (a i : Nat) (m : midi_message_t)
    (f : Nat → Nat → midi_message_t → Bool) (h : s.callbacks.filter_callback = some f) :
    after_filter_callback s a i m =
      log_event s (.filter_event a (connection_at s i).dest_device_id m) := by
  simp only [after_filter_callback, h]

theorem delivered_state_eq_send (s : midi_vw_system_t) (a b i j : Nat) (m : midi_message_t)
    (hinit : s.initialized = true)
    (hdc : (connection_at s i).dest_channel = 0xFF)
    (hj : midi_vw_find_device s b = j) (hj8 : j < MIDI_VW_MAX_DEVICES)
    (hout : (port_at s j).device.is_output = true)
    (hroom : (port_at s j).tx_buffer.count < MIDI_VW_MESSAGE_BUFFER_SIZE) :
    delivered_state s a i j m =
      route_count_routed i
        (midi_vw_send_message (after_filter_callback (route_count_message s) a i m) b m).2 := by
  unfold delivered_state
  rw [route_remap_none _ _ hdc]
  cases hcb : s.callbacks.filter_callback with
  | none =>
    rw [after_filter_callback_none (route_count_message s) a i m hcb,
      send_message_ok (route_count_message s) b j m hinit
        (by rw [← hj]; exact find_device_congr _ _ _ rfl rfl) hj8 hout hroom]
    rfl
  | some f =>
    rw [after_filter_callback_some (route_count_message s) a i m f hcb,
      send_message_ok (log_event (route_count_message s) _) b j m hinit
        (by rw [← hj]; exact find_device_congr _ _ _ rfl rfl) hj8 hout hroom]
    rfl

theorem ring_holds_put (b : midi_vw_message_buffer_t) (l : List midi_message_t)
    (m : midi_message_t) (h : ring_holds b l) (hlt : l.length < MIDI_VW_MESSAGE_BUFFER_SIZE) :
    (midi_vw_buffer_put b m).1 = MIDI_VW_SUCCESS ∧
      ring_holds (midi_vw_buffer_put b m).2 (l ++ [m]) := by
  unfold ring_holds at h ⊢
  simp only [MIDI_VW_MESSAGE_BUFFER_SIZE] at h hlt ⊢
  obtain ⟨hlen, htail, hcount, _, hhead, hget⟩ := h
  have hnf : midi_vw_buffer_is_full b = false := by
    simp only [midi_vw_buffer_is_full, MIDI_VW_MESSAGE_BUFFER_SIZE, decide_eq_false_iff_not]; omega
  simp only [midi_vw_buffer_put, hnf, Bool.false_eq_true, if_false, MIDI_VW_MESSAGE_BUFFER_SIZE,
    U16, true_and]
  refine ⟨?_, htail, ?_, ?_, ?_, ?_⟩
  · simp [hlen]
  · simp only [hcount, List.length_append, List.length_singleton]; omega
  · simp only [List.length_append, List.length_singleton]; omega
  · simp only [hhead, List.length_append, List.length_singleton]; omega
  · intro k hk
    simp only [List.length_append, List.length_singleton] at hk
    by_cases hkl : k = l.length
    · subst hkl
      rw [hhead, getD_set_self _ _ _ _ (by rw [hlen]; exact Nat.mod_lt _ (by decide))]
      rw [List.getD_append_right _ _ _ _ (le_refl _)]
      simp
    · have hk2 : k < l.length := by omega
      rw [getD_set_other _ _ _ _ _ (by rw [hhead]; omega)]
      rw [List.getD_append _ _ _ _ hk2]
      exact hget k hk2

theorem ring_holds_get (b : midi_vw_message_buffer_t) (l : List midi_message_t)
    (m : midi_message_t) (h : ring_holds b (m :: l)) :
    (midi_vw_buffer_get b).1 = MIDI_VW_SUCCESS ∧ (midi_vw_buffer_get b).2.1 = some m ∧
      ring_holds (midi_vw_buffer_get b).2.2 l := by
  unfold ring_holds at h ⊢
  simp only [MIDI_VW_MESSAGE_BUFFER_SIZE] at h ⊢
  obtain ⟨hlen, htail, hcount, hle, hhead, hget⟩ := h
  simp only [List.length_cons] at hcount hle hhead hget
  have hne : midi_vw_buffer_is_empty b = false := by
    simp [midi_vw_buffer_is_empty, hcount]
  simp only [midi_vw_buffer_get, hne, Bool.false_eq_true, if_false, MIDI_VW_MESSAGE_BUFFER_SIZE,
    true_and]
  refine ⟨?_, hlen, ?_, ?_, ?_, ?_, ?_⟩
  · have := hget 0 (by omega)
    simp only [Nat.add_zero, Nat.mod_eq_of_lt htail, List.getD_cons_zero] at this
    rw [this]
  · exact Nat.mod_lt _ (by decide)
  · simp [hcount]
  · omega
  · simp only [hhead]; omega
  · intro k hk
    have := hget (k + 1) (by omega)
    simp only [List.getD_cons_succ] at this
    rw [← this]
    congr 1
    omega

theorem ring_holds_put_all (ms : List midi_message_t) :
    ∀ (b : midi_vw_message_buffer_t) (l : List midi_message_t), ring_holds b l →
      l.length + ms.length ≤ MIDI_VW_MESSAGE_BUFFER_SIZE →
      (buffer_put_all b ms).1 = List.replicate ms.length MIDI_VW_SUCCESS ∧
        ring_holds (buffer_put_all b ms).2 (l ++ ms) := by
  induction ms with
  | nil => intro b l h _; simpa [buffer_put_all] using h
  | cons m ms ih =>
    intro b l h hle
    simp only [List.length_cons] at hle
    obtain ⟨h1, h2⟩ := ring_holds_put b l m h (by omega)
    obtain ⟨h3, h4⟩ := ih _ (l ++ [m]) h2 (by simp; omega)
    simp only [buffer_put_all, h1, h3, List.length_cons, List.replicate_succ, true_and]
    simpa using h4

theorem ring_holds_get_n (l : List midi_message_t) :
    ∀ (b : midi_vw_message_buffer_t), ring_holds b l →
      (buffer_get_n l.length b).1 = l.map (fun m => (MIDI_VW_SUCCESS, some m)) ∧
        ring_holds (buffer_get_n l.length b).2 [] := by
  induction l with
  | nil => intro b h; simpa [buffer_get_n] using h
  | cons m l ih =>
    intro b h
    obtain ⟨h1, h2, h3⟩ := ring_holds_get b l m h
    obtain ⟨h4, h5⟩ := ih _ h3
    simp only [List.length_cons, buffer_get_n, h1, h2, h4, List.map_cons, true_and]
    exact h5

theorem ring_holds_empty (b : midi_vw_message_buffer_t) (hc : b.count = 0)
    (hht : b.head = b.tail) (hh : b.head < MIDI_VW_MESSAGE_BUFFER_SIZE)
    (hlen : b.messages.length = MIDI_VW_MESSAGE_BUFFER_SIZE) : ring_holds b [] := by
  refine ⟨hlen, by omega, by simpa using hc, by simp, ?_, ?_⟩
  · simp only [List.length_nil, Nat.add_zero]
    rw [Nat.mod_eq_of_lt (by omega)]; exact hht
  · intro k hk; simp at hk

theorem buffer_get_overruns (b : midi_vw_message_buffer_t) (x : Nat) :
    midi_vw_buffer_get { b with overruns := x } =
      ((midi_vw_buffer_get b).1, (midi_vw_buffer_get b).2.1,
        { (midi_vw_buffer_get b).2.2 with overruns := x }) := by
  by_cases h : b.count = 0 <;> simp [midi_vw_buffer_get, midi_vw_buffer_is_empty, h]

theorem buffer_get_n_overruns (n : Nat) :
    ∀ (b : midi_vw_message_buffer_t) (x : Nat),
      (buffer_get_n n { b with overruns := x }).1 = (buffer_get_n n b).1 := by
  induction n with
  | zero => intro b x; rfl
  | succ n ih =>
    intro b x
    simp only [buffer_get_n, buffer_get_overruns, ih]

theorem one_device_setup_eq : one_device_setup = churn_state 2 := rfl

theorem churn_state_step (n : Nat) (hn : n ≠ 1) :
    (midi_vw_unregister_device (midi_vw_register_device (churn_state n) [] true true).2.2
      ((midi_vw_register_device (churn_state n) [] true true).2.1.getD 0)).2 =
    churn_state ((n + 1) % U8) := by
  have h1 : ¬ (1 = n) := fun h => hn h.symm
  simp [churn_state, one_device_setup, midi_vw_register_device, midi_vw_unregister_device, midi_vw_init,
    midi_vw_system_zero, midi_vw_find_device, find_device_loop, port_at, unregister_loop,
    shift_left, midi_vw_callbacks_zero, midi_vw_get_time, h1, List.replicate, U8, List.set]

theorem churn_state_iterate (k : Nat) :
    ∀ n, 2 ≤ n → n + k ≤ 257 → churn k (churn_state (n % U8)) = churn_state ((n + k) % U8) := by
  induction k with
  | zero => intro n _ _; rfl
  | succ k ih =>
    intro n h2 hle
    have hne : n % U8 ≠ 1 := by simp only [U8]; omega
    rw [churn, churn_state_step _ hne]
    have : (n % U8 + 1) % U8 = (n + 1) % U8 := by simp only [U8]; omega
    rw [this, ih (n + 1) (by omega) (by omega)]
    congr 2
    omega

theorem connection_exists_loop_found (s : midi_vw_system_t) (a b c d : Nat) (n : Nat) :
    ∀ i k, i ≤ k → k < i + n →
      (connection_at s k).source_device_id = a → (connection_at s k).dest_device_id = b →
      (connection_at s k).source_channel = c → (connection_at s k).dest_channel = d →
      connection_exists_loop s a b c d n i = true := by
  induction n with
  | zero => intro i k h1 h2; omega
  | succ n ih =>
    intro i k h1 h2 ha hb hc hd
    unfold connection_exists_loop
    by_cases hik : k = i
    · subst hik
      simp [ha, hb, hc, hd]
    · split_ifs
      · rfl
      · exact ih (i + 1) k (by omega) (by omega) ha hb hc hd

theorem find_device_loop_lt (s : midi_vw_system_t) (id : Nat) (n : Nat) :
    ∀ i, find_device_loop s id n i < MIDI_VW_MAX_DEVICES → 0 < n := by
  intro i h
  cases n with
  | zero => simp [find_device_loop] at h
  | succ n => omega

theorem remove_connection_registry (s : midi_vw_system_t) (id : Nat) :
    (midi_vw_remove_connection s id).2.initialized = s.initialized ∧
    (midi_vw_remove_connection s id).2.device_count = s.device_count ∧
    (midi_vw_remove_connection s id).2.ports = s.ports ∧
    (midi_vw_remove_connection s id).2.callbacks = s.callbacks ∧
    (midi_vw_remove_connection s id).2.next_device_id = s.next_device_id := by
  unfold midi_vw_remove_connection
  simp only []
  split_ifs <;> simp

theorem unregister_loop_registry (d : Nat) (fuel : Nat) :
    ∀ (i : Nat) (s : midi_vw_system_t),
      (unregister_loop d fuel i s).initialized = s.initialized ∧
      (unregister_loop d fuel i s).device_count = s.device_count ∧
      (unregister_loop d fuel i s).ports = s.ports ∧
      (unregister_loop d fuel i s).callbacks = s.callbacks ∧
      (unregister_loop d fuel i s).next_device_id = s.next_device_id := by
  induction fuel with
  | zero => intro i s; simp [unregister_loop]
  | succ fuel ih =>
    intro i s
    unfold unregister_loop
    split_ifs
    · obtain ⟨h1, h2, h3, h4, h5⟩ := ih (i + 1)
        (midi_vw_remove_connection s (connection_at s i).connection_id).2
      obtain ⟨g1, g2, g3, g4, g5⟩ := remove_connection_registry s (connection_at s i).connection_id
      exact ⟨h1.trans g1, h2.trans g2, h3.trans g3, h4.trans g4, h5.trans g5⟩
    · exact ih (i + 1) s
    · simp

theorem list_devices_loop_length (s : midi_vw_system_t) (max n : Nat) :
    ∀ (i : Nat) (ids : List Nat), ids.length ≤ max →
      (list_devices_loop s max n i ids).length = min (ids.length + n) max := by
  induction n with
  | zero => intro i ids h; simp [list_devices_loop]; omega
  | succ n ih =>
    intro i ids h
    unfold list_devices_loop
    split_ifs with hlt
    · rw [ih (i + 1) _ (by simp; omega)]
      simp; omega
    · omega

theorem register_device_count (s : midi_vw_system_t) (name : List Nat) (i o : Bool)
    (hinit : s.initialized = true) (hdc : s.device_count ≤ MIDI_VW_MAX_DEVICES) :
    (midi_vw_register_device s name i o).2.2.initialized = true ∧
    (midi_vw_register_device s name i o).2.2.device_count ≤ MIDI_VW_MAX_DEVICES ∧
    (midi_vw_register_device s name i o).2.2.device_count =
      s.device_count +
        (if (midi_vw_register_device s name i o).1 = MIDI_VW_SUCCESS then 1 else 0) := by
  unfold midi_vw_register_device
  simp only [hinit, Bool.not_true, Bool.false_eq_true, if_false]
  by_cases hfull : s.device_count ≥ MIDI_VW_MAX_DEVICES
  · simp only [hfull, if_true]
    simp [hinit, hdc]
  · simp only [hfull, if_false]
    simp only [MIDI_VW_MAX_DEVICES, U8] at *
    have : (s.device_count + 1) % 256 = s.device_count + 1 := by omega
    split_ifs <;> simp [log_event, hinit, this] <;> omega

theorem unregister_device_count (s : midi_vw_system_t) (d : Nat)
    (hinit : s.initialized = true) (hdc : s.device_count ≤ MIDI_VW_MAX_DEVICES) :
    (midi_vw_unregister_device s d).2.initialized = true ∧
    (midi_vw_unregister_device s d).2.device_count ≤ MIDI_VW_MAX_DEVICES ∧
    (midi_vw_unregister_device s d).2.device_count +
        (if (midi_vw_unregister_device s d).1 = MIDI_VW_SUCCESS then 1 else 0) =
      s.device_count := by
  unfold midi_vw_unregister_device
  simp only [hinit, Bool.not_true, Bool.false_eq_true, if_false]
  by_cases hnf : midi_vw_find_device s d ≥ MIDI_VW_MAX_DEVICES
  · simp only [hnf, if_true]
    simp [hinit, hdc]
  · simp only [hnf, if_false]
    have hpos : 0 < s.device_count := find_device_loop_lt s d _ 0 (by
      unfold midi_vw_find_device at hnf; omega)
    obtain ⟨h1, h2, _, _, _⟩ := unregister_loop_registry d s.connection_count 0 s
    simp only [MIDI_VW_MAX_DEVICES, U8] at *
    have : (s.device_count + (256 - 1)) % 256 = s.device_count - 1 := by omega
    split_ifs <;> simp [log_event, hinit, this, h1, h2] <;> omega

theorem registry_calls_invariant (calls : List registry_call) :
    ∀ r : registry_run, r.state.initialized = true →
      r.state.device_count ≤ MIDI_VW_MAX_DEVICES →
      r.state.device_count + r.unregistered = r.registered →
      (calls.foldl registry_step r).state.initialized = true ∧
      (calls.foldl registry_step r).state.device_count ≤ MIDI_VW_MAX_DEVICES ∧
      (calls.foldl registry_step r).state.device_count + (calls.foldl registry_step r).unregistered =
        (calls.foldl registry_step r).registered := by
  induction calls with
  | nil => intro r h1 h2 h3; exact ⟨h1, h2, h3⟩
  | cons c calls ih =>
    intro r h1 h2 h3
    simp only [List.foldl_cons]
    apply ih
    · cases c with
      | register name i o => exact (register_device_count r.state name i o h1 h2).1
      | unregister d => exact (unregister_device_count r.state d h1 h2).1
    · cases c with
      | register name i o => exact (register_device_count r.state name i o h1 h2).2.1
      | unregister d => exact (unregister_device_count r.state d h1 h2).2.1
    · cases c with
      | register name i o =>
        have := (register_device_count r.state name i o h1 h2).2.2
        simp only [registry_step]
        split_ifs at this ⊢ <;> omega
      | unregister d =>
        have := (unregister_device_count r.state d h1 h2).2.2
        simp only [registry_step]
        split_ifs at this ⊢ <;> omega

theorem end_to_end_setup_eq (callbacks : Option midi_vw_callbacks_t)
    (name_a name_b : List Nat) :
    end_to_end_setup callbacks name_a name_b =
      end_to_end_setup_state (callbacks.getD midi_vw_callbacks_zero) name_a name_b := by
  cases callbacks with
  | none => rfl
  | some cb =>
    obtain ⟨d, mc, f⟩ := cb
    cases d <;> rfl

theorem end_to_end_eq (callbacks : Option midi_vw_callbacks_t) (name_a name_b : List Nat)
    (message : midi_message_t)
    (hv : ∀ cb f, callbacks = some cb → cb.filter_callback = some f → ∀ x y z, f x y z = true) :
    end_to_end callbacks name_a name_b message =
      process_tick
        (delivered_state
          (end_to_end_setup_state (callbacks.getD midi_vw_callbacks_zero) name_a name_b)
          1 0 1 { message with timestamp := 0 }) := by
  have hveto : no_veto
      (end_to_end_setup_state (callbacks.getD midi_vw_callbacks_zero) name_a name_b) := by
    intro f hf
    cases callbacks with
    | none => cases hf
    | some cb => exact hv cb f rfl hf
  unfold end_to_end
  rw [end_to_end_setup_eq,
    inject_single_delivery
      (end_to_end_setup_state (callbacks.getD midi_vw_callbacks_zero) name_a name_b)
      1 0 1 message rfl rfl (Nat.lt_succ_self 0) rfl rfl rfl
      (fun k hk hne => by
        have : k < 1 := hk
        omega)
      rfl (Nat.lt_of_sub_eq_succ rfl) rfl rfl (Nat.succ_pos 127) hveto]
  simp only []
  rw [process_after_delivery
    (end_to_end_setup_state (callbacks.getD midi_vw_callbacks_zero) name_a name_b)
    1 0 1 _ rfl rfl (Nat.succ_pos 15)
    (fun k hk => by
      have hk' : k < 2 := hk
      have hk2 : k = 0 ∨ k = 1 := by omega
      rcases hk2 with rfl | rfl
      · exact Or.inr rfl
      · exact Or.inl rfl)]
  rfl

theorem remove_connection_count_le (s : midi_vw_system_t) (id : Nat)
    (h : 0 < s.connection_count) :
    (midi_vw_remove_connection s id).2.connection_count ≤ s.connection_count := by
  unfold midi_vw_remove_connection
  simp only [U8]
  split_ifs
  · exact le_refl _
  · exact le_refl _
  · show (s.connection_count + (256 - 1)) % 256 ≤ s.connection_count
    omega

/-- The fuel given to `unregister_loop` by `midi_vw_unregister_device` is
enough: more fuel does not change the result. -/
theorem unregister_loop_fuel (d : Nat) (fuel : Nat) :
    ∀ (extra i : Nat) (s : midi_vw_system_t), s.connection_count ≤ i + fuel →
      unregister_loop d (fuel + extra) i s = unregister_loop d fuel i s := by
  induction fuel with
  | zero =>
    intro extra i s h
    cases extra with
    | zero => rfl
    | succ e =>
      have : ¬ i < s.connection_count := by omega
      simp [unregister_loop, this]
  | succ fuel ih =>
    intro extra i s h
    have e : fuel + 1 + extra = (fuel + extra) + 1 := by omega
    rw [e]
    unfold unregister_loop
    by_cases hlt : i < s.connection_count
    · simp only [hlt, if_true]
      split_ifs
      · apply ih
        have := remove_connection_count_le s (connection_at s i).connection_id (by omega)
        omega
      · apply ih; omega
    · simp only [hlt, if_false]

theorem send_message_rx (s : midi_vw_system_t) (d : Nat) (m : midi_message_t) (k : Nat) :
    (port_at (midi_vw_send_message s d m).2 k).rx_buffer = (port_at s k).rx_buffer ∧
    (midi_vw_send_message s d m).2.ports.length = s.ports.length := by
  unfold midi_vw_send_message
  simp only []
  split_ifs
  · exact ⟨rfl, rfl⟩
  · exact ⟨rfl, rfl⟩
  · exact ⟨rfl, rfl⟩
  · constructor
    · by_cases hk : midi_vw_find_device s d = k
      · by_cases hl : k < s.ports.length
        · simp only [port_at, hk, getD_set_self _ _ _ _ hl]
        · simp only [port_at, hk, List.set_eq_of_length_le (Nat.le_of_not_lt hl)]
      · simp only [port_at, getD_set_other _ _ _ _ _ hk]
    · simp
  · constructor
    · by_cases hk : midi_vw_find_device s d = k
      · by_cases hl : k < s.ports.length
        · simp only [port_at, hk, getD_set_self _ _ _ _ hl]
        · simp only [port_at, hk, List.set_eq_of_length_le (Nat.le_of_not_lt hl)]
      · simp only [port_at, getD_set_other _ _ _ _ _ hk]
    · simp

theorem route_deliver_rx (m : midi_message_t) (i k : Nat) (s : midi_vw_system_t) :
    (port_at (route_deliver m i s) k).rx_buffer = (port_at s k).rx_buffer ∧
    (route_deliver m i s).ports.length = s.ports.length := by
  apply route_deliver_cases
    (fun s' => (port_at s' k).rx_buffer = (port_at s k).rx_buffer ∧
      s'.ports.length = s.ports.length)
  · exact ⟨rfl, rfl⟩
  · intro m'; exact send_message_rx s _ m' k
  · intro m'; exact send_message_rx s _ m' k

theorem route_step_rx (source : Nat) (m : midi_message_t) (i k : Nat) (s : midi_vw_system_t) :
    (port_at (route_step source m i s) k).rx_buffer = (port_at s k).rx_buffer ∧
    (route_step source m i s).ports.length = s.ports.length := by
  apply route_step_cases
    (fun s' => (port_at s' k).rx_buffer = (port_at s k).rx_buffer ∧
      s'.ports.length = s.ports.length)
  · exact ⟨rfl, rfl⟩
  · exact ⟨rfl, rfl⟩
  · intro e; exact ⟨rfl, rfl⟩
  · exact route_deliver_rx m i k s
  · intro e; exact route_deliver_rx m i k (log_event s e)

theorem route_loop_rx (source : Nat) (m : midi_message_t) (k : Nat) (n : Nat) :
    ∀ (i : Nat) (s : midi_vw_system_t),
      (port_at (route_loop source m n i s) k).rx_buffer = (port_at s k).rx_buffer ∧
      (route_loop source m n i s).ports.length = s.ports.length := by
  induction n with
  | zero => intro i s; exact ⟨rfl, rfl⟩
  | succ n ih =>
    intro i s
    unfold route_loop
    obtain ⟨h1, h2⟩ := ih (i + 1) (route_step source m i s)
    obtain ⟨h3, h4⟩ := route_step_rx source m i k s
    exact ⟨h1.trans h3, h2.trans h4⟩

/-- Routing never touches an `rx_buffer`. -/
theorem route_message_rx (s : midi_vw_system_t) (source : Nat) (m : midi_message_t) (k : Nat) :
    (port_at (midi_vw_route_message s source m) k).rx_buffer = (port_at s k).rx_buffer ∧
    (midi_vw_route_message s source m).ports.length = s.ports.length :=
  route_loop_rx source m k _ 0 (route_count_message s)

/-- The fuel given to `process_drain` by `process_loop` is enough: more fuel
does not change the result. -/
theorem process_drain_fuel (i : Nat) (fuel : Nat) :
    ∀ (extra : Nat) (s : midi_vw_system_t), (port_at s i).rx_buffer.count ≤ fuel →
      process_drain i (fuel + extra) s = process_drain i fuel s := by
  induction fuel with
  | zero =>
    intro extra s h
    cases extra with
    | zero => rfl
    | succ e =>
      have hc : (port_at s i).rx_buffer.count = 0 := by omega
      simp [process_drain, midi_vw_buffer_get, midi_vw_buffer_is_empty, hc]
  | succ fuel ih =>
    intro extra s h
    have e : fuel + 1 + extra = (fuel + extra) + 1 := by omega
    rw [e]
    unfold process_drain
    by_cases hc : (port_at s i).rx_buffer.count = 0
    · simp [midi_vw_buffer_get, midi_vw_buffer_is_empty, hc]
    · simp only [midi_vw_buffer_get, midi_vw_buffer_is_empty, beq_iff_eq, hc, if_false]
      apply ih
      have hl : i < s.ports.length := by
        by_contra hl
        apply hc
        simp only [port_at, List.getD_eq_default _ _ (Nat.le_of_not_lt hl)]
        rfl
      rw [(route_message_rx _ _ _ i).1]
      simp only [port_at] at h hc ⊢
      split_ifs
      · simp only [log_event, getD_set_self _ _ _ _ hl]
        omega
      · simp only [getD_set_self _ _ _ _ hl]
        omega

theorem route_frame_refl (s : midi_vw_system_t) : route_frame s s :=
  ⟨rfl, rfl, rfl, rfl, rfl, rfl, rfl, rfl, rfl, rfl, rfl⟩

theorem route_frame_trans {s1 s2 s3 : midi_vw_system_t} (h12 : route_frame s1 s2)
    (h23 : route_frame s2 s3) : route_frame s1 s3 := by
  obtain ⟨a1, a2, a3, a4, a5, a6, a7, a8, a9, a10, a11⟩ := h12
  obtain ⟨b1, b2, b3, b4, b5, b6, b7, b8, b9, b10, b11⟩ := h23
  exact ⟨b1.trans a1, b2.trans a2, b3.trans a3, b4.trans a4, b5.trans a5, b6.trans a6,
    b7.trans a7, b8.trans a8, b9.trans a9, b10.trans a10, b11.trans a11⟩

/-- `midi_vw_send_message` changes the port table only. -/
theorem send_message_frame (s : midi_vw_system_t) (d : Nat) (m : midi_message_t) :
    route_frame s (midi_vw_send_message s d m).2 ∧
    (midi_vw_send_message s d m).2.connections = s.connections ∧
    (midi_vw_send_message s d m).2.total_errors = s.total_errors ∧
    (midi_vw_send_message s d m).2.total_filtered = s.total_filtered ∧
    (midi_vw_send_message s d m).2.trace = s.trace := by
  unfold midi_vw_send_message route_frame
  simp only []
  split_ifs <;> simp

theorem route_count_error_frame (s : midi_vw_system_t) : route_frame s (route_count_error s) :=
  ⟨rfl, rfl, rfl, rfl, rfl, rfl, rfl, rfl, rfl, rfl, rfl⟩

theorem log_event_frame (s : midi_vw_system_t) (e : midi_vw_event) :
    route_frame s (log_event s e) :=
  ⟨rfl, rfl, rfl, rfl, rfl, rfl, rfl, rfl, rfl, rfl, rfl⟩

theorem route_count_filtered_frame (i : Nat) (s : midi_vw_system_t) :
    route_frame s (route_count_filtered i s) :=
  ⟨rfl, rfl, rfl, rfl, rfl, rfl, rfl, rfl, rfl, rfl, by simp [route_count_filtered]⟩

theorem route_count_routed_frame (i : Nat) (s : midi_vw_system_t) :
    route_frame s (route_count_routed i s) :=
  ⟨rfl, rfl, rfl, rfl, rfl, rfl, rfl, rfl, rfl, rfl, by simp [route_count_routed]⟩

theorem route_deliver_frame (m : midi_message_t) (i : Nat) (s : midi_vw_system_t) :
    route_frame s (route_deliver m i s) := by
  apply route_deliver_cases (fun s' => route_frame s s')
  · exact route_count_error_frame s
  · intro m'
    exact route_frame_trans (send_message_frame s _ m').1 (route_count_routed_frame i _)
  · intro m'
    exact route_frame_trans (send_message_frame s _ m').1 (route_count_error_frame _)

theorem route_step_frame (source : Nat) (m : midi_message_t) (i : Nat) (s : midi_vw_system_t) :
    route_frame s (route_step source m i s) := by
  apply route_step_cases (fun s' => route_frame s s')
  · exact route_frame_refl s
  · exact route_count_filtered_frame i s
  · intro e
    exact route_frame_trans (log_event_frame s e) (route_count_filtered_frame i _)
  · exact route_deliver_frame m i s
  · intro e
    exact route_frame_trans (log_event_frame s e) (route_deliver_frame m i _)

theorem route_loop_frame (source : Nat) (m : midi_message_t) (n : Nat) :
    ∀ (i : Nat) (s : midi_vw_system_t), route_frame s (route_loop source m n i s) := by
  induction n with
  | zero => intro i s; exact route_frame_refl s
  | succ n ih =>
    intro i s
    unfold route_loop
    exact route_frame_trans (route_step_frame source m i s) (ih (i + 1) _)

theorem after_filter_callback_view (s : midi_vw_system_t) (a i : Nat) (m : midi_message_t) :
    (after_filter_callback s a i m).ports = s.ports ∧
    (after_filter_callback s a i m).connections = s.connections ∧
    (after_filter_callback s a i m).device_count = s.device_count ∧
    (after_filter_callback s a i m).initialized = s.initialized ∧
    (after_filter_callback s a i m).system_time = s.system_time ∧
    (after_filter_callback s a i m).total_errors = s.total_errors ∧
    (after_filter_callback s a i m).total_filtered = s.total_filtered ∧
    route_frame s (after_filter_callback s a i m) := by
  unfold after_filter_callback
  cases s.callbacks.filter_callback with
  | none => exact ⟨rfl, rfl, rfl, rfl, rfl, rfl, rfl, route_frame_refl s⟩
  | some f => exact ⟨rfl, rfl, rfl, rfl, rfl, rfl, rfl, log_event_frame s _⟩

theorem route_step_passes_local (s : midi_vw_system_t) (source i : Nat) (m : midi_message_t)
    (hen : (connection_at s i).enabled = true)
    (hsrc : (connection_at s i).source_device_id = source)
    (hf : midi_vw_should_filter_message (connection_at s i) m = false)
    (hv : passes_callback s source i m) :
    route_step source m i s = route_deliver m i (after_filter_callback s source i m) := by
  unfold route_step after_filter_callback
  simp only [hen, hsrc, hf, Bool.not_true, bne_self_eq_false, Bool.or_self, Bool.false_eq_true,
    if_false]
  cases hcb : s.callbacks.filter_callback with
  | none => rfl
  | some f =>
    have := hv f hcb
    simp [this]

theorem after_filter_callback_lookup (s : midi_vw_system_t) (a i : Nat) (m : midi_message_t) :
    (∀ d, midi_vw_find_device (after_filter_callback s a i m) d = midi_vw_find_device s d) ∧
    (∀ k, port_at (after_filter_callback s a i m) k = port_at s k) ∧
    (∀ k, connection_at (after_filter_callback s a i m) k = connection_at s k) ∧
    midi_vw_get_time (after_filter_callback s a i m) = midi_vw_get_time s := by
  obtain ⟨h1, h2, h3, _, h5, _⟩ := after_filter_callback_view s a i m
  refine ⟨fun d => find_device_congr _ _ d h1 h3, fun k => ?_, fun k => ?_, h5⟩
  · simp only [port_at, h1]
  · simp only [connection_at, h2]

/-- The routing step of a connection that delivers. -/
theorem route_step_delivers (s : midi_vw_system_t) (source i j : Nat) (m : midi_message_t)
    (hinit : s.initialized = true)
    (hen : (connection_at s i).enabled = true)
    (hsrc : (connection_at s i).source_device_id = source)
    (hf : midi_vw_should_filter_message (connection_at s i) m = false)
    (hv : passes_callback s source i m)
    (hj : midi_vw_find_device s (connection_at s i).dest_device_id = j)
    (hj8 : j < MIDI_VW_MAX_DEVICES)
    (hact : (port_at s j).active = true) (hout : (port_at s j).device.is_output = true)
    (hroom : (port_at s j).tx_buffer.count < MIDI_VW_MESSAGE_BUFFER_SIZE) :
    route_step source m i s = step_delivered s source i j m := by
  obtain ⟨l1, l2, l3, l4⟩ := after_filter_callback_lookup s source i m
  obtain ⟨v1, _, _, v4, _⟩ := after_filter_callback_view s source i m
  rw [route_step_passes_local s source i m hen hsrc hf hv,
    route_deliver_ok (after_filter_callback s source i m) i j m (v4.trans hinit)
      (by rw [l1, l3]; exact hj) hj8 (by rw [l2]; exact hact) (by rw [l2]; exact hout)
      (by rw [l2]; exact hroom)]
  unfold step_delivered
  rw [l2, l3, v1]
  unfold port_after_send
  rw [l4]

/-- The routing step of a connection whose delivery buffer is full. -/
theorem route_step_buffer_full (s : midi_vw_system_t) (source i j : Nat) (m : midi_message_t)
    (hinit : s.initialized = true)
    (hen : (connection_at s i).enabled = true)
    (hsrc : (connection_at s i).source_device_id = source)
    (hf : midi_vw_should_filter_message (connection_at s i) m = false)
    (hv : passes_callback s source i m)
    (hj : midi_vw_find_device s (connection_at s i).dest_device_id = j)
    (hj8 : j < MIDI_VW_MAX_DEVICES)
    (hact : (port_at s j).active = true) (hout : (port_at s j).device.is_output = true)
    (hfull : MIDI_VW_MESSAGE_BUFFER_SIZE ≤ (port_at s j).tx_buffer.count) :
    route_step source m i s = step_buffer_full s source i j m := by
  obtain ⟨l1, l2, l3, l4⟩ := after_filter_callback_lookup s source i m
  obtain ⟨v1, _, _, v4, _⟩ := after_filter_callback_view s source i m
  rw [route_step_passes_local s source i m hen hsrc hf hv,
    route_deliver_full (after_filter_callback s source i m) i j m (v4.trans hinit)
      (by rw [l1, l3]; exact hj) hj8 (by rw [l2]; exact hact) (by rw [l2]; exact hout)
      (by rw [l2]; exact hfull)]
  unfold step_buffer_full
  rw [l2, v1]

/-- The routing step of a connection whose destination is not registered, not
active or not output-capable. -/
theorem route_step_no_destination (s : midi_vw_system_t) (source i : Nat) (m : midi_message_t)
    (hen : (connection_at s i).enabled = true)
    (hsrc : (connection_at s i).source_device_id = source)
    (hf : midi_vw_should_filter_message (connection_at s i) m = false)
    (hv : passes_callback s source i m)
    (hbad : midi_vw_find_device s (connection_at s i).dest_device_id ≥ MIDI_VW_MAX_DEVICES ∨
      (port_at s (midi_vw_find_device s (connection_at s i).dest_device_id)).active = false ∨
      (port_at s (midi_vw_find_device s (connection_at s i).dest_device_id)).device.is_output
        = false) :
    route_step source m i s = route_count_error (after_filter_callback s source i m) := by
  obtain ⟨l1, l2, l3, l4⟩ := after_filter_callback_lookup s source i m
  rw [route_step_passes_local s source i m hen hsrc hf hv]
  unfold route_deliver
  simp only [l1, l2, l3]
  by_cases h8 : midi_vw_find_device s (connection_at s i).dest_device_id ≥ MIDI_VW_MAX_DEVICES
  · simp only [h8, if_true]
  · simp only [h8, if_false]
    rcases hbad with h | h | h
    · exact absurd h h8
    · simp only [h, Bool.not_false, Bool.true_or, if_true]
    · simp only [h, Bool.not_false, Bool.or_true, if_true]

theorem connection_enabled_in_range (s : midi_vw_system_t) (i : Nat)
    (h : (connection_at s i).enabled = true) : i < s.connections.length := by
  by_contra hl
  simp only [connection_at, List.getD_eq_default _ _ (Nat.le_of_not_lt hl)] at h
  exact absurd h (by decide)

theorem step_delivered_fields (s : midi_vw_system_t) (a i j : Nat) (m : midi_message_t)
    (hil : i < s.connections.length) :
    (step_delivered s a i j m).ports =
      s.ports.set j (port_after_send s (port_at s j) (route_remap (connection_at s i) m)) ∧
    (step_delivered s a i j m).connections =
      s.connections.set i { connection_at s i with
        messages_routed := ((connection_at s i).messages_routed + 1) % U32 } ∧
    connection_at (step_delivered s a i j m) i =
      { connection_at s i with
        messages_routed := ((connection_at s i).messages_routed + 1) % U32 } ∧
    (step_delivered s a i j m).total_errors = s.total_errors ∧
    (step_delivered s a i j m).total_filtered = s.total_filtered := by
  cases hcb : s.callbacks.filter_callback <;>
    simp only [step_delivered, connection_at, route_count_routed, after_filter_callback, hcb,
      log_event, getD_set_self _ _ _ _ hil, and_self]

theorem step_buffer_full_fields (s : midi_vw_system_t) (a i j : Nat) (m : midi_message_t) :
    (step_buffer_full s a i j m).ports =
      s.ports.set j
        { port_at s j with
          tx_buffer :=
            { (port_at s j).tx_buffer with
              overruns := ((port_at s j).tx_buffer.overruns + 1) % U32 } } ∧
    (step_buffer_full s a i j m).connections = s.connections ∧
    (step_buffer_full s a i j m).total_errors = (s.total_errors + 1) % U32 ∧
    (step_buffer_full s a i j m).total_filtered = s.total_filtered := by
  cases hcb : s.callbacks.filter_callback <;>
    simp only [step_buffer_full, route_count_error, after_filter_callback, hcb,
      log_event, and_self]

theorem route_remap_fields (c : midi_vw_connection_t) (m : midi_message_t) :
    (route_remap c m).data = m.data ∧ (route_remap c m).length = m.length ∧
    (route_remap c m).timestamp = m.timestamp := by
  unfold route_remap
  split_ifs <;> exact ⟨rfl, rfl, rfl⟩

theorem route_remap_channel (c : midi_vw_connection_t) (m : midi_message_t)
    (hc : c.dest_channel ≤ 15) (hs : m.status < 0xF0) :
    (route_remap c m).status = (m.status &&& 0xF0) ||| c.dest_channel := by
  have h1 : c.dest_channel ≠ 0xFF := by omega
  have h2 : m.status &&& 0xF0 ≠ 0xF0 := by
    have := @Nat.and_le_left m.status 0xF0
    omega
  have h3 : c.dest_channel &&& 0x0F = c.dest_channel := by
    generalize c.dest_channel = x at hc
    interval_cases x <;> rfl
  simp [route_remap, h1, h2, h3]

theorem route_remap_system (c : midi_vw_connection_t) (m : midi_message_t)
    (h : (0xF0 ≤ m.status ∧ m.status < 256) ∨ c.dest_channel = 0xFF) :
    route_remap c m = m := by
  rcases h with ⟨h1, h2⟩ | h
  · have h3 : m.status &&& 0xF0 = 0xF0 := by
      generalize m.status = x at h1 h2
      interval_cases x <;> rfl
    simp [route_remap, h3]
  · simp [route_remap, h]

theorem port_active_in_range (s : midi_vw_system_t) (j : Nat)
    (h : (port_at s j).active = true) : j < s.ports.length := by
  by_contra hl
  simp only [port_at, List.getD_eq_default _ _ (Nat.le_of_not_lt hl)] at h
  exact absurd h (by decide)

theorem same_port_identity_refl (s : midi_vw_system_t) : same_port_identity s s :=
  ⟨rfl, fun _ => ⟨rfl, rfl, rfl, rfl⟩⟩

theorem same_port_identity_trans {s1 s2 s3 : midi_vw_system_t}
    (h12 : same_port_identity s1 s2) (h23 : same_port_identity s2 s3) :
    same_port_identity s1 s3 := by
  refine ⟨h23.1.trans h12.1, fun k => ?_⟩
  obtain ⟨a1, a2, a3, a4⟩ := h12.2 k
  obtain ⟨b1, b2, b3, b4⟩ := h23.2 k
  exact ⟨b1.trans a1, b2.trans a2, b3.trans a3, b4.trans a4⟩

theorem same_port_identity_of_ports {s s' : midi_vw_system_t} (hp : s'.ports = s.ports)
    (hc : s'.device_count = s.device_count) : same_port_identity s s' :=
  ⟨hc, fun k => by simp only [port_at, hp, and_self]⟩

theorem find_device_loop_identity (s s' : midi_vw_system_t) (id : Nat)
    (h : ∀ k, (port_at s' k).device.device_id = (port_at s k).device.device_id) (n : Nat) :
    ∀ i, find_device_loop s' id n i = find_device_loop s id n i := by
  induction n with
  | zero => intro i; rfl
  | succ n ih => intro i; simp only [find_device_loop, h, ih]

theorem find_device_identity {s s' : midi_vw_system_t} (h : same_port_identity s s')
    (id : Nat) : midi_vw_find_device s' id = midi_vw_find_device s id := by
  simp only [midi_vw_find_device, h.1,
    find_device_loop_identity s s' id (fun k => (h.2 k).1)]

theorem send_message_identity (s : midi_vw_system_t) (d : Nat) (m : midi_message_t) :
    same_port_identity s (midi_vw_send_message s d m).2 := by
  refine ⟨(send_message_frame s d m).1.2.2.2.1, fun k => ?_⟩
  unfold midi_vw_send_message
  simp only []
  split_ifs
  · exact ⟨rfl, rfl, rfl, rfl⟩
  · exact ⟨rfl, rfl, rfl, rfl⟩
  · exact ⟨rfl, rfl, rfl, rfl⟩
  · by_cases hk : midi_vw_find_device s d = k
    · by_cases hl : k < s.ports.length
      · simp only [port_at, hk, getD_set_self _ _ _ _ hl, and_self]
      · simp only [port_at, hk, List.set_eq_of_length_le (Nat.le_of_not_lt hl), and_self]
    · simp only [port_at, getD_set_other _ _ _ _ _ hk, and_self]
  · by_cases hk : midi_vw_find_device s d = k
    · by_cases hl : k < s.ports.length
      · simp only [port_at, hk, getD_set_self _ _ _ _ hl, and_self]
      · simp only [port_at, hk, List.set_eq_of_length_le (Nat.le_of_not_lt hl), and_self]
    · simp only [port_at, getD_set_other _ _ _ _ _ hk, and_self]

theorem route_deliver_identity (m : midi_message_t) (i : Nat) (s : midi_vw_system_t) :
    same_port_identity s (route_deliver m i s) := by
  apply route_deliver_cases (fun s' => same_port_identity s s')
  · exact same_port_identity_refl s
  · intro m'; exact send_message_identity s _ m'
  · intro m'; exact send_message_identity s _ m'

theorem route_step_identity (source : Nat) (m : midi_message_t) (i : Nat)
    (s : midi_vw_system_t) : same_port_identity s (route_step source m i s) := by
  apply route_step_cases (fun s' => same_port_identity s s')
  · exact same_port_identity_refl s
  · exact same_port_identity_refl s
  · intro e; exact same_port_identity_refl s
  · exact route_deliver_identity m i s
  · intro e; exact route_deliver_identity m i (log_event s e)

theorem route_loop_identity (source : Nat) (m : midi_message_t) (n : Nat) :
    ∀ (i : Nat) (s : midi_vw_system_t), same_port_identity s (route_loop source m n i s) := by
  induction n with
  | zero => intro i s; exact same_port_identity_refl s
  | succ n ih =>
    intro i s
    unfold route_loop
    exact same_port_identity_trans (route_step_identity source m i s) (ih (i + 1) _)

/-- A routing loop over slots other than `i` leaves the connection in slot `i`
alone. -/
theorem route_loop_other (source : Nat) (m : midi_message_t) (i : Nat) (n : Nat) :
    ∀ (k : Nat) (s : midi_vw_system_t), (i < k ∨ k + n ≤ i) →
      connection_at (route_loop source m n k s) i = connection_at s i := by
  induction n with
  | zero => intro k s _; rfl
  | succ n ih =>
    intro k s h
    unfold route_loop
    rw [ih (k + 1) _ (by omega), route_step_other source m k i s (by omega)]

theorem disabled_view_other {i : Nat} {e : Nat → Nat} {s s' : midi_vw_system_t}
    (h : disabled_view i e s s') (k : Nat) (hk : k ≠ i) :
    connection_at s' k = connection_at s k := by
  simp only [connection_at, h.2.2.2.2.2.2.2.2.2.2.2.1, getD_set_other _ _ _ _ _ (Ne.symm hk)]

theorem disabled_view_lookup {i : Nat} {e : Nat → Nat} {s s' : midi_vw_system_t}
    (h : disabled_view i e s s') :
    (∀ d, midi_vw_find_device s' d = midi_vw_find_device s d) ∧
    (∀ k, port_at s' k = port_at s k) ∧ midi_vw_get_time s' = midi_vw_get_time s := by
  obtain ⟨_, _, _, hp, hd, _, _, _, _, _, ht, _, _⟩ := h
  refine ⟨fun d => find_device_congr _ _ d hp hd, fun k => ?_, ht⟩
  simp only [port_at, hp]

theorem disabled_view_log {i : Nat} {e : Nat → Nat} {s s' : midi_vw_system_t}
    (h : disabled_view i e s s') (ev ev' : midi_vw_event) :
    disabled_view i e (log_event s ev) (log_event s' ev') := h

theorem disabled_view_log_left {i : Nat} {e : Nat → Nat} {s s' : midi_vw_system_t}
    (h : disabled_view i e s s') (ev : midi_vw_event) :
    disabled_view i e (log_event s ev) s' := h

theorem disabled_view_error {i : Nat} {e : Nat → Nat} {s s' : midi_vw_system_t}
    (he : ∀ x, e ((x + 1) % U32) = (e x + 1) % U32)
    (h : disabled_view i e s s') :
    disabled_view i e (route_count_error s) (route_count_error s') := by
  obtain ⟨h1, h2, h3, h4, h5, h6, h7, h8, h9, h10, h11, h12, h13⟩ := h
  refine ⟨h1, h2, h3, h4, h5, h6, h7, h8, h9, h10, h11, h12, ?_⟩
  show (s.total_errors + 1) % U32 = e ((s'.total_errors + 1) % U32)
  rw [he, h13]

theorem disabled_view_error_left {i : Nat} {s s' : midi_vw_system_t}
    (h : disabled_view i id s s') :
    disabled_view i one_more_error (route_count_error s) s' := by
  obtain ⟨h1, h2, h3, h4, h5, h6, h7, h8, h9, h10, h11, h12, h13⟩ := h
  refine ⟨h1, h2, h3, h4, h5, h6, h7, h8, h9, h10, h11, h12, ?_⟩
  show (s.total_errors + 1) % U32 = (s'.total_errors + 1) % U32
  rw [h13]; rfl

theorem disabled_view_ports {i : Nat} {e : Nat → Nat} {s s' : midi_vw_system_t}
    (h : disabled_view i e s s') (p : List midi_vw_port_t) :
    disabled_view i e { s with ports := p } { s' with ports := p } := by
  obtain ⟨h1, h2, h3, _, h5, h6, h7, h8, h9, h10, h11, h12, h13⟩ := h
  exact ⟨h1, h2, h3, rfl, h5, h6, h7, h8, h9, h10, h11, h12, h13⟩

theorem disabled_view_set {i : Nat} {e : Nat → Nat} {s s' : midi_vw_system_t}
    (h : disabled_view i e s s') (k : Nat) (hk : k ≠ i) (c : midi_vw_connection_t) :
    disabled_view i e { s with connections := s.connections.set k c }
      { s' with connections := s'.connections.set k c } := by
  obtain ⟨h1, h2, h3, h4, h5, h6, h7, h8, h9, h10, h11, h12, h13⟩ := h
  refine ⟨h1, h2, h3, h4, h5, h6, h7, h8, h9, h10, h11, ?_, h13⟩
  show s'.connections.set k c =
    (s.connections.set k c).set i
      { (s.connections.set k c).getD i midi_vw_connection_zero with enabled := false }
  rw [h12, getD_set_other _ _ _ _ _ hk]
  exact List.set_comm _ _ _ (Ne.symm hk)

theorem disabled_view_filtered {i : Nat} {e : Nat → Nat} {s s' : midi_vw_system_t}
    (h : disabled_view i e s s') (k : Nat) (hk : k ≠ i) :
    disabled_view i e (route_count_filtered k s) (route_count_filtered k s') := by
  have hc := disabled_view_other h k hk
  obtain ⟨h1, h2, h3, h4, h5, h6, h7, h8, h9, h10, h11, h12, h13⟩ :=
    disabled_view_set h k hk
      { connection_at s k with
        messages_filtered := ((connection_at s k).messages_filtered + 1) % U32 }
  unfold route_count_filtered
  rw [hc]
  refine ⟨h1, h2, h3, h4, h5, h6, h7, h8, h9, ?_, h11, h12, h13⟩
  show (s'.total_filtered + 1) % U32 = (s.total_filtered + 1) % U32
  rw [h.2.2.2.2.2.2.2.2.2.1]

theorem disabled_view_routed {i : Nat} {e : Nat → Nat} {s s' : midi_vw_system_t}
    (h : disabled_view i e s s') (k : Nat) (hk : k ≠ i) :
    disabled_view i e (route_count_routed k s) (route_count_routed k s') := by
  have hc := disabled_view_other h k hk
  have := disabled_view_set h k hk
      { connection_at s k with
        messages_routed := ((connection_at s k).messages_routed + 1) % U32 }
  unfold route_count_routed
  rw [hc]
  exact this

/-- `midi_vw_send_message` returns its argument with another port table. -/
theorem send_message_shape (s : midi_vw_system_t) (d : Nat) (m : midi_message_t) :
    (midi_vw_send_message s d m).2 =
      { s with ports := (midi_vw_send_message s d m).2.ports } := by
  unfold midi_vw_send_message
  simp only []
  split_ifs <;> rfl

theorem disabled_view_send {i : Nat} {e : Nat → Nat} {s s' : midi_vw_system_t}
    (h : disabled_view i e s s') (d : Nat) (m : midi_message_t) :
    (midi_vw_send_message s' d m).1 = (midi_vw_send_message s d m).1 ∧
    disabled_view i e (midi_vw_send_message s d m).2 (midi_vw_send_message s' d m).2 := by
  obtain ⟨l1, l2, l3⟩ := disabled_view_lookup h
  have hi : s'.initialized = s.initialized := h.1
  have hp : s'.ports = s.ports := h.2.2.2.1
  have hb : (midi_vw_send_message s' d m).1 = (midi_vw_send_message s d m).1 ∧
      (midi_vw_send_message s' d m).2.ports = (midi_vw_send_message s d m).2.ports := by
    unfold midi_vw_send_message
    simp only [l1, l2, l3, hi, hp]
    split_ifs <;> first | exact ⟨rfl, rfl⟩ | exact ⟨rfl, hp⟩
  refine ⟨hb.1, ?_⟩
  rw [send_message_shape s d m, send_message_shape s' d m, hb.2]
  exact disabled_view_ports h _

theorem disabled_view_deliver {i : Nat} {e : Nat → Nat} {s s' : midi_vw_system_t}
    (he : ∀ x, e ((x + 1) % U32) = (e x + 1) % U32)
    (h : disabled_view i e s s') (m : midi_message_t) (k : Nat) (hk : k ≠ i) :
    disabled_view i e (route_deliver m k s) (route_deliver m k s') := by
  obtain ⟨l1, l2, l3⟩ := disabled_view_lookup h
  have hc := disabled_view_other h k hk
  obtain ⟨hs1, hs2⟩ := disabled_view_send h (connection_at s k).dest_device_id
    (route_remap (connection_at s k) m)
  unfold route_deliver
  simp only [l1, l2, hc, hs1]
  split_ifs
  · exact disabled_view_error he h
  · exact disabled_view_error he h
  · exact disabled_view_routed hs2 k hk
  · exact disabled_view_error he hs2

theorem disabled_view_step {i : Nat} {e : Nat → Nat} {s s' : midi_vw_system_t}
    (he : ∀ x, e ((x + 1) % U32) = (e x + 1) % U32)
    (h : disabled_view i e s s') (source : Nat) (m : midi_message_t) (k : Nat) (hk : k ≠ i) :
    disabled_view i e (route_step source m k s) (route_step source m k s') := by
  have hc := disabled_view_other h k hk
  have hcb : s'.callbacks = s.callbacks := h.2.2.1
  unfold route_step
  simp only [hc, hcb]
  split_ifs
  · exact h
  · exact disabled_view_filtered h k hk
  · cases s.callbacks.filter_callback with
    | none => exact disabled_view_deliver he h m k hk
    | some f =>
      simp only []
      split_ifs
      · exact disabled_view_filtered (disabled_view_log h _ _) k hk
      · exact disabled_view_deliver he (disabled_view_log h _ _) m k hk

theorem disabled_view_loop {i : Nat} {e : Nat → Nat}
    (he : ∀ x, e ((x + 1) % U32) = (e x + 1) % U32)
    (source : Nat) (m : midi_message_t) (n : Nat) :
    ∀ (k : Nat) (s s' : midi_vw_system_t), disabled_view i e s s' → (i < k ∨ k + n ≤ i) →
      disabled_view i e (route_loop source m n k s) (route_loop source m n k s') := by
  induction n with
  | zero => intro k s s' h _; exact h
  | succ n ih =>
    intro k s s' h hr
    unfold route_loop
    exact ih (k + 1) _ _ (disabled_view_step he h source m k (by omega)) (by omega)

/-- Routing with one bad connection, in slot `i`, against routing with that
connection disabled. -/
theorem route_message_bad_connection (s s' : midi_vw_system_t) (source i : Nat)
    (m : midi_message_t)
    (h0 : disabled_view i id s s')
    (hi : i < s.connection_count)
    (hen : (connection_at s i).enabled = true)
    (hsrc : (connection_at s i).source_device_id = source)
    (hf : midi_vw_should_filter_message (connection_at s i) m = false)
    (hv : passes_callback s source i m)
    (hbad : midi_vw_find_device s (connection_at s i).dest_device_id ≥ MIDI_VW_MAX_DEVICES ∨
      (port_at s (midi_vw_find_device s (connection_at s i).dest_device_id)).active = false ∨
      (port_at s (midi_vw_find_device s (connection_at s i).dest_device_id)).device.is_output
        = false) :
    disabled_view i one_more_error (midi_vw_route_message s source m)
      (midi_vw_route_message s' source m) ∧
    connection_at (midi_vw_route_message s source m) i = connection_at s i := by
  have hil : i < s.connections.length := connection_enabled_in_range s i hen
  have hid : ∀ x, id ((x + 1) % U32) = (id x + 1) % U32 := fun _ => rfl
  have hone : ∀ x, one_more_error ((x + 1) % U32) = (one_more_error x + 1) % U32 :=
    fun _ => rfl
  have hcc : s'.connection_count = s.connection_count := h0.2.2.2.2.2.1
  -- the two runs, before the loop
  have v0 : disabled_view i id (route_count_message s) (route_count_message s') := by
    obtain ⟨h1, h2, h3, h4, h5, h6, h7, h8, h9, h10, h11, h12, h13⟩ := h0
    refine ⟨h1, h2, h3, h4, h5, h6, h7, h8, ?_, h10, h11, h12, h13⟩
    show (s'.total_messages + 1) % U32 = (s.total_messages + 1) % U32
    rw [h9]
  unfold midi_vw_route_message
  have hn : (route_count_message s).connection_count = i + (1 + (s.connection_count - i - 1)) := by
    show s.connection_count = _
    omega
  have hn' : (route_count_message s').connection_count =
      i + (1 + (s.connection_count - i - 1)) := by
    show s'.connection_count = _
    omega
  rw [hn, hn', route_loop_split, route_loop_split, route_loop_split, route_loop_split]
  simp only [Nat.zero_add]
  -- the slots before `i`
  have v1 := disabled_view_loop hid source m i 0 _ _ v0 (Or.inr (by omega))
  generalize hL : route_loop source m i 0 (route_count_message s) = L at v1 ⊢
  generalize hL' : route_loop source m i 0 (route_count_message s') = L' at v1 ⊢
  have hLc : connection_at L i = connection_at s i := by
    rw [← hL, route_loop_other source m i i 0 _ (Or.inr (by omega))]
    rfl
  have hLid : same_port_identity s L := by
    rw [← hL]
    exact route_loop_identity source m i 0 (route_count_message s)
  have hLcb : L.callbacks = s.callbacks := by
    rw [← hL]
    exact (route_loop_frame source m i 0 (route_count_message s)).2.2.1
  have hLlen : L.connections.length = s.connections.length := by
    rw [← hL]
    exact (route_loop_frame source m i 0 (route_count_message s)).2.2.2.2.2.2.2.2.2.2
  -- slot `i` itself
  have hstep : route_loop source m 1 i L =
      route_count_error (after_filter_callback L source i m) := by
    show route_step source m i L = _
    apply route_step_no_destination L source i m
    · rw [hLc]; exact hen
    · rw [hLc]; exact hsrc
    · rw [hLc]; exact hf
    · intro f hfc
      rw [hLc]
      exact hv f (hLcb ▸ hfc)
    · rw [hLc, find_device_identity hLid]
      rcases hbad with hb | hb | hb
      · exact Or.inl hb
      · exact Or.inr (Or.inl (((hLid.2 _).2.2.2).trans hb))
      · exact Or.inr (Or.inr (((hLid.2 _).2.2.1).trans hb))
  have hstep' : route_loop source m 1 i L' = L' := by
    show route_step source m i L' = _
    apply route_step_skip
    unfold route_skips
    have : connection_at L' i = { connection_at L i with enabled := false } := by
      simp only [connection_at, v1.2.2.2.2.2.2.2.2.2.2.2.1,
        getD_set_self _ _ _ _ (hLlen ▸ hil)]
    rw [this]
    simp
  rw [hstep, hstep']
  have v2 : disabled_view i one_more_error
      (route_count_error (after_filter_callback L source i m)) L' := by
    apply disabled_view_error_left
    unfold after_filter_callback
    cases L.callbacks.filter_callback with
    | none => exact v1
    | some f => exact disabled_view_log_left v1 _
  have v3 := disabled_view_loop hone source m (s.connection_count - i - 1) (i + 1) _ _ v2
    (Or.inl (by omega))
  refine ⟨v3, ?_⟩
  rw [route_loop_other source m i _ (i + 1) _ (Or.inl (by omega))]
  show connection_at (after_filter_callback L source i m) i = _
  rw [(after_filter_callback_lookup L source i m).2.2.1, hLc]

theorem shift_left_length {α : Type} (dflt : α) (n : Nat) :
    ∀ (i : Nat) (a : List α), (shift_left dflt n i a).length = a.length := by
  induction n with
  | zero => intro i a; rfl
  | succ n ih =>
    intro i a
    unfold shift_left
    rw [ih, List.length_set]

/-- Reading the array after the compaction loop: the `n` entries from `i` on
hold what used to be one slot higher, every other entry is untouched. -/
theorem shift_left_getD {α : Type} (dflt : α) (n : Nat) :
    ∀ (i : Nat) (a : List α) (k : Nat),
      (shift_left dflt n i a).getD k dflt =
        if i ≤ k ∧ k < i + n then a.getD (k + 1) dflt else a.getD k dflt := by
  induction n with
  | zero =>
    intro i a k
    have : ¬ (i ≤ k ∧ k < i + 0) := by omega
    simp only [shift_left, this, if_false]
  | succ n ih =>
    intro i a k
    unfold shift_left
    rw [ih]
    by_cases h1 : i + 1 ≤ k ∧ k < i + 1 + n
    · have h2 : i ≤ k ∧ k < i + (n + 1) := by omega
      simp only [h1, h2, and_self, if_true]
      rw [getD_set_other _ _ _ _ _ (by omega)]
    · simp only [h1, if_false]
      by_cases hk : k = i
      · subst hk
        have h2 : k ≤ k ∧ k < k + (n + 1) := by omega
        simp only [h2, and_self, if_true]
        by_cases hl : k < a.length
        · rw [getD_set_self _ _ _ _ hl]
        · have hl1 : a.length ≤ k := by omega
          have hl2 : a.length ≤ k + 1 := by omega
          rw [List.getD_eq_default _ _ (by rw [List.length_set]; exact hl1),
            List.getD_eq_default _ _ hl2]
      · have h2 : ¬ (i ≤ k ∧ k < i + (n + 1)) := by omega
        simp only [h2, if_false]
        rw [getD_set_other _ _ _ _ _ (Ne.symm hk)]

/-- The slot `midi_vw_find_device` returns is the first that holds the id. -/
theorem find_device_loop_first (s : midi_vw_system_t) (d : Nat) (n : Nat) :
    ∀ i k, i ≤ k → k < find_device_loop s d n i → k < i + n →
      (port_at s k).device.device_id ≠ d := by
  induction n with
  | zero => intro i k h1 _ h3; omega
  | succ n ih =>
    intro i k h1 h2 h3
    unfold find_device_loop at h2
    split_ifs at h2 with hid
    · omega
    · by_cases hk : k = i
      · subst hk; exact hid
      · exact ih (i + 1) k (by omega) h2 (by omega)

theorem list_devices_loop_all (s : midi_vw_system_t) (max n : Nat) :
    ∀ (i : Nat) (ids : List Nat), ids.length + n ≤ max →
      list_devices_loop s max n i ids =
        ids ++ (List.range' i n).map (fun k => (port_at s k).device.device_id) := by
  induction n with
  | zero => intro i ids _; simp [list_devices_loop]
  | succ n ih =>
    intro i ids h
    unfold list_devices_loop
    have hlt : ids.length < max := by omega
    simp only [hlt, if_true]
    rw [ih (i + 1) _ (by simp; omega)]
    simp [List.range'_succ]

theorem list_devices_all (s : midi_vw_system_t) (max : Nat)
    (hinit : s.initialized = true) (hmax : s.device_count ≤ max) :
    midi_vw_list_devices s max = (MIDI_VW_SUCCESS, device_ids s) := by
  unfold midi_vw_list_devices device_ids
  simp only [hinit, Bool.not_true, Bool.false_eq_true, if_false]
  rw [list_devices_loop_all s max _ 0 [] (by simpa using hmax)]
  simp

theorem unregister_device_found (s : midi_vw_system_t) (d : Nat)
    (hinit : s.initialized = true)
    (hfound : midi_vw_find_device s d < MIDI_VW_MAX_DEVICES)
    (hcount : s.device_count ≤ MIDI_VW_MAX_DEVICES) :
    (midi_vw_unregister_device s d).1 = MIDI_VW_SUCCESS ∧
    (midi_vw_unregister_device s d).2.initialized = true ∧
    (midi_vw_unregister_device s d).2.device_count = s.device_count - 1 ∧
    (midi_vw_unregister_device s d).2.ports =
      (shift_left midi_vw_port_zero (s.device_count - 1 - midi_vw_find_device s d)
        (midi_vw_find_device s d) s.ports).set (s.device_count - 1) midi_vw_port_zero := by
  unfold midi_vw_unregister_device
  have hnf : ¬ midi_vw_find_device s d ≥ MIDI_VW_MAX_DEVICES := by omega
  simp only [hinit, Bool.not_true, Bool.false_eq_true, if_false, hnf]
  have hpos : 0 < s.device_count := find_device_loop_lt s d _ 0 hfound
  obtain ⟨h1, h2, h3, _, _⟩ := unregister_loop_registry d s.connection_count 0 s
  simp only [MIDI_VW_MAX_DEVICES, U8] at *
  have hc : (s.device_count + (256 - 1)) % 256 = s.device_count - 1 := by omega
  split_ifs <;> simp [log_event, hinit, hc, h1, h2, h3]

/-- The device array after a successful unregistration, slot by slot. -/
theorem unregister_device_port_at (s : midi_vw_system_t) (d : Nat)
    (hinit : s.initialized = true)
    (hfound : midi_vw_find_device s d < MIDI_VW_MAX_DEVICES)
    (hcount : s.device_count ≤ MIDI_VW_MAX_DEVICES) (k : Nat) :
    port_at (midi_vw_unregister_device s d).2 k =
      if k = s.device_count - 1 then midi_vw_port_zero
      else if midi_vw_find_device s d ≤ k ∧ k < s.device_count - 1 then port_at s (k + 1)
      else port_at s k := by
  obtain ⟨_, _, _, hp⟩ := unregister_device_found s d hinit hfound hcount
  have hpos : 0 < s.device_count := find_device_loop_lt s d _ 0 hfound
  have hslot : midi_vw_find_device s d < 0 + s.device_count :=
    (find_device_loop_found s d _ 0 hfound).2.1
  unfold port_at
  rw [hp]
  by_cases hk : k = s.device_count - 1
  · simp only [hk, if_true]
    by_cases hl : s.device_count - 1 < s.ports.length
    · rw [getD_set_self _ _ _ _ (by rw [shift_left_length]; exact hl)]
    · rw [List.getD_eq_default _ _ (by rw [List.length_set, shift_left_length]; omega)]
  · simp only [hk, if_false]
    rw [getD_set_other _ _ _ _ _ (Ne.symm hk), shift_left_getD]
    have : midi_vw_find_device s d + (s.device_count - 1 - midi_vw_find_device s d) =
        s.device_count - 1 := by omega
    rw [this]

theorem map_range_shift (f g : Nat → Nat) (n : Nat) :
    ∀ i, (∀ k, i ≤ k → k < i + n → g k = f (k + 1)) →
      (List.range' i n).map g = (List.range' (i + 1) n).map f := by
  induction n with
  | zero => intro i _; rfl
  | succ n ih =>
    intro i h
    simp only [List.range'_succ, List.map_cons]
    rw [h i (le_refl _) (by omega), ih (i + 1) (fun k h1 h2 => h k (by omega) (by omega))]

theorem map_range_congr (f g : Nat → Nat) (n i : Nat)
    (h : ∀ k, i ≤ k → k < i + n → g k = f k) :
    (List.range' i n).map g = (List.range' i n).map f := by
  apply List.map_congr_left
  intro k hk
  rw [List.mem_range'_1] at hk
  exact h k hk.1 hk.2

/-- The id list after a successful unregistration is the old one without the
first occurrence of the id. -/
theorem unregister_device_ids (s : midi_vw_system_t) (d : Nat)
    (hinit : s.initialized = true)
    (hfound : midi_vw_find_device s d < MIDI_VW_MAX_DEVICES)
    (hcount : s.device_count ≤ MIDI_VW_MAX_DEVICES) :
    device_ids (midi_vw_unregister_device s d).2 = (device_ids s).erase d := by
  obtain ⟨_, _, hc, _⟩ := unregister_device_found s d hinit hfound hcount
  obtain ⟨_, hslot, hid⟩ := find_device_loop_found s d _ 0 hfound
  have hfirst := find_device_loop_first s d s.device_count 0
  have hport := unregister_device_port_at s d hinit hfound hcount
  change midi_vw_find_device s d < 0 + s.device_count at hslot
  change (port_at s (midi_vw_find_device s d)).device.device_id = d at hid
  change ∀ k, 0 ≤ k → k < midi_vw_find_device s d → k < 0 + s.device_count →
    (port_at s k).device.device_id ≠ d at hfirst
  generalize midi_vw_find_device s d = slot at *
  unfold device_ids
  rw [hc]
  have e1 : s.device_count = slot + (1 + (s.device_count - 1 - slot)) := by omega
  have e2 : s.device_count - 1 = slot + (s.device_count - 1 - slot) := by omega
  generalize s.device_count - 1 - slot = r at e1 e2
  rw [e2] at hport ⊢
  rw [e1]
  have split : ∀ a b, List.range' 0 (a + b) = List.range' 0 a ++ List.range' a b := by
    intro a b
    rw [Nat.add_comm a b, ← List.range'_append_1, Nat.zero_add]
  rw [split slot r, split slot (1 + r), Nat.add_comm 1 r, List.range'_succ]
  simp only [List.map_append, List.map_cons, hid]
  have hnot : d ∉ List.map (fun k => (port_at s k).device.device_id) (List.range' 0 slot) := by
    intro hmem
    rw [List.mem_map] at hmem
    obtain ⟨k, hk, hkd⟩ := hmem
    rw [List.mem_range'_1] at hk
    exact hfirst k (Nat.zero_le _) (by omega) (by omega) hkd
  rw [List.erase_append_right _ hnot, List.erase_cons_head]
  congr 1
  · apply map_range_congr
    intro k _ hk
    rw [hport k]
    have h1 : k ≠ slot + r := by omega
    have h2 : ¬ (slot ≤ k ∧ k < slot + r) := by omega
    simp only [h1, h2, if_false]
  · apply map_range_shift (fun k => (port_at s k).device.device_id)
    intro k hk1 hk2
    show (port_at (midi_vw_unregister_device s d).2 k).device.device_id = _
    rw [hport k]
    have h1 : k ≠ slot + r := by omega
    have h2 : slot ≤ k ∧ k < slot + r := by omega
    simp only [h1, h2, and_self, if_true, if_false]

theorem list_ext_getD {α : Type} (d : α) (l1 l2 : List α) (hlen : l1.length = l2.length)
    (h : ∀ k, k < l1.length → l1.getD k d = l2.getD k d) : l1 = l2 := by
  apply List.ext_getElem hlen
  intro n h1 h2
  have := h n h1
  rwa [List.getD_eq_getElem _ _ h1, List.getD_eq_getElem _ _ h2] at this

theorem getD_append_default {α : Type} (d : α) :
    ∀ (l : List α) (k : Nat), (l ++ [d]).getD k d = l.getD k d := by
  intro l
  induction l with
  | nil => intro k; cases k <;> simp
  | cons x xs ih =>
    intro k
    cases k with
    | zero => simp
    | succ k => simpa using ih k

theorem getD_eraseIdx_append {α : Type} (d : α) :
    ∀ (l : List α) (i k : Nat), i < l.length →
      (l.eraseIdx i ++ [d]).getD k d = if k < i then l.getD k d else l.getD (k + 1) d := by
  intro l
  induction l with
  | nil => intro i k h; simp at h
  | cons x xs ih =>
    intro i k h
    cases i with
    | zero =>
      simp only [List.eraseIdx_cons_zero, Nat.not_lt_zero, if_false, List.getD_cons_succ]
      exact getD_append_default d xs k
    | succ i =>
      cases k with
      | zero => simp
      | succ k =>
        simp only [List.eraseIdx_cons_succ, List.cons_append, List.getD_cons_succ]
        rw [ih i k (by simpa using h)]
        simp

theorem unregister_device_success (s : midi_vw_system_t) (d : Nat)
    (hsucc : (midi_vw_unregister_device s d).1 = MIDI_VW_SUCCESS) :
    s.initialized = true ∧ midi_vw_find_device s d < MIDI_VW_MAX_DEVICES := by
  unfold midi_vw_unregister_device at hsucc
  by_cases hinit : s.initialized = true
  · refine ⟨hinit, ?_⟩
    by_contra hnf
    have hnf2 : midi_vw_find_device s d ≥ MIDI_VW_MAX_DEVICES := by omega
    simp [hinit, hnf2] at hsucc
  · simp [hinit] at hsucc

/-- The device array after a successful unregistration is the old one with
the slot of the device erased and an all-zero entry appended. -/
theorem unregister_device_erases (s : midi_vw_system_t) (d : Nat)
    (hinit : s.initialized = true)
    (hfound : midi_vw_find_device s d < MIDI_VW_MAX_DEVICES)
    (hcount : s.device_count ≤ MIDI_VW_MAX_DEVICES)
    (hlen : s.ports.length = MIDI_VW_MAX_DEVICES)
    (hzero : unused_ports_zero s) :
    (midi_vw_unregister_device s d).2.ports =
      s.ports.eraseIdx (midi_vw_find_device s d) ++ [midi_vw_port_zero] := by
  obtain ⟨_, _, _, hp⟩ := unregister_device_found s d hinit hfound hcount
  have hport := unregister_device_port_at s d hinit hfound hcount
  have hslot : midi_vw_find_device s d < 0 + s.device_count :=
    (find_device_loop_found s d _ 0 hfound).2.1
  have hl : (midi_vw_unregister_device s d).2.ports.length = s.ports.length := by
    rw [hp, List.length_set, shift_left_length]
  have hsl : midi_vw_find_device s d < s.ports.length := by
    rw [hlen]; exact hfound
  apply list_ext_getD midi_vw_port_zero
  · rw [hl, List.length_append, List.length_eraseIdx, if_pos hsl]
    simp only [List.length_singleton]
    omega
  · intro k _
    rw [getD_eraseIdx_append _ _ _ _ hsl]
    have := hport k
    unfold port_at at this
    rw [this]
    by_cases h1 : k = s.device_count - 1
    · have h2 : ¬ k < midi_vw_find_device s d := by omega
      simp only [h1, if_true]
      rw [if_neg (h1 ▸ h2)]
      exact (hzero (s.device_count - 1 + 1) (by omega)).symm
    · simp only [h1, if_false]
      by_cases h3 : k < midi_vw_find_device s d
      · have h4 : ¬ (midi_vw_find_device s d ≤ k ∧ k < s.device_count - 1) := by omega
        simp only [h3, h4, if_true, if_false]
      · simp only [h3, if_false]
        by_cases h5 : k < s.device_count - 1
        · have h4 : midi_vw_find_device s d ≤ k ∧ k < s.device_count - 1 := by omega
          simp only [h4, and_self, if_true]
        · have h4 : ¬ (midi_vw_find_device s d ≤ k ∧ k < s.device_count - 1) := by omega
          simp only [h4, if_false]
          have e1 := hzero k (by omega)
          have e2 := hzero (k + 1) (by omega)
          unfold port_at at e1 e2
          rw [e1, e2]

theorem connection_exists_loop_iff (s : midi_vw_system_t) (a b c d : Nat) (n : Nat) :
    ∀ i, connection_exists_loop s a b c d n i = true ↔
      ∃ k, i ≤ k ∧ k < i + n ∧
        (connection_at s k).source_device_id = a ∧ (connection_at s k).dest_device_id = b ∧
        (connection_at s k).source_channel = c ∧ (connection_at s k).dest_channel = d := by
  induction n with
  | zero =>
    intro i
    simp only [connection_exists_loop, Bool.false_eq_true, false_iff]
    rintro ⟨k, h1, h2, _⟩
    omega
  | succ n ih =>
    intro i
    constructor
    · intro h
      unfold connection_exists_loop at h
      split_ifs at h with ht
      · exact ⟨i, le_refl _, by omega, ht⟩
      · obtain ⟨k, h1, h2, h3⟩ := (ih (i + 1)).1 h
        exact ⟨k, by omega, by omega, h3⟩
    · rintro ⟨k, h1, h2, ha, hb, hc, hd⟩
      exact connection_exists_loop_found s a b c d (n + 1) i k h1 h2 ha hb hc hd

theorem connection_exists_iff (s : midi_vw_system_t) (a b c d : Nat) :
    connection_exists_loop s a b c d s.connection_count 0 = true ↔ has_connection s a b c d := by
  rw [connection_exists_loop_iff]
  unfold has_connection
  constructor
  · rintro ⟨k, _, h2, h3⟩
    exact ⟨k, by omega, h3⟩
  · rintro ⟨k, h2, h3⟩
    exact ⟨k, Nat.zero_le _, by omega, h3⟩

/-- The two outcomes of `midi_vw_create_connection(a, b, 0xFF, 0xFF, f)` in
an initialized state. -/
theorem create_connection_cases (s : midi_vw_system_t) (t : Nat × Nat) (f : Nat)
    (hinit : s.initialized = true) :
    (create_blocked s t ∧ (midi_vw_create_connection s t.1 t.2 0xFF 0xFF f).2.2 = s) ∨
    (¬ create_blocked s t ∧ s.connection_count < MIDI_VW_MAX_CONNECTIONS ∧
      (midi_vw_create_connection s t.1 t.2 0xFF 0xFF f).2.2 =
        created_state s t.1 t.2 0xFF 0xFF f) := by
  unfold midi_vw_create_connection create_blocked
  rw [← connection_exists_iff]
  simp only [hinit, Bool.not_true, Bool.false_eq_true, if_false]
  by_cases h1 : s.connection_count ≥ MIDI_VW_MAX_CONNECTIONS
  · left
    simp only [h1, if_true, true_or, and_self]
  · by_cases h2 : midi_vw_find_device s t.1 ≥ MIDI_VW_MAX_DEVICES
    · left
      simp only [h1, h2, if_true, if_false, true_or, or_true, and_self]
    · by_cases h3 : midi_vw_find_device s t.2 ≥ MIDI_VW_MAX_DEVICES
      · left
        simp only [h1, h3, if_true, if_false, true_or, or_true, and_self]
      · by_cases h4 : connection_exists_loop s t.1 t.2 0xFF 0xFF s.connection_count 0 = true
        · left
          simp only [h1, h2, h3, h4, if_true, if_false, or_self, or_true, and_self]
        · right
          refine ⟨by simp [h1, h2, h3, h4], by omega, ?_⟩
          simp [created_state, hinit, h1, h2, h3, h4]

theorem created_state_lookup (s : midi_vw_system_t) (a b c d f : Nat)
    (hc : s.connection_count < MIDI_VW_MAX_CONNECTIONS) :
    (created_state s a b c d f).connection_count = s.connection_count + 1 ∧
    (∀ k, k ≠ s.connection_count →
      connection_at (created_state s a b c d f) k = connection_at s k) ∧
    (s.connection_count < s.connections.length →
      connection_at (created_state s a b c d f) s.connection_count =
        { midi_vw_connection_zero with
          connection_id := s.next_connection_id
          source_device_id := a
          dest_device_id := b
          source_channel := c
          dest_channel := d
          filter := f
          enabled := true }) := by
  refine ⟨?_, ?_, ?_⟩
  · show (s.connection_count + 1) % U8 = _
    simp only [MIDI_VW_MAX_CONNECTIONS, U8] at *
    omega
  · intro k hk
    unfold connection_at created_state
    exact getD_set_other _ _ _ _ _ (Ne.symm hk)
  · intro hl
    unfold connection_at created_state
    exact getD_set_self _ _ _ _ hl

/-- What `midi_vw_create_connection` never touches. -/
theorem create_connection_frame (s : midi_vw_system_t) (a b c d f : Nat) :
    (midi_vw_create_connection s a b c d f).2.2.initialized = s.initialized ∧
    (midi_vw_create_connection s a b c d f).2.2.ports = s.ports ∧
    (midi_vw_create_connection s a b c d f).2.2.device_count = s.device_count ∧
    (midi_vw_create_connection s a b c d f).2.2.connections.length = s.connections.length := by
  unfold midi_vw_create_connection
  split_ifs <;> simp

theorem create_connection_find (s : midi_vw_system_t) (a b c d f x : Nat) :
    midi_vw_find_device (midi_vw_create_connection s a b c d f).2.2 x =
      midi_vw_find_device s x := by
  obtain ⟨_, h2, h3, _⟩ := create_connection_frame s a b c d f
  exact find_device_congr _ _ x h2 h3

theorem create_blocked_noop (s : midi_vw_system_t) (t : Nat × Nat) (f : Nat)
    (hinit : s.initialized = true) (hb : create_blocked s t) :
    (midi_vw_create_connection s t.1 t.2 0xFF 0xFF f).2.2 = s := by
  rcases create_connection_cases s t f hinit with h | h
  · exact h.2
  · exact absurd hb h.1

theorem has_connection_created (s : midi_vw_system_t) (a b c d f a' b' c' d' : Nat)
    (hc : s.connection_count < MIDI_VW_MAX_CONNECTIONS)
    (h : has_connection s a' b' c' d') :
    has_connection (created_state s a b c d f) a' b' c' d' := by
  obtain ⟨k, hk, h1⟩ := h
  obtain ⟨e1, e2, _⟩ := created_state_lookup s a b c d f hc
  refine ⟨k, by omega, ?_⟩
  rw [e2 k (by omega)]
  exact h1

/-- Once a call is blocked it stays blocked, whatever connection is created
in between. -/
theorem create_keeps_blocked (s : midi_vw_system_t) (t u : Nat × Nat) (f : Nat)
    (hinit : s.initialized = true) (hb : create_blocked s t) :
    create_blocked (midi_vw_create_connection s u.1 u.2 0xFF 0xFF f).2.2 t := by
  rcases create_connection_cases s u f hinit with h | ⟨_, hc, h⟩
  · rw [h.2]; exact hb
  · unfold create_blocked
    rw [create_connection_find, create_connection_find, h]
    rcases hb with h1 | h1 | h1 | h1
    · exact absurd h1 (by omega)
    · exact Or.inr (Or.inl h1)
    · exact Or.inr (Or.inr (Or.inl h1))
    · exact Or.inr (Or.inr (Or.inr (has_connection_created s _ _ _ _ _ _ _ _ _ hc h1)))

/-- After the call for a pair, the call for that pair is blocked. -/
theorem create_then_blocked (s : midi_vw_system_t) (t : Nat × Nat) (f : Nat)
    (hinit : s.initialized = true)
    (hlen : s.connections.length = MIDI_VW_MAX_CONNECTIONS) :
    create_blocked (midi_vw_create_connection s t.1 t.2 0xFF 0xFF f).2.2 t := by
  rcases create_connection_cases s t f hinit with h | ⟨_, hc, h⟩
  · rw [h.2]; exact h.1
  · unfold create_blocked
    rw [h]
    obtain ⟨e1, _, e3⟩ := created_state_lookup s t.1 t.2 0xFF 0xFF f hc
    refine Or.inr (Or.inr (Or.inr ⟨s.connection_count, by omega, ?_⟩))
    rw [e3 (by omega)]
    exact ⟨rfl, rfl, rfl, rfl⟩

theorem create_all_cons (t : Nat × Nat) (pairs : List (Nat × Nat)) (s : midi_vw_system_t) :
    create_all (t :: pairs) s =
      create_all pairs
        (midi_vw_create_connection s t.1 t.2 0xFF 0xFF MIDI_VW_FILTER_NONE).2.2 := rfl

theorem create_all_append (p q : List (Nat × Nat)) (s : midi_vw_system_t) :
    create_all (p ++ q) s = create_all q (create_all p s) := by
  unfold create_all
  rw [List.foldl_append]

theorem create_all_frame (pairs : List (Nat × Nat)) :
    ∀ s : midi_vw_system_t,
      (create_all pairs s).initialized = s.initialized ∧
      (create_all pairs s).ports = s.ports ∧
      (create_all pairs s).device_count = s.device_count ∧
      (create_all pairs s).connections.length = s.connections.length := by
  induction pairs with
  | nil => intro s; exact ⟨rfl, rfl, rfl, rfl⟩
  | cons t pairs ih =>
    intro s
    rw [create_all_cons]
    obtain ⟨a1, a2, a3, a4⟩ := create_connection_frame s t.1 t.2 0xFF 0xFF MIDI_VW_FILTER_NONE
    obtain ⟨b1, b2, b3, b4⟩ := ih
      (midi_vw_create_connection s t.1 t.2 0xFF 0xFF MIDI_VW_FILTER_NONE).2.2
    exact ⟨b1.trans a1, b2.trans a2, b3.trans a3, b4.trans a4⟩

theorem create_all_keeps_blocked (t : Nat × Nat) (pairs : List (Nat × Nat)) :
    ∀ s : midi_vw_system_t, s.initialized = true → create_blocked s t →
      create_blocked (create_all pairs s) t := by
  induction pairs with
  | nil => intro s _ hb; exact hb
  | cons u pairs ih =>
    intro s hinit hb
    rw [create_all_cons]
    exact ih _ ((create_connection_frame s _ _ _ _ _).1.trans hinit)
      (create_keeps_blocked s t u _ hinit hb)

/-- After a run of calls, the call for each of its pairs is blocked. -/
theorem create_all_blocked (pairs : List (Nat × Nat)) :
    ∀ s : midi_vw_system_t, s.initialized = true →
      s.connections.length = MIDI_VW_MAX_CONNECTIONS →
      ∀ t ∈ pairs, create_blocked (create_all pairs s) t := by
  induction pairs with
  | nil => intro s _ _ t ht; cases ht
  | cons u pairs ih =>
    intro s hinit hlen t ht
    rw [create_all_cons]
    obtain ⟨a1, _, _, a4⟩ := create_connection_frame s u.1 u.2 0xFF 0xFF MIDI_VW_FILTER_NONE
    rcases List.mem_cons.1 ht with h | h
    · subst h
      exact create_all_keeps_blocked t pairs _ (a1.trans hinit)
        (create_then_blocked s t _ hinit hlen)
    · exact ih _ (a1.trans hinit) (a4.trans hlen) t h

/-- A run of blocked calls changes nothing. -/
theorem create_all_noop (pairs : List (Nat × Nat)) (s : midi_vw_system_t)
    (hinit : s.initialized = true) (hb : ∀ t ∈ pairs, create_blocked s t) :
    create_all pairs s = s := by
  induction pairs with
  | nil => rfl
  | cons u pairs ih =>
    rw [create_all_cons, create_blocked_noop s u _ hinit (hb u (List.mem_cons_self _ _))]
    exact ih (fun t ht => hb t (List.mem_cons_of_mem _ ht))

theorem connect_inner_loop_eq (i : Nat) (n : Nat) :
    ∀ (j : Nat) (s : midi_vw_system_t),
      connect_inner_loop i n j s = create_all (connect_pairs_inner s.ports i n j) s := by
  induction n with
  | zero => intro j s; rfl
  | succ n ih =>
    intro j s
    unfold connect_inner_loop connect_pairs_inner
    by_cases h : i ≠ j ∧ (port_at s i).device.is_input = true ∧
        (port_at s j).device.is_output = true
    · have h' : i ≠ j ∧ (s.ports.getD i midi_vw_port_zero).device.is_input = true ∧
          (s.ports.getD j midi_vw_port_zero).device.is_output = true := h
      rw [if_pos h, if_pos h', create_all_cons, ih]
      rw [(create_connection_frame s _ _ _ _ _).2.1]
      rfl
    · have h' : ¬ (i ≠ j ∧ (s.ports.getD i midi_vw_port_zero).device.is_input = true ∧
          (s.ports.getD j midi_vw_port_zero).device.is_output = true) := h
      rw [if_neg h, if_neg h', ih]

theorem connect_outer_loop_eq (n : Nat) :
    ∀ (i : Nat) (s : midi_vw_system_t),
      connect_outer_loop n i s =
        create_all (connect_pairs_outer s.ports s.device_count n i) s := by
  induction n with
  | zero => intro i s; rfl
  | succ n ih =>
    intro i s
    unfold connect_outer_loop connect_pairs_outer
    rw [create_all_append, ih, connect_inner_loop_eq]
    obtain ⟨_, h2, h3, _⟩ := create_all_frame (connect_pairs_inner s.ports i s.device_count 0) s
    rw [h2, h3]

theorem connect_all_to_all_eq (s : midi_vw_system_t) (hinit : s.initialized = true) :
    midi_vw_connect_all_to_all s =
      (MIDI_VW_SUCCESS,
        create_all (connect_pairs_outer s.ports s.device_count s.device_count 0) s) := by
  unfold midi_vw_connect_all_to_all
  simp only [hinit, Bool.not_true, Bool.false_eq_true, if_false]
  rw [connect_outer_loop_eq]

theorem connect_pairs_inner_mem (ports : List midi_vw_port_t) (i : Nat) (n : Nat) :
    ∀ (j0 : Nat) (t : Nat × Nat), t ∈ connect_pairs_inner ports i n j0 ↔
      ∃ j, j0 ≤ j ∧ j < j0 + n ∧ i ≠ j ∧
        (ports.getD i midi_vw_port_zero).device.is_input = true ∧
        (ports.getD j midi_vw_port_zero).device.is_output = true ∧
        t = ((ports.getD i midi_vw_port_zero).device.device_id,
          (ports.getD j midi_vw_port_zero).device.device_id) := by
  induction n with
  | zero =>
    intro j0 t
    simp only [connect_pairs_inner, List.not_mem_nil, false_iff]
    rintro ⟨j, h1, h2, _⟩
    omega
  | succ n ih =>
    intro j0 t
    unfold connect_pairs_inner
    constructor
    · intro h
      split_ifs at h with hc
      · rcases List.mem_cons.1 h with h | h
        · exact ⟨j0, le_refl _, by omega, hc.1, hc.2.1, hc.2.2, h⟩
        · obtain ⟨j, h1, h2, h3⟩ := (ih (j0 + 1) t).1 h
          exact ⟨j, by omega, by omega, h3⟩
      · obtain ⟨j, h1, h2, h3⟩ := (ih (j0 + 1) t).1 h
        exact ⟨j, by omega, by omega, h3⟩
    · rintro ⟨j, h1, h2, h3, h4, h5, h6⟩
      by_cases hj : j = j0
      · subst hj
        rw [if_pos ⟨h3, h4, h5⟩, h6]
        exact List.mem_cons_self _ _
      · have hm := (ih (j0 + 1) t).2 ⟨j, by omega, by omega, h3, h4, h5, h6⟩
        split_ifs
        · exact List.mem_cons_of_mem _ hm
        · exact hm

theorem connect_pairs_outer_mem (ports : List midi_vw_port_t) (count : Nat) (n : Nat) :
    ∀ (i0 : Nat) (t : Nat × Nat), t ∈ connect_pairs_outer ports count n i0 ↔
      ∃ i j, i0 ≤ i ∧ i < i0 + n ∧ j < count ∧ i ≠ j ∧
        (ports.getD i midi_vw_port_zero).device.is_input = true ∧
        (ports.getD j midi_vw_port_zero).device.is_output = true ∧
        t = ((ports.getD i midi_vw_port_zero).device.device_id,
          (ports.getD j midi_vw_port_zero).device.device_id) := by
  induction n with
  | zero =>
    intro i0 t
    simp only [connect_pairs_outer, List.not_mem_nil, false_iff]
    rintro ⟨i, j, h1, h2, _⟩
    omega
  | succ n ih =>
    intro i0 t
    unfold connect_pairs_outer
    rw [List.mem_append, connect_pairs_inner_mem, ih]
    constructor
    · rintro (⟨j, _, h2, h3⟩ | ⟨i, j, h1, h2, h3⟩)
      · exact ⟨i0, j, le_refl _, by omega, by omega, h3⟩
      · exact ⟨i, j, by omega, by omega, h3⟩
    · rintro ⟨i, j, h1, h2, h3, h4⟩
      by_cases hi : i = i0
      · subst hi
        exact Or.inl ⟨j, Nat.zero_le _, by omega, h4⟩
      · exact Or.inr ⟨i, j, by omega, by omega, h3, h4⟩

/-- The lookup of an id held by slot `k` returns a slot at or before `k`. -/
theorem find_device_loop_le (s : midi_vw_system_t) (d : Nat) (n : Nat) :
    ∀ i k, i ≤ k → k < i + n → (port_at s k).device.device_id = d →
      find_device_loop s d n i ≤ k := by
  induction n with
  | zero => intro i k h1 h2; omega
  | succ n ih =>
    intro i k h1 h2 hd
    unfold find_device_loop
    split_ifs with hid
    · exact h1
    · have hk : k ≠ i := fun h => hid (h ▸ hd)
      exact ih (i + 1) k (by omega) (by omega) hd

theorem find_device_registered (s : midi_vw_system_t) (k : Nat)
    (hk : k < s.device_count) (hdc : s.device_count ≤ MIDI_VW_MAX_DEVICES) :
    midi_vw_find_device s (port_at s k).device.device_id < MIDI_VW_MAX_DEVICES := by
  have := find_device_loop_le s _ s.device_count 0 k (Nat.zero_le _) (by omega) rfl
  unfold midi_vw_find_device
  omega

/-- What a run of calls adds to the table: the old entries stay, each new
entry is a fresh unfiltered connection for one of the pairs. -/
theorem create_all_added (pairs : List (Nat × Nat)) :
    ∀ s : midi_vw_system_t, s.initialized = true →
      s.connections.length = MIDI_VW_MAX_CONNECTIONS →
      s.connection_count ≤ MIDI_VW_MAX_CONNECTIONS →
      s.connection_count ≤ (create_all pairs s).connection_count ∧
      (create_all pairs s).connection_count ≤ MIDI_VW_MAX_CONNECTIONS ∧
      (∀ k, k < s.connection_count →
        connection_at (create_all pairs s) k = connection_at s k) ∧
      (∀ k, s.connection_count ≤ k → k < (create_all pairs s).connection_count →
        ∃ t ∈ pairs,
          (connection_at (create_all pairs s) k).source_device_id = t.1 ∧
          (connection_at (create_all pairs s) k).dest_device_id = t.2 ∧
          (connection_at (create_all pairs s) k).source_channel = 0xFF ∧
          (connection_at (create_all pairs s) k).dest_channel = 0xFF ∧
          (connection_at (create_all pairs s) k).filter = MIDI_VW_FILTER_NONE ∧
          (connection_at (create_all pairs s) k).enabled = true ∧
          (connection_at (create_all pairs s) k).messages_routed = 0 ∧
          (connection_at (create_all pairs s) k).messages_filtered = 0) := by
  induction pairs with
  | nil =>
    intro s _ _ hcc
    refine ⟨le_refl _, hcc, fun _ _ => rfl, ?_⟩
    intro k h1 h2
    exact absurd h2 (by show ¬ k < s.connection_count; omega)
  | cons u pairs ih =>
    intro s hinit hlen hcc
    rw [create_all_cons]
    rcases create_connection_cases s u MIDI_VW_FILTER_NONE hinit with h | ⟨_, hc, h⟩
    · rw [h.2]
      obtain ⟨a1, a2, a3, a4⟩ := ih s hinit hlen hcc
      refine ⟨a1, a2, a3, ?_⟩
      intro k h1 h2
      obtain ⟨t, ht, hr⟩ := a4 k h1 h2
      exact ⟨t, List.mem_cons_of_mem _ ht, hr⟩
    · rw [h]
      obtain ⟨e1, e2, e3⟩ := created_state_lookup s u.1 u.2 0xFF 0xFF MIDI_VW_FILTER_NONE hc
      obtain ⟨a1, a2, a3, a4⟩ := ih (created_state s u.1 u.2 0xFF 0xFF MIDI_VW_FILTER_NONE)
        hinit (by show (s.connections.set _ _).length = _; rw [List.length_set]; exact hlen)
        (by rw [e1]; omega)
      rw [e1] at a1 a3 a4
      refine ⟨by omega, a2, ?_, ?_⟩
      · intro k hk
        rw [a3 k (by omega), e2 k (by omega)]
      · intro k h1 h2
        by_cases hk : k = s.connection_count
        · subst hk
          refine ⟨u, List.mem_cons_self _ _, ?_⟩
          rw [a3 _ (by omega), e3 (by omega)]
          exact ⟨rfl, rfl, rfl, rfl, rfl, rfl, rfl, rfl⟩
        · obtain ⟨t, ht, hr⟩ := a4 k (by omega) h2
          exact ⟨t, List.mem_cons_of_mem _ ht, hr⟩

theorem register_device_ok (s : midi_vw_system_t) (name : List Nat) (i o : Bool)
    (hinit : s.initialized = true) (hroom : s.device_count < MIDI_VW_MAX_DEVICES) :
    midi_vw_register_device s name i o =
      (MIDI_VW_SUCCESS, some s.next_device_id,
        if s.callbacks.device_callback then
          log_event (registered_state s name i o)
            (.device_event s.next_device_id MIDI_VW_DEVICE_STATE_CONNECTED)
        else registered_state s name i o) := by
  unfold midi_vw_register_device
  have h : ¬ s.device_count ≥ MIDI_VW_MAX_DEVICES := by omega
  have h0 : ¬ ((!s.initialized) = true) := by simp [hinit]
  rw [if_neg h0, if_neg h]
  rfl

theorem register_device_full (s : midi_vw_system_t) (name : List Nat) (i o : Bool)
    (hinit : s.initialized = true) (hfull : s.device_count ≥ MIDI_VW_MAX_DEVICES) :
    midi_vw_register_device s name i o = (MIDI_VW_ERROR_MAX_DEVICES_REACHED, none, s) := by
  unfold midi_vw_register_device
  simp only [hinit, Bool.not_true, Bool.false_eq_true, if_false, hfull, if_true]

/-- Every field of the state after a successful registration but `trace` is
that of `registered_state`. -/
theorem register_device_fields (s : midi_vw_system_t) (name : List Nat) (i o : Bool)
    (hinit : s.initialized = true) (hroom : s.device_count < MIDI_VW_MAX_DEVICES) :
    { (midi_vw_register_device s name i o).2.2 with trace := s.trace } =
      registered_state s name i o := by
  rw [register_device_ok s name i o hinit hroom]
  cases s.callbacks.device_callback <;> rfl

theorem init_ok (s : midi_vw_system_t) (cb : Option midi_vw_callbacks_t)
    (h : s.initialized = false) :
    midi_vw_init s cb = (MIDI_VW_SUCCESS, initial_state s cb) := by
  unfold midi_vw_init
  have h0 : ¬ (s.initialized = true) := by simp [h]
  rw [if_neg h0]
  rfl

theorem same_wiring_refl (s : midi_vw_system_t) : same_wiring s s :=
  ⟨rfl, fun _ => ⟨rfl, rfl, rfl, rfl, rfl, rfl, rfl⟩⟩

theorem same_wiring_trans {s1 s2 s3 : midi_vw_system_t} (h12 : same_wiring s1 s2)
    (h23 : same_wiring s2 s3) : same_wiring s1 s3 := by
  refine ⟨h23.1.trans h12.1, fun k => ?_⟩
  obtain ⟨a1, a2, a3, a4, a5, a6, a7⟩ := h12.2 k
  obtain ⟨b1, b2, b3, b4, b5, b6, b7⟩ := h23.2 k
  exact ⟨b1.trans a1, b2.trans a2, b3.trans a3, b4.trans a4, b5.trans a5, b6.trans a6,
    b7.trans a7⟩

theorem same_wiring_of_connections (s s' : midi_vw_system_t)
    (hc : s'.connections = s.connections) (hn : s'.connection_count = s.connection_count) :
    same_wiring s s' := by
  refine ⟨hn, fun k => ?_⟩
  have : connection_at s' k = connection_at s k := by simp only [connection_at, hc]
  rw [this]
  exact ⟨rfl, rfl, rfl, rfl, rfl, rfl, rfl⟩

theorem route_count_filtered_wiring (i : Nat) (s : midi_vw_system_t) :
    same_wiring s (route_count_filtered i s) := by
  refine ⟨rfl, fun k => ?_⟩
  by_cases hk : k = i
  · subst hk
    by_cases hl : k < s.connections.length
    · have : connection_at (route_count_filtered k s) k =
          { connection_at s k with
            messages_filtered := ((connection_at s k).messages_filtered + 1) % U32 } := by
        simp only [connection_at, route_count_filtered, getD_set_self _ _ _ _ hl]
      rw [this]
      exact ⟨rfl, rfl, rfl, rfl, rfl, rfl, rfl⟩
    · have : connection_at (route_count_filtered k s) k = connection_at s k := by
        unfold connection_at route_count_filtered
        rw [List.getD_eq_default _ _ (by simp only [List.length_set]; omega),
          List.getD_eq_default _ _ (by omega)]
      rw [this]
      exact ⟨rfl, rfl, rfl, rfl, rfl, rfl, rfl⟩
  · rw [route_count_filtered_other i k s hk]
    exact ⟨rfl, rfl, rfl, rfl, rfl, rfl, rfl⟩

theorem route_count_routed_wiring (i : Nat) (s : midi_vw_system_t) :
    same_wiring s (route_count_routed i s) := by
  refine ⟨rfl, fun k => ?_⟩
  by_cases hk : k = i
  · subst hk
    by_cases hl : k < s.connections.length
    · have : connection_at (route_count_routed k s) k =
          { connection_at s k with
            messages_routed := ((connection_at s k).messages_routed + 1) % U32 } := by
        simp only [connection_at, route_count_routed, getD_set_self _ _ _ _ hl]
      rw [this]
      exact ⟨rfl, rfl, rfl, rfl, rfl, rfl, rfl⟩
    · have : connection_at (route_count_routed k s) k = connection_at s k := by
        unfold connection_at route_count_routed
        rw [List.getD_eq_default _ _ (by simp only [List.length_set]; omega),
          List.getD_eq_default _ _ (by omega)]
      rw [this]
      exact ⟨rfl, rfl, rfl, rfl, rfl, rfl, rfl⟩
  · rw [route_count_routed_other i k s hk]
    exact ⟨rfl, rfl, rfl, rfl, rfl, rfl, rfl⟩

theorem send_message_wiring (s : midi_vw_system_t) (d : Nat) (m : midi_message_t) :
    same_wiring s (midi_vw_send_message s d m).2 :=
  same_wiring_of_connections _ _ (send_message_frame s d m).2.1
    (send_message_frame s d m).1.2.2.2.2.1

theorem route_deliver_wiring (m : midi_message_t) (i : Nat) (s : midi_vw_system_t) :
    same_wiring s (route_deliver m i s) := by
  apply route_deliver_cases (fun s' => same_wiring s s')
  · exact same_wiring_of_connections _ _ rfl rfl
  · intro m'
    exact same_wiring_trans (send_message_wiring s _ m') (route_count_routed_wiring i _)
  · intro m'
    exact same_wiring_trans (send_message_wiring s _ m')
      (same_wiring_of_connections _ _ rfl rfl)

theorem route_step_wiring (source : Nat) (m : midi_message_t) (i : Nat)
    (s : midi_vw_system_t) : same_wiring s (route_step source m i s) := by
  apply route_step_cases (fun s' => same_wiring s s')
  · exact same_wiring_refl s
  · exact route_count_filtered_wiring i s
  · intro e
    exact same_wiring_trans (same_wiring_of_connections s (log_event s e) rfl rfl)
      (route_count_filtered_wiring i _)
  · exact route_deliver_wiring m i s
  · intro e
    exact same_wiring_trans (same_wiring_of_connections s (log_event s e) rfl rfl)
      (route_deliver_wiring m i _)

theorem route_loop_wiring (source : Nat) (m : midi_message_t) (n : Nat) :
    ∀ (i : Nat) (s : midi_vw_system_t), same_wiring s (route_loop source m n i s) := by
  induction n with
  | zero => intro i s; exact same_wiring_refl s
  | succ n ih =>
    intro i s
    unfold route_loop
    exact same_wiring_trans (route_step_wiring source m i s) (ih (i + 1) _)

theorem should_filter_wiring (c c' : midi_vw_connection_t) (m : midi_message_t)
    (hf : c'.filter = c.filter) (hs : c'.source_channel = c.source_channel) :
    midi_vw_should_filter_message c' m = midi_vw_should_filter_message c m := by
  unfold midi_vw_should_filter_message
  rw [hf, hs]

theorem reaches_callback_wiring {s s' : midi_vw_system_t} (h : same_wiring s s')
    (source : Nat) (m : midi_message_t) (i : Nat) :
    reaches_callback s' source m i = reaches_callback s source m i := by
  obtain ⟨_, h2, _, h4, _, h6, h7⟩ := h.2 i
  unfold reaches_callback
  rw [h7, h2, should_filter_wiring _ _ m h6 h4]

theorem filter_consultations_wiring {s s' : midi_vw_system_t} (h : same_wiring s s')
    (source : Nat) (m : midi_message_t) (n : Nat) :
    ∀ i, filter_consultations s' source m n i = filter_consultations s source m n i := by
  induction n with
  | zero => intro i; rfl
  | succ n ih =>
    intro i
    unfold filter_consultations
    rw [ih, reaches_callback_wiring h, (h.2 i).2.2.1]

theorem route_deliver_trace (m : midi_message_t) (i : Nat) (s : midi_vw_system_t) :
    (route_deliver m i s).trace = s.trace := by
  apply route_deliver_cases (fun s' => s'.trace = s.trace)
  · rfl
  · intro m'
    exact (send_message_frame s _ m').2.2.2.2
  · intro m'
    exact (send_message_frame s _ m').2.2.2.2

/-- The filter callback is invoked in a routing step exactly when the
connection reaches it, and then once. -/
theorem route_step_trace (s : midi_vw_system_t) (source i : Nat) (m : midi_message_t)
    (f : Nat → Nat → midi_message_t → Bool) (hcb : s.callbacks.filter_callback = some f) :
    (route_step source m i s).trace =
      s.trace ++ (if reaches_callback s source m i then
        [midi_vw_event.filter_event source (connection_at s i).dest_device_id m] else []) := by
  unfold route_step reaches_callback
  simp only [hcb]
  by_cases hen : (connection_at s i).enabled = true
  · by_cases hsrc : (connection_at s i).source_device_id = source
    · by_cases hf : midi_vw_should_filter_message (connection_at s i) m = true
      · simp [hen, hsrc, hf, route_count_filtered]
      · simp only [Bool.not_eq_true] at hf
        simp only [hen, hsrc, hf, Bool.not_true, bne_self_eq_false, Bool.or_self,
          Bool.false_eq_true, if_false, beq_self_eq_true, Bool.and_self, Bool.not_false,
          if_true]
        split_ifs
        · rfl
        · rw [route_deliver_trace]
          rfl
    · have : ((connection_at s i).source_device_id != source) = true := by
        simp [bne_iff_ne, hsrc]
      have h2 : ((connection_at s i).source_device_id == source) = false := by
        simp [hsrc]
      simp [this, h2]
  · simp only [Bool.not_eq_true] at hen
    simp [hen]

theorem route_loop_trace (source : Nat) (m : midi_message_t)
    (f : Nat → Nat → midi_message_t → Bool) (n : Nat) :
    ∀ (i : Nat) (s : midi_vw_system_t), s.callbacks.filter_callback = some f →
      (route_loop source m n i s).trace = s.trace ++ filter_consultations s source m n i := by
  induction n with
  | zero => intro i s _; simp [route_loop, filter_consultations]
  | succ n ih =>
    intro i s hcb
    unfold route_loop filter_consultations
    have hcb' : (route_step source m i s).callbacks.filter_callback = some f := by
      rw [(route_step_frame source m i s).2.2.1]; exact hcb
    rw [ih (i + 1) _ hcb', route_step_trace s source i m f hcb,
      filter_consultations_wiring (route_step_wiring source m i s), List.append_assoc]

theorem find_connection_loop_found (s : midi_vw_system_t) (id : Nat) (n : Nat) :
    ∀ i, find_connection_loop s id n i < MIDI_VW_MAX_CONNECTIONS →
      i ≤ find_connection_loop s id n i ∧ find_connection_loop s id n i < i + n ∧
      (connection_at s (find_connection_loop s id n i)).connection_id = id := by
  induction n with
  | zero => intro i h; simp [find_connection_loop] at h
  | succ n ih =>
    intro i h
    unfold find_connection_loop at h ⊢
    split_ifs at h ⊢ with hid
    · exact ⟨le_refl _, by omega, hid⟩
    · obtain ⟨h1, h2, h3⟩ := ih (i + 1) h
      exact ⟨by omega, by omega, h3⟩

theorem enable_connection_found (s : midi_vw_system_t) (id : Nat) (b : Bool)
    (hinit : s.initialized = true)
    (hfound : midi_vw_find_connection s id < MIDI_VW_MAX_CONNECTIONS) :
    midi_vw_enable_connection s id b =
      (MIDI_VW_SUCCESS,
        { s with
          connections := s.connections.set (midi_vw_find_connection s id)
            { connection_at s (midi_vw_find_connection s id) with enabled := b } }) := by
  unfold midi_vw_enable_connection
  have h0 : ¬ ((!s.initialized) = true) := by simp [hinit]
  have h1 : ¬ midi_vw_find_connection s id ≥ MIDI_VW_MAX_CONNECTIONS := by omega
  rw [if_neg h0]
  simp only [h1, if_false]

theorem enable_connection_unknown (s : midi_vw_system_t) (id : Nat) (b : Bool)
    (hinit : s.initialized = true)
    (hnf : midi_vw_find_connection s id ≥ MIDI_VW_MAX_CONNECTIONS) :
    midi_vw_enable_connection s id b = (MIDI_VW_ERROR_CONNECTION_NOT_FOUND, s) := by
  unfold midi_vw_enable_connection
  have h0 : ¬ ((!s.initialized) = true) := by simp [hinit]
  rw [if_neg h0]
  simp only [hnf, if_true]

/-- A routing pass leaves a disabled connection as it is. -/
theorem route_loop_disabled (source : Nat) (m : midi_message_t) (i : Nat) (n : Nat) :
    ∀ (k : Nat) (s : midi_vw_system_t), (connection_at s i).enabled = false →
      connection_at (route_loop source m n k s) i = connection_at s i := by
  induction n with
  | zero => intro k s _; rfl
  | succ n ih =>
    intro k s hdis
    unfold route_loop
    have hstep : connection_at (route_step source m k s) i = connection_at s i := by
      by_cases hk : k = i
      · subst hk
        rw [route_step_skip s source k m (by unfold route_skips; simp [hdis])]
      · exact route_step_other source m k i s (Ne.symm hk)
    rw [ih (k + 1) _ (by rw [hstep]; exact hdis), hstep]

theorem route_message_disabled (s : midi_vw_system_t) (source : Nat) (m : midi_message_t)
    (i : Nat) (hdis : (connection_at s i).enabled = false) :
    connection_at (midi_vw_route_message s source m) i = connection_at s i := by
  unfold midi_vw_route_message
  rw [route_loop_disabled source m i _ 0 (route_count_message s) hdis]
  rfl

theorem ports_evolve_refl (s : midi_vw_system_t) : ports_evolve s s :=
  ⟨rfl, rfl, fun _ _ => rfl, fun _ => ⟨rfl, rfl, rfl, rfl, rfl, rfl, rfl, le_refl _, id⟩⟩

theorem ports_evolve_trans {s1 s2 s3 : midi_vw_system_t} (h12 : ports_evolve s1 s2)
    (h23 : ports_evolve s2 s3) : ports_evolve s1 s3 := by
  obtain ⟨a1, a2, a3, a4⟩ := h12
  obtain ⟨b1, b2, b3, b4⟩ := h23
  refine ⟨b1.trans a1, b2.trans a2, fun k hk => ?_, fun k => ?_⟩
  · rw [b3 k (by rw [a2]; exact hk), a3 k hk]
  · obtain ⟨c1, c2, c3, c4, c5, c6, c7, c8, c9⟩ := a4 k
    obtain ⟨d1, d2, d3, d4, d5, d6, d7, d8, d9⟩ := b4 k
    exact ⟨d1.trans c1, d2.trans c2, d3.trans c3, d4.trans c4, d5.trans c5, d6.trans c6,
      d7.trans c7, le_trans c8 d8, fun h => d9 (c9 h)⟩

theorem ports_evolve_of_ports (s s' : midi_vw_system_t) (hp : s'.ports = s.ports)
    (hc : s'.device_count = s.device_count) : ports_evolve s s' := by
  have : ∀ k, port_at s' k = port_at s k := fun k => by simp only [port_at, hp]
  refine ⟨by rw [hp], hc, fun k _ => this k, fun k => ?_⟩
  rw [this k]
  exact ⟨rfl, rfl, rfl, rfl, rfl, rfl, rfl, le_refl _, id⟩

theorem buffer_put_count (b : midi_vw_message_buffer_t) (m : midi_message_t) :
    b.count ≤ (midi_vw_buffer_put b m).2.count ∧
    (b.count ≤ MIDI_VW_MESSAGE_BUFFER_SIZE →
      (midi_vw_buffer_put b m).2.count ≤ MIDI_VW_MESSAGE_BUFFER_SIZE) := by
  unfold midi_vw_buffer_put midi_vw_buffer_is_full
  by_cases h : b.count ≥ MIDI_VW_MESSAGE_BUFFER_SIZE
  · simp only [h, decide_True, if_true]
    exact ⟨le_refl _, id⟩
  · simp only [h, decide_False, Bool.false_eq_true, if_false]
    simp only [MIDI_VW_MESSAGE_BUFFER_SIZE, U16] at *
    constructor <;> intros <;> omega

/-- Overwriting the port of a registered device by one that agrees with it on
what `ports_evolve` protects. -/
theorem ports_evolve_set (s s' : midi_vw_system_t) (j : Nat) (p' : midi_vw_port_t)
    (hp : s'.ports = s.ports.set j p') (hc : s'.device_count = s.device_count)
    (hj : j < s.device_count)
    (h : p'.rx_buffer = (port_at s j).rx_buffer ∧ p'.active = (port_at s j).active ∧
      p'.device.device_id = (port_at s j).device.device_id ∧
      p'.device.state = (port_at s j).device.state ∧
      p'.device.is_input = (port_at s j).device.is_input ∧
      p'.device.is_output = (port_at s j).device.is_output ∧
      p'.device.messages_received = (port_at s j).device.messages_received ∧
      (port_at s j).tx_buffer.count ≤ p'.tx_buffer.count ∧
      ((port_at s j).tx_buffer.count ≤ MIDI_VW_MESSAGE_BUFFER_SIZE →
        p'.tx_buffer.count ≤ MIDI_VW_MESSAGE_BUFFER_SIZE)) :
    ports_evolve s s' := by
  refine ⟨by rw [hp, List.length_set], hc, fun k hk => ?_, fun k => ?_⟩
  · unfold port_at
    rw [hp, getD_set_other _ _ _ _ _ (by omega)]
  · by_cases hk : j = k
    · subst hk
      by_cases hl : j < s.ports.length
      · have : port_at s' j = p' := by
          unfold port_at
          rw [hp, getD_set_self _ _ _ _ hl]
        rw [this]
        exact h
      · have : port_at s' j = port_at s j := by
          unfold port_at
          rw [hp, List.set_eq_of_length_le (Nat.le_of_not_lt hl)]
        rw [this]
        exact ⟨rfl, rfl, rfl, rfl, rfl, rfl, rfl, le_refl _, id⟩
    · have : port_at s' k = port_at s k := by
        unfold port_at
        rw [hp, getD_set_other _ _ _ _ _ hk]
      rw [this]
      exact ⟨rfl, rfl, rfl, rfl, rfl, rfl, rfl, le_refl _, id⟩

theorem find_device_in_use (s : midi_vw_system_t) (d : Nat)
    (h : midi_vw_find_device s d < MIDI_VW_MAX_DEVICES) :
    midi_vw_find_device s d < s.device_count := by
  have := (find_device_loop_found s d _ 0 h).2.1
  unfold midi_vw_find_device
  omega

theorem send_message_evolve (s : midi_vw_system_t) (d : Nat) (m : midi_message_t) :
    ports_evolve s (midi_vw_send_message s d m).2 := by
  unfold midi_vw_send_message
  simp only []
  split_ifs with h1 h2 h3 h4
  · exact ports_evolve_refl s
  · exact ports_evolve_refl s
  · exact ports_evolve_refl s
  all_goals
    obtain ⟨hc1, hc2⟩ := buffer_put_count (port_at s (midi_vw_find_device s d)).tx_buffer m
    exact ports_evolve_set s _ (midi_vw_find_device s d) _ rfl rfl
      (find_device_in_use s d (by omega)) ⟨rfl, rfl, rfl, rfl, rfl, rfl, rfl, hc1, hc2⟩

theorem route_deliver_evolve (m : midi_message_t) (i : Nat) (s : midi_vw_system_t) :
    ports_evolve s (route_deliver m i s) := by
  apply route_deliver_cases (fun s' => ports_evolve s s')
  · exact ports_evolve_of_ports _ _ rfl rfl
  · intro m'
    exact ports_evolve_trans (send_message_evolve s _ m') (ports_evolve_of_ports _ _ rfl rfl)
  · intro m'
    exact ports_evolve_trans (send_message_evolve s _ m') (ports_evolve_of_ports _ _ rfl rfl)

theorem route_step_evolve (source : Nat) (m : midi_message_t) (i : Nat)
    (s : midi_vw_system_t) : ports_evolve s (route_step source m i s) := by
  apply route_step_cases (fun s' => ports_evolve s s')
  · exact ports_evolve_refl s
  · exact ports_evolve_of_ports _ _ rfl rfl
  · intro e
    exact ports_evolve_of_ports _ _ rfl rfl
  · exact route_deliver_evolve m i s
  · intro e
    exact ports_evolve_trans (ports_evolve_of_ports s (log_event s e) rfl rfl)
      (route_deliver_evolve m i _)

theorem route_loop_evolve (source : Nat) (m : midi_message_t) (n : Nat) :
    ∀ (i : Nat) (s : midi_vw_system_t), ports_evolve s (route_loop source m n i s) := by
  induction n with
  | zero => intro i s; exact ports_evolve_refl s
  | succ n ih =>
    intro i s
    unfold route_loop
    exact ports_evolve_trans (route_step_evolve source m i s) (ih (i + 1) _)

theorem route_message_evolve (s : midi_vw_system_t) (source : Nat) (m : midi_message_t) :
    ports_evolve s (midi_vw_route_message s source m) :=
  ports_evolve_trans (ports_evolve_of_ports s (route_count_message s) rfl rfl)
    (route_loop_evolve source m _ 0 _)

theorem inject_message_evolve (s : midi_vw_system_t) (source : Nat) (m : midi_message_t) :
    ports_evolve s (midi_vw_inject_message s source m).2.2 := by
  unfold midi_vw_inject_message
  split_ifs
  · exact ports_evolve_refl s
  · exact ports_evolve_refl s
  · exact route_message_evolve s source _

theorem ports_invariant_evolve {s s' : midi_vw_system_t} (h : ports_evolve s s')
    (hs : ports_invariant s) : ports_invariant s' := by
  obtain ⟨a1, a2, a3, a4⟩ := h
  obtain ⟨b1, b2, b3, b4, b5, b6⟩ := hs
  refine ⟨a1.trans b1, a2 ▸ b2, fun k hk => ?_, fun k => ?_, fun k hk => ?_, fun k => ?_⟩
  · rw [a2] at hk
    rw [a3 k hk, b3 k hk]
  · rw [(a4 k).1, b4 k]
  · rw [(a4 k).2.1]
    exact b5 k (a2 ▸ hk)
  · exact (a4 k).2.2.2.2.2.2.2.2 (b6 k)

theorem ports_invariant_congr (s s' : midi_vw_system_t) (hp : s'.ports = s.ports)
    (hc : s'.device_count = s.device_count) (hs : ports_invariant s) : ports_invariant s' :=
  ports_invariant_evolve (ports_evolve_of_ports s s' hp hc) hs

theorem getD_replicate_default {α : Type} (d : α) (n k : Nat) :
    (List.replicate n d).getD k d = d := by
  by_cases h : k < n
  · rw [List.getD_eq_getElem _ _ (by simpa using h)]
    simp
  · rw [List.getD_eq_default _ _ (by simpa using h)]

/-- A state with an all-zero device array and no device satisfies the
invariant of the device array. -/
theorem ports_invariant_zero (s : midi_vw_system_t)
    (hp : s.ports = List.replicate MIDI_VW_MAX_DEVICES midi_vw_port_zero)
    (hc : s.device_count = 0) : ports_invariant s := by
  have hz : ∀ k, port_at s k = midi_vw_port_zero := by
    intro k
    unfold port_at
    rw [hp, getD_replicate_default]
  refine ⟨by rw [hp]; simp, by rw [hc]; exact Nat.zero_le _, fun k _ => hz k, fun k => ?_,
    fun k hk => ?_, fun k => ?_⟩
  · rw [hz k]; rfl
  · rw [hc] at hk; omega
  · rw [hz k]; exact Nat.zero_le _

theorem table_invariant_zero (s : midi_vw_system_t)
    (hp : s.connections = List.replicate MIDI_VW_MAX_CONNECTIONS midi_vw_connection_zero)
    (hc : s.connection_count = 0) : table_invariant s :=
  ⟨by rw [hp]; simp, by rw [hc]; exact Nat.zero_le _⟩

theorem table_invariant_congr (s s' : midi_vw_system_t)
    (hl : s'.connections.length = s.connections.length)
    (hc : s'.connection_count = s.connection_count) (hs : table_invariant s) :
    table_invariant s' :=
  ⟨hl.trans hs.1, hc ▸ hs.2⟩

theorem api_invariant_zero : api_invariant midi_vw_system_zero :=
  ⟨ports_invariant_zero _ rfl rfl, table_invariant_zero _ rfl rfl⟩

theorem init_invariant (s : midi_vw_system_t) (cb : Option midi_vw_callbacks_t)
    (hs : api_invariant s) : api_invariant (midi_vw_init s cb).2 := by
  unfold midi_vw_init
  split_ifs
  · exact hs
  · exact ⟨ports_invariant_zero _ rfl rfl, table_invariant_zero _ rfl rfl⟩

theorem deinit_invariant (s : midi_vw_system_t) (hs : api_invariant s) :
    api_invariant (midi_vw_deinit s).2 := by
  unfold midi_vw_deinit
  split_ifs
  · exact hs
  · exact ⟨ports_invariant_zero _ rfl rfl, table_invariant_zero _ rfl rfl⟩

theorem start_invariant (s : midi_vw_system_t) (hs : api_invariant s) :
    api_invariant (midi_vw_start s).2 := by
  unfold midi_vw_start
  split_ifs
  · exact hs
  · exact ⟨ports_invariant_congr s _ rfl rfl hs.1, table_invariant_congr s _ rfl rfl hs.2⟩

theorem stop_invariant (s : midi_vw_system_t) (hs : api_invariant s) :
    api_invariant (midi_vw_stop s).2 := by
  unfold midi_vw_stop
  split_ifs
  · exact hs
  · exact ⟨ports_invariant_congr s _ rfl rfl hs.1, table_invariant_congr s _ rfl rfl hs.2⟩

/-- Overwriting the port of a registered device by an active one with an
empty inbound buffer and at most 128 outbound messages keeps the invariant. -/
theorem ports_invariant_set (s s' : midi_vw_system_t) (j : Nat) (p' : midi_vw_port_t)
    (hp : s'.ports = s.ports.set j p') (hc : s'.device_count = s.device_count)
    (hj : j < s.device_count)
    (h1 : p'.rx_buffer.count = 0) (h2 : p'.active = true)
    (h3 : p'.tx_buffer.count ≤ MIDI_VW_MESSAGE_BUFFER_SIZE)
    (hs : ports_invariant s) : ports_invariant s' := by
  obtain ⟨b1, b2, b3, b4, b5, b6⟩ := hs
  have hl : j < s.ports.length := by omega
  have hat : ∀ k, port_at s' k = if k = j then p' else port_at s k := by
    intro k
    unfold port_at
    rw [hp]
    by_cases hk : k = j
    · rw [if_pos hk, hk, getD_set_self _ _ _ _ hl]
    · rw [if_neg hk, getD_set_other _ _ _ _ _ (Ne.symm hk)]
  refine ⟨by rw [hp, List.length_set]; exact b1, hc ▸ b2, fun k hk => ?_, fun k => ?_,
    fun k hk => ?_, fun k => ?_⟩
  · rw [hc] at hk
    rw [hat k, if_neg (by omega)]
    exact b3 k hk
  · rw [hat k]
    split_ifs
    · exact h1
    · exact b4 k
  · rw [hat k]
    split_ifs
    · exact h2
    · exact b5 k (hc ▸ hk)
  · rw [hat k]
    split_ifs
    · exact h3
    · exact b6 k

theorem register_device_invariant (s : midi_vw_system_t) (name : List Nat) (i o : Bool)
    (hs : api_invariant s) : api_invariant (midi_vw_register_device s name i o).2.2 := by
  by_cases hinit : s.initialized = true
  · by_cases hroom : s.device_count < MIDI_VW_MAX_DEVICES
    · have hf := register_device_fields s name i o hinit hroom
      have hp : (midi_vw_register_device s name i o).2.2.ports =
          (registered_state s name i o).ports := by rw [← hf]
      have hc : (midi_vw_register_device s name i o).2.2.device_count =
          (registered_state s name i o).device_count := by rw [← hf]
      have hcn : (midi_vw_register_device s name i o).2.2.connections =
          (registered_state s name i o).connections := by rw [← hf]
      have hcc : (midi_vw_register_device s name i o).2.2.connection_count =
          (registered_state s name i o).connection_count := by rw [← hf]
      refine ⟨ports_invariant_congr _ _ hp hc ?_,
        table_invariant_congr s _ (by rw [hcn]; rfl) (by rw [hcc]; rfl) hs.2⟩
      obtain ⟨b1, b2, b3, b4, b5, b6⟩ := hs.1
      have hl : s.device_count < s.ports.length := by omega
      have hcount : (registered_state s name i o).device_count = s.device_count + 1 := by
        show (s.device_count + 1) % U8 = _
        simp only [MIDI_VW_MAX_DEVICES, U8] at *
        omega
      have hat : ∀ k, port_at (registered_state s name i o) k =
          if k = s.device_count then registered_port s name i o else port_at s k := by
        intro k
        unfold port_at registered_state
        by_cases hk : k = s.device_count
        · rw [if_pos hk, hk, getD_set_self _ _ _ _ hl]
        · rw [if_neg hk, getD_set_other _ _ _ _ _ (Ne.symm hk)]
      refine ⟨by show (s.ports.set _ _).length = _; rw [List.length_set]; exact b1,
        by rw [hcount]; omega, fun k hk => ?_, fun k => ?_, fun k hk => ?_, fun k => ?_⟩
      · rw [hcount] at hk
        rw [hat k, if_neg (by omega)]
        exact b3 k (by omega)
      · rw [hat k]
        split_ifs
        · rfl
        · exact b4 k
      · rw [hcount] at hk
        rw [hat k]
        split_ifs with hk2
        · rfl
        · exact b5 k (by omega)
      · rw [hat k]
        split_ifs
        · exact Nat.zero_le _
        · exact b6 k
    · rw [register_device_full s name i o hinit (by omega)]
      exact hs
  · unfold midi_vw_register_device
    simp only [Bool.not_eq_true] at hinit
    simp only [hinit, Bool.not_false, if_true]
    exact hs

theorem remove_connection_table (s : midi_vw_system_t) (id : Nat) (hs : table_invariant s) :
    table_invariant (midi_vw_remove_connection s id).2 := by
  unfold midi_vw_remove_connection
  simp only []
  split_ifs with h1 h2
  · exact hs
  · exact hs
  · refine ⟨?_, ?_⟩
    · show (List.set _ _ _).length = _
      rw [List.length_set, shift_left_length]
      exact hs.1
    · show (s.connection_count + (U8 - 1)) % U8 ≤ _
      have := hs.2
      simp only [MIDI_VW_MAX_CONNECTIONS, U8] at *
      have hpos : 0 < s.connection_count := by
        have := (find_connection_loop_found s id s.connection_count 0 (by
          unfold midi_vw_find_connection at h2
          simp only [MIDI_VW_MAX_CONNECTIONS]
          omega)).2.1
        omega
      omega

theorem unregister_loop_table (d : Nat) (fuel : Nat) :
    ∀ (i : Nat) (s : midi_vw_system_t), table_invariant s →
      table_invariant (unregister_loop d fuel i s) := by
  induction fuel with
  | zero => intro i s hs; exact hs
  | succ fuel ih =>
    intro i s hs
    unfold unregister_loop
    split_ifs
    · exact ih (i + 1) _ (remove_connection_table s _ hs)
    · exact ih (i + 1) s hs
    · exact hs

theorem unregister_device_table (s : midi_vw_system_t) (d : Nat) (hs : table_invariant s) :
    table_invariant (midi_vw_unregister_device s d).2 := by
  unfold midi_vw_unregister_device
  simp only []
  split_ifs
  · exact hs
  · exact hs
  · exact table_invariant_congr (unregister_loop d s.connection_count 0 s) _ rfl rfl
      (unregister_loop_table d _ 0 s hs)
  · exact table_invariant_congr (unregister_loop d s.connection_count 0 s) _ rfl rfl
      (unregister_loop_table d _ 0 s hs)

theorem unregister_device_invariant (s : midi_vw_system_t) (d : Nat) (hs : api_invariant s) :
    api_invariant (midi_vw_unregister_device s d).2 := by
  refine ⟨?_, unregister_device_table s d hs.2⟩
  by_cases hinit : s.initialized = true
  · by_cases hfound : midi_vw_find_device s d < MIDI_VW_MAX_DEVICES
    · obtain ⟨b1, b2, b3, b4, b5, b6⟩ := hs.1
      obtain ⟨_, _, hc, hp⟩ := unregister_device_found s d hinit hfound b2
      have hat := unregister_device_port_at s d hinit hfound b2
      have hpos : 0 < s.device_count := find_device_loop_lt s d _ 0 hfound
      have hold : ∀ k, port_at (midi_vw_unregister_device s d).2 k = midi_vw_port_zero ∨
          ∃ k', port_at (midi_vw_unregister_device s d).2 k = port_at s k' ∧
            (k < s.device_count - 1 → k' < s.device_count) := by
        intro k
        rw [hat k]
        split_ifs with h1 h2
        · exact Or.inl rfl
        · exact Or.inr ⟨k + 1, rfl, fun _ => by omega⟩
        · exact Or.inr ⟨k, rfl, fun _ => by omega⟩
      refine ⟨by rw [hp, List.length_set, shift_left_length]; exact b1, by rw [hc]; omega,
        fun k hk => ?_, fun k => ?_, fun k hk => ?_, fun k => ?_⟩
      · rw [hc] at hk
        rw [hat k]
        split_ifs with h1 h2
        · rfl
        · omega
        · exact b3 k (by omega)
      · rcases hold k with h | ⟨k', h, _⟩
        · rw [h]; rfl
        · rw [h]; exact b4 k'
      · rw [hc] at hk
        rw [hat k, if_neg (by omega)]
        split_ifs
        · exact b5 (k + 1) (by omega)
        · exact b5 k (by omega)
      · rcases hold k with h | ⟨k', h, _⟩
        · rw [h]; exact Nat.zero_le _
        · rw [h]; exact b6 k'
    · have hnf : midi_vw_find_device s d ≥ MIDI_VW_MAX_DEVICES := by omega
      unfold midi_vw_unregister_device
      simp only [hnf, if_true]
      split_ifs <;> exact hs.1
  · unfold midi_vw_unregister_device
    simp only [Bool.not_eq_true] at hinit
    simp only [hinit, Bool.not_false, if_true]
    exact hs.1

theorem set_device_state_invariant (s : midi_vw_system_t) (d : Nat)
    (v : midi_vw_device_state_t) (hs : api_invariant s) :
    api_invariant (midi_vw_set_device_state s d v).2 := by
  unfold midi_vw_set_device_state
  simp only []
  split_ifs with h1 h2 h3
  · exact hs
  · exact hs
  all_goals
    have hj := find_device_in_use s d (by omega)
    refine ⟨ports_invariant_set s _ (midi_vw_find_device s d) _ rfl rfl hj (hs.1.2.2.2.1 _)
      (hs.1.2.2.2.2.1 _ hj) (hs.1.2.2.2.2.2 _) hs.1, table_invariant_congr s _ rfl rfl hs.2⟩

theorem connection_op_invariant (s s' : midi_vw_system_t) (hp : s'.ports = s.ports)
    (hc : s'.device_count = s.device_count) (ht : table_invariant s')
    (hs : api_invariant s) : api_invariant s' :=
  ⟨ports_invariant_congr s s' hp hc hs.1, ht⟩

theorem create_connection_table (s : midi_vw_system_t) (a b c d f : Nat)
    (hs : table_invariant s) : table_invariant (midi_vw_create_connection s a b c d f).2.2 := by
  unfold midi_vw_create_connection
  split_ifs with h1 h2 h3 h4
  · exact hs
  · exact hs
  · exact hs
  · exact hs
  · refine ⟨?_, ?_⟩
    · show (List.set _ _ _).length = _
      rw [List.length_set]
      exact hs.1
    · show (s.connection_count + 1) % U8 ≤ _
      simp only [MIDI_VW_MAX_CONNECTIONS, U8] at *
      omega

theorem create_connection_invariant (s : midi_vw_system_t) (a b c d f : Nat)
    (hs : api_invariant s) : api_invariant (midi_vw_create_connection s a b c d f).2.2 :=
  connection_op_invariant s _ (create_connection_frame s a b c d f).2.1
    (create_connection_frame s a b c d f).2.2.1 (create_connection_table s a b c d f hs.2) hs

theorem remove_connection_invariant (s : midi_vw_system_t) (id : Nat)
    (hs : api_invariant s) : api_invariant (midi_vw_remove_connection s id).2 :=
  connection_op_invariant s _ (remove_connection_registry s id).2.2.1
    (remove_connection_registry s id).2.1 (remove_connection_table s id hs.2) hs

theorem enable_connection_invariant (s : midi_vw_system_t) (id : Nat) (b : Bool)
    (hs : api_invariant s) : api_invariant (midi_vw_enable_connection s id b).2 := by
  unfold midi_vw_enable_connection
  simp only []
  split_ifs
  · exact hs
  · exact hs
  · exact connection_op_invariant s _ rfl rfl
      ⟨by show (List.set _ _ _).length = _; rw [List.length_set]; exact hs.2.1, hs.2.2⟩ hs

theorem create_all_invariant (pairs : List (Nat × Nat)) :
    ∀ s : midi_vw_system_t, api_invariant s → api_invariant (create_all pairs s) := by
  induction pairs with
  | nil => intro s hs; exact hs
  | cons t pairs ih =>
    intro s hs
    rw [create_all_cons]
    exact ih _ (create_connection_invariant s _ _ _ _ _ hs)

theorem connect_all_to_all_invariant (s : midi_vw_system_t) (hs : api_invariant s) :
    api_invariant (midi_vw_connect_all_to_all s).2 := by
  unfold midi_vw_connect_all_to_all
  split_ifs
  · exact hs
  · show api_invariant (connect_outer_loop s.device_count 0 s)
    rw [connect_outer_loop_eq]
    exact create_all_invariant _ s hs

theorem disconnect_all_invariant (s : midi_vw_system_t) (hs : api_invariant s) :
    api_invariant (midi_vw_disconnect_all s).2 := by
  unfold midi_vw_disconnect_all
  split_ifs
  · exact hs
  · exact connection_op_invariant s _ rfl rfl (table_invariant_zero _ rfl rfl) hs

theorem send_message_invariant (s : midi_vw_system_t) (d : Nat) (m : midi_message_t)
    (hs : api_invariant s) : api_invariant (midi_vw_send_message s d m).2 :=
  ⟨ports_invariant_evolve (send_message_evolve s d m) hs.1,
    table_invariant_congr s _ (by rw [send_message_connections])
      (send_message_frame s d m).1.2.2.2.2.1 hs.2⟩

theorem buffer_get_empty (b : midi_vw_message_buffer_t) (h : b.count = 0) :
    midi_vw_buffer_get b = (MIDI_VW_ERROR_NO_DATA, none, b) := by
  unfold midi_vw_buffer_get midi_vw_buffer_is_empty
  simp [h]

theorem receive_message_invariant (s : midi_vw_system_t) (d : Nat)
    (hs : api_invariant s) : api_invariant (midi_vw_receive_message s d).2.2 := by
  unfold midi_vw_receive_message
  simp only []
  split_ifs with h1 h2
  · exact hs
  · exact hs
  · have hj := find_device_in_use s d (by omega)
    rw [buffer_get_empty _ (hs.1.2.2.2.1 _)]
    exact ⟨ports_invariant_set s _ (midi_vw_find_device s d) _ rfl rfl hj (hs.1.2.2.2.1 _)
      (hs.1.2.2.2.2.1 _ hj) (hs.1.2.2.2.2.2 _) hs.1, table_invariant_congr s _ rfl rfl hs.2⟩

theorem route_message_table (s : midi_vw_system_t) (source : Nat) (m : midi_message_t)
    (hs : table_invariant s) : table_invariant (midi_vw_route_message s source m) := by
  unfold midi_vw_route_message
  have hf := route_loop_frame source m (route_count_message s).connection_count 0
    (route_count_message s)
  exact table_invariant_congr (route_count_message s) _ hf.2.2.2.2.2.2.2.2.2.2 hf.2.2.2.2.1
    (table_invariant_congr s _ rfl rfl hs)

theorem inject_message_invariant (s : midi_vw_system_t) (source : Nat) (m : midi_message_t)
    (hs : api_invariant s) : api_invariant (midi_vw_inject_message s source m).2.2 := by
  refine ⟨ports_invariant_evolve (inject_message_evolve s source m) hs.1, ?_⟩
  unfold midi_vw_inject_message
  split_ifs
  · exact hs.2
  · exact hs.2
  · exact route_message_table s source _ hs.2

/-- With nothing in any inbound buffer a processing pass only advances the
clock. -/
theorem process_messages_empty (s : midi_vw_system_t)
    (h : ∀ k, (port_at s k).rx_buffer.count = 0) :
    midi_vw_process_messages s =
      if !s.initialized || !s.running then (MIDI_VW_ERROR_NOT_INITIALIZED, s)
      else (MIDI_VW_SUCCESS, process_tick s) := by
  by_cases hinit : s.initialized = true
  · by_cases hrun : s.running = true
    · rw [process_idle s hinit hrun (fun k _ => Or.inr (h k))]
      simp [hinit, hrun]
    · unfold midi_vw_process_messages
      simp only [Bool.not_eq_true] at hrun
      simp [hrun]
  · unfold midi_vw_process_messages
    simp only [Bool.not_eq_true] at hinit
    simp [hinit]

theorem process_messages_invariant (s : midi_vw_system_t) (hs : api_invariant s) :
    api_invariant (midi_vw_process_messages s).2 := by
  rw [process_messages_empty s hs.1.2.2.2.1]
  split_ifs
  · exact hs
  · exact ⟨ports_invariant_congr s _ rfl rfl hs.1, table_invariant_congr s _ rfl rfl hs.2⟩

theorem reset_ports_loop_length (n : Nat) :
    ∀ (i : Nat) (ports : List midi_vw_port_t),
      (reset_ports_loop n i ports).length = ports.length := by
  induction n with
  | zero => intro i ports; rfl
  | succ n ih =>
    intro i ports
    unfold reset_ports_loop
    simp only []
    rw [ih, List.length_set]

theorem reset_ports_loop_getD (n : Nat) :
    ∀ (i : Nat) (ports : List midi_vw_port_t) (k : Nat),
      (reset_ports_loop n i ports).getD k midi_vw_port_zero =
        if i ≤ k ∧ k < i + n then reset_port (ports.getD k midi_vw_port_zero)
        else ports.getD k midi_vw_port_zero := by
  induction n with
  | zero =>
    intro i ports k
    have : ¬ (i ≤ k ∧ k < i + 0) := by omega
    simp only [reset_ports_loop, this, if_false]
  | succ n ih =>
    intro i ports k
    unfold reset_ports_loop
    simp only []
    rw [ih]
    by_cases hk : k = i
    · subst hk
      have h1 : ¬ (k + 1 ≤ k ∧ k < k + 1 + n) := by omega
      have h2 : k ≤ k ∧ k < k + (n + 1) := by omega
      rw [if_neg h1, if_pos h2]
      by_cases hl : k < ports.length
      · rw [getD_set_self _ _ _ _ hl]
        rfl
      · rw [List.set_eq_of_length_le (Nat.le_of_not_lt hl),
          List.getD_eq_default _ _ (Nat.le_of_not_lt hl)]
        rfl
    · rw [getD_set_other _ _ _ _ _ (Ne.symm hk)]
      by_cases h1 : i + 1 ≤ k ∧ k < i + 1 + n
      · rw [if_pos h1, if_pos (by omega)]
      · rw [if_neg h1, if_neg (by omega)]

theorem reset_connections_loop_length (n : Nat) :
    ∀ (i : Nat) (cs : List midi_vw_connection_t),
      (reset_connections_loop n i cs).length = cs.length := by
  induction n with
  | zero => intro i cs; rfl
  | succ n ih =>
    intro i cs
    unfold reset_connections_loop
    simp only []
    rw [ih, List.length_set]

theorem reset_statistics_port_at (s : midi_vw_system_t) (hinit : s.initialized = true)
    (k : Nat) :
    port_at (midi_vw_reset_statistics s).2 k =
      if k < s.device_count then reset_port (port_at s k) else port_at s k := by
  unfold midi_vw_reset_statistics
  have h0 : ¬ ((!s.initialized) = true) := by simp [hinit]
  rw [if_neg h0]
  show (reset_ports_loop s.device_count 0 s.ports).getD k midi_vw_port_zero = _
  rw [reset_ports_loop_getD]
  simp only [Nat.zero_le, true_and, Nat.zero_add]
  rfl

theorem reset_statistics_invariant (s : midi_vw_system_t) (hs : api_invariant s) :
    api_invariant (midi_vw_reset_statistics s).2 := by
  by_cases hinit : s.initialized = true
  · have hat := reset_statistics_port_at s hinit
    have hshape : (midi_vw_reset_statistics s).2 =
        { s with
          total_messages := 0
          total_errors := 0
          total_filtered := 0
          ports := reset_ports_loop s.device_count 0 s.ports
          connections := reset_connections_loop s.connection_count 0 s.connections } := by
      unfold midi_vw_reset_statistics
      have h0 : ¬ ((!s.initialized) = true) := by simp [hinit]
      rw [if_neg h0]
    obtain ⟨b1, b2, b3, b4, b5, b6⟩ := hs.1
    have hc : (midi_vw_reset_statistics s).2.device_count = s.device_count := by rw [hshape]
    refine ⟨⟨?_, hc ▸ b2, fun k hk => ?_, fun k => ?_, fun k hk => ?_, fun k => ?_⟩, ?_, ?_⟩
    · rw [hshape]
      show (reset_ports_loop _ _ _).length = _
      rw [reset_ports_loop_length]
      exact b1
    · rw [hc] at hk
      rw [hat k, if_neg (by omega)]
      exact b3 k hk
    · rw [hat k]
      split_ifs
      · exact b4 k
      · exact b4 k
    · rw [hc] at hk
      rw [hat k, if_pos hk]
      exact b5 k hk
    · rw [hat k]
      split_ifs
      · exact b6 k
      · exact b6 k
    · rw [hshape]
      show (reset_connections_loop _ _ _).length = _
      rw [reset_connections_loop_length]
      exact hs.2.1
    · rw [hshape]
      exact hs.2.2
  · unfold midi_vw_reset_statistics
    simp only [Bool.not_eq_true] at hinit
    simp only [hinit, Bool.not_false, if_true]
    exact hs

/-- Every public call keeps the invariants. -/
theorem api_step_invariant (s : midi_vw_system_t) (c : api_call) (hs : api_invariant s) :
    api_invariant (api_step s c) := by
  cases c with
  | init cb => exact init_invariant s cb hs
  | deinit => exact deinit_invariant s hs
  | start => exact start_invariant s hs
  | stop => exact stop_invariant s hs
  | register_device name i o => exact register_device_invariant s name i o hs
  | unregister_device d => exact unregister_device_invariant s d hs
  | set_device_state d v => exact set_device_state_invariant s d v hs
  | create_connection a b c d f => exact create_connection_invariant s a b c d f hs
  | remove_connection id => exact remove_connection_invariant s id hs
  | enable_connection id b => exact enable_connection_invariant s id b hs
  | connect_all_to_all => exact connect_all_to_all_invariant s hs
  | disconnect_all => exact disconnect_all_invariant s hs
  | send_message d m => exact send_message_invariant s d m hs
  | receive_message d => exact receive_message_invariant s d hs
  | inject_message a m => exact inject_message_invariant s a m hs
  | process_messages => exact process_messages_invariant s hs
  | reset_statistics => exact reset_statistics_invariant s hs

theorem api_run_invariant (calls : List api_call) :
    ∀ s : midi_vw_system_t, api_invariant s → api_invariant (api_run calls s) := by
  induction calls with
  | nil => intro s hs; exact hs
  | cons c calls ih =>
    intro s hs
    exact ih _ (api_step_invariant s c hs)

/-- The invariants hold in every reachable state. -/
theorem api_reachable_invariant (s : midi_vw_system_t) (h : api_reachable s) :
    api_invariant s := by
  obtain ⟨calls, rfl⟩ := h
  exact api_run_invariant calls _ api_invariant_zero

/-- The lookup depends on the ids of the slots it visits only, and stops at
the first hit: more slots to visit do not change a hit. -/
theorem find_device_loop_prefix (s s' : midi_vw_system_t) (d : Nat) (n : Nat) :
    ∀ (i extra : Nat),
      (∀ k, i ≤ k → k < i + n →
        (port_at s' k).device.device_id = (port_at s k).device.device_id) →
      find_device_loop s d n i < MIDI_VW_MAX_DEVICES →
      find_device_loop s' d (n + extra) i = find_device_loop s d n i := by
  induction n with
  | zero => intro i extra _ h; simp [find_device_loop] at h
  | succ n ih =>
    intro i extra hid h
    have e : n + 1 + extra = (n + extra) + 1 := by omega
    rw [e]
    unfold find_device_loop at h ⊢
    rw [hid i (le_refl _) (by omega)]
    split_ifs at h ⊢ with hd
    · rfl
    · exact ih (i + 1) extra (fun k h1 h2 => hid k (by omega) (by omega)) h

/-- Devices are kept when the number of devices does not go down, the slots
in use keep their ids and no outbound buffer loses a message. -/
theorem devices_kept_of_slots (s s' : midi_vw_system_t)
    (hc : s.device_count ≤ s'.device_count)
    (hid : ∀ k, k < s.device_count →
      (port_at s' k).device.device_id = (port_at s k).device.device_id)
    (htx : ∀ k, tx_count s k ≤ tx_count s' k) : devices_kept s s' := by
  refine ⟨fun d hd => ?_, htx⟩
  unfold midi_vw_find_device
  obtain ⟨extra, he⟩ : ∃ extra, s'.device_count = s.device_count + extra :=
    ⟨s'.device_count - s.device_count, by omega⟩
  rw [he]
  exact find_device_loop_prefix s s' d s.device_count 0 extra
    (fun k _ hk => hid k (by omega)) hd

theorem devices_kept_of_evolve {s s' : midi_vw_system_t} (h : ports_evolve s s') :
    devices_kept s s' :=
  devices_kept_of_slots s s' (by rw [h.2.1]) (fun k _ => (h.2.2.2 k).2.2.1)
    (fun k => (h.2.2.2 k).2.2.2.2.2.2.2.1)

/-- A successful `midi_vw_send_message` adds exactly one message to the
outbound buffer of the device. -/
theorem send_message_success_count (s : midi_vw_system_t) (d : Nat) (m : midi_message_t)
    (hl : s.ports.length = MIDI_VW_MAX_DEVICES)
    (h : (midi_vw_send_message s d m).1 = MIDI_VW_SUCCESS) :
    midi_vw_find_device s d < MIDI_VW_MAX_DEVICES ∧
    tx_count s (midi_vw_find_device s d) < MIDI_VW_MESSAGE_BUFFER_SIZE ∧
    tx_count (midi_vw_send_message s d m).2 (midi_vw_find_device s d) =
      tx_count s (midi_vw_find_device s d) + 1 := by
  unfold midi_vw_send_message at h ⊢
  simp only [] at h ⊢
  split_ifs at h ⊢ with h1 h2 h3 h4
  · have hj : midi_vw_find_device s d < s.ports.length := by omega
    have hroom : (port_at s (midi_vw_find_device s d)).tx_buffer.count <
        MIDI_VW_MESSAGE_BUFFER_SIZE := by
      by_contra hfull
      rw [buffer_put_full _ m (by omega)] at h4
      cases h4
    refine ⟨by omega, hroom, ?_⟩
    unfold tx_count
    show ((s.ports.set _ _).getD _ midi_vw_port_zero).tx_buffer.count = _
    rw [getD_set_self _ _ _ _ hj]
    show (midi_vw_buffer_put (port_at s (midi_vw_find_device s d)).tx_buffer m).2.count = _
    unfold midi_vw_buffer_put midi_vw_buffer_is_full
    have hnf : ¬ (port_at s (midi_vw_find_device s d)).tx_buffer.count ≥
        MIDI_VW_MESSAGE_BUFFER_SIZE := by omega
    simp only [hnf, decide_False, Bool.false_eq_true, if_false]
    show ((port_at s (midi_vw_find_device s d)).tx_buffer.count + 1) % U16 = _
    simp only [MIDI_VW_MESSAGE_BUFFER_SIZE, U16] at *
    omega
  · exact absurd h h4

/-- With 128 messages in the outbound buffer `midi_vw_send_message` fails
with `MIDI_VW_ERROR_BUFFER_FULL`. -/
theorem send_message_full (s : midi_vw_system_t) (d : Nat) (m : midi_message_t)
    (hinit : s.initialized = true)
    (hfound : midi_vw_find_device s d < MIDI_VW_MAX_DEVICES)
    (hout : (port_at s (midi_vw_find_device s d)).device.is_output = true)
    (hfull : tx_count s (midi_vw_find_device s d) = MIDI_VW_MESSAGE_BUFFER_SIZE) :
    (midi_vw_send_message s d m).1 = MIDI_VW_ERROR_BUFFER_FULL := by
  unfold midi_vw_send_message
  have h0 : ¬ ((!s.initialized) = true) := by simp [hinit]
  have h1 : ¬ midi_vw_find_device s d ≥ MIDI_VW_MAX_DEVICES := by omega
  have h2 : ¬ ((!(port_at s (midi_vw_find_device s d)).device.is_output) = true) := by
    simp [hout]
  simp only [if_neg h0, if_neg h1, if_neg h2]
  rw [buffer_put_full _ m (by unfold tx_count at hfull; omega)]
  rfl

theorem api_run_cons (c : api_call) (calls : List api_call) (s : midi_vw_system_t) :
    api_run (c :: calls) s = api_run calls (api_step s c) := rfl

theorem send_message_eq (s : midi_vw_system_t) (d : Nat) (m : midi_message_t) :
    midi_vw_send_message s d m =
      if !s.initialized then (MIDI_VW_ERROR_INVALID_PARAM, s)
      else if midi_vw_find_device s d ≥ MIDI_VW_MAX_DEVICES then
        (MIDI_VW_ERROR_DEVICE_NOT_FOUND, s)
      else if !(port_at s (midi_vw_find_device s d)).device.is_output then
        (MIDI_VW_ERROR_INVALID_PARAM, s)
      else
        ((midi_vw_buffer_put (port_at s (midi_vw_find_device s d)).tx_buffer m).1,
          { s with
            ports := s.ports.set (midi_vw_find_device s d)
              (sent_port (midi_vw_get_time s) (port_at s (midi_vw_find_device s d)) m) }) := by
  unfold midi_vw_send_message sent_port
  simp only []
  split_ifs <;> rfl

theorem forget_sent_port (t : Nat) (p : midi_vw_port_t) (m : midi_message_t) :
    forget_device_state (sent_port t p m) = sent_port t (forget_device_state p) m := by
  unfold sent_port
  show forget_device_state (if (midi_vw_buffer_put p.tx_buffer m).1 = MIDI_VW_SUCCESS then _
    else _) = if (midi_vw_buffer_put p.tx_buffer m).1 = MIDI_VW_SUCCESS then _ else _
  split_ifs <;> rfl

theorem set_getD_self {α : Type} (d : α) :
    ∀ (l : List α) (j : Nat), l.set j (l.getD j d) = l := by
  intro l
  induction l with
  | nil => intro j; rfl
  | cons x xs ih =>
    intro j
    cases j with
    | zero => rfl
    | succ j => simp only [List.set_cons_succ, List.getD_cons_succ, ih]

theorem getD_map_forget (l : List midi_vw_port_t) (k : Nat) :
    (l.map forget_device_state).getD k midi_vw_port_zero =
      forget_device_state (l.getD k midi_vw_port_zero) := by
  have : midi_vw_port_zero = forget_device_state midi_vw_port_zero := rfl
  rw [this, List.getD_map]
  rfl

theorem same_but_device_state_refl (s : midi_vw_system_t) : same_but_device_state s s :=
  ⟨rfl, rfl, rfl, rfl, rfl, rfl, rfl, rfl, rfl, rfl, rfl, rfl, rfl⟩

theorem same_but_device_state_port {s s' : midi_vw_system_t}
    (h : same_but_device_state s s') (k : Nat) :
    forget_device_state (port_at s' k) = forget_device_state (port_at s k) := by
  unfold port_at
  rw [← getD_map_forget, ← getD_map_forget, h.2.2.2.1]

theorem find_device_loop_ids (s s' : midi_vw_system_t) (d : Nat)
    (hid : ∀ k, (port_at s' k).device.device_id = (port_at s k).device.device_id) (n : Nat) :
    ∀ i, find_device_loop s' d n i = find_device_loop s d n i := by
  induction n with
  | zero => intro i; rfl
  | succ n ih =>
    intro i
    unfold find_device_loop
    rw [hid i, ih]

theorem same_but_device_state_lookup {s s' : midi_vw_system_t}
    (h : same_but_device_state s s') :
    (∀ d, midi_vw_find_device s' d = midi_vw_find_device s d) ∧
    (∀ k, (port_at s' k).device.is_output = (port_at s k).device.is_output ∧
      (port_at s' k).active = (port_at s k).active ∧
      (port_at s' k).tx_buffer = (port_at s k).tx_buffer ∧
      (port_at s' k).rx_buffer = (port_at s k).rx_buffer ∧
      (port_at s' k).device.messages_sent = (port_at s k).device.messages_sent ∧
      (port_at s' k).device.messages_received = (port_at s k).device.messages_received) ∧
    (∀ k, connection_at s' k = connection_at s k) ∧
    midi_vw_get_time s' = midi_vw_get_time s := by
  have hp := same_but_device_state_port h
  refine ⟨fun d => ?_, fun k => ?_, fun k => ?_, h.2.2.2.2.2.2.2.2.2.2.2.2⟩
  · unfold midi_vw_find_device
    rw [h.2.2.2.2.2.1]
    exact find_device_loop_ids s s' d
      (fun k => congrArg (fun p => p.device.device_id) (hp k)) _ 0
  · exact ⟨congrArg (fun p => p.device.is_output) (hp k),
      congrArg (fun p => p.active) (hp k), congrArg (fun p => p.tx_buffer) (hp k),
      congrArg (fun p => p.rx_buffer) (hp k),
      congrArg (fun p => p.device.messages_sent) (hp k),
      congrArg (fun p => p.device.messages_received) (hp k)⟩
  · simp only [connection_at, h.2.2.2.2.1]

theorem sent_port_forget {p p' : midi_vw_port_t}
    (h : forget_device_state p' = forget_device_state p) (t : Nat) (m : midi_message_t) :
    forget_device_state (sent_port t p' m) = forget_device_state (sent_port t p m) := by
  rw [forget_sent_port, forget_sent_port, h]

theorem same_but_device_state_send {s s' : midi_vw_system_t}
    (h : same_but_device_state s s') (d : Nat) (m : midi_message_t) :
    (midi_vw_send_message s' d m).1 = (midi_vw_send_message s d m).1 ∧
    same_but_device_state (midi_vw_send_message s d m).2 (midi_vw_send_message s' d m).2 := by
  obtain ⟨l1, l2, l3, l4⟩ := same_but_device_state_lookup h
  have hp := same_but_device_state_port h (midi_vw_find_device s d)
  have c1 : (!s'.initialized) = (!s.initialized) := by rw [h.1]
  rw [send_message_eq s, send_message_eq s', l1 d, c1, (l2 _).1, (l2 _).2.2.1, l4]
  split_ifs
  · exact ⟨rfl, h⟩
  · exact ⟨rfl, h⟩
  · exact ⟨rfl, h⟩
  · refine ⟨rfl, ?_⟩
    obtain ⟨h1, h2, h3, h4, h5, h6, h7, h8, h9, h10, h11, h12, h13⟩ := h
    refine ⟨h1, h2, h3, ?_, h5, h6, h7, h8, h9, h10, h11, h12, h13⟩
    show (s'.ports.set _ _).map forget_device_state = (s.ports.set _ _).map forget_device_state
    rw [List.map_set, List.map_set, h4, sent_port_forget hp]

theorem same_but_device_state_log {s s' : midi_vw_system_t}
    (h : same_but_device_state s s') (e e' : midi_vw_event) :
    same_but_device_state (log_event s e) (log_event s' e') := h

theorem same_but_device_state_error {s s' : midi_vw_system_t}
    (h : same_but_device_state s s') :
    same_but_device_state (route_count_error s) (route_count_error s') := by
  obtain ⟨h1, h2, h3, h4, h5, h6, h7, h8, h9, h10, h11, h12, h13⟩ := h
  refine ⟨h1, h2, h3, h4, h5, h6, h7, h8, h9, h10, ?_, h12, h13⟩
  show (s'.total_errors + 1) % U32 = (s.total_errors + 1) % U32
  rw [h11]

theorem same_but_device_state_filtered {s s' : midi_vw_system_t}
    (h : same_but_device_state s s') (i : Nat) :
    same_but_device_state (route_count_filtered i s) (route_count_filtered i s') := by
  have hc : connection_at s' i = connection_at s i := (same_but_device_state_lookup h).2.2.1 i
  obtain ⟨h1, h2, h3, h4, h5, h6, h7, h8, h9, h10, h11, h12, h13⟩ := h
  refine ⟨h1, h2, h3, h4, ?_, h6, h7, h8, h9, h10, h11, ?_, h13⟩
  · show s'.connections.set i _ = s.connections.set i _
    rw [h5, hc]
  · show (s'.total_filtered + 1) % U32 = (s.total_filtered + 1) % U32
    rw [h12]

theorem same_but_device_state_routed {s s' : midi_vw_system_t}
    (h : same_but_device_state s s') (i : Nat) :
    same_but_device_state (route_count_routed i s) (route_count_routed i s') := by
  have hc : connection_at s' i = connection_at s i := (same_but_device_state_lookup h).2.2.1 i
  obtain ⟨h1, h2, h3, h4, h5, h6, h7, h8, h9, h10, h11, h12, h13⟩ := h
  refine ⟨h1, h2, h3, h4, ?_, h6, h7, h8, h9, h10, h11, h12, h13⟩
  show s'.connections.set i _ = s.connections.set i _
  rw [h5, hc]

theorem same_but_device_state_deliver {s s' : midi_vw_system_t}
    (h : same_but_device_state s s') (m : midi_message_t) (i : Nat) :
    same_but_device_state (route_deliver m i s) (route_deliver m i s') := by
  obtain ⟨l1, l2, l3, _⟩ := same_but_device_state_lookup h
  obtain ⟨hst, hsend⟩ := same_but_device_state_send h (connection_at s i).dest_device_id
    (route_remap (connection_at s i) m)
  unfold route_deliver
  simp only []
  rw [l3 i, l1, (l2 _).1, (l2 _).2.1, hst]
  split_ifs
  · exact same_but_device_state_error h
  · exact same_but_device_state_error h
  · exact same_but_device_state_routed hsend i
  · exact same_but_device_state_error hsend

theorem same_but_device_state_step {s s' : midi_vw_system_t}
    (h : same_but_device_state s s') (source : Nat) (m : midi_message_t) (i : Nat) :
    same_but_device_state (route_step source m i s) (route_step source m i s') := by
  obtain ⟨_, _, l3, _⟩ := same_but_device_state_lookup h
  unfold route_step
  simp only []
  rw [l3 i, h.2.2.1]
  split_ifs
  · exact h
  · exact same_but_device_state_filtered h i
  · cases s.callbacks.filter_callback with
    | none => exact same_but_device_state_deliver h m i
    | some f =>
      simp only []
      split_ifs
      · exact same_but_device_state_filtered (same_but_device_state_log h _ _) i
      · exact same_but_device_state_deliver (same_but_device_state_log h _ _) m i

theorem same_but_device_state_loop (source : Nat) (m : midi_message_t) (n : Nat) :
    ∀ (i : Nat) (s s' : midi_vw_system_t), same_but_device_state s s' →
      same_but_device_state (route_loop source m n i s) (route_loop source m n i s') := by
  induction n with
  | zero => intro i s s' h; exact h
  | succ n ih =>
    intro i s s' h
    unfold route_loop
    exact ih (i + 1) _ _ (same_but_device_state_step h source m i)

theorem same_but_device_state_route {s s' : midi_vw_system_t}
    (h : same_but_device_state s s') (source : Nat) (m : midi_message_t) :
    same_but_device_state (midi_vw_route_message s source m)
      (midi_vw_route_message s' source m) := by
  have h0 : same_but_device_state (route_count_message s) (route_count_message s') := by
    obtain ⟨h1, h2, h3, h4, h5, h6, h7, h8, h9, h10, h11, h12, h13⟩ := h
    refine ⟨h1, h2, h3, h4, h5, h6, h7, h8, h9, ?_, h11, h12, h13⟩
    show (s'.total_messages + 1) % U32 = (s.total_messages + 1) % U32
    rw [h10]
  unfold midi_vw_route_message
  have hc : (route_count_message s').connection_count =
      (route_count_message s).connection_count := h.2.2.2.2.2.2.1
  rw [hc]
  exact same_but_device_state_loop source m _ 0 _ _ h0

/-- Injecting in two states that differ in device `state` fields only gives
the same status, the same stamped message and two states that again differ in
device `state` fields only. -/
theorem same_but_device_state_inject {s s' : midi_vw_system_t}
    (h : same_but_device_state s s') (source : Nat) (m : midi_message_t) :
    (midi_vw_inject_message s' source m).1 = (midi_vw_inject_message s source m).1 ∧
    (midi_vw_inject_message s' source m).2.1 = (midi_vw_inject_message s source m).2.1 ∧
    same_but_device_state (midi_vw_inject_message s source m).2.2
      (midi_vw_inject_message s' source m).2.2 := by
  have c1 : (!s'.initialized) = (!s.initialized) := by rw [h.1]
  have c2 : (!s'.running) = (!s.running) := by rw [h.2.1]
  have c3 : midi_vw_get_time s' = midi_vw_get_time s := h.2.2.2.2.2.2.2.2.2.2.2.2
  unfold midi_vw_inject_message
  rw [c1, c2, c3]
  split_ifs
  · exact ⟨rfl, rfl, h⟩
  · exact ⟨rfl, rfl, h⟩
  · exact ⟨rfl, rfl, same_but_device_state_route h source _⟩

/-- The state `midi_vw_set_device_state` returns differs from the one it was
given in a device `state` field at most. -/
theorem set_device_state_same (s : midi_vw_system_t) (d : Nat) (v : midi_vw_device_state_t) :
    same_but_device_state s (midi_vw_set_device_state s d v).2 := by
  unfold midi_vw_set_device_state
  simp only []
  split_ifs
  · exact same_but_device_state_refl s
  · exact same_but_device_state_refl s
  all_goals
    refine ⟨rfl, rfl, rfl, ?_, rfl, rfl, rfl, rfl, rfl, rfl, rfl, rfl, rfl⟩
    show (s.ports.set _ _).map forget_device_state = _
    rw [List.map_set]
    have : forget_device_state
        { port_at s (midi_vw_find_device s d) with
          device := { (port_at s (midi_vw_find_device s d)).device with state := v } } =
        (s.ports.map forget_device_state).getD (midi_vw_find_device s d) midi_vw_port_zero := by
      rw [getD_map_forget]
      rfl
    rw [this, set_getD_self]

theorem route_step_cases_matching (P : midi_vw_system_t → Prop) (source : Nat)
    (m : midi_message_t) (i : Nat) (s : midi_vw_system_t)
    (hm : matches_source s source i = true)
    (hfilt : P (route_count_filtered i s))
    (hveto : ∀ e, P (route_count_filtered i (log_event s e)))
    (hdel : P (route_deliver m i s))
    (hdel2 : ∀ e, P (route_deliver m i (log_event s e))) :
    P (route_step source m i s) := by
  unfold matches_source at hm
  simp only [Bool.and_eq_true, beq_iff_eq] at hm
  unfold route_step
  simp only [hm.1, hm.2, Bool.not_true, bne_self_eq_false, Bool.or_self, Bool.false_eq_true,
    if_false]
  split_ifs
  · exact hfilt
  · cases s.callbacks.filter_callback with
    | none => exact hdel
    | some f =>
      simp only []
      split_ifs
      · exact hveto _
      · exact hdel2 _

theorem route_step_not_matching (s : midi_vw_system_t) (source i : Nat) (m : midi_message_t)
    (hm : matches_source s source i = false) : route_step source m i s = s := by
  apply route_step_skip
  unfold route_skips
  unfold matches_source at hm
  intro h
  simp [h.1, h.2] at hm

theorem counts_one_filtered (i : Nat) (s : midi_vw_system_t) (hi : i < s.connections.length) :
    counts_one i s (route_count_filtered i s) := by
  left
  have : connection_at (route_count_filtered i s) i =
      { connection_at s i with
        messages_filtered := ((connection_at s i).messages_filtered + 1) % U32 } := by
    simp only [connection_at, route_count_filtered, getD_set_self _ _ _ _ hi]
  rw [this]
  exact ⟨rfl, rfl, rfl, rfl⟩

theorem counts_one_deliver (m : midi_message_t) (i : Nat) (s : midi_vw_system_t)
    (hi : i < s.connections.length) : counts_one i s (route_deliver m i s) := by
  apply route_deliver_cases (fun s' => counts_one i s s')
  · right; left
    exact ⟨rfl, rfl, rfl, rfl⟩
  · intro m'
    generalize (connection_at s i).dest_device_id = d
    obtain ⟨_, hc, he, hf, _⟩ := send_message_frame s d m'
    right; right
    have hcs : connection_at (midi_vw_send_message s d m').2 i = connection_at s i := by
      unfold connection_at
      rw [hc]
    have : connection_at (route_count_routed i (midi_vw_send_message s d m').2) i =
        { connection_at s i with
          messages_routed := ((connection_at s i).messages_routed + 1) % U32 } := by
      unfold route_count_routed
      simp only []
      rw [hcs]
      unfold connection_at
      rw [getD_set_self _ _ _ _ (by rw [hc]; exact hi)]
    rw [this]
    exact ⟨rfl, rfl, hf, he⟩
  · intro m'
    generalize (connection_at s i).dest_device_id = d
    obtain ⟨_, hc, he, hf, _⟩ := send_message_frame s d m'
    right; left
    have hcs : connection_at (route_count_error (midi_vw_send_message s d m').2) i =
        connection_at s i := by
      unfold connection_at route_count_error
      rw [hc]
    rw [hcs]
    refine ⟨rfl, rfl, hf, ?_⟩
    show ((midi_vw_send_message s d m').2.total_errors + 1) % U32 = _
    rw [he]

/-- A routing step counts exactly one thing for a connection it reaches, and
is the identity for a connection it does not reach. -/
theorem route_step_counts (source : Nat) (m : midi_message_t) (i : Nat)
    (s : midi_vw_system_t) (hi : i < s.connections.length) :
    (matches_source s source i = true → counts_one i s (route_step source m i s)) ∧
    (matches_source s source i = false → route_step source m i s = s) := by
  refine ⟨fun hm => ?_, route_step_not_matching s source i m⟩
  apply route_step_cases_matching (fun s' => counts_one i s s') source m i s hm
  · exact counts_one_filtered i s hi
  · intro e
    exact counts_one_filtered i (log_event s e) hi
  · exact counts_one_deliver m i s hi
  · intro e
    exact counts_one_deliver m i (log_event s e) hi

theorem routed_total_succ (s : midi_vw_system_t) (i n : Nat) :
    routed_total s i (n + 1) = (connection_at s i).messages_routed + routed_total s (i + 1) n := by
  unfold routed_total
  rw [List.range'_succ, List.map_cons, List.sum_cons]

theorem filtered_total_succ (s : midi_vw_system_t) (i n : Nat) :
    filtered_total s i (n + 1) =
      (connection_at s i).messages_filtered + filtered_total s (i + 1) n := by
  unfold filtered_total
  rw [List.range'_succ, List.map_cons, List.sum_cons]

theorem matching_connections_succ (s : midi_vw_system_t) (source i n : Nat) :
    matching_connections s source i (n + 1) =
      (if matches_source s source i then 1 else 0) + matching_connections s source (i + 1) n := by
  unfold matching_connections
  rw [List.range'_succ, List.filter_cons]
  split_ifs
  · rw [List.length_cons]; omega
  · omega

theorem routed_total_congr (s s' : midi_vw_system_t) (i n : Nat)
    (h : ∀ k, i ≤ k → k < i + n → connection_at s' k = connection_at s k) :
    routed_total s' i n = routed_total s i n := by
  unfold routed_total
  congr 1
  apply List.map_congr_left
  intro k hk
  rw [List.mem_range'_1] at hk
  rw [h k hk.1 hk.2]

theorem filtered_total_congr (s s' : midi_vw_system_t) (i n : Nat)
    (h : ∀ k, i ≤ k → k < i + n → connection_at s' k = connection_at s k) :
    filtered_total s' i n = filtered_total s i n := by
  unfold filtered_total
  congr 1
  apply List.map_congr_left
  intro k hk
  rw [List.mem_range'_1] at hk
  rw [h k hk.1 hk.2]

theorem matches_source_wiring {s s' : midi_vw_system_t} (h : same_wiring s s')
    (source k : Nat) : matches_source s' source k = matches_source s source k := by
  unfold matches_source
  rw [(h.2 k).2.2.2.2.2.2, (h.2 k).2.1]

theorem matching_connections_wiring {s s' : midi_vw_system_t} (h : same_wiring s s')
    (source i n : Nat) :
    matching_connections s' source i n = matching_connections s source i n := by
  unfold matching_connections
  have : matches_source s' source = matches_source s source :=
    funext (fun k => matches_source_wiring h source k)
  rw [this]

/-- The accounting of a routing loop over the slots `i .. i + n - 1`, when no
counter wraps around. -/
theorem route_loop_accounting (source : Nat) (m : midi_message_t) (n : Nat) :
    ∀ (i : Nat) (t : midi_vw_system_t), i + n ≤ t.connections.length →
      (∀ k, i ≤ k → k < i + n →
        (connection_at t k).messages_routed + 1 < U32 ∧
        (connection_at t k).messages_filtered + 1 < U32) →
      t.total_filtered + n < U32 → t.total_errors + n < U32 →
      routed_total (route_loop source m n i t) i n +
          (route_loop source m n i t).total_filtered +
          (route_loop source m n i t).total_errors =
        routed_total t i n + t.total_filtered + t.total_errors +
          matching_connections t source i n ∧
      (route_loop source m n i t).total_filtered + filtered_total t i n =
        t.total_filtered + filtered_total (route_loop source m n i t) i n := by
  induction n with
  | zero =>
    intro i t _ _ _ _
    simp [route_loop, routed_total, filtered_total, matching_connections]
  | succ n ih =>
    intro i t hlen hb hf he
    have hil : i < t.connections.length := by omega
    have hother : ∀ k, k ≠ i →
        connection_at (route_step source m i t) k = connection_at t k :=
      fun k hk => route_step_other source m i k t hk
    have hl1 : (route_step source m i t).connections.length = t.connections.length :=
      (route_step_frame source m i t).2.2.2.2.2.2.2.2.2.2
    have hw := route_step_wiring source m i t
    obtain ⟨hb1, hb2⟩ := hb i (le_refl _) (by omega)
    -- what the step counts
    have hstep : (connection_at (route_step source m i t) i).messages_routed +
          (route_step source m i t).total_filtered + (route_step source m i t).total_errors =
        (connection_at t i).messages_routed + t.total_filtered + t.total_errors +
          (if matches_source t source i then 1 else 0) ∧
        (route_step source m i t).total_filtered + (connection_at t i).messages_filtered =
          t.total_filtered + (connection_at (route_step source m i t) i).messages_filtered ∧
        (route_step source m i t).total_filtered ≤ t.total_filtered + 1 ∧
        (route_step source m i t).total_errors ≤ t.total_errors + 1 := by
      cases hm : matches_source t source i with
      | false =>
        rw [(route_step_counts source m i t hil).2 hm]
        simp
      | true =>
        have hc := (route_step_counts source m i t hil).1 hm
        have e1 : ((connection_at t i).messages_filtered + 1) % U32 =
            (connection_at t i).messages_filtered + 1 := Nat.mod_eq_of_lt hb2
        have e2 : (t.total_filtered + 1) % U32 = t.total_filtered + 1 :=
          Nat.mod_eq_of_lt (by omega)
        have e3 : (t.total_errors + 1) % U32 = t.total_errors + 1 :=
          Nat.mod_eq_of_lt (by omega)
        have e4 : ((connection_at t i).messages_routed + 1) % U32 =
            (connection_at t i).messages_routed + 1 := Nat.mod_eq_of_lt hb1
        rcases hc with ⟨c1, c2, c3, c4⟩ | ⟨c1, c2, c3, c4⟩ | ⟨c1, c2, c3, c4⟩
        · rw [c1, c2, c3, c4, e1, e2]
          simp only [if_true]
          exact ⟨by omega, by omega, by omega, by omega⟩
        · rw [c1, c2, c3, c4, e3]
          simp only [if_true]
          exact ⟨by omega, trivial, by omega, by omega⟩
        · rw [c1, c2, c3, c4, e4]
          simp only [if_true]
          exact ⟨by omega, trivial, by omega, by omega⟩
    obtain ⟨s1, s2, s3, s4⟩ := hstep
    obtain ⟨ih1, ih2⟩ := ih (i + 1) (route_step source m i t) (by rw [hl1]; omega)
      (fun k h1 h2 => by
        rw [hother k (by omega)]
        exact hb k (by omega) (by omega))
      (by omega) (by omega)
    have hkeep : connection_at (route_loop source m n (i + 1) (route_step source m i t)) i =
        connection_at (route_step source m i t) i :=
      route_loop_other source m i n (i + 1) _ (Or.inl (by omega))
    have hr : routed_total (route_step source m i t) (i + 1) n = routed_total t (i + 1) n :=
      routed_total_congr t _ (i + 1) n (fun k h1 _ => hother k (by omega))
    have hfl : filtered_total (route_step source m i t) (i + 1) n =
        filtered_total t (i + 1) n :=
      filtered_total_congr t _ (i + 1) n (fun k h1 _ => hother k (by omega))
    have hmc := matching_connections_wiring hw source (i + 1) n
    unfold route_loop
    rw [routed_total_succ, routed_total_succ, filtered_total_succ, filtered_total_succ,
      matching_connections_succ, hkeep]
    rw [hr, hmc] at ih1
    rw [hfl] at ih2
    constructor <;> omega

/-- A routing pass leaves a connection it does not reach as it is. -/
theorem route_loop_not_matching (source : Nat) (m : midi_message_t) (i : Nat) (n : Nat) :
    ∀ (k : Nat) (s : midi_vw_system_t), matches_source s source i = false →
      connection_at (route_loop source m n k s) i = connection_at s i := by
  induction n with
  | zero => intro k s _; rfl
  | succ n ih =>
    intro k s hm
    unfold route_loop
    have hstep : connection_at (route_step source m k s) i = connection_at s i := by
      by_cases hk : k = i
      · subst hk
        rw [route_step_not_matching s source k m hm]
      · exact route_step_other source m k i s (Ne.symm hk)
    have hm' : matches_source (route_step source m k s) source i = false := by
      rw [matches_source_wiring (route_step_wiring source m k s)]
      exact hm
    rw [ih (k + 1) _ hm', hstep]

/-- Before `midi_vw_init` every other call returns the state it was given. -/
theorem api_step_uninitialized (s : midi_vw_system_t) (c : api_call)
    (h : s.initialized = false) (hc : ∀ cb, c ≠ .init cb) : api_step s c = s := by
  have h0 : (!s.initialized) = true := by simp [h]
  cases c with
  | init cb => exact absurd rfl (hc cb)
  | deinit => show (midi_vw_deinit s).2 = s; unfold midi_vw_deinit; rw [if_pos h0]
  | start => show (midi_vw_start s).2 = s; unfold midi_vw_start; rw [if_pos h0]
  | stop => show (midi_vw_stop s).2 = s; unfold midi_vw_stop; rw [if_pos h0]
  | register_device name i o =>
    show (midi_vw_register_device s name i o).2.2 = s
    unfold midi_vw_register_device; rw [if_pos h0]
  | unregister_device d =>
    show (midi_vw_unregister_device s d).2 = s
    unfold midi_vw_unregister_device; rw [if_pos h0]
  | set_device_state d v =>
    show (midi_vw_set_device_state s d v).2 = s
    unfold midi_vw_set_device_state; rw [if_pos h0]
  | create_connection a b c d f =>
    show (midi_vw_create_connection s a b c d f).2.2 = s
    unfold midi_vw_create_connection; rw [if_pos h0]
  | remove_connection id =>
    show (midi_vw_remove_connection s id).2 = s
    unfold midi_vw_remove_connection; rw [if_pos h0]
  | enable_connection id b =>
    show (midi_vw_enable_connection s id b).2 = s
    unfold midi_vw_enable_connection; rw [if_pos h0]
  | connect_all_to_all =>
    show (midi_vw_connect_all_to_all s).2 = s
    unfold midi_vw_connect_all_to_all; rw [if_pos h0]
  | disconnect_all =>
    show (midi_vw_disconnect_all s).2 = s
    unfold midi_vw_disconnect_all; rw [if_pos h0]
  | send_message d m =>
    show (midi_vw_send_message s d m).2 = s
    unfold midi_vw_send_message; rw [if_pos h0]
  | receive_message d =>
    show (midi_vw_receive_message s d).2.2 = s
    unfold midi_vw_receive_message; rw [if_pos h0]
  | inject_message a m =>
    show (midi_vw_inject_message s a m).2.2 = s
    unfold midi_vw_inject_message; rw [if_pos h0]
  | process_messages =>
    show (midi_vw_process_messages s).2 = s
    unfold midi_vw_process_messages
    rw [if_pos (by simp [h])]
  | reset_statistics =>
    show (midi_vw_reset_statistics s).2 = s
    unfold midi_vw_reset_statistics; rw [if_pos h0]

theorem route_message_initialized (s : midi_vw_system_t) (source : Nat) (m : midi_message_t) :
    (midi_vw_route_message s source m).initialized = s.initialized := by
  unfold midi_vw_route_message
  rw [(route_loop_frame source m _ 0 (route_count_message s)).1]
  rfl

/-- Only `midi_vw_deinit` takes an initialized system out of that state. -/
theorem api_step_initialized (s : midi_vw_system_t) (c : api_call)
    (hs : api_invariant s) (h : s.initialized = true) (hc : c ≠ .deinit) :
    (api_step s c).initialized = true := by
  cases c with
  | deinit => exact absurd rfl hc
  | init cb =>
    show (midi_vw_init s cb).2.initialized = true
    unfold midi_vw_init; rw [if_pos h]; exact h
  | start =>
    show (midi_vw_start s).2.initialized = true
    unfold midi_vw_start; split_ifs <;> exact h
  | stop =>
    show (midi_vw_stop s).2.initialized = true
    unfold midi_vw_stop; split_ifs <;> exact h
  | register_device name i o => exact (register_device_count s name i o h hs.1.2.1).1
  | unregister_device d => exact (unregister_device_count s d h hs.1.2.1).1
  | set_device_state d v =>
    exact (set_device_state_same s d v).1.trans h
  | create_connection a b c d f => exact (create_connection_frame s a b c d f).1.trans h
  | remove_connection id => exact (remove_connection_registry s id).1.trans h
  | enable_connection id b =>
    show (midi_vw_enable_connection s id b).2.initialized = true
    unfold midi_vw_enable_connection
    simp only []
    split_ifs <;> exact h
  | connect_all_to_all =>
    show (midi_vw_connect_all_to_all s).2.initialized = true
    rw [connect_all_to_all_eq s h]
    exact (create_all_frame _ s).1.trans h
  | disconnect_all =>
    show (midi_vw_disconnect_all s).2.initialized = true
    unfold midi_vw_disconnect_all; split_ifs <;> exact h
  | send_message d m => exact (send_message_frame s d m).1.1.trans h
  | receive_message d =>
    show (midi_vw_receive_message s d).2.2.initialized = true
    unfold midi_vw_receive_message
    simp only []
    split_ifs <;> exact h
  | inject_message a m =>
    show (midi_vw_inject_message s a m).2.2.initialized = true
    unfold midi_vw_inject_message
    split_ifs
    · exact h
    · exact h
    · exact (route_message_initialized s a _).trans h
  | process_messages =>
    show (midi_vw_process_messages s).2.initialized = true
    rw [process_messages_empty s hs.1.2.2.2.1]
    split_ifs <;> exact h
  | reset_statistics =>
    show (midi_vw_reset_statistics s).2.initialized = true
    unfold midi_vw_reset_statistics; split_ifs <;> exact h

theorem api_step_registered_when_initialized (s : midi_vw_system_t) (c : api_call)
    (hs : api_invariant s) (hu : registered_when_initialized s) :
    registered_when_initialized (api_step s c) := by
  by_cases hinit : s.initialized = true
  · by_cases hc : c = .deinit
    · subst hc
      intro _
      show (midi_vw_deinit s).2.device_count = 0
      unfold midi_vw_deinit
      have h0 : ¬ ((!s.initialized) = true) := by simp [hinit]
      rw [if_neg h0]
      rfl
    · intro h
      rw [api_step_initialized s c hs hinit hc] at h
      cases h
  · simp only [Bool.not_eq_true] at hinit
    by_cases hc : ∃ cb, c = .init cb
    · obtain ⟨cb, rfl⟩ := hc
      intro h
      have : (api_step s (.init cb)).initialized = true := by
        show (midi_vw_init s cb).2.initialized = true
        rw [init_ok s cb hinit]
        rfl
      rw [this] at h
      cases h
    · rw [api_step_uninitialized s c hinit (fun cb h => hc ⟨cb, h⟩)]
      exact hu

theorem api_reachable_registered (s : midi_vw_system_t) (h : api_reachable s) :
    registered_when_initialized s := by
  obtain ⟨calls, rfl⟩ := h
  have : ∀ (calls : List api_call) (s : midi_vw_system_t), api_invariant s →
      registered_when_initialized s → registered_when_initialized (api_run calls s) := by
    intro calls
    induction calls with
    | nil => intro s _ hu; exact hu
    | cons c calls ih =>
      intro s hs hu
      exact ih _ (api_step_invariant s c hs) (api_step_registered_when_initialized s c hs hu)
  exact this calls _ api_invariant_zero (fun _ => rfl)
/-- The lookup returns the first slot in use that holds the id. -/
theorem find_device_loop_eq (s : midi_vw_system_t) (d : Nat) (n : Nat) :
    ∀ i j, i ≤ j → j < i + n → (port_at s j).device.device_id = d →
      (∀ k, i ≤ k → k < j → (port_at s k).device.device_id ≠ d) →
      find_device_loop s d n i = j := by
  induction n with
  | zero => intro i j h1 h2; omega
  | succ n ih =>
    intro i j h1 h2 hd hfirst
    unfold find_device_loop
    by_cases hij : i = j
    · subst hij
      rw [if_pos hd]
    · rw [if_neg (hfirst i (le_refl _) (by omega))]
      exact ih (i + 1) j (by omega) (by omega) hd
        (fun k hk1 hk2 => hfirst k (by omega) hk2)

theorem find_device_eq (s : midi_vw_system_t) (d j : Nat) (hj : j < s.device_count)
    (hd : (port_at s j).device.device_id = d)
    (hfirst : ∀ k, k < j → (port_at s k).device.device_id ≠ d) :
    midi_vw_find_device s d = j :=
  find_device_loop_eq s d s.device_count 0 j (Nat.zero_le _) (by omega) hd
    (fun k _ hk => hfirst k hk)

/-- What the lookup of a registered id tells about the device array. -/
theorem find_device_spec (s : midi_vw_system_t) (d : Nat)
    (h : midi_vw_find_device s d < MIDI_VW_MAX_DEVICES) :
    midi_vw_find_device s d < s.device_count ∧
    (port_at s (midi_vw_find_device s d)).device.device_id = d ∧
    ∀ k, k < midi_vw_find_device s d → (port_at s k).device.device_id ≠ d := by
  refine ⟨find_device_in_use s d h, (find_device_loop_found s d _ 0 h).2.2, fun k hk => ?_⟩
  exact find_device_loop_first s d s.device_count 0 k (Nat.zero_le _) hk
    (by have := find_device_in_use s d h; omega)

/-- Unregistering another device leaves `d` registered, with its port record
unchanged, one slot lower when the other device sat below it. -/
theorem unregister_other_device (s : midi_vw_system_t) (d d' : Nat)
    (hs : ports_invariant s)
    (hfound : midi_vw_find_device s d < MIDI_VW_MAX_DEVICES) (hne : d' ≠ d) :
    midi_vw_find_device (midi_vw_unregister_device s d').2 d < MIDI_VW_MAX_DEVICES ∧
    port_at (midi_vw_unregister_device s d').2
        (midi_vw_find_device (midi_vw_unregister_device s d').2 d) =
      port_at s (midi_vw_find_device s d) := by
  obtain ⟨hj, hjd, hjfirst⟩ := find_device_spec s d hfound
  by_cases hinit : s.initialized = true
  · by_cases hf' : midi_vw_find_device s d' < MIDI_VW_MAX_DEVICES
    · obtain ⟨hq, hqd, _⟩ := find_device_spec s d' hf'
      obtain ⟨_, _, hc, _⟩ := unregister_device_found s d' hinit hf' hs.2.1
      have hat := unregister_device_port_at s d' hinit hf' hs.2.1
      have hqj : midi_vw_find_device s d' ≠ midi_vw_find_device s d := by
        intro h
        rw [h, hjd] at hqd
        exact hne hqd.symm
      generalize midi_vw_find_device s d' = q at *
      generalize hjj : midi_vw_find_device s d = j at *
      have hdc := hs.2.1
      by_cases hlt : q < j
      · have hfind : midi_vw_find_device (midi_vw_unregister_device s d').2 d = j - 1 := by
          apply find_device_eq
          · rw [hc]; omega
          · rw [hat (j - 1), if_neg (by omega), if_pos (by omega)]
            have : j - 1 + 1 = j := by omega
            rw [this]
            exact hjd
          · intro k hk
            rw [hat k, if_neg (by omega)]
            split_ifs
            · exact hjfirst (k + 1) (by omega)
            · exact hjfirst k (by omega)
        rw [hfind, hat (j - 1), if_neg (by omega), if_pos (by omega)]
        have : j - 1 + 1 = j := by omega
        rw [this]
        exact ⟨by omega, rfl⟩
      · have hfind : midi_vw_find_device (midi_vw_unregister_device s d').2 d = j := by
          apply find_device_eq
          · rw [hc]; omega
          · rw [hat j, if_neg (by omega), if_neg (by omega)]
            exact hjd
          · intro k hk
            rw [hat k, if_neg (by omega), if_neg (by omega)]
            exact hjfirst k hk
        rw [hfind, hat j, if_neg (by omega), if_neg (by omega)]
        exact ⟨hfound, rfl⟩
    · have hnf : midi_vw_find_device s d' ≥ MIDI_VW_MAX_DEVICES := by omega
      have : (midi_vw_unregister_device s d').2 = s := by
        unfold midi_vw_unregister_device
        simp only [hnf, if_true]
        split_ifs <;> rfl
      rw [this]
      exact ⟨hfound, rfl⟩
  · have : (midi_vw_unregister_device s d').2 = s := by
      unfold midi_vw_unregister_device
      simp only [Bool.not_eq_true] at hinit
      simp only [hinit, Bool.not_false, if_true]
    rw [this]
    exact ⟨hfound, rfl⟩
theorem send_message_other_port (s : midi_vw_system_t) (d : Nat) (m : midi_message_t)
    (k : Nat) (hk : k ≠ midi_vw_find_device s d) :
    port_at (midi_vw_send_message s d m).2 k = port_at s k := by
  rw [send_message_eq]
  split_ifs
  · rfl
  · rfl
  · rfl
  · show (s.ports.set _ _).getD k midi_vw_port_zero = _
    rw [getD_set_other _ _ _ _ _ (Ne.symm hk)]
    rfl

/-- A `midi_vw_send_message` that does not succeed leaves the number of
messages in every outbound buffer as it is. -/
theorem send_message_failure_count (s : midi_vw_system_t) (d : Nat) (m : midi_message_t)
    (h : (midi_vw_send_message s d m).1 ≠ MIDI_VW_SUCCESS) (k : Nat) :
    tx_count (midi_vw_send_message s d m).2 k = tx_count s k := by
  by_cases hk : k = midi_vw_find_device s d
  · rw [send_message_eq] at h ⊢
    split_ifs at h ⊢ with h1 h2 h3
    · rfl
    · rfl
    · rfl
    · unfold tx_count
      show ((s.ports.set _ _).getD k midi_vw_port_zero).tx_buffer.count = _
      by_cases hl : k < s.ports.length
      · rw [hk, getD_set_self _ _ _ _ (hk ▸ hl)]
        unfold sent_port
        rw [if_neg h]
        have hfull : MIDI_VW_MESSAGE_BUFFER_SIZE ≤
            (port_at s (midi_vw_find_device s d)).tx_buffer.count := by
          by_contra hroom
          exact h (buffer_put_ok _ m (by omega))
        rw [buffer_put_full _ m hfull]
      · rw [List.set_eq_of_length_le (by omega)]
        rfl
  · unfold tx_count
    rw [send_message_other_port s d m k hk]

/-- What a `midi_vw_send_message` to `d'` does to the outbound buffer of a
registered device `d`: one more message when `d' = d` and the call succeeds,
nothing otherwise; and `d` stays where it is. -/
theorem send_message_exact (s : midi_vw_system_t) (d' d : Nat) (m : midi_message_t)
    (hl : s.ports.length = MIDI_VW_MAX_DEVICES)
    (hfound : midi_vw_find_device s d < MIDI_VW_MAX_DEVICES) :
    midi_vw_find_device (midi_vw_send_message s d' m).2 d = midi_vw_find_device s d ∧
    tx_count (midi_vw_send_message s d' m).2 (midi_vw_find_device s d) =
      tx_count s (midi_vw_find_device s d) +
        (if d' = d ∧ (midi_vw_send_message s d' m).1 = MIDI_VW_SUCCESS then 1 else 0) := by
  refine ⟨(devices_kept_of_evolve (send_message_evolve s d' m)).1 d hfound, ?_⟩
  by_cases hd : d' = d
  · subst hd
    by_cases hok : (midi_vw_send_message s d' m).1 = MIDI_VW_SUCCESS
    · rw [if_pos ⟨rfl, hok⟩]
      exact (send_message_success_count s d' m hl hok).2.2
    · rw [if_neg (fun h => hok h.2), send_message_failure_count s d' m hok]
      rfl
  · rw [if_neg (fun h => hd h.1)]
    unfold tx_count
    rw [send_message_other_port s d' m _ (fun h => by
      by_cases hf : midi_vw_find_device s d' < MIDI_VW_MAX_DEVICES
      · have h1 := (find_device_spec s d' hf).2.1
        have h2 := (find_device_spec s d hfound).2.1
        rw [← h, h2] at h1
        exact hd h1.symm
      · omega)]
    rfl
theorem same_ports_lookup (s s' : midi_vw_system_t) (hp : s'.ports = s.ports)
    (hc : s'.device_count = s.device_count) (d : Nat) :
    midi_vw_find_device s' d = midi_vw_find_device s d ∧
    ∀ k, tx_count s' k = tx_count s k := by
  refine ⟨find_device_congr s' s d hp hc, fun k => ?_⟩
  unfold tx_count port_at
  rw [hp]

/-- The delivery part of a routing step adds to the outbound buffer of `d`
exactly the successful sends to `d` it makes. -/
theorem route_deliver_sends_exact (d : Nat) (m : midi_message_t) (i : Nat)
    (s : midi_vw_system_t) (hl : s.ports.length = MIDI_VW_MAX_DEVICES)
    (hfound : midi_vw_find_device s d < MIDI_VW_MAX_DEVICES) :
    midi_vw_find_device (route_deliver m i s) d = midi_vw_find_device s d ∧
    tx_count (route_deliver m i s) (midi_vw_find_device s d) =
      tx_count s (midi_vw_find_device s d) + route_deliver_sends d m i s := by
  unfold route_deliver route_deliver_sends
  simp only []
  by_cases h1 : midi_vw_find_device s (connection_at s i).dest_device_id ≥ MIDI_VW_MAX_DEVICES
  · rw [if_pos h1, if_pos h1]
    obtain ⟨e1, e2⟩ := same_ports_lookup s (route_count_error s) rfl rfl d
    exact ⟨e1, by rw [e2]; rfl⟩
  · rw [if_neg h1, if_neg h1]
    by_cases h2 : (!(port_at s (midi_vw_find_device s
        (connection_at s i).dest_device_id)).active ||
        !(port_at s (midi_vw_find_device s
          (connection_at s i).dest_device_id)).device.is_output) = true
    · rw [if_pos h2, if_pos h2]
      obtain ⟨e1, e2⟩ := same_ports_lookup s (route_count_error s) rfl rfl d
      exact ⟨e1, by rw [e2]; rfl⟩
    · rw [if_neg h2, if_neg h2]
      obtain ⟨x1, x2⟩ := send_message_exact s (connection_at s i).dest_device_id d
        (route_remap (connection_at s i) m) hl hfound
      by_cases h3 : (midi_vw_send_message s (connection_at s i).dest_device_id
          (route_remap (connection_at s i) m)).1 = MIDI_VW_SUCCESS
      · rw [if_pos h3]
        obtain ⟨e1, e2⟩ := same_ports_lookup
          (midi_vw_send_message s (connection_at s i).dest_device_id
            (route_remap (connection_at s i) m)).2
          (route_count_routed i (midi_vw_send_message s (connection_at s i).dest_device_id
            (route_remap (connection_at s i) m)).2) rfl rfl d
        exact ⟨e1.trans x1, by rw [e2, x2]⟩
      · rw [if_neg h3]
        obtain ⟨e1, e2⟩ := same_ports_lookup
          (midi_vw_send_message s (connection_at s i).dest_device_id
            (route_remap (connection_at s i) m)).2
          (route_count_error (midi_vw_send_message s (connection_at s i).dest_device_id
            (route_remap (connection_at s i) m)).2) rfl rfl d
        exact ⟨e1.trans x1, by rw [e2, x2]⟩

theorem route_step_sends_exact (d source : Nat) (m : midi_message_t) (i : Nat)
    (s : midi_vw_system_t) (hl : s.ports.length = MIDI_VW_MAX_DEVICES)
    (hfound : midi_vw_find_device s d < MIDI_VW_MAX_DEVICES) :
    midi_vw_find_device (route_step source m i s) d = midi_vw_find_device s d ∧
    tx_count (route_step source m i s) (midi_vw_find_device s d) =
      tx_count s (midi_vw_find_device s d) + route_step_sends d source m i s := by
  have hlog : ∀ e, midi_vw_find_device (route_deliver m i (log_event s e)) d =
        midi_vw_find_device s d ∧
      tx_count (route_deliver m i (log_event s e)) (midi_vw_find_device s d) =
        tx_count s (midi_vw_find_device s d) + route_deliver_sends d m i (log_event s e) := by
    intro e
    obtain ⟨e1, e2⟩ := same_ports_lookup s (log_event s e) rfl rfl d
    obtain ⟨x1, x2⟩ := route_deliver_sends_exact d m i (log_event s e) hl (by rw [e1]; exact hfound)
    rw [e1] at x1 x2
    exact ⟨x1, by rw [x2, e2]⟩
  unfold route_step route_step_sends
  simp only []
  split_ifs with h1 h2
  · exact ⟨rfl, rfl⟩
  · obtain ⟨e1, e2⟩ := same_ports_lookup s (route_count_filtered i s) rfl rfl d
    exact ⟨e1, by rw [e2]; rfl⟩
  · cases s.callbacks.filter_callback with
    | none => exact route_deliver_sends_exact d m i s hl hfound
    | some f =>
      simp only []
      split_ifs
      · obtain ⟨e1, e2⟩ := same_ports_lookup s
          (route_count_filtered i (log_event s
            (.filter_event source (connection_at s i).dest_device_id m))) rfl rfl d
        exact ⟨e1, by rw [e2]; rfl⟩
      · exact hlog _

theorem route_loop_sends_exact (d source : Nat) (m : midi_message_t) (n : Nat) :
    ∀ (i : Nat) (s : midi_vw_system_t), s.ports.length = MIDI_VW_MAX_DEVICES →
      midi_vw_find_device s d < MIDI_VW_MAX_DEVICES →
      midi_vw_find_device (route_loop source m n i s) d = midi_vw_find_device s d ∧
      tx_count (route_loop source m n i s) (midi_vw_find_device s d) =
        tx_count s (midi_vw_find_device s d) + route_loop_sends d source m n i s := by
  induction n with
  | zero => intro i s _ _; exact ⟨rfl, rfl⟩
  | succ n ih =>
    intro i s hl hfound
    obtain ⟨x1, x2⟩ := route_step_sends_exact d source m i s hl hfound
    obtain ⟨y1, y2⟩ := ih (i + 1) (route_step source m i s)
      ((route_step_frame source m i s).2.2.2.2.2.2.2.2.2.1.trans hl) (by rw [x1]; exact hfound)
    rw [x1] at y1 y2
    unfold route_loop route_loop_sends
    exact ⟨y1, by rw [y2, x2]; omega⟩

theorem route_message_sends_exact (d : Nat) (s : midi_vw_system_t) (source : Nat)
    (m : midi_message_t) (hl : s.ports.length = MIDI_VW_MAX_DEVICES)
    (hfound : midi_vw_find_device s d < MIDI_VW_MAX_DEVICES) :
    midi_vw_find_device (midi_vw_route_message s source m) d = midi_vw_find_device s d ∧
    tx_count (midi_vw_route_message s source m) (midi_vw_find_device s d) =
      tx_count s (midi_vw_find_device s d) + route_message_sends d s source m := by
  obtain ⟨e1, e2⟩ := same_ports_lookup s (route_count_message s) rfl rfl d
  obtain ⟨x1, x2⟩ := route_loop_sends_exact d source m (route_count_message s).connection_count
    0 (route_count_message s) hl (by rw [e1]; exact hfound)
  rw [e1] at x1 x2
  unfold midi_vw_route_message route_message_sends
  exact ⟨x1, by rw [x2, e2]⟩

/-- With nothing in any inbound buffer the processing loop delivers nothing. -/
theorem process_loop_sends_idle (d : Nat) (n : Nat) :
    ∀ (i : Nat) (s : midi_vw_system_t), (∀ k, (port_at s k).rx_buffer.count = 0) →
      process_loop_sends d n i s = 0 := by
  induction n with
  | zero => intro i s _; rfl
  | succ n ih =>
    intro i s h
    unfold process_loop_sends
    simp only []
    split_ifs
    · exact ih (i + 1) s h
    · rw [h i]
      show 0 + process_loop_sends d n (i + 1) s = 0
      rw [ih (i + 1) s h]
theorem devices_same_refl (s : midi_vw_system_t) : devices_same s s :=
  ⟨fun _ _ => rfl, fun _ => rfl⟩

/-- Devices stay the same when the number of devices does not go down, the
slots in use keep their ids and every outbound buffer keeps its count. -/
theorem devices_same_of_slots (s s' : midi_vw_system_t)
    (hc : s.device_count ≤ s'.device_count)
    (hid : ∀ k, k < s.device_count →
      (port_at s' k).device.device_id = (port_at s k).device.device_id)
    (htx : ∀ k, tx_count s' k = tx_count s k) : devices_same s s' := by
  refine ⟨fun d hd => ?_, htx⟩
  unfold midi_vw_find_device
  obtain ⟨extra, he⟩ : ∃ extra, s'.device_count = s.device_count + extra :=
    ⟨s'.device_count - s.device_count, by omega⟩
  rw [he]
  exact find_device_loop_prefix s s' d s.device_count 0 extra
    (fun k _ hk => hid k (by omega)) hd

theorem devices_same_of_ports (s s' : midi_vw_system_t) (hp : s'.ports = s.ports)
    (hc : s'.device_count = s.device_count) : devices_same s s' := by
  have : ∀ k, port_at s' k = port_at s k := fun k => by simp only [port_at, hp]
  exact devices_same_of_slots s s' (by omega) (fun k _ => by rw [this k])
    (fun k => by unfold tx_count; rw [this k])

/-- Every call but init, deinit, unregister, send and inject leaves the
devices where they are and the outbound buffers as they are, in a state that
satisfies the invariants. -/
theorem api_step_same (s : midi_vw_system_t) (c : api_call) (hs : api_invariant s)
    (h1 : ∀ cb, c ≠ .init cb) (h2 : c ≠ .deinit) (h3 : ∀ d, c ≠ .unregister_device d)
    (h4 : ∀ d m, c ≠ .send_message d m) (h5 : ∀ a m, c ≠ .inject_message a m) :
    devices_same s (api_step s c) := by
  cases c with
  | init cb => exact absurd rfl (h1 cb)
  | deinit => exact absurd rfl h2
  | unregister_device d => exact absurd rfl (h3 d)
  | send_message d m => exact absurd rfl (h4 d m)
  | inject_message a m => exact absurd rfl (h5 a m)
  | start =>
    show devices_same s (midi_vw_start s).2
    unfold midi_vw_start
    split_ifs
    · exact devices_same_refl s
    · exact devices_same_of_ports s _ rfl rfl
  | stop =>
    show devices_same s (midi_vw_stop s).2
    unfold midi_vw_stop
    split_ifs
    · exact devices_same_refl s
    · exact devices_same_of_ports s _ rfl rfl
  | register_device name i o =>
    show devices_same s (midi_vw_register_device s name i o).2.2
    by_cases hinit : s.initialized = true
    · by_cases hroom : s.device_count < MIDI_VW_MAX_DEVICES
      · have hf := register_device_fields s name i o hinit hroom
        have hp : (midi_vw_register_device s name i o).2.2.ports =
            (registered_state s name i o).ports := by rw [← hf]
        have hc : (midi_vw_register_device s name i o).2.2.device_count =
            (registered_state s name i o).device_count := by rw [← hf]
        have hat : ∀ k, k ≠ s.device_count →
            port_at (midi_vw_register_device s name i o).2.2 k = port_at s k := by
          intro k hk
          unfold port_at
          rw [hp]
          exact getD_set_other _ _ _ _ _ (Ne.symm hk)
        have hnew : port_at (midi_vw_register_device s name i o).2.2 s.device_count =
            registered_port s name i o := by
          unfold port_at
          rw [hp]
          exact getD_set_self _ _ _ _ (by rw [hs.1.1]; exact hroom)
        refine devices_same_of_slots s _ ?_ (fun k hk => by rw [hat k (by omega)])
          (fun k => ?_)
        · rw [hc]
          show s.device_count ≤ (s.device_count + 1) % U8
          simp only [MIDI_VW_MAX_DEVICES, U8] at *
          omega
        · by_cases hk : k = s.device_count
          · unfold tx_count
            rw [hk, hs.1.2.2.1 s.device_count (le_refl _), hnew]
            rfl
          · unfold tx_count
            rw [hat k hk]
      · rw [register_device_full s name i o hinit (by omega)]
        exact devices_same_refl s
    · unfold midi_vw_register_device
      simp only [Bool.not_eq_true] at hinit
      simp only [hinit, Bool.not_false, if_true]
      exact devices_same_refl s
  | set_device_state d v =>
    show devices_same s (midi_vw_set_device_state s d v).2
    unfold midi_vw_set_device_state
    simp only []
    split_ifs with h1 h2 h3
    · exact devices_same_refl s
    · exact devices_same_refl s
    all_goals
      have hat : ∀ k, (s.ports.set (midi_vw_find_device s d)
          { port_at s (midi_vw_find_device s d) with
            device := { (port_at s (midi_vw_find_device s d)).device with state := v } }).getD k
            midi_vw_port_zero =
          if k = midi_vw_find_device s d ∧ k < s.ports.length then
            { port_at s k with device := { (port_at s k).device with state := v } }
          else port_at s k := by
        intro k
        by_cases hk : k = midi_vw_find_device s d
        · by_cases hl : k < s.ports.length
          · rw [if_pos ⟨hk, hl⟩, ← hk, getD_set_self _ _ _ _ hl]
          · rw [if_neg (fun h => hl h.2), List.set_eq_of_length_le (by omega)]
            rfl
        · rw [if_neg (fun h => hk h.1), getD_set_other _ _ _ _ _ (Ne.symm hk)]
          rfl
      refine devices_same_of_slots s _ (le_refl _) (fun k _ => ?_) (fun k => ?_)
      · show ((s.ports.set _ _).getD k midi_vw_port_zero).device.device_id = _
        rw [hat k]
        split_ifs <;> rfl
      · show ((s.ports.set _ _).getD k midi_vw_port_zero).tx_buffer.count = _
        rw [hat k]
        split_ifs <;> rfl
  | create_connection a b c d f =>
    exact devices_same_of_ports s _ (create_connection_frame s a b c d f).2.1
      (create_connection_frame s a b c d f).2.2.1
  | remove_connection id =>
    exact devices_same_of_ports s _ (remove_connection_registry s id).2.2.1
      (remove_connection_registry s id).2.1
  | enable_connection id b =>
    show devices_same s (midi_vw_enable_connection s id b).2
    unfold midi_vw_enable_connection
    simp only []
    split_ifs
    · exact devices_same_refl s
    · exact devices_same_refl s
    · exact devices_same_of_ports s _ rfl rfl
  | connect_all_to_all =>
    show devices_same s (midi_vw_connect_all_to_all s).2
    unfold midi_vw_connect_all_to_all
    split_ifs
    · exact devices_same_refl s
    · show devices_same s (connect_outer_loop s.device_count 0 s)
      rw [connect_outer_loop_eq]
      exact devices_same_of_ports s _ (create_all_frame _ s).2.1 (create_all_frame _ s).2.2.1
  | disconnect_all =>
    show devices_same s (midi_vw_disconnect_all s).2
    unfold midi_vw_disconnect_all
    split_ifs
    · exact devices_same_refl s
    · exact devices_same_of_ports s _ rfl rfl
  | receive_message d =>
    show devices_same s (midi_vw_receive_message s d).2.2
    unfold midi_vw_receive_message
    simp only []
    split_ifs with h1 h2
    · exact devices_same_refl s
    · exact devices_same_refl s
    · rw [buffer_get_empty _ (hs.1.2.2.2.1 _)]
      have hj : midi_vw_find_device s d < s.ports.length := by
        have := find_device_in_use s d (by omega)
        have := hs.1.1
        have := hs.1.2.1
        omega
      refine devices_same_of_slots s _ (le_refl _) (fun k _ => ?_) (fun k => ?_)
      · show ((s.ports.set _ _).getD k midi_vw_port_zero).device.device_id = _
        by_cases hk : k = midi_vw_find_device s d
        · rw [hk, getD_set_self _ _ _ _ hj]
        · rw [getD_set_other _ _ _ _ _ (Ne.symm hk)]
          rfl
      · show ((s.ports.set _ _).getD k midi_vw_port_zero).tx_buffer.count = _
        by_cases hk : k = midi_vw_find_device s d
        · rw [hk, getD_set_self _ _ _ _ hj]
          rfl
        · rw [getD_set_other _ _ _ _ _ (Ne.symm hk)]
          rfl
  | process_messages =>
    show devices_same s (midi_vw_process_messages s).2
    rw [process_messages_empty s hs.1.2.2.2.1]
    split_ifs
    · exact devices_same_refl s
    · exact devices_same_of_ports s _ rfl rfl
  | reset_statistics =>
    show devices_same s (midi_vw_reset_statistics s).2
    by_cases hinit : s.initialized = true
    · have hat := reset_statistics_port_at s hinit
      have hc : (midi_vw_reset_statistics s).2.device_count = s.device_count := by
        unfold midi_vw_reset_statistics
        have h0 : ¬ ((!s.initialized) = true) := by simp [hinit]
        rw [if_neg h0]
      refine devices_same_of_slots s _ (by rw [hc]) (fun k hk => ?_) (fun k => ?_)
      · rw [hat k, if_pos hk]
        rfl
      · unfold tx_count
        rw [hat k]
        split_ifs <;> rfl
    · unfold midi_vw_reset_statistics
      simp only [Bool.not_eq_true] at hinit
      simp only [hinit, Bool.not_false, if_true]
      exact devices_same_refl s
/-- One call in the lifetime of a registered device `d`: the device stays
registered and its outbound buffer gains exactly the successful sends to `d`
the call makes. -/
theorem api_step_exact (d : Nat) (s : midi_vw_system_t) (c : api_call)
    (hs : api_invariant s) (hu : registered_when_initialized s)
    (hfound : midi_vw_find_device s d < MIDI_VW_MAX_DEVICES)
    (hk : ends_registration d c = false) :
    midi_vw_find_device (api_step s c) d < MIDI_VW_MAX_DEVICES ∧
    device_tx_count (api_step s c) d = device_tx_count s d + call_sends d s c := by
  have hinit : s.initialized = true := by
    by_cases h : s.initialized = true
    · exact h
    · have h0 := hu (by simpa using h)
      have := find_device_in_use s d hfound
      omega
  have quiet : devices_same s (api_step s c) → call_sends d s c = 0 →
      midi_vw_find_device (api_step s c) d < MIDI_VW_MAX_DEVICES ∧
      device_tx_count (api_step s c) d = device_tx_count s d + call_sends d s c := by
    intro h h0
    have e := h.1 d hfound
    refine ⟨by rw [e]; exact hfound, ?_⟩
    unfold device_tx_count
    rw [e, h.2, h0]
    rfl
  cases c with
  | init cb =>
    have e : api_step s (.init cb) = s := by
      show (midi_vw_init s cb).2 = s
      unfold midi_vw_init
      rw [if_pos hinit]
    rw [e]
    exact ⟨hfound, rfl⟩
  | deinit => cases hk
  | unregister_device d' =>
    have hne : d' ≠ d := by
      intro h
      subst h
      simp [ends_registration] at hk
    obtain ⟨x1, x2⟩ := unregister_other_device s d d' hs.1 hfound hne
    refine ⟨x1, ?_⟩
    show tx_count (midi_vw_unregister_device s d').2
      (midi_vw_find_device (midi_vw_unregister_device s d').2 d) = _
    unfold tx_count
    rw [x2]
    rfl
  | send_message d' m =>
    obtain ⟨x1, x2⟩ := send_message_exact s d' d m hs.1.1 hfound
    have e : midi_vw_find_device (api_step s (.send_message d' m)) d =
        midi_vw_find_device s d := x1
    refine ⟨by rw [e]; exact hfound, ?_⟩
    show tx_count (midi_vw_send_message s d' m).2
      (midi_vw_find_device (midi_vw_send_message s d' m).2 d) = _
    rw [x1, x2]
    rfl
  | inject_message a m =>
    show midi_vw_find_device (midi_vw_inject_message s a m).2.2 d < MIDI_VW_MAX_DEVICES ∧
      tx_count (midi_vw_inject_message s a m).2.2
        (midi_vw_find_device (midi_vw_inject_message s a m).2.2 d) =
      tx_count s (midi_vw_find_device s d) +
        (if !s.initialized then 0 else if !s.running then 0
          else route_message_sends d s a { m with timestamp := midi_vw_get_time s })
    unfold midi_vw_inject_message
    have h0 : ¬ ((!s.initialized) = true) := by simp [hinit]
    rw [if_neg h0, if_neg h0]
    by_cases hrun : (!s.running) = true
    · rw [if_pos hrun, if_pos hrun]
      exact ⟨hfound, rfl⟩
    · rw [if_neg hrun, if_neg hrun]
      obtain ⟨x1, x2⟩ := route_message_sends_exact d s a
        { m with timestamp := midi_vw_get_time s } hs.1.1 hfound
      simp only []
      rw [x1, x2]
      exact ⟨hfound, rfl⟩
  | process_messages =>
    refine quiet (api_step_same s _ hs (fun _ => nofun) nofun (fun _ => nofun)
      (fun _ _ => nofun) (fun _ _ => nofun)) ?_
    show (if !s.initialized || !s.running then 0
      else process_loop_sends d (process_tick s).device_count 0 (process_tick s)) = 0
    split_ifs
    · rfl
    · exact process_loop_sends_idle d _ 0 _ hs.1.2.2.2.1
  | start => exact quiet (api_step_same s _ hs (fun _ => nofun) nofun (fun _ => nofun)
      (fun _ _ => nofun) (fun _ _ => nofun)) rfl
  | stop => exact quiet (api_step_same s _ hs (fun _ => nofun) nofun (fun _ => nofun)
      (fun _ _ => nofun) (fun _ _ => nofun)) rfl
  | register_device name i o =>
    exact quiet (api_step_same s _ hs (fun _ => nofun) nofun (fun _ => nofun)
      (fun _ _ => nofun) (fun _ _ => nofun)) rfl
  | set_device_state d' v =>
    exact quiet (api_step_same s _ hs (fun _ => nofun) nofun (fun _ => nofun)
      (fun _ _ => nofun) (fun _ _ => nofun)) rfl
  | create_connection a b c e f =>
    exact quiet (api_step_same s _ hs (fun _ => nofun) nofun (fun _ => nofun)
      (fun _ _ => nofun) (fun _ _ => nofun)) rfl
  | remove_connection id =>
    exact quiet (api_step_same s _ hs (fun _ => nofun) nofun (fun _ => nofun)
      (fun _ _ => nofun) (fun _ _ => nofun)) rfl
  | enable_connection id b =>
    exact quiet (api_step_same s _ hs (fun _ => nofun) nofun (fun _ => nofun)
      (fun _ _ => nofun) (fun _ _ => nofun)) rfl
  | connect_all_to_all =>
    exact quiet (api_step_same s _ hs (fun _ => nofun) nofun (fun _ => nofun)
      (fun _ _ => nofun) (fun _ _ => nofun)) rfl
  | disconnect_all =>
    exact quiet (api_step_same s _ hs (fun _ => nofun) nofun (fun _ => nofun)
      (fun _ _ => nofun) (fun _ _ => nofun)) rfl
  | receive_message d' =>
    exact quiet (api_step_same s _ hs (fun _ => nofun) nofun (fun _ => nofun)
      (fun _ _ => nofun) (fun _ _ => nofun)) rfl
  | reset_statistics =>
    exact quiet (api_step_same s _ hs (fun _ => nofun) nofun (fun _ => nofun)
      (fun _ _ => nofun) (fun _ _ => nofun)) rfl

/-- Over the lifetime of a registered device `d` the device stays registered
and its outbound buffer holds what it held plus every successful send to `d`. -/
theorem api_run_exact (d : Nat) (calls : List api_call) :
    ∀ s : midi_vw_system_t, api_invariant s → registered_when_initialized s →
      midi_vw_find_device s d < MIDI_VW_MAX_DEVICES →
      (∀ c ∈ calls, ends_registration d c = false) →
      midi_vw_find_device (api_run calls s) d < MIDI_VW_MAX_DEVICES ∧
      device_tx_count (api_run calls s) d = device_tx_count s d + run_sends d calls s := by
  induction calls with
  | nil => intro s _ _ hfound _; exact ⟨hfound, rfl⟩
  | cons c calls ih =>
    intro s hs hu hfound hk
    obtain ⟨x1, x2⟩ := api_step_exact d s c hs hu hfound (hk c (List.mem_cons_self _ _))
    obtain ⟨y1, y2⟩ := ih (api_step s c) (api_step_invariant s c hs)
      (api_step_registered_when_initialized s c hs hu) x1
      (fun c' hc' => hk c' (List.mem_cons_of_mem _ hc'))
    rw [api_run_cons]
    refine ⟨y1, ?_⟩
    rw [y2, x2]
    show _ = _ + (call_sends d s c + run_sends d calls (api_step s c))
    omega

theorem api_run_append (calls1 calls2 : List api_call) (s : midi_vw_system_t) :
    api_run (calls1 ++ calls2) s = api_run calls2 (api_run calls1 s) := by
  unfold api_run
  rw [List.foldl_append]

theorem api_reachable_run (s : midi_vw_system_t) (calls : List api_call)
    (h : api_reachable s) : api_reachable (api_run calls s) := by
  obtain ⟨calls0, rfl⟩ := h
  exact ⟨calls0 ++ calls, api_run_append calls0 calls _⟩

/-! ## The claims -/

/-- Claim C1, a defect of the code: unregistering a device does not remove every
connection that references it.  In `two_way_setup` the two connections 1 → 2
and 2 → 1 both reference device 1 and sit in adjacent slots.  The loop of
`midi_vw_unregister_device` removes the first one, which shifts the second
into the slot just visited, and then advances its index past it: the call
succeeds, `connection_count` drops from 2 to 1 only, and the surviving
connection still has `dest_device_id = 1`. -/
theorem C1_unregister_leaves_connection :
    two_way_setup.connection_count = 2 ∧
    (connection_at two_way_setup 0).source_device_id = 1 ∧
    (connection_at two_way_setup 1).dest_device_id = 1 ∧
    midi_vw_find_device two_way_setup 1 < MIDI_VW_MAX_DEVICES ∧
    (midi_vw_unregister_device two_way_setup 1).1 = MIDI_VW_SUCCESS ∧
    (midi_vw_unregister_device two_way_setup 1).2.connection_count = 1 ∧
    (connection_at (midi_vw_unregister_device two_way_setup 1).2 0).source_device_id = 2 ∧
    (connection_at (midi_vw_unregister_device two_way_setup 1).2 0).dest_device_id = 1 ∧
    midi_vw_find_device (midi_vw_unregister_device two_way_setup 1).2 1 = MIDI_VW_MAX_DEVICES := by
  decide

/-- Claim C2 as stated fails in the scenario of `test_main.c`, for the Note-On
message and for the Control-Change message alike: after the injection from A
and one call of `midi_vw_process_messages`, B's `messages_received` is still 0
and the only callbacks that fired are the two device-state callbacks of the
registrations and the filter callback; the message-arrival callback did not
fire. -/
theorem C2_no_arrival_counterexample :
    (end_to_end_setup (some test_callbacks) [65] [66]).running = true ∧
    (port_at (end_to_end_setup (some test_callbacks) [65] [66]) 0).device.device_id = 1 ∧
    (port_at (end_to_end_setup (some test_callbacks) [65] [66]) 0).device.is_input = true ∧
    midi_vw_get_connection_count (end_to_end_setup (some test_callbacks) [65] [66]) = 1 ∧
    connection_at (end_to_end_setup (some test_callbacks) [65] [66]) 0 =
      { connection_id := 1, source_device_id := 1, dest_device_id := 2, source_channel := 0xFF,
        dest_channel := 0xFF, filter := MIDI_VW_FILTER_NONE, enabled := true,
        messages_routed := 0, messages_filtered := 0 } ∧
    (port_at (end_to_end_setup (some test_callbacks) [65] [66]) 1).device.device_id = 2 ∧
    (port_at (end_to_end_setup (some test_callbacks) [65] [66]) 1).device.is_output = true ∧
    (port_at (end_to_end_setup (some test_callbacks) [65] [66]) 1).device.messages_received = 0 ∧
    (port_at (end_to_end (some test_callbacks) [65] [66] note_on_message) 1).device.messages_received
      = 0 ∧
    (end_to_end (some test_callbacks) [65] [66] note_on_message).trace =
      [.device_event 1 MIDI_VW_DEVICE_STATE_CONNECTED,
        .device_event 2 MIDI_VW_DEVICE_STATE_CONNECTED,
        .filter_event 1 2 note_on_message] ∧
    (port_at (end_to_end (some test_callbacks) [65] [66] control_change_message) 1).device.messages_received
      = 0 ∧
    (end_to_end (some test_callbacks) [65] [66] control_change_message).trace =
      [.device_event 1 MIDI_VW_DEVICE_STATE_CONNECTED,
        .device_event 2 MIDI_VW_DEVICE_STATE_CONNECTED,
        .filter_event 1 2 control_change_message] := by
  decide

/-- Claim C2 as amended.  In a started system in which no inbound message is
pending for any device other than B, let the connection in slot `i` be the
only enabled connection leaving A, lead to B, carry filter NONE and not remap the channel; let B be registered
(slot `j`), active, output-capable but not input-capable, with room in its
delivery buffer; let no filter callback veto.  Then injecting `m` from A
succeeds and stamps the caller's message with the clock; the routing pass is
exactly one successful `midi_vw_send_message` to B of that stamped message
(status, data and length untouched) followed by the increment of the
connection's `messages_routed`; and after one call of
`midi_vw_process_messages`, which drains input-capable devices only, B's
`messages_sent` and the connection's `messages_routed` have grown by exactly 1,
B's `messages_received` is unchanged, and no message-arrival callback has
fired: the trace has grown by the consultation of the filter callback alone. -/
theorem C2_inject_then_process (s : midi_vw_system_t) (a b i j : Nat) (m : midi_message_t)
    (hinit : s.initialized = true) (hrun : s.running = true)
    (hplen : s.ports.length = MIDI_VW_MAX_DEVICES)
    (hclen : s.connections.length = MIDI_VW_MAX_CONNECTIONS)
    (hcc : s.connection_count ≤ MIDI_VW_MAX_CONNECTIONS)
    (hi : i < s.connection_count)
    (hen : (connection_at s i).enabled = true)
    (hsrc : (connection_at s i).source_device_id = a)
    (hdst : (connection_at s i).dest_device_id = b)
    (hfil : (connection_at s i).filter = MIDI_VW_FILTER_NONE)
    (hdc : (connection_at s i).dest_channel = 0xFF)
    (hone : ∀ k, k < s.connection_count → k ≠ i →
      ¬ ((connection_at s k).enabled = true ∧ (connection_at s k).source_device_id = a))
    (hj : midi_vw_find_device s b = j) (hj8 : j < MIDI_VW_MAX_DEVICES)
    (hact : (port_at s j).active = true) (hout : (port_at s j).device.is_output = true)
    (hin : (port_at s j).device.is_input = false)
    (hroom : (port_at s j).tx_buffer.count < MIDI_VW_MESSAGE_BUFFER_SIZE)
    (hrx : ∀ k, k < s.device_count → k ≠ j → (port_at s k).rx_buffer.count = 0)
    (hv : ∀ f, s.callbacks.filter_callback = some f → ∀ x y z, f x y z = true) :
    (midi_vw_inject_message s a m).1 = MIDI_VW_SUCCESS ∧
    (midi_vw_inject_message s a m).2.1 = { m with timestamp := s.system_time } ∧
    (midi_vw_send_message
        (after_filter_callback (route_count_message s) a i { m with timestamp := s.system_time })
        b { m with timestamp := s.system_time }).1 = MIDI_VW_SUCCESS ∧
    (midi_vw_inject_message s a m).2.2 =
      route_count_routed i
        (midi_vw_send_message
          (after_filter_callback (route_count_message s) a i { m with timestamp := s.system_time })
          b { m with timestamp := s.system_time }).2 ∧
    (midi_vw_process_messages (midi_vw_inject_message s a m).2.2).1 = MIDI_VW_SUCCESS ∧
    (connection_at (midi_vw_process_messages (midi_vw_inject_message s a m).2.2).2 i).messages_routed =
      ((connection_at s i).messages_routed + 1) % U32 ∧
    (port_at (midi_vw_process_messages (midi_vw_inject_message s a m).2.2).2 j).device.messages_sent =
      ((port_at s j).device.messages_sent + 1) % U32 ∧
    (port_at (midi_vw_process_messages (midi_vw_inject_message s a m).2.2).2 j).device.messages_received =
      (port_at s j).device.messages_received ∧
    (midi_vw_process_messages (midi_vw_inject_message s a m).2.2).2.trace =
      s.trace ++ (match s.callbacks.filter_callback with
        | some _ => [midi_vw_event.filter_event a b { m with timestamp := s.system_time }]
        | none => []) := by
  have hil : i < s.connections.length := by rw [hclen]; omega
  have hjl : j < s.ports.length := by rw [hplen]; exact hj8
  have hf : midi_vw_should_filter_message (connection_at s i)
      { m with timestamp := midi_vw_get_time s } = false := by
    simp [midi_vw_should_filter_message, hfil]
  have hsend : (midi_vw_send_message
      (after_filter_callback (route_count_message s) a i { m with timestamp := s.system_time })
      b { m with timestamp := s.system_time }).1 = MIDI_VW_SUCCESS := by
    cases hcb : s.callbacks.filter_callback with
    | none =>
      rw [after_filter_callback_none (route_count_message s) a i _ hcb,
        send_message_ok (route_count_message s) b j _ hinit
          (by rw [← hj]; exact find_device_congr _ _ _ rfl rfl) hj8 hout hroom]
    | some f =>
      rw [after_filter_callback_some (route_count_message s) a i _ f hcb,
        send_message_ok (log_event (route_count_message s) _) b j _ hinit
          (by rw [← hj]; exact find_device_congr _ _ _ rfl rfl) hj8 hout hroom]
  rw [inject_single_delivery s a i j m hinit hrun hi hen hsrc hf hone (by rw [hdst]; exact hj)
    hj8 hact hout hroom hv]
  simp only []
  rw [process_after_delivery s a i j _ hinit hrun hil (fun k hk => by
    by_cases hkj : k = j
    · subst hkj; exact Or.inl hin
    · exact Or.inr (hrx k hk hkj))]
  obtain ⟨_, _, _, _, _, _, _, _, h9, h10, h11⟩ :=
    delivered_state_fields s a i j { m with timestamp := midi_vw_get_time s } hil
  refine ⟨trivial, rfl, hsend, ?_, rfl, ?_, ?_, ?_, ?_⟩
  · exact delivered_state_eq_send s a b i j _ hinit hdc hj hj8 hout hroom
  · show (connection_at (delivered_state s a i j _) i).messages_routed = _
    rw [h10]
  · show ((delivered_state s a i j _).ports.getD j midi_vw_port_zero).device.messages_sent = _
    rw [h9, getD_set_self _ _ _ _ hjl]
    rfl
  · show ((delivered_state s a i j _).ports.getD j midi_vw_port_zero).device.messages_received = _
    rw [h9, getD_set_self _ _ _ _ hjl]
    rfl
  · show (delivered_state s a i j _).trace = _
    rw [h11, hdst]
    rfl

/-- The amended claim C2 applied to the set-up of `test_main.c` (without
callbacks) and its Note-On message. -/
theorem C2_inject_then_process_witness :
    (midi_vw_inject_message (end_to_end_setup none [65] [66]) 1 note_on_message).1 =
      MIDI_VW_SUCCESS ∧
    (connection_at (midi_vw_process_messages
      (midi_vw_inject_message (end_to_end_setup none [65] [66]) 1 note_on_message).2.2).2
        0).messages_routed = 1 ∧
    (port_at (midi_vw_process_messages
      (midi_vw_inject_message (end_to_end_setup none [65] [66]) 1 note_on_message).2.2).2
        1).device.messages_sent = 1 ∧
    (port_at (midi_vw_process_messages
      (midi_vw_inject_message (end_to_end_setup none [65] [66]) 1 note_on_message).2.2).2
        1).device.messages_received = 0 :=
  have h := C2_inject_then_process (end_to_end_setup none [65] [66]) 1 2 0 1 note_on_message
    (by decide) (by decide) (by decide) (by decide) (by decide) (by decide) (by decide)
    (by decide) (by decide) (by decide) (by decide)
    (fun k hk hne => by
      have hc : (end_to_end_setup none [65] [66]).connection_count = 1 := by decide
      omega)
    (by decide) (by decide) (by decide) (by decide) (by decide) (by decide)
    (fun k hk hne => by
      have hc : (end_to_end_setup none [65] [66]).device_count = 2 := by decide
      have hk2 : k = 0 := by omega
      subst hk2
      decide)
    (fun f hf => by
      have hc : (end_to_end_setup none [65] [66]).callbacks.filter_callback = none := rfl
      rw [hc] at hf
      cases hf)
  ⟨h.1, h.2.2.2.2.2.1, h.2.2.2.2.2.2.1, h.2.2.2.2.2.2.2.1⟩

/-- Claim C3, a defect of the code: `midi_vw_send_message` puts the message
into the device's `tx_buffer`, whereas `midi_vw_get_pending_count`,
`midi_vw_has_pending_messages` and `midi_vw_receive_message` all read the
`rx_buffer`.  For a registered output-capable device with empty buffers the
send succeeds, yet the pending count stays 0, nothing is reported pending and
the receive returns `MIDI_VW_ERROR_NO_DATA`; the message sits in `tx_buffer`. -/
theorem C3_send_not_pending :
    midi_vw_find_device output_only_setup 1 = 0 ∧
    (port_at output_only_setup 0).device.is_output = true ∧
    (port_at output_only_setup 0).tx_buffer.count = 0 ∧
    (port_at output_only_setup 0).rx_buffer.count = 0 ∧
    midi_vw_get_pending_count output_only_setup 1 = 0 ∧
    (midi_vw_send_message output_only_setup 1 control_change_message).1 = MIDI_VW_SUCCESS ∧
    midi_vw_get_pending_count
      (midi_vw_send_message output_only_setup 1 control_change_message).2 1 = 0 ∧
    midi_vw_has_pending_messages
      (midi_vw_send_message output_only_setup 1 control_change_message).2 1 = false ∧
    (midi_vw_receive_message
      (midi_vw_send_message output_only_setup 1 control_change_message).2 1).1 =
        MIDI_VW_ERROR_NO_DATA ∧
    (midi_vw_receive_message
      (midi_vw_send_message output_only_setup 1 control_change_message).2 1).2.1 = none ∧
    (port_at (midi_vw_send_message output_only_setup 1 control_change_message).2 0).tx_buffer.count
      = 1 ∧
    (port_at (midi_vw_send_message output_only_setup 1 control_change_message).2
      0).tx_buffer.messages.getD 0 midi_message_zero = control_change_message := by
  decide

/-- Claim C4: in the end-to-end scenario (fresh init and start, A registered
input-only, B output-only, one connection A → B on channels 0xFF with filter
NONE, one message injected from A, one call of `midi_vw_process_messages`),
whatever the callbacks registered, as long as no filter callback vetoes, and
whatever the device names and the message injected (the Control-Change
`0xB0 [7, 100]` in particular), `midi_vw_get_statistics` reports
`total_messages = 1`, `total_errors = 0`, `total_filtered = 0`, and the one
connection, of id 1, has `messages_routed = 1`. -/
theorem C4_end_to_end_statistics (callbacks : Option midi_vw_callbacks_t)
    (name_a name_b : List Nat) (message : midi_message_t)
    (hv : ∀ cb f, callbacks = some cb → cb.filter_callback = some f → ∀ x y z, f x y z = true) :
    midi_vw_get_statistics (end_to_end callbacks name_a name_b message) =
      (MIDI_VW_SUCCESS, some (1, 0, 0)) ∧
    midi_vw_get_connection_count (end_to_end callbacks name_a name_b message) = 1 ∧
    (midi_vw_get_connection_info (end_to_end callbacks name_a name_b message) 1).1 =
      MIDI_VW_SUCCESS ∧
    (midi_vw_get_connection_info (end_to_end callbacks name_a name_b message) 1).2.map
      (fun c => (c.source_device_id, c.dest_device_id, c.messages_routed)) = some (1, 2, 1) := by
  rw [end_to_end_eq callbacks name_a name_b message hv]
  obtain ⟨h1, _, _, h4, _, h6, h7, h8, _, h10, _⟩ :=
    delivered_state_fields
      (end_to_end_setup_state (callbacks.getD midi_vw_callbacks_zero) name_a name_b)
      1 0 1 { message with timestamp := 0 } (Nat.succ_pos 15)
  obtain ⟨final, hfinal⟩ : ∃ f, f = process_tick (delivered_state
      (end_to_end_setup_state (callbacks.getD midi_vw_callbacks_zero) name_a name_b)
      1 0 1 { message with timestamp := 0 }) := ⟨_, rfl⟩
  rw [← hfinal]
  have hi : final.initialized = true := by rw [hfinal]; exact h1
  have hcc : final.connection_count = 1 := by rw [hfinal]; exact h4
  have htm : final.total_messages = 1 := by rw [hfinal]; exact h6
  have hte : final.total_errors = 0 := by rw [hfinal]; exact h7
  have htf : final.total_filtered = 0 := by rw [hfinal]; exact h8
  have hc0 : connection_at final 0 =
      { midi_vw_connection_zero with
        connection_id := 1, source_device_id := 1, dest_device_id := 2,
        source_channel := 0xFF, dest_channel := 0xFF, enabled := true, messages_routed := 1 } := by
    rw [hfinal]; exact h10
  have hslot : midi_vw_find_connection final 1 = 0 := by
    simp [midi_vw_find_connection, hcc, find_connection_loop, hc0]
  refine ⟨?_, hcc, ?_, ?_⟩
  · simp [midi_vw_get_statistics, hi, htm, hte, htf]
  · simp [midi_vw_get_connection_info, hi, hslot]
  · simp [midi_vw_get_connection_info, hi, hslot, hc0]

/-- Claim C4 at the scenario of the specification: the callbacks of
`test_main.c` and the Control-Change message `0xB0 [7, 100]`. -/
theorem C4_end_to_end_statistics_witness :
    midi_vw_get_statistics (end_to_end (some test_callbacks) [65] [66] control_change_message) =
      (MIDI_VW_SUCCESS, some (1, 0, 0)) ∧
    (midi_vw_get_connection_info
      (end_to_end (some test_callbacks) [65] [66] control_change_message) 1).2.map
      (fun c => (c.source_device_id, c.dest_device_id, c.messages_routed)) = some (1, 2, 1) :=
  have h := C4_end_to_end_statistics (some test_callbacks) [65] [66] control_change_message
    (fun cb f hcb hf x y z => by
      cases hcb
      cases hf
      rfl)
  ⟨h.1, h.2.2.2⟩

/-- Claim C5, a defect of the code: `next_device_id` is a `uint8_t` that is only
ever incremented, so it wraps from 255 to 0 and hands out ids that are still in
use.  Register one device (it gets id 1) and keep it registered; register and
unregister a second device 255 times (it gets the ids 2, ..., 255, 0); the
257th registration then succeeds and returns id 1 again, and
`midi_vw_list_devices` lists two registered devices with id 1. -/
theorem C5_device_id_reused_after_wrap :
    one_device_setup.device_count = 1 ∧ (port_at one_device_setup 0).device.device_id = 1 ∧
    (midi_vw_register_device (churn 255 one_device_setup) [66] true true).1 = MIDI_VW_SUCCESS ∧
    (midi_vw_register_device (churn 255 one_device_setup) [66] true true).2.1 = some 1 ∧
    midi_vw_list_devices (midi_vw_register_device (churn 255 one_device_setup) [66] true true).2.2 8 =
      (MIDI_VW_SUCCESS, [1, 1]) := by
  have h : churn 255 one_device_setup = churn_state 1 := by
    have := churn_state_iterate 255 2 (by omega) (by omega)
    simpa [one_device_setup_eq] using this
  rw [h]
  decide

/-- Claim C6: after a successful `midi_vw_init`, whatever the sequence of
`midi_vw_register_device` and `midi_vw_unregister_device` calls,
`midi_vw_get_device_count` plus the number of successful unregistrations
equals the number of successful registrations, `midi_vw_list_devices` with
room for 8 ids succeeds and returns exactly `device_count` ids, and
`device_count` is at most 8. -/
theorem C6_device_count_tracks_registry (s0 : midi_vw_system_t)
    (callbacks : Option midi_vw_callbacks_t) (calls : List registry_call)
    (h0 : (midi_vw_init s0 callbacks).1 = MIDI_VW_SUCCESS) :
    midi_vw_get_device_count (registry_calls (midi_vw_init s0 callbacks).2 calls).state +
        (registry_calls (midi_vw_init s0 callbacks).2 calls).unregistered =
      (registry_calls (midi_vw_init s0 callbacks).2 calls).registered ∧
    (midi_vw_list_devices (registry_calls (midi_vw_init s0 callbacks).2 calls).state
        MIDI_VW_MAX_DEVICES).1 = MIDI_VW_SUCCESS ∧
    (midi_vw_list_devices (registry_calls (midi_vw_init s0 callbacks).2 calls).state
        MIDI_VW_MAX_DEVICES).2.length =
      midi_vw_get_device_count (registry_calls (midi_vw_init s0 callbacks).2 calls).state ∧
    midi_vw_get_device_count (registry_calls (midi_vw_init s0 callbacks).2 calls).state ≤
      MIDI_VW_MAX_DEVICES := by
  have hs0 : s0.initialized = false := by
    cases h : s0.initialized
    · rfl
    · simp [midi_vw_init, h] at h0
  have hinit : (midi_vw_init s0 callbacks).2.initialized = true := by
    simp [midi_vw_init, hs0]
  have hdc : (midi_vw_init s0 callbacks).2.device_count = 0 := by
    simp [midi_vw_init, hs0, midi_vw_system_zero]
  obtain ⟨h1, h2, h3⟩ := registry_calls_invariant calls
    { state := (midi_vw_init s0 callbacks).2, registered := 0, unregistered := 0 }
    hinit (by simp [hdc]) (by simp [hdc])
  refine ⟨h3, ?_, ?_, h2⟩
  · unfold midi_vw_list_devices registry_calls
    simp [h1]
  · unfold midi_vw_list_devices registry_calls midi_vw_get_device_count
    simp only [h1, Bool.not_true, Bool.false_eq_true, if_false]
    rw [list_devices_loop_length _ _ _ _ _ (by simp)]
    simp only [List.length_nil, Nat.zero_add]
    exact Nat.min_eq_left h2

/-- Claim C6 on a sequence of five calls, four of which succeed. -/
theorem C6_device_count_tracks_registry_witness :
    (midi_vw_init midi_vw_system_zero none).1 = MIDI_VW_SUCCESS ∧
    (registry_calls (midi_vw_init midi_vw_system_zero none).2
      [.register [65] true false, .register [66] false true, .unregister 1, .unregister 7,
        .register [67] true true]).registered = 3 ∧
    (registry_calls (midi_vw_init midi_vw_system_zero none).2
      [.register [65] true false, .register [66] false true, .unregister 1, .unregister 7,
        .register [67] true true]).unregistered = 1 ∧
    midi_vw_get_device_count (registry_calls (midi_vw_init midi_vw_system_zero none).2
      [.register [65] true false, .register [66] false true, .unregister 1, .unregister 7,
        .register [67] true true]).state + 1 = 3 :=
  have h := C6_device_count_tracks_registry midi_vw_system_zero none
    [.register [65] true false, .register [66] false true, .unregister 1, .unregister 7,
      .register [67] true true] (by decide)
  ⟨by decide, by decide, by decide, h.1⟩

/-- Claim C7 as stated fails when the connection table is full: in
`full_table_setup` the table holds 16 connections, the first of which has the
tuple (1, 2, 0, 0xFF); `midi_vw_create_connection` with that tuple returns
`MIDI_VW_ERROR_MAX_CONNECTIONS_REACHED`, not `MIDI_VW_ERROR_CONNECTION_EXISTS`,
because the capacity check comes first. -/
theorem C7_full_table_counterexample :
    full_table_setup.initialized = true ∧
    full_table_setup.connection_count = 16 ∧
    (connection_at full_table_setup 0).source_device_id = 1 ∧
    (connection_at full_table_setup 0).dest_device_id = 2 ∧
    (connection_at full_table_setup 0).source_channel = 0 ∧
    (connection_at full_table_setup 0).dest_channel = 0xFF ∧
    (midi_vw_create_connection full_table_setup 1 2 0 0xFF 0).1 =
      MIDI_VW_ERROR_MAX_CONNECTIONS_REACHED ∧
    (midi_vw_create_connection full_table_setup 1 2 0 0xFF 0).1 ≠
      MIDI_VW_ERROR_CONNECTION_EXISTS := by
  decide

/-- Claim C7 as amended: when the table already holds a connection with the
tuple (src, dst, src_channel, dst_channel), `midi_vw_create_connection` with
that tuple and any filter fails, writes no connection id and leaves the whole
state unchanged (`connection_count`, the table and the next connection id in
particular).  The status is `MIDI_VW_ERROR_MAX_CONNECTIONS_REACHED` when the
table holds 16 connections, otherwise `MIDI_VW_ERROR_DEVICE_NOT_FOUND` when
one of the two devices is no longer registered, and
`MIDI_VW_ERROR_CONNECTION_EXISTS` in the remaining case. -/
theorem C7_duplicate_connection_rejected (s : midi_vw_system_t)
    (src dst src_ch dst_ch filter k : Nat)
    (hinit : s.initialized = true) (hk : k < s.connection_count)
    (hsrc : (connection_at s k).source_device_id = src)
    (hdst : (connection_at s k).dest_device_id = dst)
    (hsc : (connection_at s k).source_channel = src_ch)
    (hdc : (connection_at s k).dest_channel = dst_ch) :
    (midi_vw_create_connection s src dst src_ch dst_ch filter).1 ≠ MIDI_VW_SUCCESS ∧
    (midi_vw_create_connection s src dst src_ch dst_ch filter).2.1 = none ∧
    (midi_vw_create_connection s src dst src_ch dst_ch filter).2.2 = s ∧
    (midi_vw_create_connection s src dst src_ch dst_ch filter).1 =
      (if s.connection_count ≥ MIDI_VW_MAX_CONNECTIONS then MIDI_VW_ERROR_MAX_CONNECTIONS_REACHED
       else if midi_vw_find_device s src ≥ MIDI_VW_MAX_DEVICES ∨
          midi_vw_find_device s dst ≥ MIDI_VW_MAX_DEVICES then MIDI_VW_ERROR_DEVICE_NOT_FOUND
       else MIDI_VW_ERROR_CONNECTION_EXISTS) := by
  have hex := connection_exists_loop_found s src dst src_ch dst_ch s.connection_count 0 k
    (Nat.zero_le _) (by omega) hsrc hdst hsc hdc
  unfold midi_vw_create_connection
  simp only [hinit, hex, Bool.not_true, Bool.false_eq_true, if_false, if_true]
  split_ifs <;> simp

/-- The amended claim C7 at `two_way_setup`, whose table holds the tuple
(1, 2, 0xFF, 0xFF) and is not full: the status is
`MIDI_VW_ERROR_CONNECTION_EXISTS`. -/
theorem C7_duplicate_connection_rejected_witness :
    (midi_vw_create_connection two_way_setup 1 2 0xFF 0xFF MIDI_VW_FILTER_NOTE).1 =
      MIDI_VW_ERROR_CONNECTION_EXISTS ∧
    (midi_vw_create_connection two_way_setup 1 2 0xFF 0xFF MIDI_VW_FILTER_NOTE).2.2.connection_count
      = 2 :=
  have h := C7_duplicate_connection_rejected two_way_setup 1 2 0xFF 0xFF MIDI_VW_FILTER_NOTE 0
    (by decide) (by decide) (by decide) (by decide) (by decide) (by decide)
  ⟨h.2.2.2.trans (by decide), by rw [h.2.2.1]; decide⟩

/-- Claim C8, the ring-buffer round trip: starting from an empty buffer
(`count = 0`, `head = tail` anywhere in 0..127), putting the messages of any
list of length at most 128 succeeds every time, and as many gets then return
exactly those messages, in the order they were put, each with status
`MIDI_VW_SUCCESS`; the buffer ends up empty, with `head = tail`. -/
theorem C8_ring_buffer_round_trip (b : midi_vw_message_buffer_t) (ms : List midi_message_t)
    (hc : b.count = 0) (hht : b.head = b.tail) (hh : b.head < MIDI_VW_MESSAGE_BUFFER_SIZE)
    (hlen : b.messages.length = MIDI_VW_MESSAGE_BUFFER_SIZE)
    (hN : ms.length ≤ MIDI_VW_MESSAGE_BUFFER_SIZE) :
    (buffer_put_all b ms).1 = List.replicate ms.length MIDI_VW_SUCCESS ∧
    (buffer_get_n ms.length (buffer_put_all b ms).2).1 =
      ms.map (fun m => (MIDI_VW_SUCCESS, some m)) ∧
    midi_vw_buffer_is_empty (buffer_get_n ms.length (buffer_put_all b ms).2).2 = true ∧
    (buffer_get_n ms.length (buffer_put_all b ms).2).2.head =
      (buffer_get_n ms.length (buffer_put_all b ms).2).2.tail := by
  obtain ⟨h1, h2⟩ := ring_holds_put_all ms b [] (ring_holds_empty b hc hht hh hlen)
    (by simpa using hN)
  simp only [List.nil_append] at h2
  obtain ⟨h3, h4⟩ := ring_holds_get_n ms _ h2
  obtain ⟨_, h5, h6, _, h7, _⟩ := h4
  refine ⟨h1, h3, ?_, ?_⟩
  · simpa [midi_vw_buffer_is_empty] using h6
  · rw [h7]; simp only [List.length_nil, Nat.add_zero]; exact Nat.mod_eq_of_lt h5

/-- Claim C8 on three messages put into a buffer whose indices wrap around. -/
theorem C8_ring_buffer_round_trip_witness :
    (buffer_get_n 3 (buffer_put_all empty_buffer_example
      [note_on_message, control_change_message, note_off_message]).2).1 =
      [(MIDI_VW_SUCCESS, some note_on_message), (MIDI_VW_SUCCESS, some control_change_message),
        (MIDI_VW_SUCCESS, some note_off_message)] :=
  (C8_ring_buffer_round_trip empty_buffer_example
    [note_on_message, control_change_message, note_off_message]
    (by decide) (by decide) (by decide)
    (by simp [empty_buffer_example, midi_vw_message_buffer_zero]) (by decide)).2.1

/-- Claim C9: on a buffer holding 128 messages `midi_vw_buffer_put` returns
`MIDI_VW_ERROR_BUFFER_FULL` and changes nothing but `overruns`, which grows by
exactly 1 (modulo 2^32): `head`, `tail`, `count` and the stored messages are
unchanged, and any number of gets returns the same statuses and messages as
it would have returned before the failed put. -/
theorem C9_put_on_full_buffer (b : midi_vw_message_buffer_t) (m : midi_message_t)
    (hfull : b.count = MIDI_VW_MESSAGE_BUFFER_SIZE) :
    midi_vw_buffer_is_full b = true ∧
    midi_vw_buffer_put b m =
      (MIDI_VW_ERROR_BUFFER_FULL, { b with overruns := (b.overruns + 1) % U32 }) ∧
    (midi_vw_buffer_put b m).2.head = b.head ∧
    (midi_vw_buffer_put b m).2.tail = b.tail ∧
    (midi_vw_buffer_put b m).2.count = b.count ∧
    (midi_vw_buffer_put b m).2.messages = b.messages ∧
    ∀ n, (buffer_get_n n (midi_vw_buffer_put b m).2).1 = (buffer_get_n n b).1 := by
  have hf : midi_vw_buffer_is_full b = true := by
    simp [midi_vw_buffer_is_full, hfull]
  have hp : midi_vw_buffer_put b m =
      (MIDI_VW_ERROR_BUFFER_FULL, { b with overruns := (b.overruns + 1) % U32 }) := by
    simp only [midi_vw_buffer_put, hf, if_true]
  rw [hp]
  exact ⟨hf, rfl, rfl, rfl, rfl, rfl, fun n => buffer_get_n_overruns n b _⟩

/-- Claim C9 on a full buffer whose indices stand at position 5. -/
theorem C9_put_on_full_buffer_witness :
    (midi_vw_buffer_put full_buffer_example control_change_message).1 =
      MIDI_VW_ERROR_BUFFER_FULL ∧
    (midi_vw_buffer_put full_buffer_example control_change_message).2.overruns = 1 ∧
    (buffer_get_n 128 (midi_vw_buffer_put full_buffer_example control_change_message).2).1 =
      (buffer_get_n 128 full_buffer_example).1 :=
  have h := C9_put_on_full_buffer full_buffer_example control_change_message (by decide)
  ⟨by rw [h.2.1], by rw [h.2.1]; decide, h.2.2.2.2.2.2 128⟩

set_option maxRecDepth 1000000 in
/-- Claim C10 as stated fails when B's delivery buffer is full.  After 128
Control-Change messages injected from A in `note_filter_setup`, B's
`tx_buffer` holds 128 messages; the connection A → B is still enabled with
filter `MIDI_VW_FILTER_NOTE` and source channel 0xFF, B is still registered
and output-capable, and no callback is registered.  One more Control-Change
injected from A is not delivered: `messages_routed` stays at 128, B's
`messages_sent` stays at 128 and `total_errors` goes from 0 to 1. -/
theorem C10_full_buffer_counterexample :
    (inject_n 1 control_change_message 128 note_filter_setup).running = true ∧
    (inject_n 1 control_change_message 128 note_filter_setup).connection_count = 1 ∧
    (connection_at (inject_n 1 control_change_message 128 note_filter_setup) 0).enabled = true ∧
    (connection_at (inject_n 1 control_change_message 128 note_filter_setup) 0).source_device_id
      = 1 ∧
    (connection_at (inject_n 1 control_change_message 128 note_filter_setup) 0).dest_device_id
      = 2 ∧
    (connection_at (inject_n 1 control_change_message 128 note_filter_setup) 0).filter =
      MIDI_VW_FILTER_NOTE ∧
    (connection_at (inject_n 1 control_change_message 128 note_filter_setup) 0).source_channel
      = 0xFF ∧
    midi_vw_find_device (inject_n 1 control_change_message 128 note_filter_setup) 2 = 1 ∧
    (port_at (inject_n 1 control_change_message 128 note_filter_setup) 1).device.is_output
      = true ∧
    (port_at (inject_n 1 control_change_message 128 note_filter_setup) 1).active = true ∧
    (inject_n 1 control_change_message 128 note_filter_setup).callbacks.filter_callback.isNone
      = true ∧
    (port_at (inject_n 1 control_change_message 128 note_filter_setup) 1).tx_buffer.count
      = 128 ∧
    (connection_at (inject_n 1 control_change_message 128 note_filter_setup) 0).messages_routed
      = 128 ∧
    (inject_n 1 control_change_message 128 note_filter_setup).total_errors = 0 ∧
    (midi_vw_inject_message (inject_n 1 control_change_message 128 note_filter_setup) 1
      control_change_message).1 = MIDI_VW_SUCCESS ∧
    (connection_at (midi_vw_inject_message
      (inject_n 1 control_change_message 128 note_filter_setup) 1
      control_change_message).2.2 0).messages_routed = 128 ∧
    (port_at (midi_vw_inject_message
      (inject_n 1 control_change_message 128 note_filter_setup) 1
      control_change_message).2.2 1).device.messages_sent = 128 ∧
    (midi_vw_inject_message (inject_n 1 control_change_message 128 note_filter_setup) 1
      control_change_message).2.2.total_errors = 1 := by
  decide

/-- Claim C10 as amended.  In a started system let the connection in slot `i`
be enabled, lead from A to B, have filter `MIDI_VW_FILTER_NOTE` and source
channel 0xFF, and be the only enabled connection leaving A; let B be
registered (slot `j`), active and output-capable; let no filter callback veto.
Then injecting any Note-Off or Note-On (status 0x80..0x9F) from A succeeds,
adds exactly 1 (modulo 2^32) to the connection's `messages_filtered` and to
`total_filtered`, and delivers nothing: the whole port table, the
connection's `messages_routed` and `total_errors` are unchanged.  And
injecting any Control-Change (status 0xB0..0xBF) from A, provided B's delivery
buffer holds fewer than 128 messages, is delivered: the connection's
`messages_routed` and B's `messages_sent` grow by exactly 1, while
`messages_filtered`, `total_filtered` and `total_errors` are unchanged. -/
theorem C10_note_filter (s : midi_vw_system_t) (a b i j : Nat)
    (hinit : s.initialized = true) (hrun : s.running = true)
    (hplen : s.ports.length = MIDI_VW_MAX_DEVICES)
    (hclen : s.connections.length = MIDI_VW_MAX_CONNECTIONS)
    (hcc : s.connection_count ≤ MIDI_VW_MAX_CONNECTIONS)
    (hi : i < s.connection_count)
    (hen : (connection_at s i).enabled = true)
    (hsrc : (connection_at s i).source_device_id = a)
    (hdst : (connection_at s i).dest_device_id = b)
    (hfil : (connection_at s i).filter = MIDI_VW_FILTER_NOTE)
    (hch : (connection_at s i).source_channel = 0xFF)
    (hone : ∀ k, k < s.connection_count → k ≠ i →
      ¬ ((connection_at s k).enabled = true ∧ (connection_at s k).source_device_id = a))
    (hj : midi_vw_find_device s b = j) (hj8 : j < MIDI_VW_MAX_DEVICES)
    (hact : (port_at s j).active = true) (hout : (port_at s j).device.is_output = true)
    (hv : ∀ f, s.callbacks.filter_callback = some f → ∀ x y z, f x y z = true) :
    (∀ m : midi_message_t, 0x80 ≤ m.status → m.status ≤ 0x9F →
      (midi_vw_inject_message s a m).1 = MIDI_VW_SUCCESS ∧
      (connection_at (midi_vw_inject_message s a m).2.2 i).messages_filtered =
        ((connection_at s i).messages_filtered + 1) % U32 ∧
      (midi_vw_inject_message s a m).2.2.total_filtered = (s.total_filtered + 1) % U32 ∧
      (midi_vw_inject_message s a m).2.2.ports = s.ports ∧
      (connection_at (midi_vw_inject_message s a m).2.2 i).messages_routed =
        (connection_at s i).messages_routed ∧
      (midi_vw_inject_message s a m).2.2.total_errors = s.total_errors) ∧
    (∀ m : midi_message_t, 0xB0 ≤ m.status → m.status ≤ 0xBF →
      (port_at s j).tx_buffer.count < MIDI_VW_MESSAGE_BUFFER_SIZE →
      (midi_vw_inject_message s a m).1 = MIDI_VW_SUCCESS ∧
      (connection_at (midi_vw_inject_message s a m).2.2 i).messages_routed =
        ((connection_at s i).messages_routed + 1) % U32 ∧
      (port_at (midi_vw_inject_message s a m).2.2 j).device.messages_sent =
        ((port_at s j).device.messages_sent + 1) % U32 ∧
      (connection_at (midi_vw_inject_message s a m).2.2 i).messages_filtered =
        (connection_at s i).messages_filtered ∧
      (midi_vw_inject_message s a m).2.2.total_filtered = s.total_filtered ∧
      (midi_vw_inject_message s a m).2.2.total_errors = s.total_errors) := by
  have hil : i < s.connections.length := by rw [hclen]; omega
  have hjl : j < s.ports.length := by rw [hplen]; exact hj8
  constructor
  · intro m h1 h2
    rw [inject_running s a m hinit hrun]
    have hstep : midi_vw_route_message s a { m with timestamp := midi_vw_get_time s } =
        route_count_filtered i (route_count_message s) := by
      rw [route_message_only s a i _ hi hone]
      exact route_step_filtered (route_count_message s) a i
        { m with timestamp := midi_vw_get_time s } hen hsrc
        (note_filter_hits_notes _ _ hfil hch h1 h2)
    simp only [hstep]
    refine ⟨trivial, ?_, rfl, rfl, ?_, rfl⟩
    · simp only [connection_at, route_count_filtered, route_count_message,
        getD_set_self _ _ _ _ hil]
    · simp only [connection_at, route_count_filtered, route_count_message,
        getD_set_self _ _ _ _ hil]
  · intro m h1 h2 hroom
    rw [inject_single_delivery s a i j m hinit hrun hi hen hsrc
      (note_filter_passes_control _ _ hfil hch h1 h2) hone (by rw [hdst]; exact hj)
      hj8 hact hout hroom hv]
    obtain ⟨_, _, _, _, _, _, h7, h8, h9, h10, _⟩ :=
      delivered_state_fields s a i j { m with timestamp := midi_vw_get_time s } hil
    refine ⟨rfl, ?_, ?_, ?_, h8, h7⟩
    · show (connection_at (delivered_state s a i j _) i).messages_routed = _
      rw [h10]
    · show ((delivered_state s a i j _).ports.getD j midi_vw_port_zero).device.messages_sent = _
      rw [h9, getD_set_self _ _ _ _ hjl]
      rfl
    · show (connection_at (delivered_state s a i j _) i).messages_filtered = _
      rw [h10]

/-- The amended claim C10 at `note_filter_setup`: a Note-On and a Note-Off are
filtered, a Control-Change is routed. -/
theorem C10_note_filter_witness :
    (connection_at (midi_vw_inject_message note_filter_setup 1 note_on_message).2.2
      0).messages_filtered = 1 ∧
    (connection_at (midi_vw_inject_message note_filter_setup 1 note_off_message).2.2
      0).messages_filtered = 1 ∧
    (connection_at (midi_vw_inject_message note_filter_setup 1 control_change_message).2.2
      0).messages_routed = 1 :=
  have h := C10_note_filter note_filter_setup 1 2 0 1
    (by decide) (by decide) (by decide) (by decide) (by decide) (by decide) (by decide)
    (by decide) (by decide) (by decide) (by decide)
    (fun k hk hne => by
      have hc : note_filter_setup.connection_count = 1 := by decide
      omega)
    (by decide) (by decide) (by decide) (by decide)
    (fun f hf => by
      have hc : note_filter_setup.callbacks.filter_callback = none := rfl
      rw [hc] at hf
      cases hf)
  ⟨(h.1 note_on_message (by decide) (by decide)).2.1,
    (h.1 note_off_message (by decide) (by decide)).2.1,
    (h.2 control_change_message (by decide) (by decide) (by decide)).2.1⟩

/-- Claim C11, a defect of the code: realtime messages are not checked against
the Realtime filter bit.  `midi_vw_should_filter_message` switches on
`status & 0xF0`, and the label `MIDI_MSG_SYSTEM_EXCLUSIVE` (0xF0) catches every
status byte 0xF0..0xFF, so the test `status >= 0xF8` of the `default` branch is
never reached by a realtime message.  For every realtime status byte
0xF8..0xFF, a connection whose filter is `MIDI_VW_FILTER_REALTIME` lets the
message through, and a connection whose filter is `MIDI_VW_FILTER_SYSEX` drops
it. -/
theorem C11_realtime_checked_against_sysex_bit :
    (∀ status ∈ List.range' 0xF8 8,
      midi_vw_should_filter_message (filter_connection MIDI_VW_FILTER_REALTIME)
        (system_message status) = false) ∧
    (∀ status ∈ List.range' 0xF8 8,
      midi_vw_should_filter_message (filter_connection MIDI_VW_FILTER_SYSEX)
        (system_message status) = true) ∧
    MIDI_VW_FILTER_REALTIME &&& MIDI_VW_FILTER_REALTIME ≠ 0 ∧
    MIDI_VW_FILTER_SYSEX &&& MIDI_VW_FILTER_REALTIME = 0 := by
  decide

/-- Claim C12, a defect of the code: System Common messages do not pass through
the built-in filter.  The status bytes 0xF1..0xF7 have high nibble 0xF, so
the `switch` of `midi_vw_should_filter_message` treats them under the label
`MIDI_MSG_SYSTEM_EXCLUSIVE`: a connection on every source channel whose filter
is `MIDI_VW_FILTER_SYSEX` or `MIDI_VW_FILTER_ALL` drops every one of them. -/
theorem C12_system_common_dropped_by_sysex_bit :
    (∀ status ∈ List.range' 0xF1 7,
      midi_vw_should_filter_message (filter_connection MIDI_VW_FILTER_SYSEX)
        (system_message status) = true) ∧
    (∀ status ∈ List.range' 0xF1 7,
      midi_vw_should_filter_message (filter_connection MIDI_VW_FILTER_ALL)
        (system_message status) = true) := by
  decide

/-- Claim C13, the channel remap.  Take any state in which the routing step of
the connection in slot `i` delivers `m` (the connection is enabled, leaves
`source`, passes the built-in filter and the filter callback, and its
destination is registered in slot `j`, active, output-capable, with room in
its delivery buffer).  Then the step enqueues `route_remap c m` in the
destination's buffer, at the position `head`, and counts one routed message.
The enqueued copy has the data, length and timestamp of `m`; its status is
`(status & 0xF0) | dest_channel` when `dest_channel` is in 0..15 and
`status < 0xF0`, and the status of `m` when `status` is a system status byte
(0xF0..0xFF) or `dest_channel` is 0xFF.  The caller's message keeps its
status, data and length through `midi_vw_inject_message`, which only
overwrites its timestamp. -/
theorem C13_channel_remap (s : midi_vw_system_t) (source i j : Nat) (m : midi_message_t)
    (hinit : s.initialized = true)
    (hen : (connection_at s i).enabled = true)
    (hsrc : (connection_at s i).source_device_id = source)
    (hf : midi_vw_should_filter_message (connection_at s i) m = false)
    (hv : ∀ f, s.callbacks.filter_callback = some f →
      f source (connection_at s i).dest_device_id m = true)
    (hj : midi_vw_find_device s (connection_at s i).dest_device_id = j)
    (hj8 : j < MIDI_VW_MAX_DEVICES)
    (hact : (port_at s j).active = true) (hout : (port_at s j).device.is_output = true)
    (hroom : (port_at s j).tx_buffer.count < MIDI_VW_MESSAGE_BUFFER_SIZE) :
    (port_at (route_step source m i s) j).tx_buffer =
      (midi_vw_buffer_put (port_at s j).tx_buffer (route_remap (connection_at s i) m)).2 ∧
    (midi_vw_buffer_put (port_at s j).tx_buffer (route_remap (connection_at s i) m)).2.messages =
      (port_at s j).tx_buffer.messages.set (port_at s j).tx_buffer.head
        (route_remap (connection_at s i) m) ∧
    (connection_at (route_step source m i s) i).messages_routed =
      ((connection_at s i).messages_routed + 1) % U32 ∧
    (route_remap (connection_at s i) m).data = m.data ∧
    (route_remap (connection_at s i) m).length = m.length ∧
    (route_remap (connection_at s i) m).timestamp = m.timestamp ∧
    ((connection_at s i).dest_channel ≤ 15 → m.status < 0xF0 →
      (route_remap (connection_at s i) m).status =
        (m.status &&& 0xF0) ||| (connection_at s i).dest_channel) ∧
    ((0xF0 ≤ m.status ∧ m.status < 256) ∨ (connection_at s i).dest_channel = 0xFF →
      (route_remap (connection_at s i) m).status = m.status) ∧
    (∀ (s0 : midi_vw_system_t) (m0 : midi_message_t),
      (midi_vw_inject_message s0 source m0).2.1.status = m0.status ∧
      (midi_vw_inject_message s0 source m0).2.1.data = m0.data ∧
      (midi_vw_inject_message s0 source m0).2.1.length = m0.length) := by
  have hjl : j < s.ports.length := port_active_in_range s j hact
  obtain ⟨r1, r2, r3⟩ := route_remap_fields (connection_at s i) m
  rw [route_step_delivers s source i j m hinit hen hsrc hf hv hj hj8 hact hout hroom]
  refine ⟨?_, ?_, ?_, r1, r2, r3, route_remap_channel _ _, ?_, ?_⟩
  · show ((s.ports.set j _).getD j midi_vw_port_zero).tx_buffer = _
    rw [getD_set_self _ _ _ _ hjl]
    rfl
  · have hnf : midi_vw_buffer_is_full (port_at s j).tx_buffer = false := by
      simp only [midi_vw_buffer_is_full, decide_eq_false_iff_not]; omega
    simp [midi_vw_buffer_put, hnf]
  · rw [(step_delivered_fields s source i j m (connection_enabled_in_range s i hen)).2.2.1]
  · intro h; rw [route_remap_system _ _ h]
  · intro s0 m0
    unfold midi_vw_inject_message
    split_ifs <;> exact ⟨rfl, rfl, rfl⟩

/-- Claim C13 at a connection with `dest_channel = 5`: the Note-On `0x90` is
enqueued as `0x95` with the same data and length. -/
theorem C13_channel_remap_witness :
    (connection_at remap_setup 0).dest_channel = 5 ∧
    (port_at (route_step 1 note_on_message 0 remap_setup) 1).tx_buffer =
      (midi_vw_buffer_put (port_at remap_setup 1).tx_buffer
        (route_remap (connection_at remap_setup 0) note_on_message)).2 ∧
    (route_remap (connection_at remap_setup 0) note_on_message).status = 0x95 ∧
    (route_remap (connection_at remap_setup 0) note_on_message).data = [60, 127, 0] :=
  have h := C13_channel_remap remap_setup 1 0 1 note_on_message
    (by decide) (by decide) (by decide) (by decide)
    (fun f hf => by
      have hc : remap_setup.callbacks.filter_callback = none := rfl
      rw [hc] at hf
      cases hf)
    (by decide) (by decide) (by decide) (by decide) (by decide)
  ⟨by decide, h.1, h.2.2.2.2.2.2.1 (by decide) (by decide), h.2.2.2.1⟩

/-- Claim C14: a successful `midi_vw_inject_message` (which requires the system
to be initialized and started) increases `total_messages` by exactly 1, modulo
2^32, whatever the source device id, registered or not, whatever the message,
and whatever the connection table: matching connections or none. -/
theorem C14_inject_counts_one_message (s : midi_vw_system_t) (source_device_id : Nat)
    (message : midi_message_t)
    (h : (midi_vw_inject_message s source_device_id message).1 = MIDI_VW_SUCCESS) :
    s.initialized = true ∧ s.running = true ∧
    (midi_vw_inject_message s source_device_id message).2.2.total_messages =
      (s.total_messages + 1) % U32 := by
  have hinit : s.initialized = true := by
    cases hi : s.initialized
    · simp [midi_vw_inject_message, hi] at h
    · rfl
  have hrun : s.running = true := by
    cases hr : s.running
    · simp [midi_vw_inject_message, hinit, hr] at h
    · rfl
  refine ⟨hinit, hrun, ?_⟩
  rw [inject_running s _ _ hinit hrun]
  exact (route_loop_frame _ _ _ 0 (route_count_message s)).2.2.2.2.2.2.2.1

/-- Claim C14 in a started system without any device or connection. -/
theorem C14_inject_counts_one_message_witness :
    (midi_vw_inject_message (midi_vw_start (midi_vw_init midi_vw_system_zero none).2).2 7
      note_on_message).2.2.total_messages = 1 :=
  (C14_inject_counts_one_message (midi_vw_start (midi_vw_init midi_vw_system_zero none).2).2 7
    note_on_message (by decide)).2.2

/-- Claim C15 as stated fails on the error code: `midi_vw_status_t` has no
value for the `NotRunning` entry of the specification's taxonomy.  In an
initialized system that was never started, `midi_vw_inject_message` returns
`MIDI_VW_ERROR_NOT_INITIALIZED`, the status that stands for `NotInitialized`
and that `midi_vw_stop` returns on a system that is not initialized. -/
theorem C15_not_running_status_counterexample :
    not_started_setup.initialized = true ∧ not_started_setup.running = false ∧
    (midi_vw_inject_message not_started_setup 1 note_on_message).1 =
      MIDI_VW_ERROR_NOT_INITIALIZED ∧
    spec_error_of_status (midi_vw_inject_message not_started_setup 1 note_on_message).1 =
      some spec_router_error.NotInitialized ∧
    spec_error_of_status (midi_vw_inject_message not_started_setup 1 note_on_message).1 ≠
      some spec_router_error.NotRunning ∧
    (midi_vw_inject_message not_started_setup 1 note_on_message).1 =
      (midi_vw_stop midi_vw_system_zero).1 ∧
    ∀ status, spec_error_of_status status ≠ some spec_router_error.NotRunning := by
  refine ⟨by decide, by decide, by decide, by decide, by decide, by decide, ?_⟩
  intro status
  cases status <;> decide

/-- Claim C15 as amended: when the system is initialized but not in the started
state (never started, or stopped), `midi_vw_inject_message` fails with
`MIDI_VW_ERROR_NOT_INITIALIZED` and changes nothing: the whole system state
(every counter and every buffer) and the caller's message, its timestamp
included, are what they were. -/
theorem C15_inject_when_not_running (s : midi_vw_system_t) (source_device_id : Nat)
    (message : midi_message_t) (hinit : s.initialized = true) (hrun : s.running = false) :
    midi_vw_inject_message s source_device_id message =
      (MIDI_VW_ERROR_NOT_INITIALIZED, message, s) := by
  simp [midi_vw_inject_message, hinit, hrun]

/-- The amended claim C15 in a system that was started and stopped again. -/
theorem C15_inject_when_not_running_witness :
    midi_vw_inject_message (midi_vw_stop (midi_vw_start not_started_setup).2).2 1
        note_on_message =
      (MIDI_VW_ERROR_NOT_INITIALIZED, note_on_message,
        (midi_vw_stop (midi_vw_start not_started_setup).2).2) :=
  C15_inject_when_not_running (midi_vw_stop (midi_vw_start not_started_setup).2).2 1
    note_on_message (by decide) (by decide)

/-- Claim C16, partial failure.  In a started state let the connection in slot
`i` be enabled, leave `source`, pass the built-in filter and the filter
callback for the stamped message, and let its destination be unregistered
(dangling) or registered but not output-capable.  Then the routing step of
that connection adds exactly 1 (modulo 2^32) to `total_errors` and changes no
other field of the router state, `midi_vw_inject_message` returns
`MIDI_VW_SUCCESS`, and the state it leaves is the state the same call leaves
when that connection was first disabled with `midi_vw_enable_connection`, but
for one more error and the `enabled` flag of slot `i`: same ports (so same
deliveries, buffers and device counters), same `total_filtered` and
`total_messages`, and the same connection record in every other slot. -/
theorem C16_bad_destination_counts_one_error (s : midi_vw_system_t) (source i : Nat)
    (m : midi_message_t)
    (hinit : s.initialized = true) (hrun : s.running = true)
    (hi : i < s.connection_count) (hcap : s.connection_count ≤ MIDI_VW_MAX_CONNECTIONS)
    (hid : midi_vw_find_connection s (connection_at s i).connection_id = i)
    (hen : (connection_at s i).enabled = true)
    (hsrc : (connection_at s i).source_device_id = source)
    (hf : midi_vw_should_filter_message (connection_at s i)
      { m with timestamp := midi_vw_get_time s } = false)
    (hv : ∀ f, s.callbacks.filter_callback = some f →
      f source (connection_at s i).dest_device_id { m with timestamp := midi_vw_get_time s }
        = true)
    (hbad : midi_vw_find_device s (connection_at s i).dest_device_id ≥ MIDI_VW_MAX_DEVICES ∨
      (port_at s (midi_vw_find_device s (connection_at s i).dest_device_id)).device.is_output
        = false) :
    (route_step source { m with timestamp := midi_vw_get_time s } i s).total_errors =
      (s.total_errors + 1) % U32 ∧
    { route_step source { m with timestamp := midi_vw_get_time s } i s with
        total_errors := s.total_errors, trace := s.trace } = s ∧
    (midi_vw_inject_message s source m).1 = MIDI_VW_SUCCESS ∧
    (midi_vw_inject_message (with_connection_disabled s i) source m).1 = MIDI_VW_SUCCESS ∧
    (midi_vw_inject_message s source m).2.2.total_errors =
      ((midi_vw_inject_message (with_connection_disabled s i) source m).2.2.total_errors + 1)
        % U32 ∧
    (midi_vw_inject_message s source m).2.2.ports =
      (midi_vw_inject_message (with_connection_disabled s i) source m).2.2.ports ∧
    (midi_vw_inject_message s source m).2.2.total_filtered =
      (midi_vw_inject_message (with_connection_disabled s i) source m).2.2.total_filtered ∧
    (midi_vw_inject_message s source m).2.2.total_messages =
      (midi_vw_inject_message (with_connection_disabled s i) source m).2.2.total_messages ∧
    (∀ k, k ≠ i → connection_at (midi_vw_inject_message s source m).2.2 k =
      connection_at (midi_vw_inject_message (with_connection_disabled s i) source m).2.2 k) ∧
    connection_at (midi_vw_inject_message s source m).2.2 i = connection_at s i ∧
    connection_at (midi_vw_inject_message (with_connection_disabled s i) source m).2.2 i =
      { connection_at s i with enabled := false } := by
  have hil : i < s.connections.length := connection_enabled_in_range s i hen
  have hbad3 : midi_vw_find_device s (connection_at s i).dest_device_id ≥ MIDI_VW_MAX_DEVICES ∨
      (port_at s (midi_vw_find_device s (connection_at s i).dest_device_id)).active = false ∨
      (port_at s (midi_vw_find_device s (connection_at s i).dest_device_id)).device.is_output
        = false := by
    rcases hbad with h | h
    · exact Or.inl h
    · exact Or.inr (Or.inr h)
  have hdis : with_connection_disabled s i =
      { s with connections := s.connections.set i { connection_at s i with enabled := false } } := by
    unfold with_connection_disabled midi_vw_enable_connection
    have h16 : ¬ i ≥ MIDI_VW_MAX_CONNECTIONS := by omega
    simp only [hinit, hid, Bool.not_true, Bool.false_eq_true, if_false, h16]
  have h0 : disabled_view i id s (with_connection_disabled s i) := by
    rw [hdis]
    exact ⟨rfl, rfl, rfl, rfl, rfl, rfl, rfl, rfl, rfl, rfl, rfl, rfl, rfl⟩
  have hinit' : (with_connection_disabled s i).initialized = true := by rw [hdis]; exact hinit
  have hrun' : (with_connection_disabled s i).running = true := by rw [hdis]; exact hrun
  have ht : midi_vw_get_time (with_connection_disabled s i) = midi_vw_get_time s := by
    rw [hdis]; rfl
  have hstep := route_step_no_destination s source i { m with timestamp := midi_vw_get_time s }
    hen hsrc hf hv hbad3
  obtain ⟨v, hc⟩ := route_message_bad_connection s (with_connection_disabled s i) source i
    { m with timestamp := midi_vw_get_time s } h0 hi hen hsrc hf hv hbad3
  rw [inject_running s source m hinit hrun,
    inject_running (with_connection_disabled s i) source m hinit' hrun', ht]
  obtain ⟨_, _, _, v4, _, _, _, _, v9, v10, _, v12, v13⟩ := v
  refine ⟨?_, ?_, rfl, rfl, v13, v4.symm, v10.symm, v9.symm, ?_, hc, ?_⟩
  · rw [hstep]
    show ((after_filter_callback s source i _).total_errors + 1) % U32 = _
    rw [(after_filter_callback_view s source i _).2.2.2.2.2.1]
  · rw [hstep]
    unfold route_count_error after_filter_callback
    cases s.callbacks.filter_callback with
    | none => rfl
    | some f => rfl
  · intro k hk
    simp only [connection_at, v12, getD_set_other _ _ _ _ _ (Ne.symm hk)]
  · have hl : i < (midi_vw_route_message s source
        { m with timestamp := midi_vw_get_time s }).connections.length := by
      unfold midi_vw_route_message
      rw [(route_loop_frame source _ _ 0 (route_count_message s)).2.2.2.2.2.2.2.2.2.2]
      exact hil
    simp only [connection_at] at hc ⊢
    rw [v12, getD_set_self _ _ _ _ hl]
    simp only [connection_at, hc]

/-- Claim C16 in `bad_edge_setup`: a Control-Change injected from A meets the
connection to B, which cannot take output, and the connection to C.  The call
succeeds, C gets the message, and the state differs from the run with the
connection to B disabled by one error. -/
theorem C16_bad_destination_counts_one_error_witness :
    (port_at bad_edge_setup (midi_vw_find_device bad_edge_setup 2)).device.is_output = false ∧
    (midi_vw_inject_message bad_edge_setup 1 control_change_message).1 = MIDI_VW_SUCCESS ∧
    (midi_vw_inject_message bad_edge_setup 1 control_change_message).2.2.total_errors = 1 ∧
    (port_at (midi_vw_inject_message bad_edge_setup 1 control_change_message).2.2
      2).device.messages_sent = 1 ∧
    (midi_vw_inject_message bad_edge_setup 1 control_change_message).2.2.total_errors =
      ((midi_vw_inject_message (with_connection_disabled bad_edge_setup 0) 1
        control_change_message).2.2.total_errors + 1) % U32 ∧
    (midi_vw_inject_message bad_edge_setup 1 control_change_message).2.2.ports =
      (midi_vw_inject_message (with_connection_disabled bad_edge_setup 0) 1
        control_change_message).2.2.ports :=
  have h := C16_bad_destination_counts_one_error bad_edge_setup 1 0 control_change_message
    (by decide) (by decide) (by decide) (by decide) (by decide) (by decide) (by decide)
    (by decide)
    (fun f hf => by
      have hc : bad_edge_setup.callbacks.filter_callback.isNone = true := by decide
      rw [hf] at hc
      cases hc)
    (Or.inr (by decide))
  ⟨by decide, h.2.2.1, by decide, by decide, h.2.2.2.2.1, h.2.2.2.2.2.1⟩

/-- Claim C17, delivery to a full buffer.  Take any state in which the
connection in slot `i` is enabled, leaves `source`, passes the built-in filter
and the filter callback for `m`, and its destination is registered in slot
`j`, active and output-capable, with 128 messages in its delivery buffer.
Then the routing step of that connection adds exactly 1 (modulo 2^32) to
`total_errors` and to the `overruns` of that buffer and changes nothing else
in the tables: the buffered messages, `head`, `tail` and `count` are
unchanged, so are the destination's device record (`messages_sent` included),
its other buffer and every other port, and so is the whole connection table
(`messages_routed` included) and `total_filtered`.  In a started system
`midi_vw_inject_message` returns `MIDI_VW_SUCCESS` all the same. -/
theorem C17_buffer_full_delivery (s : midi_vw_system_t) (source i j : Nat) (m : midi_message_t)
    (hinit : s.initialized = true)
    (hen : (connection_at s i).enabled = true)
    (hsrc : (connection_at s i).source_device_id = source)
    (hf : midi_vw_should_filter_message (connection_at s i) m = false)
    (hv : ∀ f, s.callbacks.filter_callback = some f →
      f source (connection_at s i).dest_device_id m = true)
    (hj : midi_vw_find_device s (connection_at s i).dest_device_id = j)
    (hj8 : j < MIDI_VW_MAX_DEVICES)
    (hact : (port_at s j).active = true) (hout : (port_at s j).device.is_output = true)
    (hfull : (port_at s j).tx_buffer.count = MIDI_VW_MESSAGE_BUFFER_SIZE) :
    (route_step source m i s).total_errors = (s.total_errors + 1) % U32 ∧
    (port_at (route_step source m i s) j).tx_buffer.overruns =
      ((port_at s j).tx_buffer.overruns + 1) % U32 ∧
    (port_at (route_step source m i s) j).tx_buffer.messages =
      (port_at s j).tx_buffer.messages ∧
    (port_at (route_step source m i s) j).tx_buffer.head = (port_at s j).tx_buffer.head ∧
    (port_at (route_step source m i s) j).tx_buffer.tail = (port_at s j).tx_buffer.tail ∧
    (port_at (route_step source m i s) j).tx_buffer.count = (port_at s j).tx_buffer.count ∧
    (port_at (route_step source m i s) j).device = (port_at s j).device ∧
    (port_at (route_step source m i s) j).rx_buffer = (port_at s j).rx_buffer ∧
    (∀ k, k ≠ j → port_at (route_step source m i s) k = port_at s k) ∧
    (route_step source m i s).connections = s.connections ∧
    (route_step source m i s).total_filtered = s.total_filtered ∧
    (s.running = true → ∀ m0 : midi_message_t,
      (midi_vw_inject_message s source m0).1 = MIDI_VW_SUCCESS) := by
  have hjl : j < s.ports.length := port_active_in_range s j hact
  rw [route_step_buffer_full s source i j m hinit hen hsrc hf hv hj hj8 hact hout
    (Nat.le_of_eq hfull.symm)]
  obtain ⟨h1, h2, h3, h4⟩ := step_buffer_full_fields s source i j m
  have hp : port_at (step_buffer_full s source i j m) j =
      { port_at s j with
        tx_buffer :=
          { (port_at s j).tx_buffer with
            overruns := ((port_at s j).tx_buffer.overruns + 1) % U32 } } := by
    show (step_buffer_full s source i j m).ports.getD j midi_vw_port_zero = _
    rw [h1, getD_set_self _ _ _ _ hjl]
  refine ⟨h3, ?_, ?_, ?_, ?_, ?_, ?_, ?_, ?_, h2, h4, ?_⟩
  · rw [hp]
  · rw [hp]
  · rw [hp]
  · rw [hp]
  · rw [hp]
  · rw [hp]
  · rw [hp]
  · intro k hk
    unfold port_at
    rw [h1, getD_set_other _ _ _ _ _ (Ne.symm hk)]
  · intro hrun m0
    rw [inject_running s source m0 hinit hrun]

set_option maxRecDepth 1000000 in
/-- Claim C17 after 128 Control-Change messages were routed to B in
`note_filter_setup`: the routing step of the 129th counts an error and an
overrun. -/
theorem C17_buffer_full_delivery_witness :
    (port_at (inject_n 1 control_change_message 128 note_filter_setup) 1).tx_buffer.count
      = 128 ∧
    (route_step 1 control_change_message 0
      (inject_n 1 control_change_message 128 note_filter_setup)).total_errors = 1 ∧
    (port_at (route_step 1 control_change_message 0
      (inject_n 1 control_change_message 128 note_filter_setup)) 1).tx_buffer.overruns = 1 :=
  have h := C17_buffer_full_delivery (inject_n 1 control_change_message 128 note_filter_setup)
    1 0 1 control_change_message (by decide) (by decide) (by decide) (by decide)
    (fun f hf => by
      have hc : (inject_n 1 control_change_message 128
          note_filter_setup).callbacks.filter_callback.isNone = true := by decide
      rw [hf] at hc
      cases hc)
    (by decide) (by decide) (by decide) (by decide) (by decide)
  ⟨by decide, h.1.trans (by decide), h.2.1.trans (by decide)⟩

/-- Claim C18, `midi_vw_connect_all_to_all` is idempotent.  In every
initialized state (the connection table being the 16-entry array of the code)
the call succeeds, and calling it again on the state it leaves succeeds and
returns exactly that state: no connection is created, no connection id is
consumed and no counter changes, whatever the table held before and whether or
not it filled up. -/
theorem C18_connect_all_to_all_idempotent (s : midi_vw_system_t)
    (hinit : s.initialized = true)
    (hlen : s.connections.length = MIDI_VW_MAX_CONNECTIONS) :
    (midi_vw_connect_all_to_all s).1 = MIDI_VW_SUCCESS ∧
    midi_vw_connect_all_to_all (midi_vw_connect_all_to_all s).2 =
      (MIDI_VW_SUCCESS, (midi_vw_connect_all_to_all s).2) := by
  rw [connect_all_to_all_eq s hinit]
  obtain ⟨h1, h2, h3, _⟩ :=
    create_all_frame (connect_pairs_outer s.ports s.device_count s.device_count 0) s
  refine ⟨rfl, ?_⟩
  show midi_vw_connect_all_to_all
    (create_all (connect_pairs_outer s.ports s.device_count s.device_count 0) s) = _
  rw [connect_all_to_all_eq _ (h1.trans hinit), h2, h3]
  rw [create_all_noop _ _ (h1.trans hinit) (create_all_blocked _ s hinit hlen)]

set_option maxRecDepth 1000000 in
/-- Claim C18 in `three_device_setup`, where the first call creates the 6
connections, and in `five_device_setup`, where it fills the table after 16 of
the 20 pairs: the second call returns the state of the first. -/
theorem C18_connect_all_to_all_idempotent_witness :
    (midi_vw_connect_all_to_all three_device_setup).2.connection_count = 6 ∧
    midi_vw_connect_all_to_all (midi_vw_connect_all_to_all three_device_setup).2 =
      (MIDI_VW_SUCCESS, (midi_vw_connect_all_to_all three_device_setup).2) ∧
    (midi_vw_connect_all_to_all five_device_setup).2.connection_count = 16 ∧
    midi_vw_connect_all_to_all (midi_vw_connect_all_to_all five_device_setup).2 =
      (MIDI_VW_SUCCESS, (midi_vw_connect_all_to_all five_device_setup).2) :=
  ⟨by decide,
    (C18_connect_all_to_all_idempotent three_device_setup (by decide) (by decide)).2,
    by decide,
    (C18_connect_all_to_all_idempotent five_device_setup (by decide) (by decide)).2⟩

/-- Claim C19, what `midi_vw_connect_all_to_all` leaves behind.  Take an
initialized state with at most 8 devices whose ids are pairwise distinct and
at most 16 connections.  After the call either `connection_count` is 16 or,
for every two distinct slots `i`, `j` of registered devices with `i`
input-capable and `j` output-capable, the table holds a connection with the
tuple (id of `i`, id of `j`, 0xFF, 0xFF).  The connections that were in the
table are unchanged, and every connection the call adds is enabled, has
filter `MIDI_VW_FILTER_NONE`, both channels 0xFF, zeroed counters and a source
different from its destination; the device array is not touched. -/
theorem C19_connect_all_to_all_postcondition (s : midi_vw_system_t)
    (hinit : s.initialized = true)
    (hlen : s.connections.length = MIDI_VW_MAX_CONNECTIONS)
    (hcc : s.connection_count ≤ MIDI_VW_MAX_CONNECTIONS)
    (hdc : s.device_count ≤ MIDI_VW_MAX_DEVICES)
    (hdist : ∀ i, i < s.device_count → ∀ j, j < s.device_count →
      (port_at s i).device.device_id = (port_at s j).device.device_id → i = j) :
    (midi_vw_connect_all_to_all s).1 = MIDI_VW_SUCCESS ∧
    ((midi_vw_connect_all_to_all s).2.connection_count = MIDI_VW_MAX_CONNECTIONS ∨
      ∀ i, i < s.device_count → ∀ j, j < s.device_count → i ≠ j →
        (port_at s i).device.is_input = true → (port_at s j).device.is_output = true →
        has_connection (midi_vw_connect_all_to_all s).2
          (port_at s i).device.device_id (port_at s j).device.device_id 0xFF 0xFF) ∧
    s.connection_count ≤ (midi_vw_connect_all_to_all s).2.connection_count ∧
    (∀ k, k < s.connection_count →
      connection_at (midi_vw_connect_all_to_all s).2 k = connection_at s k) ∧
    (∀ k, s.connection_count ≤ k → k < (midi_vw_connect_all_to_all s).2.connection_count →
      (connection_at (midi_vw_connect_all_to_all s).2 k).enabled = true ∧
      (connection_at (midi_vw_connect_all_to_all s).2 k).filter = MIDI_VW_FILTER_NONE ∧
      (connection_at (midi_vw_connect_all_to_all s).2 k).source_channel = 0xFF ∧
      (connection_at (midi_vw_connect_all_to_all s).2 k).dest_channel = 0xFF ∧
      (connection_at (midi_vw_connect_all_to_all s).2 k).source_device_id ≠
        (connection_at (midi_vw_connect_all_to_all s).2 k).dest_device_id ∧
      (connection_at (midi_vw_connect_all_to_all s).2 k).messages_routed = 0 ∧
      (connection_at (midi_vw_connect_all_to_all s).2 k).messages_filtered = 0) ∧
    (midi_vw_connect_all_to_all s).2.ports = s.ports ∧
    (midi_vw_connect_all_to_all s).2.device_count = s.device_count := by
  rw [connect_all_to_all_eq s hinit]
  obtain ⟨f1, f2, f3, _⟩ :=
    create_all_frame (connect_pairs_outer s.ports s.device_count s.device_count 0) s
  obtain ⟨a1, a2, a3, a4⟩ :=
    create_all_added (connect_pairs_outer s.ports s.device_count s.device_count 0) s
      hinit hlen hcc
  have hb := create_all_blocked (connect_pairs_outer s.ports s.device_count s.device_count 0)
    s hinit hlen
  refine ⟨rfl, ?_, a1, a3, ?_, f2, f3⟩
  · by_cases hfull : (create_all (connect_pairs_outer s.ports s.device_count s.device_count 0)
        s).connection_count = MIDI_VW_MAX_CONNECTIONS
    · exact Or.inl hfull
    · right
      intro i hi j hj hij hin hout
      have hm : ((port_at s i).device.device_id, (port_at s j).device.device_id) ∈
          connect_pairs_outer s.ports s.device_count s.device_count 0 :=
        (connect_pairs_outer_mem _ _ _ _ _).2
          ⟨i, j, Nat.zero_le _, by omega, hj, hij, hin, hout, rfl⟩
      have hfi := find_device_registered s i hi hdc
      have hfj := find_device_registered s j hj hdc
      rcases hb _ hm with h | h | h | h
      · exact absurd (Nat.le_antisymm a2 h) hfull
      · rw [find_device_congr _ s _ f2 f3] at h
        exact absurd h (Nat.not_le.2 hfi)
      · rw [find_device_congr _ s _ f2 f3] at h
        exact absurd h (Nat.not_le.2 hfj)
      · exact h
  · intro k h1 h2
    obtain ⟨t, ht, b1, b2, b3, b4, b5, b6, b7, b8⟩ := a4 k h1 h2
    refine ⟨b6, b5, b3, b4, ?_, b7, b8⟩
    obtain ⟨i, j, _, hi, hj, hij, _, _, hte⟩ := (connect_pairs_outer_mem _ _ _ _ _).1 ht
    rw [b1, b2, hte]
    intro heq
    exact hij (hdist i (by omega) j hj heq)

set_option maxRecDepth 1000000 in
/-- Claim C19 in `three_device_setup`: the call adds the 6 connections between
the three devices, the one from A to B among them. -/
theorem C19_connect_all_to_all_postcondition_witness :
    (midi_vw_connect_all_to_all three_device_setup).2.connection_count = 6 ∧
    has_connection (midi_vw_connect_all_to_all three_device_setup).2 1 2 0xFF 0xFF ∧
    (connection_at (midi_vw_connect_all_to_all three_device_setup).2 5).enabled = true ∧
    (connection_at (midi_vw_connect_all_to_all three_device_setup).2 5).source_device_id ≠
      (connection_at (midi_vw_connect_all_to_all three_device_setup).2 5).dest_device_id :=
  have h := C19_connect_all_to_all_postcondition three_device_setup (by decide) (by decide)
    (by decide) (by decide) (by decide)
  have h6 : (midi_vw_connect_all_to_all three_device_setup).2.connection_count = 6 := by decide
  ⟨h6,
    (h.2.1.resolve_left (by rw [h6]; decide)) 0 (by decide) 1 (by decide) (by decide)
      (by decide) (by decide),
    (h.2.2.2.2.1 5 (by decide) (by rw [h6]; decide)).1,
    (h.2.2.2.2.1 5 (by decide) (by rw [h6]; decide)).2.2.2.2.1⟩

/-- Claim C20, unregistration compacts the device array.  Let
`midi_vw_unregister_device(d)` succeed in a state with at most 8 devices whose
unused slots are all-zero.  Then `d` was held by the slot
`midi_vw_find_device` returns, `device_count` drops by 1, and the device array
is the previous array with that slot erased and an all-zero entry appended at
the end: the ports below the slot stay where they were, the ports above it
move down by one slot with their whole record (device info, counters, both
buffers), and every slot at or beyond the new `device_count` is all-zero.
`midi_vw_list_devices` (asked for at least `device_count` ids) returns the
previous id list with the first occurrence of `d` erased, the survivors in
their previous order. -/
theorem C20_unregister_erases_device (s : midi_vw_system_t) (d max : Nat)
    (hsucc : (midi_vw_unregister_device s d).1 = MIDI_VW_SUCCESS)
    (hcount : s.device_count ≤ MIDI_VW_MAX_DEVICES)
    (hlen : s.ports.length = MIDI_VW_MAX_DEVICES)
    (hzero : unused_ports_zero s)
    (hmax : s.device_count ≤ max) :
    midi_vw_find_device s d < s.device_count ∧
    (port_at s (midi_vw_find_device s d)).device.device_id = d ∧
    (midi_vw_unregister_device s d).2.device_count + 1 = s.device_count ∧
    (midi_vw_unregister_device s d).2.ports =
      s.ports.eraseIdx (midi_vw_find_device s d) ++ [midi_vw_port_zero] ∧
    (∀ k, k < midi_vw_find_device s d →
      port_at (midi_vw_unregister_device s d).2 k = port_at s k) ∧
    (∀ k, midi_vw_find_device s d ≤ k → k < (midi_vw_unregister_device s d).2.device_count →
      port_at (midi_vw_unregister_device s d).2 k = port_at s (k + 1)) ∧
    (∀ k, (midi_vw_unregister_device s d).2.device_count ≤ k →
      port_at (midi_vw_unregister_device s d).2 k = midi_vw_port_zero) ∧
    midi_vw_list_devices (midi_vw_unregister_device s d).2 max =
      (MIDI_VW_SUCCESS, (midi_vw_list_devices s max).2.erase d) := by
  obtain ⟨hinit, hfound⟩ := unregister_device_success s d hsucc
  obtain ⟨_, hinit', hc, _⟩ := unregister_device_found s d hinit hfound hcount
  obtain ⟨_, hslot, hid⟩ := find_device_loop_found s d _ 0 hfound
  have hport := unregister_device_port_at s d hinit hfound hcount
  change midi_vw_find_device s d < 0 + s.device_count at hslot
  refine ⟨by omega, hid, by omega, unregister_device_erases s d hinit hfound hcount hlen hzero,
    ?_, ?_, ?_, ?_⟩
  · intro k hk
    rw [hport k]
    have h1 : k ≠ s.device_count - 1 := by omega
    have h2 : ¬ (midi_vw_find_device s d ≤ k ∧ k < s.device_count - 1) := by omega
    simp only [h1, h2, if_false]
  · intro k hk1 hk2
    rw [hc] at hk2
    rw [hport k]
    have h1 : k ≠ s.device_count - 1 := by omega
    have h2 : midi_vw_find_device s d ≤ k ∧ k < s.device_count - 1 := by omega
    simp only [h1, h2, and_self, if_true, if_false]
  · intro k hk
    rw [hc] at hk
    rw [hport k]
    by_cases h1 : k = s.device_count - 1
    · simp only [h1, if_true]
    · have h2 : ¬ (midi_vw_find_device s d ≤ k ∧ k < s.device_count - 1) := by omega
      simp only [h1, h2, if_false]
      exact hzero k (by omega)
  · rw [list_devices_all _ max hinit' (by omega), list_devices_all s max hinit hmax,
      unregister_device_ids s d hinit hfound hcount]

/-- Claim C20 in `three_device_setup`: unregistering B leaves the ids of A and
C, and C, with the message it holds, moves down from slot 2 to slot 1. -/
theorem C20_unregister_erases_device_witness :
    (midi_vw_list_devices three_device_setup 8).2 = [1, 2, 3] ∧
    (port_at three_device_setup 2).tx_buffer.count = 1 ∧
    midi_vw_list_devices (midi_vw_unregister_device three_device_setup 2).2 8 =
      (MIDI_VW_SUCCESS, [1, 3]) ∧
    port_at (midi_vw_unregister_device three_device_setup 2).2 1 = port_at three_device_setup 2 ∧
    port_at (midi_vw_unregister_device three_device_setup 2).2 2 = midi_vw_port_zero :=
  have h := C20_unregister_erases_device three_device_setup 2 8 (by decide) (by decide)
    (by decide)
    (fun k hk => by
      have h3 : three_device_setup.device_count = 3 := by decide
      rw [h3] at hk
      match k, hk with
      | 3, _ => decide
      | 4, _ => decide
      | 5, _ => decide
      | 6, _ => decide
      | 7, _ => decide
      | k + 8, _ => rfl)
    (by decide)
  ⟨by decide, by decide, h.2.2.2.2.2.2.2.trans (by decide), h.2.2.2.2.2.1 1 (by decide) (by decide),
    h.2.2.2.2.2.2.1 2 (by decide)⟩

/-- Claim C21, the external veto.  With a filter callback `f` registered, the
routing step of slot `i` invokes it exactly when the connection is enabled,
leaves `source` and passes the built-in filter (`reaches_callback`), once and
with the arguments (source, `dest_device_id` of the connection, message); a
whole routing pass invokes it for those connections in slot order and for no
other.  When `f` answers `false` the step leaves, the record of the call
apart, exactly the state of a built-in filter hit: `messages_filtered` of the
connection and `total_filtered` grow by 1 (modulo 2^32), and the ports (no
delivery), `total_errors` and `total_messages` are unchanged.  For a disabled
connection, one leaving another source or one the built-in filter rejects,
`f` is not invoked. -/
theorem C21_filter_callback_veto (s : midi_vw_system_t) (source i : Nat) (m : midi_message_t)
    (f : Nat → Nat → midi_message_t → Bool)
    (hcb : s.callbacks.filter_callback = some f) :
    (route_step source m i s).trace =
      s.trace ++ (if reaches_callback s source m i then
        [midi_vw_event.filter_event source (connection_at s i).dest_device_id m] else []) ∧
    (midi_vw_route_message s source m).trace =
      s.trace ++ filter_consultations s source m s.connection_count 0 ∧
    ((connection_at s i).enabled = true → (connection_at s i).source_device_id = source →
      midi_vw_should_filter_message (connection_at s i) m = false →
      f source (connection_at s i).dest_device_id m = false →
      { route_step source m i s with trace := s.trace } = route_count_filtered i s ∧
      (route_step source m i s).total_filtered = (s.total_filtered + 1) % U32 ∧
      (route_step source m i s).connections = s.connections.set i
        { connection_at s i with
          messages_filtered := ((connection_at s i).messages_filtered + 1) % U32 } ∧
      (route_step source m i s).ports = s.ports ∧
      (route_step source m i s).total_errors = s.total_errors ∧
      (route_step source m i s).total_messages = s.total_messages) ∧
    ((connection_at s i).enabled = true → (connection_at s i).source_device_id = source →
      midi_vw_should_filter_message (connection_at s i) m = true →
      route_step source m i s = route_count_filtered i s) ∧
    (((connection_at s i).enabled = false ∨ (connection_at s i).source_device_id ≠ source ∨
        midi_vw_should_filter_message (connection_at s i) m = true) →
      (route_step source m i s).trace = s.trace) := by
  have htr := route_step_trace s source i m f hcb
  refine ⟨htr, ?_, ?_, ?_, ?_⟩
  · unfold midi_vw_route_message
    rw [route_loop_trace source m f _ 0 (route_count_message s) hcb,
      filter_consultations_wiring
        (same_wiring_of_connections s (route_count_message s) rfl rfl)]
    rfl
  · intro hen hsrc hf hveto
    have hstep : route_step source m i s = route_count_filtered i
        (log_event s (.filter_event source (connection_at s i).dest_device_id m)) := by
      unfold route_step
      simp [hen, hsrc, hf, hcb, hveto]
    rw [hstep]
    exact ⟨rfl, rfl, rfl, rfl, rfl, rfl⟩
  · intro hen hsrc hf
    exact route_step_filtered s source i m hen hsrc hf
  · intro h
    rw [htr]
    have : reaches_callback s source m i = false := by
      unfold reaches_callback
      rcases h with h | h | h
      · simp [h]
      · simp [h]
      · simp [h]
    simp [this]

/-- Claim C21 in `veto_setup`, where the callback vetoes everything: the
Control-Change injected from A is counted as filtered and not delivered, and
the callback was invoked once, with (1, 2, message). -/
theorem C21_filter_callback_veto_witness :
    (route_step 1 control_change_message 0 veto_setup).total_filtered = 1 ∧
    (connection_at (route_step 1 control_change_message 0 veto_setup) 0).messages_filtered = 1 ∧
    (route_step 1 control_change_message 0 veto_setup).ports = veto_setup.ports ∧
    (route_step 1 control_change_message 0 veto_setup).trace =
      [midi_vw_event.filter_event 1 2 control_change_message] :=
  have h := C21_filter_callback_veto veto_setup 1 0 control_change_message
    (fun _ _ _ => false) rfl
  have hv := h.2.2.1 (by decide) (by decide) (by decide) rfl
  ⟨hv.2.1.trans (by decide), by rw [connection_at, hv.2.2.1]; decide, hv.2.2.2.1,
    h.1.trans (by decide)⟩

/-- Claim C23, registration and its capacity limit.  In an initialized state
with 8 devices `midi_vw_register_device` fails with
`MIDI_VW_ERROR_MAX_DEVICES_REACHED`, writes no id and returns the state it was
given: device table, `device_count`, next device id and connections are
untouched.  With fewer than 8 devices it succeeds and returns the next device
id; the new device sits in the first free slot, at the end of the array, with
that id, state CONNECTED, the direction flags asked for, zero counters and two
empty buffers; every other slot, the connection table and the global counters
are unchanged, `device_count` grows by 1 and the next id moves on by 1 (modulo
256).  The first registration after `midi_vw_init` returns id 1. -/
theorem C23_register_device (s : midi_vw_system_t) (name : List Nat) (i o : Bool)
    (hinit : s.initialized = true) (hlen : s.ports.length = MIDI_VW_MAX_DEVICES) :
    (s.device_count = MIDI_VW_MAX_DEVICES →
      midi_vw_register_device s name i o = (MIDI_VW_ERROR_MAX_DEVICES_REACHED, none, s)) ∧
    (s.device_count < MIDI_VW_MAX_DEVICES →
      (midi_vw_register_device s name i o).1 = MIDI_VW_SUCCESS ∧
      (midi_vw_register_device s name i o).2.1 = some s.next_device_id ∧
      (midi_vw_register_device s name i o).2.2.device_count = s.device_count + 1 ∧
      (midi_vw_register_device s name i o).2.2.next_device_id = (s.next_device_id + 1) % U8 ∧
      port_at (midi_vw_register_device s name i o).2.2 s.device_count =
        { device :=
            { device_id := s.next_device_id
              name := name.take (MIDI_VW_DEVICE_NAME_LENGTH - 1)
              state := MIDI_VW_DEVICE_STATE_CONNECTED
              last_activity := s.system_time
              messages_received := 0, messages_sent := 0, errors := 0
              is_input := i, is_output := o, active_channels := 0 }
          rx_buffer := midi_vw_message_buffer_zero
          tx_buffer := midi_vw_message_buffer_zero
          active := true } ∧
      (∀ k, k ≠ s.device_count →
        port_at (midi_vw_register_device s name i o).2.2 k = port_at s k) ∧
      (midi_vw_register_device s name i o).2.2.connections = s.connections ∧
      (midi_vw_register_device s name i o).2.2.connection_count = s.connection_count ∧
      (midi_vw_register_device s name i o).2.2.next_connection_id = s.next_connection_id ∧
      (midi_vw_register_device s name i o).2.2.total_messages = s.total_messages ∧
      (midi_vw_register_device s name i o).2.2.total_errors = s.total_errors ∧
      (midi_vw_register_device s name i o).2.2.total_filtered = s.total_filtered) ∧
    (∀ s0 cb, s0.initialized = false →
      (midi_vw_init s0 cb).1 = MIDI_VW_SUCCESS ∧
      (midi_vw_register_device (midi_vw_init s0 cb).2 name i o).1 = MIDI_VW_SUCCESS ∧
      (midi_vw_register_device (midi_vw_init s0 cb).2 name i o).2.1 = some 1) := by
  refine ⟨?_, ?_, ?_⟩
  · intro hfull
    exact register_device_full s name i o hinit (by omega)
  · intro hroom
    have hf := register_device_fields s name i o hinit hroom
    have hs : ∀ k, port_at (midi_vw_register_device s name i o).2.2 k =
        port_at (registered_state s name i o) k := by
      intro k
      rw [← hf]
      rfl
    rw [register_device_ok s name i o hinit hroom]
    refine ⟨rfl, rfl, ?_, ?_, ?_, ?_, ?_, ?_, ?_, ?_, ?_, ?_⟩
    · have : (s.device_count + 1) % U8 = s.device_count + 1 := by
        simp only [MIDI_VW_MAX_DEVICES, U8] at *
        omega
      rw [← this]
      cases s.callbacks.device_callback <;> rfl
    · cases s.callbacks.device_callback <;> rfl
    · rw [← register_device_ok s name i o hinit hroom, hs]
      unfold port_at registered_state
      rw [getD_set_self _ _ _ _ (by omega)]
      rfl
    · intro k hk
      rw [← register_device_ok s name i o hinit hroom, hs]
      unfold port_at registered_state
      rw [getD_set_other _ _ _ _ _ (Ne.symm hk)]
    all_goals cases s.callbacks.device_callback <;> rfl
  · intro s0 cb h0
    rw [init_ok s0 cb h0, register_device_ok _ name i o rfl (by show (0 : Nat) < 8; decide)]
    exact ⟨rfl, rfl, rfl⟩

/-- Claim C23 with the five devices of `five_device_setup`: the sixth
registration gets id 6 and slot 5. -/
theorem C23_register_device_witness :
    (midi_vw_register_device five_device_setup [70] true false).1 = MIDI_VW_SUCCESS ∧
    (midi_vw_register_device five_device_setup [70] true false).2.1 = some 6 ∧
    (midi_vw_register_device five_device_setup [70] true false).2.2.device_count = 6 :=
  have h := (C23_register_device five_device_setup [70] true false (by decide)
    (by decide)).2.1 (by decide)
  ⟨h.1, h.2.1.trans (by decide), h.2.2.1.trans (by decide)⟩

/-- Claim C24, `midi_vw_enable_connection` changes one flag.  In an
initialized state, when the id is found (in the first slot that holds it) the
call succeeds and the state it returns is the old state with the `enabled`
flag of that slot set to `b`: the id, endpoints, channels, filter and both
counters of that connection, every other connection, `connection_count`, the
device array and the global counters are unchanged.  When the id is unknown
the call fails with `MIDI_VW_ERROR_CONNECTION_NOT_FOUND` and returns the state
it was given.  A disabled connection is skipped by routing: whatever is
injected, its record, counters included, stays as it is. -/
theorem C24_enable_connection_frame (s : midi_vw_system_t) (id : Nat) (b : Bool)
    (hinit : s.initialized = true) :
    (midi_vw_find_connection s id < MIDI_VW_MAX_CONNECTIONS →
      (midi_vw_enable_connection s id b).1 = MIDI_VW_SUCCESS ∧
      (midi_vw_enable_connection s id b).2 =
        { s with
          connections := s.connections.set (midi_vw_find_connection s id)
            { connection_at s (midi_vw_find_connection s id) with enabled := b } } ∧
      midi_vw_find_connection s id < s.connection_count ∧
      (connection_at s (midi_vw_find_connection s id)).connection_id = id ∧
      (midi_vw_find_connection s id < s.connections.length →
        connection_at (midi_vw_enable_connection s id b).2 (midi_vw_find_connection s id) =
          { connection_at s (midi_vw_find_connection s id) with enabled := b }) ∧
      (∀ k, k ≠ midi_vw_find_connection s id →
        connection_at (midi_vw_enable_connection s id b).2 k = connection_at s k) ∧
      (midi_vw_enable_connection s id b).2.connection_count = s.connection_count ∧
      (midi_vw_enable_connection s id b).2.ports = s.ports ∧
      (midi_vw_enable_connection s id b).2.device_count = s.device_count ∧
      (midi_vw_enable_connection s id b).2.total_messages = s.total_messages ∧
      (midi_vw_enable_connection s id b).2.total_errors = s.total_errors ∧
      (midi_vw_enable_connection s id b).2.total_filtered = s.total_filtered) ∧
    (midi_vw_find_connection s id ≥ MIDI_VW_MAX_CONNECTIONS →
      midi_vw_enable_connection s id b = (MIDI_VW_ERROR_CONNECTION_NOT_FOUND, s)) ∧
    (∀ (t : midi_vw_system_t) (i source : Nat) (m : midi_message_t),
      (connection_at t i).enabled = false →
      connection_at (midi_vw_inject_message t source m).2.2 i = connection_at t i) ∧
    (midi_vw_find_connection s id < MIDI_VW_MAX_CONNECTIONS →
      midi_vw_find_connection s id < s.connections.length →
      ∀ (source : Nat) (m : midi_message_t),
        connection_at (midi_vw_inject_message (midi_vw_enable_connection s id false).2
            source m).2.2 (midi_vw_find_connection s id) =
          { connection_at s (midi_vw_find_connection s id) with enabled := false }) := by
  have hinj : ∀ (t : midi_vw_system_t) (i source : Nat) (m : midi_message_t),
      (connection_at t i).enabled = false →
      connection_at (midi_vw_inject_message t source m).2.2 i = connection_at t i := by
    intro t i source m hdis
    unfold midi_vw_inject_message
    split_ifs
    · rfl
    · rfl
    · exact route_message_disabled t source _ i hdis
  refine ⟨?_, enable_connection_unknown s id b hinit, hinj, ?_⟩
  · intro hfound
    obtain ⟨_, hlt, hid⟩ := find_connection_loop_found s id s.connection_count 0 hfound
    rw [enable_connection_found s id b hinit hfound]
    refine ⟨rfl, rfl, by simpa using hlt, hid, ?_, ?_, rfl, rfl, rfl, rfl, rfl, rfl⟩
    · intro hl
      simp only [connection_at, getD_set_self _ _ _ _ hl]
    · intro k hk
      simp only [connection_at, getD_set_other _ _ _ _ _ (Ne.symm hk)]
  · intro hfound hl source m
    have hc : connection_at (midi_vw_enable_connection s id false).2
        (midi_vw_find_connection s id) =
        { connection_at s (midi_vw_find_connection s id) with enabled := false } := by
      rw [enable_connection_found s id false hinit hfound]
      simp only [connection_at, getD_set_self _ _ _ _ hl]
    rw [hinj _ _ source m (by rw [hc]), hc]

/-- Claim C24 in `remap_setup`: with its connection (id 1) disabled, the
injected Control-Change leaves the counters of the connection at 0. -/
theorem C24_enable_connection_frame_witness :
    (midi_vw_enable_connection remap_setup 1 false).1 = MIDI_VW_SUCCESS ∧
    (connection_at (midi_vw_enable_connection remap_setup 1 false).2 0).enabled = false ∧
    (connection_at (midi_vw_inject_message (midi_vw_enable_connection remap_setup 1 false).2
      1 control_change_message).2.2 0).messages_routed = 0 :=
  have h := C24_enable_connection_frame remap_setup 1 false (by decide)
  have hf : midi_vw_find_connection remap_setup 1 = 0 := by decide
  ⟨(h.1 (by decide)).1,
    by rw [← hf, (h.1 (by decide)).2.2.2.2.1 (by decide)],
    by
      have := h.2.2.2 (by decide) (by decide) 1 control_change_message
      rw [hf] at this
      rw [this]
      decide⟩

/-- Claim C26, inbound buffers are always empty.  In every state a sequence of
public calls leads to from the zero-initialised system, the `rx_buffer` of
every port holds no message (no function writes one).  Hence
`midi_vw_get_pending_count` returns 0 and `midi_vw_has_pending_messages`
returns `false` for every id, `midi_vw_receive_message` never returns a
message and answers `MIDI_VW_ERROR_NO_DATA` for a registered device, and a
successful `midi_vw_process_messages` only advances the clock: the device
array (every `messages_received` included), the record of callback
invocations and `total_messages` are what they were, so no message-arrival
callback ran and nothing was routed again. -/
theorem C26_rx_buffer_always_empty (s : midi_vw_system_t) (h : api_reachable s) :
    (∀ k, (port_at s k).rx_buffer.count = 0) ∧
    (∀ d, midi_vw_get_pending_count s d = 0) ∧
    (∀ d, midi_vw_has_pending_messages s d = false) ∧
    (∀ d, (midi_vw_receive_message s d).2.1 = none ∧
      (midi_vw_receive_message s d).1 ≠ MIDI_VW_SUCCESS ∧
      (s.initialized = true → midi_vw_find_device s d < MIDI_VW_MAX_DEVICES →
        (midi_vw_receive_message s d).1 = MIDI_VW_ERROR_NO_DATA)) ∧
    midi_vw_process_messages s =
      (if !s.initialized || !s.running then (MIDI_VW_ERROR_NOT_INITIALIZED, s)
       else (MIDI_VW_SUCCESS, process_tick s)) ∧
    (midi_vw_process_messages s).2.ports = s.ports ∧
    (midi_vw_process_messages s).2.trace = s.trace ∧
    (midi_vw_process_messages s).2.total_messages = s.total_messages ∧
    (midi_vw_process_messages s).2.connections = s.connections := by
  have hrx := (api_reachable_invariant s h).1.2.2.2.1
  have hproc := process_messages_empty s hrx
  refine ⟨hrx, fun d => ?_, fun d => ?_, fun d => ?_, hproc, ?_, ?_, ?_, ?_⟩
  · unfold midi_vw_get_pending_count
    simp only []
    split_ifs
    · rfl
    · exact hrx _
  · unfold midi_vw_has_pending_messages midi_vw_buffer_is_empty
    simp only []
    split_ifs
    · rfl
    · simp [hrx _]
  · unfold midi_vw_receive_message
    simp only []
    split_ifs with h1 h2
    · exact ⟨rfl, by simp, fun hi => by simp [hi] at h1⟩
    · exact ⟨rfl, by simp, fun _ hf => by omega⟩
    · rw [buffer_get_empty _ (hrx _)]
      exact ⟨rfl, by simp, fun _ _ => rfl⟩
  all_goals
    rw [hproc]
    split_ifs <;> rfl

/-- Claim C26 after `hot_plug_calls`, in which a message was sent to device 2
and one was routed to it: nothing is pending for it and nothing can be
received. -/
theorem C26_rx_buffer_always_empty_witness :
    (port_at (api_run hot_plug_calls midi_vw_system_zero) 1).tx_buffer.count = 2 ∧
    midi_vw_get_pending_count (api_run hot_plug_calls midi_vw_system_zero) 2 = 0 ∧
    (midi_vw_receive_message (api_run hot_plug_calls midi_vw_system_zero) 2).1 =
      MIDI_VW_ERROR_NO_DATA :=
  have h := C26_rx_buffer_always_empty (api_run hot_plug_calls midi_vw_system_zero) ⟨_, rfl⟩
  ⟨by decide, h.2.1 2, (h.2.2.2.1 2).2.2 (by decide) (by decide)⟩

/-- Claim C27, outbound buffers are never drained.  Start in a reachable state
in which `d` is registered and make any sequence of public calls but the two
that end the registration of `d`, `midi_vw_unregister_device(d)` and
`midi_vw_deinit`: other devices may be registered and unregistered (which can
move `d` to another slot), `midi_vw_init` and `midi_vw_reset_statistics` may
be called.  Then `d` is still registered and the system still initialized, and
the outbound buffer of `d` holds exactly what it held at the start plus one
message for every `midi_vw_send_message` to `d` that succeeded, whether called
directly or by routing (`run_sends`): nothing was removed, the count did not
go down, it is at most 128, and so at most 128 sends and routed deliveries to
`d` succeeded.  Once the buffer holds 128 messages no `midi_vw_send_message`
to `d` succeeds and the buffer keeps its 128 messages; for an output-capable
`d` the call fails with `MIDI_VW_ERROR_BUFFER_FULL`, and a routing step that
delivers to `d` counts one error in `total_errors`. -/
theorem C27_tx_buffer_never_drained (s : midi_vw_system_t) (calls : List api_call) (d : Nat)
    (hs : api_reachable s)
    (hk : ∀ c ∈ calls, ends_registration d c = false)
    (hfound : midi_vw_find_device s d < MIDI_VW_MAX_DEVICES) :
    midi_vw_find_device (api_run calls s) d < MIDI_VW_MAX_DEVICES ∧
    (api_run calls s).initialized = true ∧
    device_tx_count (api_run calls s) d = device_tx_count s d + run_sends d calls s ∧
    device_tx_count s d ≤ device_tx_count (api_run calls s) d ∧
    device_tx_count (api_run calls s) d ≤ MIDI_VW_MESSAGE_BUFFER_SIZE ∧
    run_sends d calls s ≤ MIDI_VW_MESSAGE_BUFFER_SIZE ∧
    (device_tx_count (api_run calls s) d = MIDI_VW_MESSAGE_BUFFER_SIZE →
      (∀ m, (midi_vw_send_message (api_run calls s) d m).1 ≠ MIDI_VW_SUCCESS ∧
        device_tx_count (midi_vw_send_message (api_run calls s) d m).2 d =
          MIDI_VW_MESSAGE_BUFFER_SIZE) ∧
      ((port_at (api_run calls s) (midi_vw_find_device (api_run calls s) d)).device.is_output =
          true →
        (∀ m, (midi_vw_send_message (api_run calls s) d m).1 = MIDI_VW_ERROR_BUFFER_FULL) ∧
        (∀ source i m, (connection_at (api_run calls s) i).enabled = true →
          (connection_at (api_run calls s) i).source_device_id = source →
          (connection_at (api_run calls s) i).dest_device_id = d →
          midi_vw_should_filter_message (connection_at (api_run calls s) i) m = false →
          passes_callback (api_run calls s) source i m →
          (route_step source m i (api_run calls s)).total_errors =
            ((api_run calls s).total_errors + 1) % U32))) := by
  have hinv := api_reachable_invariant s hs
  have hinv' := api_run_invariant calls s hinv
  have hreg' := api_reachable_registered _ (api_reachable_run s calls hs)
  obtain ⟨hfound', hexact⟩ := api_run_exact d calls s hinv (api_reachable_registered s hs)
    hfound hk
  have hin := find_device_in_use (api_run calls s) d hfound'
  have hinit : (api_run calls s).initialized = true := by
    by_cases h : (api_run calls s).initialized = true
    · exact h
    · have h0 := hreg' (by simpa using h)
      omega
  have hmax : device_tx_count (api_run calls s) d ≤ MIDI_VW_MESSAGE_BUFFER_SIZE :=
    hinv'.1.2.2.2.2.2 _
  refine ⟨hfound', hinit, hexact, by omega, hmax, by omega, ?_⟩
  intro hfull
  refine ⟨fun m => ?_, fun hout => ⟨fun m => ?_, ?_⟩⟩
  · obtain ⟨x1, x2⟩ := send_message_exact (api_run calls s) d d m hinv'.1.1 hfound'
    have hmax2 : tx_count (midi_vw_send_message (api_run calls s) d m).2
        (midi_vw_find_device (api_run calls s) d) ≤ MIDI_VW_MESSAGE_BUFFER_SIZE :=
      (send_message_invariant (api_run calls s) d m hinv').1.2.2.2.2.2 _
    have hne : (midi_vw_send_message (api_run calls s) d m).1 ≠ MIDI_VW_SUCCESS := by
      intro hsucc
      rw [x2, if_pos ⟨rfl, hsucc⟩] at hmax2
      unfold device_tx_count at hfull
      omega
    refine ⟨hne, ?_⟩
    unfold device_tx_count at hfull ⊢
    rw [x1, x2, if_neg (fun h => hne h.2), hfull]
  · exact send_message_full (api_run calls s) d m hinit hfound' hout hfull
  · intro source i m hen hsrc hdst hf hv
    rw [route_step_buffer_full (api_run calls s) source i _ m hinit hen hsrc hf hv
      (by rw [hdst]) hfound' (hinv'.1.2.2.2.2.1 _ hin) hout
      (by unfold device_tx_count tx_count at hfull; omega)]
    exact (step_buffer_full_fields _ _ _ _ _).2.2.1

set_option maxRecDepth 1000000 in
/-- Claim C27 for device B of `two_device_calls` over `lifetime_calls`: the
two direct sends and the routed delivery all succeed and are counted, device A
is unplugged in between, which moves B from slot 1 to slot 0, and B ends with
the three messages in its outbound buffer. -/
theorem C27_tx_buffer_never_drained_witness :
    run_sends 2 lifetime_calls (api_run two_device_calls midi_vw_system_zero) = 3 ∧
    midi_vw_find_device (api_run two_device_calls midi_vw_system_zero) 2 = 1 ∧
    midi_vw_find_device
      (api_run lifetime_calls (api_run two_device_calls midi_vw_system_zero)) 2 = 0 ∧
    device_tx_count (api_run lifetime_calls (api_run two_device_calls midi_vw_system_zero)) 2 =
      device_tx_count (api_run two_device_calls midi_vw_system_zero) 2 +
        run_sends 2 lifetime_calls (api_run two_device_calls midi_vw_system_zero) :=
  have h := C27_tx_buffer_never_drained (api_run two_device_calls midi_vw_system_zero)
    lifetime_calls 2 ⟨_, rfl⟩ (by decide) (by decide)
  ⟨by decide, by decide, by decide, h.2.2.1⟩

/-- Claim C28, routing accounting.  Take a started state whose counters are
far enough from 2^32 that no increment wraps around, and inject a message from
`source`.  With k the number of enabled connections whose source is `source`
(`matching_connections`), the sum over the table of `messages_routed`, plus
`total_filtered`, plus `total_errors` grows by exactly k; `total_filtered`
grows by as much as the sum over the table of `messages_filtered`; and a
connection that is disabled or has another source keeps its whole record. -/
theorem C28_routing_accounting (s : midi_vw_system_t) (source : Nat) (m : midi_message_t)
    (hinit : s.initialized = true) (hrun : s.running = true)
    (hlen : s.connection_count ≤ s.connections.length)
    (hnw : ∀ k, k < s.connection_count →
      (connection_at s k).messages_routed + 1 < U32 ∧
      (connection_at s k).messages_filtered + 1 < U32)
    (hf : s.total_filtered + s.connection_count < U32)
    (he : s.total_errors + s.connection_count < U32) :
    (midi_vw_inject_message s source m).1 = MIDI_VW_SUCCESS ∧
    routed_total (midi_vw_inject_message s source m).2.2 0 s.connection_count +
        (midi_vw_inject_message s source m).2.2.total_filtered +
        (midi_vw_inject_message s source m).2.2.total_errors =
      routed_total s 0 s.connection_count + s.total_filtered + s.total_errors +
        matching_connections s source 0 s.connection_count ∧
    (midi_vw_inject_message s source m).2.2.total_filtered +
        filtered_total s 0 s.connection_count =
      s.total_filtered +
        filtered_total (midi_vw_inject_message s source m).2.2 0 s.connection_count ∧
    (∀ k, matches_source s source k = false →
      connection_at (midi_vw_inject_message s source m).2.2 k = connection_at s k) ∧
    (midi_vw_inject_message s source m).2.2.connection_count = s.connection_count := by
  rw [inject_running s source m hinit hrun]
  unfold midi_vw_route_message
  obtain ⟨a1, a2⟩ := route_loop_accounting source { m with timestamp := midi_vw_get_time s }
    s.connection_count 0 (route_count_message s) (by simpa using hlen)
    (fun k _ hk => hnw k (by omega)) hf he
  refine ⟨rfl, a1, a2, fun k hk => ?_, ?_⟩
  · exact route_loop_not_matching source _ k _ 0 (route_count_message s) hk
  · exact (route_loop_frame source _ _ 0 (route_count_message s)).2.2.2.2.1

/-- Claim C28 in the state `hot_plug_calls` leads to, with the connections
1 to 2 and 2 to 1: a message injected from device 1 reaches one connection,
and one routed message is counted. -/
theorem C28_routing_accounting_witness :
    matching_connections (api_run hot_plug_calls midi_vw_system_zero) 1 0 2 = 1 ∧
    routed_total (midi_vw_inject_message (api_run hot_plug_calls midi_vw_system_zero) 1
        note_on_message).2.2 0 2 +
      (midi_vw_inject_message (api_run hot_plug_calls midi_vw_system_zero) 1
        note_on_message).2.2.total_filtered +
      (midi_vw_inject_message (api_run hot_plug_calls midi_vw_system_zero) 1
        note_on_message).2.2.total_errors =
      routed_total (api_run hot_plug_calls midi_vw_system_zero) 0 2 +
        (api_run hot_plug_calls midi_vw_system_zero).total_filtered +
        (api_run hot_plug_calls midi_vw_system_zero).total_errors + 1 :=
  have h := C28_routing_accounting (api_run hot_plug_calls midi_vw_system_zero) 1
    note_on_message (by decide) (by decide) (by decide) (by decide) (by decide) (by decide)
  ⟨by decide, h.2.1⟩

/-- Claim C29, a connection with filter `MIDI_VW_FILTER_NONE` is never
filtered: whatever its `source_channel` (0xFF or a specific channel) and
whatever the status byte of the message, `midi_vw_should_filter_message`
returns `false`; the channel test comes after the test of the filter field. -/
theorem C29_filter_none_never_filters (c : midi_vw_connection_t) (m : midi_message_t)
    (hf : c.filter = MIDI_VW_FILTER_NONE) :
    midi_vw_should_filter_message c m = false := by
  unfold midi_vw_should_filter_message
  rw [if_pos hf]

/-- Claim C29 for the connection of `midi_virtual_wire_example.c` from channel
9 to channel 9 with filter NONE: a Note-On on channel 0 is not filtered. -/
theorem C29_filter_none_never_filters_witness :
    midi_vw_should_filter_message
      { midi_vw_connection_zero with
        source_channel := 9, dest_channel := 9, filter := MIDI_VW_FILTER_NONE, enabled := true }
      note_on_message = false :=
  C29_filter_none_never_filters _ _ rfl

/-- Claim C30, the device state does not gate routing.  In every reachable
state the `active` flag of every registered port is set.
`midi_vw_set_device_state(d, v)` on a registered device succeeds and writes
the `state` field of its device record and nothing else in the router state.
And an injection after `midi_vw_set_device_state(d, v)`, whatever `v` is,
returns the status and the stamped message it returns in `s` and leaves the
same connection table and global counters, and ports that differ from those
of the injection in `s` in device `state` fields at most: same buffers, same
`messages_sent`. -/
theorem C30_device_state_does_not_gate_routing (s : midi_vw_system_t) (d : Nat)
    (v : midi_vw_device_state_t) (source : Nat) (m : midi_message_t)
    (hs : api_reachable s) :
    (∀ k, k < s.device_count → (port_at s k).active = true) ∧
    (s.initialized = true → midi_vw_find_device s d < MIDI_VW_MAX_DEVICES →
      (midi_vw_set_device_state s d v).1 = MIDI_VW_SUCCESS ∧
      port_at (midi_vw_set_device_state s d v).2 (midi_vw_find_device s d) =
        { port_at s (midi_vw_find_device s d) with
          device := { (port_at s (midi_vw_find_device s d)).device with state := v } } ∧
      (∀ k, k ≠ midi_vw_find_device s d →
        port_at (midi_vw_set_device_state s d v).2 k = port_at s k)) ∧
    same_but_device_state s (midi_vw_set_device_state s d v).2 ∧
    (midi_vw_inject_message (midi_vw_set_device_state s d v).2 source m).1 =
      (midi_vw_inject_message s source m).1 ∧
    (midi_vw_inject_message (midi_vw_set_device_state s d v).2 source m).2.1 =
      (midi_vw_inject_message s source m).2.1 ∧
    (midi_vw_inject_message (midi_vw_set_device_state s d v).2 source m).2.2.connections =
      (midi_vw_inject_message s source m).2.2.connections ∧
    (midi_vw_inject_message (midi_vw_set_device_state s d v).2 source m).2.2.total_messages =
      (midi_vw_inject_message s source m).2.2.total_messages ∧
    (midi_vw_inject_message (midi_vw_set_device_state s d v).2 source m).2.2.total_errors =
      (midi_vw_inject_message s source m).2.2.total_errors ∧
    (midi_vw_inject_message (midi_vw_set_device_state s d v).2 source m).2.2.total_filtered =
      (midi_vw_inject_message s source m).2.2.total_filtered ∧
    (∀ k,
      forget_device_state
          (port_at (midi_vw_inject_message (midi_vw_set_device_state s d v).2 source m).2.2 k) =
        forget_device_state (port_at (midi_vw_inject_message s source m).2.2 k) ∧
      (port_at (midi_vw_inject_message (midi_vw_set_device_state s d v).2 source m).2.2
          k).tx_buffer = (port_at (midi_vw_inject_message s source m).2.2 k).tx_buffer ∧
      (port_at (midi_vw_inject_message (midi_vw_set_device_state s d v).2 source m).2.2
          k).device.messages_sent =
        (port_at (midi_vw_inject_message s source m).2.2 k).device.messages_sent) := by
  have hinv := api_reachable_invariant s hs
  have hsame := set_device_state_same s d v
  obtain ⟨i1, i2, i3⟩ := same_but_device_state_inject hsame source m
  obtain ⟨_, l2, _, _⟩ := same_but_device_state_lookup i3
  refine ⟨hinv.1.2.2.2.2.1, ?_, hsame, i1, i2, i3.2.2.2.2.1, i3.2.2.2.2.2.2.2.2.2.1,
    i3.2.2.2.2.2.2.2.2.2.2.1, i3.2.2.2.2.2.2.2.2.2.2.2.1,
    fun k => ⟨same_but_device_state_port i3 k, (l2 k).2.2.1, (l2 k).2.2.2.2.1⟩⟩
  intro hinit hfound
  have hl : midi_vw_find_device s d < s.ports.length := by
    rw [hinv.1.1]; exact hfound
  have h0 : ¬ ((!s.initialized) = true) := by simp [hinit]
  have h1 : ¬ midi_vw_find_device s d ≥ MIDI_VW_MAX_DEVICES := by omega
  unfold midi_vw_set_device_state
  simp only [if_neg h0, if_neg h1]
  refine ⟨trivial, ?_, fun k hk => ?_⟩
  · split_ifs
    · show (s.ports.set _ _).getD _ midi_vw_port_zero = _
      rw [getD_set_self _ _ _ _ hl]
    · show (s.ports.set _ _).getD _ midi_vw_port_zero = _
      rw [getD_set_self _ _ _ _ hl]
  · split_ifs
    · show (s.ports.set _ _).getD _ midi_vw_port_zero = _
      rw [getD_set_other _ _ _ _ _ (Ne.symm hk)]
      rfl
    · show (s.ports.set _ _).getD _ midi_vw_port_zero = _
      rw [getD_set_other _ _ _ _ _ (Ne.symm hk)]
      rfl

/-- Claim C30 in the state `hot_plug_calls` leads to: with device 2 set to
ERROR, a Control-Change injected from device 1 is delivered to device 2 as
before. -/
theorem C30_device_state_does_not_gate_routing_witness :
    (port_at (midi_vw_set_device_state (api_run hot_plug_calls midi_vw_system_zero) 2
      MIDI_VW_DEVICE_STATE_ERROR).2 1).device.state = MIDI_VW_DEVICE_STATE_ERROR ∧
    (port_at (midi_vw_inject_message (api_run hot_plug_calls midi_vw_system_zero) 1
      control_change_message).2.2 1).tx_buffer.count = 3 ∧
    (port_at (midi_vw_inject_message
      (midi_vw_set_device_state (api_run hot_plug_calls midi_vw_system_zero) 2
        MIDI_VW_DEVICE_STATE_ERROR).2 1 control_change_message).2.2 1).tx_buffer =
      (port_at (midi_vw_inject_message (api_run hot_plug_calls midi_vw_system_zero) 1
        control_change_message).2.2 1).tx_buffer :=
  have h := C30_device_state_does_not_gate_routing (api_run hot_plug_calls midi_vw_system_zero)
    2 MIDI_VW_DEVICE_STATE_ERROR 1 control_change_message ⟨_, rfl⟩
  ⟨by decide, by decide, (h.2.2.2.2.2.2.2.2.2 1).2.1⟩

end MidiVW
